import Mathlib

/-!
# Camera sensor drivers: mode selection, gain staging and control ranges

A shallow embedding of the mode-table-driven configuration code of the
`gc5603`, `gc8613`, `imx708`, `ov50h40` and `sc5336` V4L2 sub-device drivers
(`drivers/media/i2c/*.c`).

Conventions of the embedding:

* `u32` values are natural numbers below `2 ^ 32`; every C operation that can
  leave that range is followed by an explicit `% 2 ^ 32`;
* `int` / `s64` values are integers; conversions from `u32` to `int` go
  through `toS32`;
* a pointer into a mode catalog is the index of the entry;
* reads of the gain tables return `Option`, `none` standing for a read outside
  the table (or a division by a zero threshold);
* the driver state holds the fields of the driver struct and of the V4L2
  controls that the modelled functions read or update; the bytes put on the
  I2C bus by `write_reg` are not part of that state.
-/

namespace Sensor

/-! ## Machine arithmetic -/

/-- Number of values of a 32-bit word. -/
def U32_MOD : Nat := 2 ^ 32

/-- Subtraction of two `u32` values, as C computes it (modulo `2 ^ 32`). -/
def u32_sub (a b : Nat) : Nat := (a + (U32_MOD - b % U32_MOD)) % U32_MOD

/-- Multiplication of two `u32` values, as C computes it (modulo `2 ^ 32`). -/
def u32_mul (a b : Nat) : Nat := (a * b) % U32_MOD

/-- Addition of two `u32` values, as C computes it (modulo `2 ^ 32`). -/
def u32_add (a b : Nat) : Nat := (a + b) % U32_MOD

/-- Conversion of a `u32` bit pattern to a two's complement `int`. -/
def toS32 (x : Nat) : Int :=
  if x % U32_MOD < 2 ^ 31 then ((x % U32_MOD : Nat) : Int)
  else ((x % U32_MOD : Nat) : Int) - (U32_MOD : Int)

/-- Reduction of an integer to the range of a two's complement `int`. -/
def wrapS32 (z : Int) : Int := toS32 (z % (U32_MOD : Int)).toNat

/-- Conversion of an `int` to `u32` (the usual arithmetic conversion). -/
def ofS32 (z : Int) : Nat := (z % (U32_MOD : Int)).toNat

/-- Modelled from the spec: the kernel macro `abs` (declared in
`include/linux/kernel.h`, which is not part of the sources at hand) is the
`|x|` of the distance `|catalog.width − requested.width| + …`.  Applied to an
`unsigned int` argument it first converts the argument to `int`; the result
is an `int`. -/
def abs (x : Nat) : Int :=
  let sx := toS32 x
  if sx < 0 then wrapS32 (-sx) else sx

/-! ## Media bus formats and frame formats -/

/-- Modelled from the spec: the media-bus pixel format codes are declared in
`include/uapi/linux/media-bus-format.h`, which is not part of the sources at
hand; the spec only asks for one fixed "pixel format code" per mode.  The
values of that header are used. -/
def MEDIA_BUS_FMT_SBGGR10_1X10 : Nat := 0x3007

/-- Modelled from the spec: see `MEDIA_BUS_FMT_SBGGR10_1X10`. -/
def MEDIA_BUS_FMT_SGRBG10_1X10 : Nat := 0x300a

/-- Modelled from the spec: see `MEDIA_BUS_FMT_SBGGR10_1X10`. -/
def MEDIA_BUS_FMT_SGBRG10_1X10 : Nat := 0x300e

/-- Modelled from the spec: see `MEDIA_BUS_FMT_SBGGR10_1X10`. -/
def MEDIA_BUS_FMT_SRGGB10_1X10 : Nat := 0x300f

/-- Modelled from the spec: see `MEDIA_BUS_FMT_SBGGR10_1X10`. -/
def MEDIA_BUS_FMT_SRGGB12_1X12 : Nat := 0x3012

/-- The fields of `struct v4l2_mbus_framefmt` the drivers read: the requested
width, height and media-bus code (all `u32`). -/
structure v4l2_mbus_framefmt where
  width : Nat
  height : Nat
  code : Nat
deriving Repr, DecidableEq

/-- The `which` field of `struct v4l2_subdev_format`. -/
inductive v4l2_subdev_format_whence where
  | V4L2_SUBDEV_FORMAT_TRY
  | V4L2_SUBDEV_FORMAT_ACTIVE
deriving Repr, DecidableEq

/-- The mode descriptor shared by the five drivers (`struct gc5603_mode`,
`struct gc8613_mode`, `struct imx708_mode`, `struct ov50h40_mode`,
`struct sc5336_mode`).  All fields are `u32`.  A field that a driver's struct
does not have (`mipi_freq_idx`, `bpp`) is left at `0` in that driver's
catalog; register lists are kept apart from the descriptor. -/
structure Mode where
  bus_fmt : Nat
  width : Nat
  height : Nat
  max_fps_numerator : Nat
  max_fps_denominator : Nat
  hts_def : Nat
  vts_def : Nat
  exp_def : Nat
  mipi_freq_idx : Nat := 0
  bpp : Nat := 0
  hdr_mode : Nat := 0
deriving Repr, DecidableEq

/-- The mode read by an access outside a catalog (never reached when
`cfg_num` is the catalog length). -/
def Mode.none : Mode :=
  { bus_fmt := 0, width := 0, height := 0, max_fps_numerator := 0,
    max_fps_denominator := 0, hts_def := 0, vts_def := 0, exp_def := 0 }

/-- The body shared by `gc5603_get_reso_dist`, `gc8613_get_reso_dist`,
`imx708_get_reso_dist`, `ov50h40_get_reso_dist` and `sc5336_get_reso_dist`:
`abs(mode->width - framefmt->width) + abs(mode->height - framefmt->height)`,
the differences taken in `u32`, the sum in `int`. -/
def get_reso_dist (mode : Mode) (framefmt : v4l2_mbus_framefmt) : Int :=
  wrapS32 (abs (u32_sub mode.width framefmt.width) +
           abs (u32_sub mode.height framefmt.height))

/-- The distance in the words of the spec,
`|catalog.width − requested.width| + |catalog.height − requested.height|`,
over the integers. -/
def spec_dist (m : Mode) (w h : Nat) : Int :=
  |(m.width : Int) - (w : Int)| + |(m.height : Int) - (h : Int)|

/-- The loop state of the `find_best_fit` functions:
`(cur_best_fit, cur_best_fit_dist)`. -/
abbrev FitState := Int × Int

/-- One iteration of the scan of `imx708_find_best_fit` and
`gc8613_find_best_fit`:
`if (cur_best_fit_dist == -1 || dist < cur_best_fit_dist) { … }`. -/
def best_fit_step (dist : Int) (i : Nat) (st : FitState) : FitState :=
  if st.2 = -1 ∨ dist < st.2 then ((i : Int), dist) else st

/-! ## Gain staging -/

/-- The scan loop shared by `gc5603_set_gain` and `gc8613_set_gain_reg`:
```
for (i = …; i < total; i++)
    if (table[i] <= gain && gain < table[i + 1]) break;
```
The first numeric argument is the number of iterations left (`total - i`), the
second the loop variable `i`; the result is the value of `i` when the loop is
left.  A read outside `table` gives `none`. -/
def gain_scan (table : List Nat) (gain : Nat) : Nat → Nat → Option Nat
  | 0, i => some i
  | n + 1, i =>
    match table[i]? with
    | Option.none => Option.none
    | some ti =>
      if ti ≤ gain then
        match table[i + 1]? with
        | Option.none => Option.none
        | some tj => if gain < tj then some i else gain_scan table gain n (i + 1)
      else gain_scan table gain n (i + 1)

/-- What a gain routine computes: the gain after clamping and rescaling, the
row index `i` it reads the tables at, the fine residual (`temp` in
`gc5603_set_gain`, `tol_dig_gain` in `gc8613_set_gain_reg`) and the ordered
`(register, value)` arguments of its `write_reg` calls. -/
structure GainEnc where
  gain : Nat
  i : Nat
  residual : Nat
  writes : List (Nat × Nat)
deriving Repr, DecidableEq

/-! ## Controls and driver state -/

/-- The fields of `struct v4l2_ctrl` the drivers use (`s64` range, current
value). -/
structure v4l2_ctrl where
  minimum : Int := 0
  maximum : Int := 0
  step : Int := 1
  default_value : Int := 0
  val : Int := 0
deriving Repr, DecidableEq

/-- Modelled from the spec: `__v4l2_ctrl_modify_range` belongs to the V4L2
control framework (`drivers/media/v4l2-core`), which is not part of the sources
at hand.  Following the spec ("recompute … and reissue its range",
"republishes it") it replaces the minimum, maximum, step and default of the
control and leaves its current value alone. -/
def __v4l2_ctrl_modify_range (ctrl : v4l2_ctrl) (min max step «def» : Int) : v4l2_ctrl :=
  { ctrl with minimum := min, maximum := max, step := step, default_value := «def» }

/-- The control identifiers the `set_ctrl` handlers switch on; `other` stands
for any identifier that reaches the `default:` label. -/
inductive CtrlId where
  | V4L2_CID_EXPOSURE
  | V4L2_CID_ANALOGUE_GAIN
  | V4L2_CID_VBLANK
  | V4L2_CID_HFLIP
  | V4L2_CID_VFLIP
  | V4L2_CID_TEST_PATTERN
  | other (id : Nat)
deriving Repr, DecidableEq

/-- The driver state: the fields of `struct gc5603`, `struct gc8613`,
`struct imx708`, `struct ov50h40` and `struct sc5336` read or written by the
modelled functions, together with the controls they point to.  `cur_mode` is
the index of the current catalog entry.  `in_use` is what
`pm_runtime_get_if_in_use(&client->dev)` reports (the device is powered and
in use).  `support_modes` is the catalog pointer of `struct ov50h40` and
`lane_num` its `bus_cfg.bus.mipi_csi2.num_data_lanes`.  `usage_count` is the
runtime-PM usage count of `client->dev`.  `is_thunderboot` and
`is_first_streamoff` are the fast-boot flags of `struct ov50h40` and
`struct sc5336`, `is_thunderboot_ng` the one of `struct ov50h40`; `cur_pixel_rate` and `cur_link_freq` are the `u32` fields of
`struct imx708`. -/
structure Dev where
  cur_mode : Nat := 0
  cfg_num : Nat := 0
  support_modes : List Mode := []
  lane_num : Nat := 0
  exposure : v4l2_ctrl := {}
  hblank : v4l2_ctrl := {}
  vblank : v4l2_ctrl := {}
  link_freq : v4l2_ctrl := {}
  pixel_rate : v4l2_ctrl := {}
  anal_gain : v4l2_ctrl := {}
  flip : Nat := 0
  cur_vts : Nat := 0
  cur_fps_numerator : Nat := 0
  cur_fps_denominator : Nat := 0
  streaming : Bool := false
  power_on : Bool := false
  in_use : Bool := false
  usage_count : Int := 0
  test_pattern : v4l2_ctrl := {}
  h_flip : v4l2_ctrl := {}
  v_flip : v4l2_ctrl := {}
  has_init_exp : Bool := false
  is_thunderboot : Bool := false
  is_first_streamoff : Bool := false
  cur_pixel_rate : Nat := 0
  cur_link_freq : Nat := 0
  is_thunderboot_ng : Bool := false
deriving Repr, DecidableEq

/-- Modelled from the spec: `__v4l2_ctrl_s_ctrl` belongs to the V4L2 control
framework, which is not part of the sources at hand.  Applied to the vblank
control it hands the new value (an `s32` argument) to the handler `s_ctrl` of
the control ("setting VBLANK first recomputes and republishes EXPOSURE's
legal maximum") and stores it as the current value. -/
def __v4l2_ctrl_s_ctrl (s_ctrl : Dev → CtrlId → Int → Dev) (dev : Dev) (val : Int) : Dev :=
  let dev1 := s_ctrl dev CtrlId.V4L2_CID_VBLANK (wrapS32 val)
  { dev1 with vblank := { dev1.vblank with val := wrapS32 val } }

/-- Modelled from the spec: `NO_HDR` is declared in
`include/uapi/linux/rk-camera-module.h`, which is not part of the sources at
hand; it tags the modes without an HDR variant. -/
def NO_HDR : Nat := 0

end Sensor

/-! ## imx708 -/

namespace IMX708
open Sensor

/-- The catalog `supported_modes` of `imx708.c`. -/
def supported_modes : List Mode :=
  [ { width := 4608, height := 2592,
      max_fps_numerator := 10000, max_fps_denominator := 300000,
      exp_def := 0x0B00, hts_def := 0x3D20, vts_def := 0x0A59,
      bus_fmt := MEDIA_BUS_FMT_SRGGB10_1X10, hdr_mode := 0, mipi_freq_idx := 0 },
    { width := 2304, height := 1296,
      max_fps_numerator := 10000, max_fps_denominator := 64100,
      exp_def := 0x0B00, hts_def := 0x1E90, vts_def := 0x0538,
      bus_fmt := MEDIA_BUS_FMT_SRGGB10_1X10, hdr_mode := 0, mipi_freq_idx := 0 },
    { width := 1536, height := 864,
      max_fps_numerator := 10000, max_fps_denominator := 64100,
      exp_def := 0x0B00, hts_def := 0x1460, vts_def := 0x04B6,
      bus_fmt := MEDIA_BUS_FMT_SRGGB10_1X10, hdr_mode := 0, mipi_freq_idx := 0 },
    { width := 2304, height := 1296,
      max_fps_numerator := 10000, max_fps_denominator := 97000,
      exp_def := 0x0B00, hts_def := 0x1460, vts_def := 0x0A5B,
      bus_fmt := MEDIA_BUS_FMT_SRGGB10_1X10, hdr_mode := 0, mipi_freq_idx := 1 } ]

/-- The function `imx708_get_reso_dist`. -/
def imx708_get_reso_dist (mode : Mode) (framefmt : v4l2_mbus_framefmt) : Int :=
  get_reso_dist mode framefmt

/-- The scan of `imx708_find_best_fit` over `i = 0 .. cfg_num - 1`, giving the
final `(cur_best_fit, cur_best_fit_dist)`. -/
def imx708_find_best_fit_scan (cfg_num : Nat) (framefmt : v4l2_mbus_framefmt) :
    FitState :=
  (List.range cfg_num).foldl
    (fun st i => best_fit_step (imx708_get_reso_dist (supported_modes.getD i Mode.none) framefmt) i st)
    (0, -1)

/-- The index `cur_best_fit` of the entry `imx708_find_best_fit` returns a
pointer to. -/
def imx708_find_best_fit_idx (cfg_num : Nat) (framefmt : v4l2_mbus_framefmt) : Nat :=
  (imx708_find_best_fit_scan cfg_num framefmt).1.toNat

/-- The function `imx708_find_best_fit`: `&supported_modes[cur_best_fit]`. -/
def imx708_find_best_fit (cfg_num : Nat) (framefmt : v4l2_mbus_framefmt) : Mode :=
  supported_modes.getD (imx708_find_best_fit_idx cfg_num framefmt) Mode.none

end IMX708

/-! ## gc5603 -/

namespace GC5603
open Sensor

/-- The constant `GC5603_VTS_MAX`. -/
def GC5603_VTS_MAX : Nat := 0x7fff

/-- The constant `GC5603_GAIN_MIN`. -/
def GC5603_GAIN_MIN : Nat := 64

/-- The constant `GC5603_GAIN_MAX`. -/
def GC5603_GAIN_MAX : Nat := 0xffff

/-- The constant `GC_MIRROR_BIT_MASK`, `BIT(0)`. -/
def GC_MIRROR_BIT_MASK : Nat := 1

/-- The constant `GC_FLIP_BIT_MASK`, `BIT(1)`. -/
def GC_FLIP_BIT_MASK : Nat := 2

/-- The catalog `supported_modes` of `gc5603.c`. -/
def supported_modes : List Mode :=
  [ { bus_fmt := MEDIA_BUS_FMT_SGRBG10_1X10, width := 2960, height := 1666,
      max_fps_numerator := 10000, max_fps_denominator := 300000,
      exp_def := 0x6ce, hts_def := 0x0C80, vts_def := 0x06D6, hdr_mode := NO_HDR } ]

/-- The table `regValTable[26][7]` (columns: registers 0614, 0615, 0225, 1467,
1468, 00b8, 00b9). -/
def regValTable : List (List Nat) :=
  [ [0x00, 0x00, 0x04, 0x15, 0x15, 0x01, 0x00],
    [0x90, 0x02, 0x04, 0x15, 0x15, 0x01, 0x0A],
    [0x00, 0x00, 0x00, 0x15, 0x15, 0x01, 0x12],
    [0x90, 0x02, 0x00, 0x15, 0x15, 0x01, 0x20],
    [0x01, 0x00, 0x00, 0x15, 0x15, 0x01, 0x30],
    [0x91, 0x02, 0x00, 0x15, 0x15, 0x02, 0x05],
    [0x02, 0x00, 0x00, 0x15, 0x15, 0x02, 0x19],
    [0x92, 0x02, 0x00, 0x16, 0x16, 0x02, 0x3F],
    [0x03, 0x00, 0x00, 0x16, 0x16, 0x03, 0x20],
    [0x93, 0x02, 0x00, 0x17, 0x17, 0x04, 0x0A],
    [0x00, 0x00, 0x01, 0x18, 0x18, 0x05, 0x02],
    [0x90, 0x02, 0x01, 0x19, 0x19, 0x05, 0x39],
    [0x01, 0x00, 0x01, 0x19, 0x19, 0x06, 0x3C],
    [0x91, 0x02, 0x01, 0x19, 0x19, 0x08, 0x0D],
    [0x02, 0x00, 0x01, 0x1a, 0x1a, 0x09, 0x21],
    [0x92, 0x02, 0x01, 0x1a, 0x1a, 0x0B, 0x0F],
    [0x03, 0x00, 0x01, 0x1c, 0x1c, 0x0D, 0x17],
    [0x93, 0x02, 0x01, 0x1c, 0x1c, 0x0F, 0x33],
    [0x04, 0x00, 0x01, 0x1d, 0x1d, 0x12, 0x30],
    [0x94, 0x02, 0x01, 0x1d, 0x1d, 0x16, 0x10],
    [0x05, 0x00, 0x01, 0x1e, 0x1e, 0x1A, 0x19],
    [0x95, 0x02, 0x01, 0x1e, 0x1e, 0x1F, 0x13],
    [0x06, 0x00, 0x01, 0x20, 0x20, 0x25, 0x08],
    [0x96, 0x02, 0x01, 0x20, 0x20, 0x2C, 0x03],
    [0xb6, 0x04, 0x01, 0x20, 0x20, 0x34, 0x0F],
    [0x86, 0x06, 0x01, 0x20, 0x20, 0x3D, 0x3D] ]

/-- The table `gain_level_table[27]`. -/
def gain_level_table : List Nat :=
  [ 64, 74, 82, 96, 112, 133, 153, 191, 224, 266, 322, 377, 444, 525, 609,
    719, 855, 1011, 1200, 1424, 1689, 2003, 2376, 2819, 3343, 3965,
    0xffffffff ]

/-- The row index `i` of `gc5603_set_gain`: the scan loop runs with the local
`uint16_t total = 0` as its bound, then
`if ((gain > 3965) || (gain == 3965)) i = 25;`. -/
def gc5603_gain_row (gain : Nat) : Option Nat :=
  let total : Nat := 0
  match gain_scan gain_level_table gain total 0 with
  | Option.none => Option.none
  | some i => some (if gain > 3965 ∨ gain = 3965 then 25 else i)

/-- The part of `gc5603_set_gain` after the row index `i` is fixed: the reads
of `regValTable[i]` and `gain_level_table[i]`, the
`uint16_t temp = 64 * gain / gain_level_table[i]` (a `u32` product and
quotient) and the `write_reg` calls in program order. -/
def gc5603_gain_regs (gain i : Nat) : Option GainEnc :=
  match regValTable[i]?, gain_level_table[i]? with
  | some [r0, r1, r2, r3, r4, r5, r6], some t =>
    if t = 0 then Option.none
    else
      let temp := (u32_mul 64 gain / t) % 2 ^ 16
      some { gain := gain, i := i, residual := temp,
             writes :=
               [ (0x031d, 0x2d), (0x0614, r0), (0x0615, r1), (0x0225, r2),
                 (0x031d, 0x28), (0x1467, r3), (0x1468, r4), (0x00b8, r5),
                 (0x00b9, r6),
                 (0x0064, temp >>> 6), (0x0065, (temp &&& 0x3f) <<< 2) ] }
  | _, _ => Option.none

/-- The function `gc5603_set_gain` (`gain` is a `u32`): the row index, the
residual `temp` and the `write_reg` calls in program order. -/
def gc5603_set_gain (gain : Nat) : Option GainEnc :=
  match gc5603_gain_row gain with
  | Option.none => Option.none
  | some i => gc5603_gain_regs gain i

/-- The function `gc5603_get_reso_dist`. -/
def gc5603_get_reso_dist (mode : Mode) (framefmt : v4l2_mbus_framefmt) : Int :=
  get_reso_dist mode framefmt

/-- The scan of `gc5603_find_best_fit`; its test is
`cur_best_fit_dist == -1 || dist <= cur_best_fit_dist`. -/
def gc5603_find_best_fit_scan (cfg_num : Nat) (framefmt : v4l2_mbus_framefmt) :
    FitState :=
  (List.range cfg_num).foldl
    (fun st i =>
      let dist := gc5603_get_reso_dist (supported_modes.getD i Mode.none) framefmt
      if st.2 = -1 ∨ dist ≤ st.2 then ((i : Int), dist) else st)
    (0, -1)

/-- The index of the entry `gc5603_find_best_fit` returns a pointer to. -/
def gc5603_find_best_fit_idx (cfg_num : Nat) (framefmt : v4l2_mbus_framefmt) : Nat :=
  (gc5603_find_best_fit_scan cfg_num framefmt).1.toNat

/-- The first `switch` of `gc5603_set_ctrl`: on `V4L2_CID_VBLANK`,
`max = cur_mode->height + ctrl->val - 4` (computed in `u32`, stored in an
`s64`) becomes the maximum of the exposure control. -/
def gc5603_set_ctrl_propagate (dev : Dev) (id : CtrlId) (val : Int) : Dev :=
  match id with
  | CtrlId.V4L2_CID_VBLANK =>
    let max : Int :=
      u32_sub (u32_add (supported_modes.getD dev.cur_mode Mode.none).height (ofS32 val)) 4
    { dev with exposure := __v4l2_ctrl_modify_range dev.exposure dev.exposure.minimum max
                 dev.exposure.step dev.exposure.default_value }
  | _ => dev

/-- The function `gc5603_set_ctrl`, as a transformer of the driver state
(`ctrl->val` is an `s32`).  After the first `switch` it returns when
`pm_runtime_get_if_in_use` reports 0; the second `switch` writes registers and
updates `flip`. -/
def gc5603_set_ctrl (dev : Dev) (id : CtrlId) (val : Int) : Dev :=
  let dev1 := gc5603_set_ctrl_propagate dev id val
  if !dev1.in_use then dev1
  else
    match id with
    | CtrlId.V4L2_CID_HFLIP =>
      if val ≠ 0 then { dev1 with flip := dev1.flip ||| GC_MIRROR_BIT_MASK }
      else { dev1 with flip := dev1.flip &&& (U32_MOD - 1 - GC_MIRROR_BIT_MASK) }
    | CtrlId.V4L2_CID_VFLIP =>
      if val ≠ 0 then { dev1 with flip := dev1.flip ||| GC_FLIP_BIT_MASK }
      else { dev1 with flip := dev1.flip &&& (U32_MOD - 1 - GC_FLIP_BIT_MASK) }
    | _ => dev1

/-- The function `gc5603_set_fmt`, as a transformer of the driver state (the
format handed back to the caller is the selected mode's).  With
`V4L2_SUBDEV_FORMAT_TRY` the driver state is untouched. -/
def gc5603_set_fmt (dev : Dev) (which : v4l2_subdev_format_whence)
    (framefmt : v4l2_mbus_framefmt) : Dev :=
  let idx := gc5603_find_best_fit_idx dev.cfg_num framefmt
  let mode := supported_modes.getD idx Mode.none
  match which with
  | v4l2_subdev_format_whence.V4L2_SUBDEV_FORMAT_TRY => dev
  | v4l2_subdev_format_whence.V4L2_SUBDEV_FORMAT_ACTIVE =>
    let h_blank : Int := u32_sub mode.hts_def mode.width
    let vblank_def : Int := u32_sub mode.vts_def mode.height
    { dev with
      cur_mode := idx,
      hblank := __v4l2_ctrl_modify_range dev.hblank h_blank h_blank 1 h_blank,
      vblank := __v4l2_ctrl_modify_range dev.vblank vblank_def
                  (u32_sub GC5603_VTS_MAX mode.height) 1 vblank_def }

end GC5603

/-! ## gc8613 -/

namespace GC8613
open Sensor

/-- The constant `GC8613_LANES`. -/
def GC8613_LANES : Nat := 4

/-- The constant `GC8613_LINK_FREQ_LINEAR` (the `#else` branch, since
`GC8613_IS_LINEAR` is 0). -/
def GC8613_LINK_FREQ_LINEAR : Nat := 594000000

/-- The constant `GC8613_LINK_FREQ_FPS`. -/
def GC8613_LINK_FREQ_FPS : Nat := 501190000

/-- The constant `GC8613_VTS_MAX`. -/
def GC8613_VTS_MAX : Nat := 0x3fff

/-- The constant `GC8613_GAIN_MIN`. -/
def GC8613_GAIN_MIN : Nat := 64

/-- The constant `GC8613_GAIN_MAX`. -/
def GC8613_GAIN_MAX : Nat := 0x7fffffff

/-- The constant `GC8613_MIRROR_BIT_MASK`, `BIT(0)`. -/
def GC8613_MIRROR_BIT_MASK : Nat := 1

/-- The constant `GC8613_FLIP_BIT_MASK`, `BIT(1)`. -/
def GC8613_FLIP_BIT_MASK : Nat := 2

/-- The catalog `supported_modes` of `gc8613.c` (`GC8613_IS_LINEAR` is 0, so
the first entry is the 12-bit one). -/
def supported_modes : List Mode :=
  [ { width := 3840, height := 2160,
      max_fps_numerator := 10000, max_fps_denominator := 300000,
      exp_def := 0x0327, hts_def := 0x0310 * 8, vts_def := 0x08f8,
      bus_fmt := MEDIA_BUS_FMT_SRGGB12_1X12, mipi_freq_idx := 0, bpp := 12,
      hdr_mode := NO_HDR },
    { width := 1920, height := 1080,
      max_fps_numerator := 10000, max_fps_denominator := 900000,
      exp_def := 0x0127, hts_def := 0x0283 * 3, vts_def := 0x05fc,
      bus_fmt := MEDIA_BUS_FMT_SRGGB10_1X10, mipi_freq_idx := 1, bpp := 10,
      hdr_mode := NO_HDR } ]

/-- The table `link_freq_items`. -/
def link_freq_items : List Nat := [GC8613_LINK_FREQ_LINEAR, GC8613_LINK_FREQ_FPS]

/-- The table `gain_level_table_nolinear[23]`. -/
def gain_level_table_nolinear : List Nat :=
  [ 1024, 1184, 1440, 1680, 2016, 2272, 2624, 3200, 3824, 4544, 5456, 6512,
    7824, 8512, 10112, 12288, 15184, 16768, 20112, 24000, 28192, 33856,
    0xffffffff ]

/-- The table `gain_level_table_linear[27]`. -/
def gain_level_table_linear : List Nat :=
  [ 1024, 1184, 1440, 1680, 2016, 2272, 2624, 3200, 3824, 4544, 5456, 6512,
    7824, 8512, 10112, 12288, 15184, 16768, 20112, 24000, 28192, 33856,
    40320, 48784, 58688, 69872,
    0xffffffff ]

/-- The table `reg_val_table_nolinear[22][10]` (columns: registers 614, 615,
225, 1467, 1468, 26e, 270, 1447, b8, b9). -/
def reg_val_table_nolinear : List (List Nat) :=
  [ [0x00, 0x00, 0x00, 0x46, 0x46, 0x74, 0x02, 0x77, 0x01, 0x00],
    [0x90, 0x02, 0x00, 0x47, 0x47, 0x74, 0x02, 0x77, 0x01, 0x0a],
    [0x01, 0x00, 0x00, 0x47, 0x47, 0x77, 0x02, 0x77, 0x01, 0x1a],
    [0x91, 0x02, 0x00, 0x48, 0x48, 0x77, 0x02, 0x77, 0x01, 0x29],
    [0x02, 0x00, 0x00, 0x48, 0x48, 0x79, 0x02, 0x77, 0x01, 0x3e],
    [0x00, 0x00, 0x00, 0x46, 0x46, 0x74, 0x02, 0x75, 0x02, 0x0d],
    [0x90, 0x02, 0x00, 0x47, 0x47, 0x74, 0x02, 0x75, 0x02, 0x24],
    [0x01, 0x00, 0x00, 0x47, 0x47, 0x77, 0x02, 0x75, 0x03, 0x08],
    [0x91, 0x02, 0x00, 0x48, 0x48, 0x79, 0x02, 0x75, 0x03, 0x2e],
    [0x02, 0x00, 0x00, 0x49, 0x49, 0x7a, 0x02, 0x75, 0x04, 0x1b],
    [0x92, 0x02, 0x00, 0x4b, 0x4b, 0x7b, 0x02, 0x75, 0x05, 0x14],
    [0x03, 0x00, 0x00, 0x4c, 0x4c, 0x7c, 0x02, 0x75, 0x06, 0x17],
    [0x93, 0x02, 0x00, 0x4d, 0x4d, 0x7d, 0x02, 0x75, 0x07, 0x29],
    [0x00, 0x00, 0x01, 0x4f, 0x4f, 0x7e, 0x02, 0x75, 0x08, 0x13],
    [0x90, 0x02, 0x01, 0x50, 0x50, 0x7f, 0x02, 0x75, 0x09, 0x38],
    [0x01, 0x00, 0x01, 0x51, 0x51, 0x7f, 0x02, 0x75, 0x0c, 0x00],
    [0x91, 0x02, 0x01, 0x53, 0x53, 0x7f, 0x02, 0x75, 0x0e, 0x35],
    [0x02, 0x00, 0x01, 0x54, 0x54, 0x7f, 0x02, 0x75, 0x10, 0x18],
    [0x92, 0x02, 0x01, 0x56, 0x56, 0x7f, 0x02, 0x75, 0x13, 0x29],
    [0x03, 0x00, 0x01, 0x58, 0x58, 0x7f, 0x02, 0x75, 0x17, 0x1c],
    [0x93, 0x02, 0x01, 0x5a, 0x5a, 0x7f, 0x01, 0x75, 0x1b, 0x22],
    [0x04, 0x00, 0x01, 0x5c, 0x5c, 0x7f, 0x01, 0x75, 0x21, 0x04] ]

/-- The table `reg_val_table_linear[26][8]` (columns: registers 0614, 0615,
225, 1467, 1468, 1447, b8, b9). -/
def reg_val_table_linear : List (List Nat) :=
  [ [0x00, 0x00, 0x00, 0x0d, 0x0d, 0x77, 0x01, 0x00],
    [0x90, 0x02, 0x00, 0x0e, 0x0e, 0x77, 0x01, 0x0a],
    [0x01, 0x00, 0x00, 0x0e, 0x0e, 0x77, 0x01, 0x1a],
    [0x91, 0x02, 0x00, 0x0f, 0x0f, 0x77, 0x01, 0x29],
    [0x02, 0x00, 0x00, 0x0f, 0x0f, 0x77, 0x01, 0x3e],
    [0x00, 0x00, 0x00, 0x0d, 0x0d, 0x75, 0x02, 0x0d],
    [0x90, 0x02, 0x00, 0x0d, 0x0d, 0x75, 0x02, 0x24],
    [0x01, 0x00, 0x00, 0x0e, 0x0e, 0x75, 0x03, 0x08],
    [0x91, 0x02, 0x00, 0x0e, 0x0e, 0x75, 0x03, 0x2e],
    [0x02, 0x00, 0x00, 0x0f, 0x0f, 0x75, 0x04, 0x1b],
    [0x92, 0x02, 0x00, 0x0f, 0x0f, 0x75, 0x05, 0x14],
    [0x03, 0x00, 0x00, 0x10, 0x10, 0x75, 0x06, 0x17],
    [0x93, 0x02, 0x00, 0x10, 0x10, 0x75, 0x07, 0x29],
    [0x00, 0x00, 0x01, 0x11, 0x11, 0x75, 0x08, 0x13],
    [0x90, 0x02, 0x01, 0x12, 0x12, 0x75, 0x09, 0x38],
    [0x01, 0x00, 0x01, 0x13, 0x13, 0x75, 0x0c, 0x00],
    [0x91, 0x02, 0x01, 0x14, 0x14, 0x75, 0x0e, 0x35],
    [0x02, 0x00, 0x01, 0x15, 0x15, 0x75, 0x10, 0x18],
    [0x92, 0x02, 0x01, 0x16, 0x16, 0x75, 0x13, 0x29],
    [0x03, 0x00, 0x01, 0x17, 0x17, 0x75, 0x17, 0x1c],
    [0x93, 0x02, 0x01, 0x18, 0x18, 0x75, 0x1b, 0x22],
    [0x04, 0x00, 0x01, 0x19, 0x19, 0x75, 0x21, 0x04],
    [0x94, 0x02, 0x01, 0x1b, 0x1b, 0x75, 0x27, 0x18],
    [0x05, 0x00, 0x01, 0x1d, 0x1d, 0x75, 0x2f, 0x29],
    [0x95, 0x02, 0x01, 0x1e, 0x1e, 0x75, 0x39, 0x0b],
    [0x06, 0x00, 0x01, 0x20, 0x20, 0x75, 0x44, 0x0f] ]

/-- The gain the 10-bit path of `gc8613_set_gain_reg` works with:
`if (gain < 64) gain = 64;`. -/
def gain_linear (gain : Nat) : Nat := if gain < 64 then 64 else gain

/-- The gain the 12-bit path of `gc8613_set_gain_reg` works with:
`gain = gain * 16; if (gain < 1024) gain = 1024;` (a `u32` product). -/
def gain_nolinear (gain : Nat) : Nat :=
  let g := u32_mul gain 16
  if g < 1024 then 1024 else g

/-- The row index of one path of `gc8613_set_gain_reg`, for the gain `g` that
path works with and its threshold table: the scan with
`total = ARRAY_SIZE(table) - 1`, then
`if (i == ARRAY_SIZE(table) - 1) i = ARRAY_SIZE(table) - 2;`. -/
def gain_row (table : List Nat) (g : Nat) : Option Nat :=
  let total := table.length - 1
  match gain_scan table g total 0 with
  | Option.none => Option.none
  | some i => some (if i = table.length - 1 then table.length - 2 else i)

/-- The part of the 10-bit path of `gc8613_set_gain_reg` after the row index
`i` is fixed, for the clamped gain `g`: the reads of `reg_val_table_linear[i]`
and `gain_level_table_linear[i]`, the residual
`tol_dig_gain = gain * 64 / gain_level_table_linear[i]` (a `u32` product and
quotient stored in an `s64`) and the `write_reg` calls in program order. -/
def gc8613_gain_regs_linear (g i : Nat) : Option GainEnc :=
  match reg_val_table_linear[i]?, gain_level_table_linear[i]? with
  | some [r0, r1, r2, r3, r4, r5, r6, r7], some t =>
    if t = 0 then Option.none
    else
      let tol_dig_gain := u32_mul g 64 / t
      some { gain := g, i := i, residual := tol_dig_gain,
             writes :=
               [ (0x031d, 0x2d), (0x0614, r0), (0x0615, r1),
                 (0x031d, 0x28), (0x0225, r2), (0x1467, r3), (0x1468, r4),
                 (0x1447, r5), (0x00b8, r6), (0x00b9, r7),
                 (0x0064, tol_dig_gain >>> 6), (0x0065, tol_dig_gain &&& 0x3f) ] }
  | _, _ => Option.none

/-- The part of the 12-bit path of `gc8613_set_gain_reg` after the row index
`i` is fixed, for the rescaled gain `g`: the reads of
`reg_val_table_nolinear[i]` and `gain_level_table_nolinear[i]`, the residual
`tol_dig_gain = gain * 64 / gain_level_table_nolinear[i]` and the `write_reg`
calls in program order. -/
def gc8613_gain_regs_nolinear (g i : Nat) : Option GainEnc :=
  match reg_val_table_nolinear[i]?, gain_level_table_nolinear[i]? with
  | some [r0, r1, r2, r3, r4, r5, r6, r7, r8, r9], some t =>
    if t = 0 then Option.none
    else
      let tol_dig_gain := u32_mul g 64 / t
      some { gain := g, i := i, residual := tol_dig_gain,
             writes :=
               [ (0x031d, 0x2d), (0x0614, r0), (0x0615, r1),
                 (0x026e, r5), (0x0270, r6),
                 (0x031d, 0x28), (0x0225, r2), (0x1467, r3), (0x1468, r4),
                 (0x1447, r7), (0x00b8, r8), (0x00b9, r9),
                 (0x0064, tol_dig_gain >>> 6), (0x0065, tol_dig_gain &&& 0x3f) ] }
  | _, _ => Option.none

/-- The function `gc8613_set_gain_reg` for a current mode of bit depth `bpp`
(`gain` is a `u32`).  The 10-bit path is taken when `mode->bpp == 10`, the
12-bit path otherwise. -/
def gc8613_set_gain_reg (bpp : Nat) (gain : Nat) : Option GainEnc :=
  if bpp = 10 then
    match gain_row gain_level_table_linear (gain_linear gain) with
    | Option.none => Option.none
    | some i => gc8613_gain_regs_linear (gain_linear gain) i
  else
    match gain_row gain_level_table_nolinear (gain_nolinear gain) with
    | Option.none => Option.none
    | some i => gc8613_gain_regs_nolinear (gain_nolinear gain) i

/-- The function `gc8613_get_reso_dist`. -/
def gc8613_get_reso_dist (mode : Mode) (framefmt : v4l2_mbus_framefmt) : Int :=
  get_reso_dist mode framefmt

/-- The scan of `gc8613_find_best_fit` over `i = 0 .. cfg_num - 1`, giving the
final `(cur_best_fit, cur_best_fit_dist)`. -/
def gc8613_find_best_fit_scan (cfg_num : Nat) (framefmt : v4l2_mbus_framefmt) :
    FitState :=
  (List.range cfg_num).foldl
    (fun st i => best_fit_step (gc8613_get_reso_dist (supported_modes.getD i Mode.none) framefmt) i st)
    (0, -1)

/-- The index `cur_best_fit` of the entry `gc8613_find_best_fit` returns a
pointer to. -/
def gc8613_find_best_fit_idx (cfg_num : Nat) (framefmt : v4l2_mbus_framefmt) : Nat :=
  (gc8613_find_best_fit_scan cfg_num framefmt).1.toNat

/-- The function `gc8613_find_best_fit`: `&supported_modes[cur_best_fit]`. -/
def gc8613_find_best_fit (cfg_num : Nat) (framefmt : v4l2_mbus_framefmt) : Mode :=
  supported_modes.getD (gc8613_find_best_fit_idx cfg_num framefmt) Mode.none

/-- The pixel rate `gc8613_set_fmt` and `gc8613_initialize_controls` compute:
`(u32)link_freq_items[mode->mipi_freq_idx] / mode->bpp * 2 * GC8613_LANES`, in
`u32` arithmetic. -/
def gc8613_pixel_rate (mode : Mode) : Nat :=
  u32_mul (u32_mul ((link_freq_items.getD mode.mipi_freq_idx 0) % U32_MOD / mode.bpp) 2)
    GC8613_LANES

/-- The first `switch` of `gc8613_set_ctrl`: on `V4L2_CID_VBLANK`,
`max = cur_mode->height + ctrl->val - 8` (computed in `u32`, stored in an
`s64`) becomes the maximum of the exposure control. -/
def gc8613_set_ctrl_propagate (dev : Dev) (id : CtrlId) (val : Int) : Dev :=
  match id with
  | CtrlId.V4L2_CID_VBLANK =>
    let max : Int :=
      u32_sub (u32_add (supported_modes.getD dev.cur_mode Mode.none).height (ofS32 val)) 8
    { dev with exposure := __v4l2_ctrl_modify_range dev.exposure dev.exposure.minimum max
                 dev.exposure.step dev.exposure.default_value }
  | _ => dev

/-- The function `gc8613_set_ctrl`, as a transformer of the driver state
(`ctrl->val` is an `s32`, `flip` a `u8`).  After the first `switch` it returns
when `pm_runtime_get_if_in_use` reports 0; the second `switch` writes
registers and updates `cur_vts` and `flip`. -/
def gc8613_set_ctrl (dev : Dev) (id : CtrlId) (val : Int) : Dev :=
  let dev1 := gc8613_set_ctrl_propagate dev id val
  if !dev1.in_use then dev1
  else
    match id with
    | CtrlId.V4L2_CID_VBLANK =>
      let vts := u32_add (ofS32 val) (supported_modes.getD dev1.cur_mode Mode.none).height
      { dev1 with cur_vts := vts }
    | CtrlId.V4L2_CID_HFLIP =>
      if val ≠ 0 then { dev1 with flip := (dev1.flip ||| GC8613_MIRROR_BIT_MASK) % 256 }
      else { dev1 with flip := (dev1.flip &&& (U32_MOD - 1 - GC8613_MIRROR_BIT_MASK)) % 256 }
    | CtrlId.V4L2_CID_VFLIP =>
      if val ≠ 0 then { dev1 with flip := (dev1.flip ||| GC8613_FLIP_BIT_MASK) % 256 }
      else { dev1 with flip := (dev1.flip &&& (U32_MOD - 1 - GC8613_FLIP_BIT_MASK)) % 256 }
    | _ => dev1

/-- The function `gc8613_set_fmt`, as a transformer of the driver state (the
format handed back to the caller is the selected mode's).  With
`V4L2_SUBDEV_FORMAT_TRY` the driver state is untouched.  The link-frequency
and pixel-rate controls have no handler, so setting them stores the value. -/
def gc8613_set_fmt (dev : Dev) (which : v4l2_subdev_format_whence)
    (framefmt : v4l2_mbus_framefmt) : Dev :=
  let idx := gc8613_find_best_fit_idx dev.cfg_num framefmt
  let mode := supported_modes.getD idx Mode.none
  match which with
  | v4l2_subdev_format_whence.V4L2_SUBDEV_FORMAT_TRY => dev
  | v4l2_subdev_format_whence.V4L2_SUBDEV_FORMAT_ACTIVE =>
    let h_blank : Int := u32_sub mode.hts_def mode.width
    let vblank_def : Int := u32_sub mode.vts_def mode.height
    { dev with
      cur_mode := idx,
      hblank := __v4l2_ctrl_modify_range dev.hblank h_blank h_blank 1 h_blank,
      vblank := __v4l2_ctrl_modify_range dev.vblank vblank_def
                  (u32_sub GC8613_VTS_MAX mode.height) 1 vblank_def,
      link_freq := { dev.link_freq with val := mode.mipi_freq_idx },
      pixel_rate := { dev.pixel_rate with val := gc8613_pixel_rate mode } }

end GC8613

/-! ## imx708: controls and format -/

namespace IMX708
open Sensor

/-- The constant `IMX708_LANES`. -/
def IMX708_LANES : Nat := 4

/-- The constant `IMX708_VTS_MAX`. -/
def IMX708_VTS_MAX : Nat := 0xffff

/-- The constant `IMX708_MIRROR_BIT_MASK`, `BIT(0)`. -/
def IMX708_MIRROR_BIT_MASK : Nat := 1

/-- The constant `IMX708_FLIP_BIT_MASK`, `BIT(1)`. -/
def IMX708_FLIP_BIT_MASK : Nat := 2

/-- The table `link_freq_items` of `imx708.c`. -/
def link_freq_items : List Nat := [450000000, 447000000, 453000000]

/-- The first `switch` of `imx708_set_ctrl`: on `V4L2_CID_VBLANK`,
`max = cur_mode->height + ctrl->val - 4` (computed in `u32`, stored in an
`s64`) becomes the maximum of the exposure control. -/
def imx708_set_ctrl_propagate (dev : Dev) (id : CtrlId) (val : Int) : Dev :=
  match id with
  | CtrlId.V4L2_CID_VBLANK =>
    let max : Int :=
      u32_sub (u32_add (supported_modes.getD dev.cur_mode Mode.none).height (ofS32 val)) 4
    { dev with exposure := __v4l2_ctrl_modify_range dev.exposure dev.exposure.minimum max
                 dev.exposure.step dev.exposure.default_value }
  | _ => dev

/-- The function `imx708_set_ctrl`, as a transformer of the driver state
(`ctrl->val` is an `s32`, `flip` a `u8`).  After the first `switch` it returns
when `pm_runtime_get_if_in_use` reports 0; the second `switch` writes
registers, clamps `ctrl->val` of the analogue gain to `[0x10, 0x400]` and
updates `cur_vts` and `flip`. -/
def imx708_set_ctrl (dev : Dev) (id : CtrlId) (val : Int) : Dev :=
  let dev1 := imx708_set_ctrl_propagate dev id val
  if !dev1.in_use then dev1
  else
    match id with
    | CtrlId.V4L2_CID_ANALOGUE_GAIN =>
      let v1 := if val > 0x400 then 0x400 else val
      let v2 := if v1 < 0x10 then 0x10 else v1
      { dev1 with anal_gain := { dev1.anal_gain with val := v2 } }
    | CtrlId.V4L2_CID_VBLANK =>
      let vts := u32_add (ofS32 val) (supported_modes.getD dev1.cur_mode Mode.none).height
      { dev1 with cur_vts := vts }
    | CtrlId.V4L2_CID_HFLIP =>
      if val ≠ 0 then { dev1 with flip := (dev1.flip ||| IMX708_MIRROR_BIT_MASK) % 256 }
      else { dev1 with flip := (dev1.flip &&& (U32_MOD - 1 - IMX708_MIRROR_BIT_MASK)) % 256 }
    | CtrlId.V4L2_CID_VFLIP =>
      if val ≠ 0 then { dev1 with flip := (dev1.flip ||| IMX708_FLIP_BIT_MASK) % 256 }
      else { dev1 with flip := (dev1.flip &&& (U32_MOD - 1 - IMX708_FLIP_BIT_MASK)) % 256 }
    | _ => dev1

/-- The function `imx708_set_fmt`, as a transformer of the driver state.  With
`V4L2_SUBDEV_FORMAT_TRY` the driver state is untouched; otherwise the blanking
ranges are reissued, the vblank control is set to its new default (which runs
`imx708_set_ctrl`), and link frequency and pixel rate are stored. -/
def imx708_set_fmt (dev : Dev) (which : v4l2_subdev_format_whence)
    (framefmt : v4l2_mbus_framefmt) : Dev :=
  let idx := imx708_find_best_fit_idx dev.cfg_num framefmt
  let mode := supported_modes.getD idx Mode.none
  match which with
  | v4l2_subdev_format_whence.V4L2_SUBDEV_FORMAT_TRY => dev
  | v4l2_subdev_format_whence.V4L2_SUBDEV_FORMAT_ACTIVE =>
    let h_blank : Int := u32_sub mode.hts_def mode.width
    let vblank_def : Int := u32_sub mode.vts_def mode.height
    let dev1 : Dev :=
      { dev with
        cur_mode := idx,
        hblank := __v4l2_ctrl_modify_range dev.hblank h_blank h_blank 1 h_blank,
        vblank := __v4l2_ctrl_modify_range dev.vblank vblank_def
                    (u32_sub IMX708_VTS_MAX mode.height) 1 vblank_def }
    let dev2 := __v4l2_ctrl_s_ctrl imx708_set_ctrl dev1 vblank_def
    let pixel_rate :=
      u32_mul (u32_mul ((link_freq_items.getD mode.mipi_freq_idx 0) % U32_MOD / 10) 2)
        IMX708_LANES
    { dev2 with
      link_freq := { dev2.link_freq with val := mode.mipi_freq_idx },
      pixel_rate := { dev2.pixel_rate with val := pixel_rate } }

end IMX708

/-! ## ov50h40 -/

namespace OV50H40
open Sensor

/-- The constant `OV50H40_VTS_MAX`. -/
def OV50H40_VTS_MAX : Nat := 0xffff

/-- The catalog `supported_modes_dphy` (`DEBUG` is not defined, so the
entries under `#ifdef DEBUG` are absent). -/
def supported_modes_dphy : List Mode :=
  [ { bus_fmt := MEDIA_BUS_FMT_SGBRG10_1X10, width := 4096, height := 3072,
      max_fps_numerator := 10000, max_fps_denominator := 300000,
      exp_def := 0x0840, hts_def := 0x41a * 4, vts_def := 0x0c66,
      mipi_freq_idx := 2, bpp := 10, hdr_mode := NO_HDR },
    { bus_fmt := MEDIA_BUS_FMT_SGBRG10_1X10, width := 8192, height := 6144,
      max_fps_numerator := 10000, max_fps_denominator := 120000,
      exp_def := 0x0240, hts_def := 0x9f6 * 4, vts_def := 0x0cc3 * 2,
      mipi_freq_idx := 3, bpp := 10, hdr_mode := NO_HDR } ]

/-- The catalog `supported_modes_cphy`. -/
def supported_modes_cphy : List Mode :=
  [ { bus_fmt := MEDIA_BUS_FMT_SGBRG10_1X10, width := 4096, height := 3072,
      max_fps_numerator := 10000, max_fps_denominator := 150000,
      exp_def := 0x0C00, hts_def := 0x044c, vts_def := 0x08e0,
      mipi_freq_idx := 0, bpp := 10, hdr_mode := NO_HDR },
    { bus_fmt := MEDIA_BUS_FMT_SGBRG10_1X10, width := 4096, height := 3072,
      max_fps_numerator := 10000, max_fps_denominator := 300000,
      exp_def := 0x0c00, hts_def := 0x044c, vts_def := 0x08e0,
      mipi_freq_idx := 2, bpp := 10, hdr_mode := NO_HDR },
    { bus_fmt := MEDIA_BUS_FMT_SGBRG10_1X10, width := 8192, height := 6144,
      max_fps_numerator := 10000, max_fps_denominator := 120000,
      exp_def := 0x0c00, hts_def := 0x0306, vts_def := 0x0c96,
      mipi_freq_idx := 3, bpp := 10, hdr_mode := NO_HDR } ]

/-- The table `link_freq_items` of `ov50h40.c` (`MIPI_FREQ_356M`,
`MIPI_FREQ_384M`, `MIPI_FREQ_750M`, `MIPI_FREQ_1250M`). -/
def link_freq_items : List Nat := [356000000, 384000000, 750000000, 1250000000]

/-- The function `ov50h40_get_reso_dist`. -/
def ov50h40_get_reso_dist (mode : Mode) (framefmt : v4l2_mbus_framefmt) : Int :=
  get_reso_dist mode framefmt

/-- The scan of `ov50h40_find_best_fit` over the catalog `support_modes`; its
test is `(cur_best_fit_dist == -1 || dist < cur_best_fit_dist) &&
(support_modes[i].bus_fmt == framefmt->code)`. -/
def ov50h40_find_best_fit_scan (support_modes : List Mode) (cfg_num : Nat)
    (framefmt : v4l2_mbus_framefmt) : FitState :=
  (List.range cfg_num).foldl
    (fun st i =>
      let dist := ov50h40_get_reso_dist (support_modes.getD i Mode.none) framefmt
      if (st.2 = -1 ∨ dist < st.2) ∧ (support_modes.getD i Mode.none).bus_fmt = framefmt.code
      then ((i : Int), dist) else st)
    (0, -1)

/-- The index `cur_best_fit` of the entry `ov50h40_find_best_fit` returns a
pointer to. -/
def ov50h40_find_best_fit_idx (support_modes : List Mode) (cfg_num : Nat)
    (framefmt : v4l2_mbus_framefmt) : Nat :=
  (ov50h40_find_best_fit_scan support_modes cfg_num framefmt).1.toNat

/-- The function `ov50h40_find_best_fit`: `&support_modes[cur_best_fit]`. -/
def ov50h40_find_best_fit (support_modes : List Mode) (cfg_num : Nat)
    (framefmt : v4l2_mbus_framefmt) : Mode :=
  support_modes.getD (ov50h40_find_best_fit_idx support_modes cfg_num framefmt) Mode.none

/-- The first `switch` of `ov50h40_set_ctrl`: on `V4L2_CID_VBLANK`,
`max = cur_mode->height + ctrl->val - 44` when the height is 6144 and
`… - 22` otherwise (computed in `u32`, stored in an `s64`) becomes the maximum
of the exposure control. -/
def ov50h40_set_ctrl_propagate (dev : Dev) (id : CtrlId) (val : Int) : Dev :=
  match id with
  | CtrlId.V4L2_CID_VBLANK =>
    let height := (dev.support_modes.getD dev.cur_mode Mode.none).height
    let max : Int :=
      if height = 6144 then ((u32_sub (u32_add height (ofS32 val)) 44 : Nat) : Int)
      else ((u32_sub (u32_add height (ofS32 val)) 22 : Nat) : Int)
    { dev with exposure := __v4l2_ctrl_modify_range dev.exposure dev.exposure.minimum max
                 dev.exposure.step dev.exposure.default_value }
  | _ => dev

/-- The function `ov50h40_set_ctrl`, as a transformer of the driver state.
After the first `switch` it returns when `pm_runtime_get_if_in_use` reports 0;
the second `switch` only reads and writes registers. -/
def ov50h40_set_ctrl (dev : Dev) (id : CtrlId) (val : Int) : Dev :=
  let dev1 := ov50h40_set_ctrl_propagate dev id val
  if !dev1.in_use then dev1 else dev1

/-- The pixel rate `ov50h40_set_fmt` computes:
`(u32)link_freq_items[mode->mipi_freq_idx] / mode->bpp * 2 * lane_num`, in
`u32` arithmetic. -/
def ov50h40_pixel_rate (mode : Mode) (lane_num : Nat) : Nat :=
  u32_mul (u32_mul ((link_freq_items.getD mode.mipi_freq_idx 0) % U32_MOD / mode.bpp) 2)
    lane_num

/-- The function `ov50h40_set_fmt`, as a transformer of the driver state.
With `V4L2_SUBDEV_FORMAT_TRY` the driver state is untouched; otherwise the
blanking ranges are reissued, the vblank control is set to its new default
(which runs `ov50h40_set_ctrl`), and pixel rate and link frequency are
stored. -/
def ov50h40_set_fmt (dev : Dev) (which : v4l2_subdev_format_whence)
    (framefmt : v4l2_mbus_framefmt) : Dev :=
  let idx := ov50h40_find_best_fit_idx dev.support_modes dev.cfg_num framefmt
  let mode := dev.support_modes.getD idx Mode.none
  match which with
  | v4l2_subdev_format_whence.V4L2_SUBDEV_FORMAT_TRY => dev
  | v4l2_subdev_format_whence.V4L2_SUBDEV_FORMAT_ACTIVE =>
    let h_blank : Int := u32_sub mode.hts_def mode.width
    let vblank_def : Int := u32_sub mode.vts_def mode.height
    let dev1 : Dev :=
      { dev with
        cur_mode := idx,
        hblank := __v4l2_ctrl_modify_range dev.hblank h_blank h_blank 1 h_blank,
        vblank := __v4l2_ctrl_modify_range dev.vblank vblank_def
                    (u32_sub OV50H40_VTS_MAX mode.height) 1 vblank_def }
    let dev2 := __v4l2_ctrl_s_ctrl ov50h40_set_ctrl dev1 vblank_def
    { dev2 with
      pixel_rate := { dev2.pixel_rate with val := ov50h40_pixel_rate mode dev.lane_num },
      link_freq := { dev2.link_freq with val := mode.mipi_freq_idx } }

end OV50H40

/-! ## sc5336 -/

namespace SC5336
open Sensor

/-- The constant `SC5336_VTS_MAX`. -/
def SC5336_VTS_MAX : Nat := 0x7fff

/-- The catalog `supported_modes` of `sc5336.c`. -/
def supported_modes : List Mode :=
  [ { width := 2880, height := 1620,
      max_fps_numerator := 10000, max_fps_denominator := 300000,
      exp_def := 0x0080 * 4, hts_def := 0x0654 * 2, vts_def := 0x0708,
      bus_fmt := MEDIA_BUS_FMT_SBGGR10_1X10, hdr_mode := NO_HDR } ]

/-- The function `sc5336_get_reso_dist`. -/
def sc5336_get_reso_dist (mode : Mode) (framefmt : v4l2_mbus_framefmt) : Int :=
  get_reso_dist mode framefmt

/-- The scan of `sc5336_find_best_fit` over `ARRAY_SIZE(supported_modes)`
entries; the third component of the state records that the `break` of the
`else if (dist == cur_best_fit_dist && framefmt->code == bus_fmt)` branch was
taken. -/
def sc5336_find_best_fit_scan (framefmt : v4l2_mbus_framefmt) : FitState × Bool :=
  (List.range supported_modes.length).foldl
    (fun (st : FitState × Bool) i =>
      if st.2 then st
      else
        let dist := sc5336_get_reso_dist (supported_modes.getD i Mode.none) framefmt
        if st.1.2 = -1 ∨ dist < st.1.2 then (((i : Int), dist), false)
        else if dist = st.1.2 ∧ framefmt.code = (supported_modes.getD i Mode.none).bus_fmt
        then (((i : Int), st.1.2), true)
        else st)
    ((0, -1), false)

/-- The index of the entry `sc5336_find_best_fit` returns a pointer to. -/
def sc5336_find_best_fit_idx (framefmt : v4l2_mbus_framefmt) : Nat :=
  (sc5336_find_best_fit_scan framefmt).1.1.toNat

/-- The first `switch` of `sc5336_set_ctrl`: on `V4L2_CID_VBLANK`,
`max = cur_mode->height + ctrl->val - 8` (computed in `u32`, stored in an
`s64`) becomes the maximum of the exposure control. -/
def sc5336_set_ctrl_propagate (dev : Dev) (id : CtrlId) (val : Int) : Dev :=
  match id with
  | CtrlId.V4L2_CID_VBLANK =>
    let max : Int :=
      u32_sub (u32_add (supported_modes.getD dev.cur_mode Mode.none).height (ofS32 val)) 8
    { dev with exposure := __v4l2_ctrl_modify_range dev.exposure dev.exposure.minimum max
                 dev.exposure.step dev.exposure.default_value }
  | _ => dev

/-- The function `sc5336_modify_fps_info`:
`cur_fps.denominator = max_fps.denominator * vts_def / cur_vts` in `u32`
arithmetic (`cur_vts` is never 0 for a vblank value of the control's range;
the quotient by 0 is taken as 0 here). -/
def sc5336_modify_fps_info (dev : Dev) : Dev :=
  let mode := supported_modes.getD dev.cur_mode Mode.none
  { dev with cur_fps_denominator := u32_mul mode.max_fps_denominator mode.vts_def / dev.cur_vts }

/-- The function `sc5336_set_ctrl`, as a transformer of the driver state
(`ctrl->val` is an `s32`).  After the first `switch` it returns when
`pm_runtime_get_if_in_use` reports 0; the second `switch` reads and writes
registers and, for `V4L2_CID_VBLANK`, updates `cur_vts` and the frame rate. -/
def sc5336_set_ctrl (dev : Dev) (id : CtrlId) (val : Int) : Dev :=
  let dev1 := sc5336_set_ctrl_propagate dev id val
  if !dev1.in_use then dev1
  else
    match id with
    | CtrlId.V4L2_CID_VBLANK =>
      let vts := u32_add (ofS32 val) (supported_modes.getD dev1.cur_mode Mode.none).height
      let dev2 : Dev := { dev1 with cur_vts := vts }
      if dev2.cur_vts ≠ (supported_modes.getD dev2.cur_mode Mode.none).vts_def then
        sc5336_modify_fps_info dev2
      else dev2
    | _ => dev1

/-- The function `sc5336_set_fmt`, as a transformer of the driver state.  With
`V4L2_SUBDEV_FORMAT_TRY` the driver state is untouched. -/
def sc5336_set_fmt (dev : Dev) (which : v4l2_subdev_format_whence)
    (framefmt : v4l2_mbus_framefmt) : Dev :=
  let idx := sc5336_find_best_fit_idx framefmt
  let mode := supported_modes.getD idx Mode.none
  match which with
  | v4l2_subdev_format_whence.V4L2_SUBDEV_FORMAT_TRY => dev
  | v4l2_subdev_format_whence.V4L2_SUBDEV_FORMAT_ACTIVE =>
    let h_blank : Int := u32_sub mode.hts_def mode.width
    let vblank_def : Int := u32_sub mode.vts_def mode.height
    { dev with
      cur_mode := idx,
      hblank := __v4l2_ctrl_modify_range dev.hblank h_blank h_blank 1 h_blank,
      vblank := __v4l2_ctrl_modify_range dev.vblank vblank_def
                  (u32_sub SC5336_VTS_MAX mode.height) 1 vblank_def,
      cur_fps_numerator := mode.max_fps_numerator,
      cur_fps_denominator := mode.max_fps_denominator }

end SC5336

/-! ## Register transport -/

namespace Sensor

/-- Modelled from the spec: the error numbers are declared in
`include/uapi/asm-generic/errno-base.h` and `include/linux/errno.h`, which are
not part of the sources at hand; the spec only speaks of typed failures.  The
values of those headers are used. -/
def EIO_NR : Int := 5

/-- Modelled from the spec: see `EIO_NR`. -/
def EINVAL_NR : Int := 22

/-- Modelled from the spec: see `EIO_NR`. -/
def ENODEV_NR : Int := 19

/-- Modelled from the spec: see `EIO_NR`. -/
def ENOIOCTLCMD_NR : Int := 515

/-- The bitwise or of two `int` values (`ret |= …`), in 32-bit two's
complement. -/
def int_or (a b : Int) : Int := toS32 (ofS32 a ||| ofS32 b)

/-- An entry `struct regval` of a register list: a `u16` address and a `u8`
value. -/
structure regval where
  addr : Nat
  val : Nat
deriving Repr, DecidableEq

/-- The constant `REG_NULL`, the address of the entry closing a register
list. -/
def REG_NULL : Nat := 0xFFFF

/-- The constant `REG_DELAY` of gc8613 and imx708, the address of an entry
that asks for a sleep. -/
def REG_DELAY : Nat := 0xFFFE

/-- A transaction handed to the I2C bus: `i2c_master_send` with the bytes of
its buffer (as many as its `count` argument), or the `i2c_transfer` of a
register read with the register address and the number of bytes asked for. -/
inductive BusOp where
  | send (buf : List Nat)
  | xfer (reg : Nat) (len : Nat)
deriving Repr, DecidableEq

/-- The bus as the drivers see it: the transactions handed to it so far, in
order. -/
abbrev Bus := List BusOp

/-- The raw bus transport, an external collaborator: what `i2c_master_send`
returns for a buffer, and what the `i2c_transfer` of a register read returns
together with the big-endian value of the bytes received.  The first argument
is the number of transactions handed to the bus before this one. -/
structure I2cAdapter where
  master_send : Nat → List Nat → Int
  transfer : Nat → Nat → Nat → Int × Nat

/-- The four bytes of `cpu_to_be32(val)`, in memory order. -/
def be32_bytes (val : Nat) : List Nat :=
  [ (val >>> 24) &&& 0xff, (val >>> 16) &&& 0xff, (val >>> 8) &&& 0xff, val &&& 0xff ]

/-- The body shared by `gc5603_write_reg`, `gc8613_write_reg`,
`imx708_write_reg`, `ov50h40_write_reg` and `sc5336_write_reg` (`reg` is a
`u16`, `val` a `u32`): `-EINVAL` for `len > 4`; otherwise the buffer is
`reg >> 8`, `reg & 0xff` and the bytes `val_p[4 - len] … val_p[3]` of the
big-endian `val`, it is handed to `i2c_master_send` with count `len + 2`, and
the result is `-EIO` unless `len + 2` is returned. -/
def write_reg (a : I2cAdapter) (bus : Bus) (reg len val : Nat) : Int × Bus :=
  if len > 4 then (-EINVAL_NR, bus)
  else
    let buf := [(reg >>> 8) % 256, reg &&& 0xff] ++ (be32_bytes val).drop (4 - len)
    if a.master_send bus.length buf ≠ ((len + 2 : Nat) : Int) then
      (-EIO_NR, bus ++ [BusOp.send buf])
    else (0, bus ++ [BusOp.send buf])

/-- The body shared by `gc5603_read_reg`, `gc8613_read_reg`,
`ov50h40_read_reg` and `sc5336_read_reg`: `-EINVAL` for `len > 4` or
`len == 0`; otherwise one `i2c_transfer`, `-EIO` unless it returns 2, and the
value read stored through `val` on success (`old` is the previous content of
`*val`). -/
def read_reg (a : I2cAdapter) (bus : Bus) (reg len old : Nat) : Int × Nat × Bus :=
  if len > 4 ∨ len = 0 then (-EINVAL_NR, old, bus)
  else
    let r := a.transfer bus.length reg len
    if r.1 ≠ 2 then (-EIO_NR, old, bus ++ [BusOp.xfer reg len])
    else (0, r.2, bus ++ [BusOp.xfer reg len])

/-- The buffer of the 1-byte write of a register-list entry: address high
byte, address low byte, value. -/
def regval_buf (r : regval) : List Nat :=
  [(r.addr >>> 8) % 256, r.addr &&& 0xff, r.val &&& 0xff]

/-- The bus transactions of the 1-byte writes of a list of entries, in list
order. -/
def regval_ops (ws : List regval) : List BusOp :=
  ws.map (fun r => BusOp.send (regval_buf r))

/-- The transport accepts the 1-byte write of entry `j` of `ws` when it is the
transaction number `k + j` of the bus: `i2c_master_send` returns 3. -/
def regval_sent (a : I2cAdapter) (k : Nat) (ws : List regval) (j : Nat) : Prop :=
  ∃ r, ws[j]? = some r ∧ a.master_send (k + j) (regval_buf r) = 3

/-- The loop shared by `gc5603_write_array`, `ov50h40_write_array` and
`sc5336_write_array`:
`for (i = 0; ret == 0 && regs[i].addr != REG_NULL; i++) ret = write_reg(…, 1, regs[i].val);`
(`ret |= …` in ov50h40, with `ret` being 0 at that point).  The array is given
by its entries; the scan ends at the first `REG_NULL` entry (or where the list
ends). -/
def write_array (a : I2cAdapter) : List regval → Bus → Int × Bus
  | [], bus => (0, bus)
  | r :: rest, bus =>
    if r.addr = REG_NULL then (0, bus)
    else
      let w := write_reg a bus r.addr 1 r.val
      if w.1 ≠ 0 then w else write_array a rest w.2

/-- The loop shared by `gc8613_write_array` and `imx708_write_array`: as
`write_array`, but an entry whose address is `REG_DELAY` sleeps instead of
writing. -/
def write_array_delay (a : I2cAdapter) : List regval → Bus → Int × Bus
  | [], bus => (0, bus)
  | r :: rest, bus =>
    if r.addr = REG_NULL then (0, bus)
    else if r.addr = REG_DELAY then write_array_delay a rest bus
    else
      let w := write_reg a bus r.addr 1 r.val
      if w.1 ≠ 0 then w else write_array_delay a rest w.2

end Sensor

namespace GC5603
open Sensor

/-- The function `gc5603_write_reg`. -/
def gc5603_write_reg (a : I2cAdapter) (bus : Bus) (reg len val : Nat) : Int × Bus :=
  write_reg a bus reg len val

/-- The function `gc5603_read_reg`. -/
def gc5603_read_reg (a : I2cAdapter) (bus : Bus) (reg len old : Nat) : Int × Nat × Bus :=
  read_reg a bus reg len old

/-- The function `gc5603_write_array`. -/
def gc5603_write_array (a : I2cAdapter) (regs : List regval) (bus : Bus) : Int × Bus :=
  write_array a regs bus

end GC5603

namespace GC8613
open Sensor

/-- The function `gc8613_write_reg`. -/
def gc8613_write_reg (a : I2cAdapter) (bus : Bus) (reg len val : Nat) : Int × Bus :=
  write_reg a bus reg len val

/-- The function `gc8613_read_reg`. -/
def gc8613_read_reg (a : I2cAdapter) (bus : Bus) (reg len old : Nat) : Int × Nat × Bus :=
  read_reg a bus reg len old

/-- The function `gc8613_write_array`. -/
def gc8613_write_array (a : I2cAdapter) (regs : List regval) (bus : Bus) : Int × Bus :=
  write_array_delay a regs bus

end GC8613

namespace IMX708
open Sensor

/-- The function `imx708_write_reg` (its `len` is an `int`; the callers pass
1, 2 or 3). -/
def imx708_write_reg (a : I2cAdapter) (bus : Bus) (reg len val : Nat) : Int × Bus :=
  write_reg a bus reg len val

/-- The retry loop of `imx708_read_reg`,
`for (i = 0; i < 3; i++) { ret = i2c_transfer(…); if (ret == 2) break; }`,
with `n + 1` attempts left: the result is the last return value, the value
received and the bus. -/
def imx708_read_retry (a : I2cAdapter) (reg len : Nat) : Nat → Bus → Int × Nat × Bus
  | 0, bus =>
    let r := a.transfer bus.length reg len
    (r.1, r.2, bus ++ [BusOp.xfer reg len])
  | n + 1, bus =>
    let r := a.transfer bus.length reg len
    if r.1 = 2 then (r.1, r.2, bus ++ [BusOp.xfer reg len])
    else imx708_read_retry a reg len n (bus ++ [BusOp.xfer reg len])

/-- The function `imx708_read_reg`: `-EINVAL` for `len > 4` or `len == 0`;
otherwise up to three `i2c_transfer` calls, `-EIO` when none returned 2. -/
def imx708_read_reg (a : I2cAdapter) (bus : Bus) (reg len old : Nat) : Int × Nat × Bus :=
  if len > 4 ∨ len = 0 then (-EINVAL_NR, old, bus)
  else
    let r := imx708_read_retry a reg len 2 bus
    if r.1 ≠ 2 then (-EIO_NR, old, r.2.2) else (0, r.2.1, r.2.2)

/-- The function `imx708_write_array`. -/
def imx708_write_array (a : I2cAdapter) (regs : List regval) (bus : Bus) : Int × Bus :=
  write_array_delay a regs bus

end IMX708

namespace OV50H40
open Sensor

/-- The function `ov50h40_write_reg`. -/
def ov50h40_write_reg (a : I2cAdapter) (bus : Bus) (reg len val : Nat) : Int × Bus :=
  write_reg a bus reg len val

/-- The function `ov50h40_read_reg`. -/
def ov50h40_read_reg (a : I2cAdapter) (bus : Bus) (reg len old : Nat) : Int × Nat × Bus :=
  read_reg a bus reg len old

/-- The function `ov50h40_write_array`. -/
def ov50h40_write_array (a : I2cAdapter) (regs : List regval) (bus : Bus) : Int × Bus :=
  write_array a regs bus

end OV50H40

namespace SC5336
open Sensor

/-- The function `sc5336_write_reg`. -/
def sc5336_write_reg (a : I2cAdapter) (bus : Bus) (reg len val : Nat) : Int × Bus :=
  write_reg a bus reg len val

/-- The function `sc5336_read_reg`. -/
def sc5336_read_reg (a : I2cAdapter) (bus : Bus) (reg len old : Nat) : Int × Nat × Bus :=
  read_reg a bus reg len old

/-- The function `sc5336_write_array`. -/
def sc5336_write_array (a : I2cAdapter) (regs : List regval) (bus : Bus) : Int × Bus :=
  write_array a regs bus

end SC5336

/-! ## Runtime power management, control setup, vendor commands -/

namespace Sensor

/-- The consecutive 1-byte `write_reg` calls of a routine, given by their
`(register, value)` arguments: the results in call order and the bus. -/
def write_regs (a : I2cAdapter) : List (Nat × Nat) → Bus → List Int × Bus
  | [], bus => ([], bus)
  | w :: rest, bus =>
    let r := write_reg a bus w.1 1 w.2
    let rs := write_regs a rest r.2
    (r.1 :: rs.1, rs.2)

/-- Modelled from the spec: `pm_runtime_get_sync` belongs to the runtime-PM
framework, which is not part of the sources at hand.  It takes a reference
(the usage count grows by one, also on failure) and resumes the device through
the power-on sequence when needed ("power_on(): no-op if already powered");
`rpm` is the value it returns, negative when the resume failed.  After a
successful call the device is powered and in use. -/
def pm_runtime_get_sync (rpm : Int) (dev : Dev) : Int × Dev :=
  if rpm < 0 then (rpm, { dev with usage_count := dev.usage_count + 1 })
  else (rpm, { dev with usage_count := dev.usage_count + 1, in_use := true })

/-- Modelled from the spec: `pm_runtime_put_noidle` (runtime-PM framework)
drops a reference; a device without a reference is not reported in use. -/
def pm_runtime_put_noidle (dev : Dev) : Dev :=
  { dev with usage_count := dev.usage_count - 1,
             in_use := dev.in_use && decide (0 < dev.usage_count - 1) }

/-- Modelled from the spec: `pm_runtime_put` (runtime-PM framework) drops a
reference; when the last one is dropped the device may be suspended (the
power-off sequence) and is no longer reported in use. -/
def pm_runtime_put (dev : Dev) : Dev :=
  { dev with usage_count := dev.usage_count - 1,
             in_use := dev.in_use && decide (0 < dev.usage_count - 1) }

/-- Modelled from the spec: `__v4l2_ctrl_handler_setup` belongs to the V4L2
control framework, which is not part of the sources at hand.  It "pushes every
abstract control's current value to hardware": for each control that has the
driver's handler, in the order `initialize_controls` created them, it calls
the handler `s_ctrl` with the current value of the control, and stops at the
first call that does not return 0. -/
def __v4l2_ctrl_handler_setup (s_ctrl : Dev → Bus → CtrlId → Int → Int × Dev × Bus) :
    List (CtrlId × (Dev → v4l2_ctrl)) → Dev → Bus → Int × Dev × Bus
  | [], dev, bus => (0, dev, bus)
  | c :: rest, dev, bus =>
    let r := s_ctrl dev bus c.1 (c.2 dev).val
    if r.1 ≠ 0 then r else __v4l2_ctrl_handler_setup s_ctrl rest r.2.1 r.2.2

/-- The controls created with the driver's handler by
`gc8613_initialize_controls`, `imx708_initialize_controls`,
`ov50h40_initialize_controls` and `sc5336_initialize_controls`, in creation
order. -/
def handler_ctrls : List (CtrlId × (Dev → v4l2_ctrl)) :=
  [ (CtrlId.V4L2_CID_VBLANK, Dev.vblank), (CtrlId.V4L2_CID_EXPOSURE, Dev.exposure),
    (CtrlId.V4L2_CID_ANALOGUE_GAIN, Dev.anal_gain),
    (CtrlId.V4L2_CID_TEST_PATTERN, Dev.test_pattern),
    (CtrlId.V4L2_CID_HFLIP, Dev.h_flip), (CtrlId.V4L2_CID_VFLIP, Dev.v_flip) ]

/-- The vendor commands the `ioctl` handlers switch on, with the part of their
argument the handlers read; `other` stands for any command that reaches the
`default:` label of every driver. -/
inductive IoctlCmd where
  | RKMODULE_GET_MODULE_INFO
  | RKMODULE_GET_HDR_CFG
  | RKMODULE_SET_HDR_CFG (hdr_mode : Nat)
  | RKMODULE_SET_CONVERSION_GAIN
  | RKMODULE_AWB_CFG
  | RKMODULE_LSC_CFG
  | RKMODULE_SET_QUICK_STREAM (stream : Nat)
  | RKMODULE_GET_CHANNEL_INFO (index : Nat)
  | PREISP_CMD_SET_HDRAE_EXP
  | other (cmd : Nat)
deriving Repr, DecidableEq

/-- Modelled from the spec: `PAD_MAX` is declared in
`include/uapi/linux/rk-camera-module.h`, which is not part of the sources at
hand; it bounds the "valid pad range" of a channel index (pads 0 to 3). -/
def PAD_MAX : Nat := 4

end Sensor

/-! ## gc5603: registers, streaming, power -/

namespace GC5603
open Sensor

/-- The constant `GC5603_REG_EXP_H`. -/
def GC5603_REG_EXP_H : Nat := 0x0202

/-- The constant `GC5603_REG_EXP_L`. -/
def GC5603_REG_EXP_L : Nat := 0x0203

/-- The constant `GC5603_REG_VTS_H`. -/
def GC5603_REG_VTS_H : Nat := 0x0340

/-- The constant `GC5603_REG_VTS_L`. -/
def GC5603_REG_VTS_L : Nat := 0x0341

/-- The constant `GC5603_REG_CTRL_MODE`. -/
def GC5603_REG_CTRL_MODE : Nat := 0x0100

/-- The constant `GC5603_MODE_SW_STANDBY`. -/
def GC5603_MODE_SW_STANDBY : Nat := 0x00

/-- The constant `GC5603_MODE_STREAMING`. -/
def GC5603_MODE_STREAMING : Nat := 0x09

/-- The constant `GC5603_FLIP_MIRROR_REG`. -/
def GC5603_FLIP_MIRROR_REG : Nat := 0x0101

/-- The register list `gc5603_2960x1666_regs_2lane`, terminator included. -/
def gc5603_2960x1666_regs_2lane : List regval :=
  [
    regval.mk 0x03fe 0xf0, regval.mk 0x03fe 0x00, regval.mk 0x03fe 0x10, regval.mk 0x03fe 0x00, regval.mk 0x0a38 0x02, regval.mk 0x0a38 0x03,
    regval.mk 0x0a20 0x07, regval.mk 0x061b 0x03, regval.mk 0x061c 0x50, regval.mk 0x061d 0x05, regval.mk 0x061e 0x70, regval.mk 0x061f 0x03,
    regval.mk 0x0a21 0x08, regval.mk 0x0a34 0x40, regval.mk 0x0a35 0x11, regval.mk 0x0a36 0x5e, regval.mk 0x0a37 0x03, regval.mk 0x0314 0x50,
    regval.mk 0x0315 0x32, regval.mk 0x031c 0xce, regval.mk 0x0219 0x57, regval.mk 0x0342 0x04, regval.mk 0x0343 0xb0, regval.mk 0x0340 0x06,
    regval.mk 0x0341 0xd6, regval.mk 0x0345 0x02, regval.mk 0x0347 0x02, regval.mk 0x0348 0x0b, regval.mk 0x0349 0x98, regval.mk 0x034a 0x06,
    regval.mk 0x034b 0x8a, regval.mk 0x0094 0x0b, regval.mk 0x0095 0x90, regval.mk 0x0096 0x06, regval.mk 0x0097 0x82, regval.mk 0x0099 0x04,
    regval.mk 0x009b 0x04, regval.mk 0x060c 0x01, regval.mk 0x060e 0xd2, regval.mk 0x060f 0x05, regval.mk 0x070c 0x01, regval.mk 0x070e 0xd2,
    regval.mk 0x070f 0x05, regval.mk 0x0709 0x40, regval.mk 0x0719 0x40, regval.mk 0x0909 0x07, regval.mk 0x0902 0x04, regval.mk 0x0904 0x0b,
    regval.mk 0x0907 0x54, regval.mk 0x0908 0x06, regval.mk 0x0903 0x9d, regval.mk 0x072a 0x1c, regval.mk 0x072b 0x1c, regval.mk 0x0724 0x2b,
    regval.mk 0x0727 0x2b, regval.mk 0x1466 0x18, regval.mk 0x1467 0x15, regval.mk 0x1468 0x15, regval.mk 0x1469 0x70, regval.mk 0x146a 0xe8,
    regval.mk 0x0707 0x07, regval.mk 0x0737 0x0f, regval.mk 0x0704 0x01, regval.mk 0x0706 0x02, regval.mk 0x0716 0x02, regval.mk 0x0708 0xc8,
    regval.mk 0x0718 0xc8, regval.mk 0x061a 0x02, regval.mk 0x1430 0x80, regval.mk 0x1407 0x10, regval.mk 0x1408 0x16, regval.mk 0x1409 0x03,
    regval.mk 0x1438 0x01, regval.mk 0x02ce 0x03, regval.mk 0x0245 0xc9, regval.mk 0x023a 0x08, regval.mk 0x02cd 0x88, regval.mk 0x0612 0x02,
    regval.mk 0x0613 0xc7, regval.mk 0x0243 0x03, regval.mk 0x0089 0x03, regval.mk 0x0002 0xab, regval.mk 0x0040 0xa3, regval.mk 0x0075 0x64,
    regval.mk 0x0004 0x0f, regval.mk 0x0053 0x0a, regval.mk 0x0205 0x0c, regval.mk 0x0a67 0x80, regval.mk 0x0a54 0x0e, regval.mk 0x0a65 0x10,
    regval.mk 0x0a98 0x04, regval.mk 0x05be 0x00, regval.mk 0x05a9 0x01, regval.mk 0x0023 0x00, regval.mk 0x0022 0x00, regval.mk 0x0025 0x00,
    regval.mk 0x0024 0x00, regval.mk 0x0028 0x0b, regval.mk 0x0029 0x98, regval.mk 0x002a 0x06, regval.mk 0x002b 0x86, regval.mk 0x0a83 0xe0,
    regval.mk 0x0a72 0x02, regval.mk 0x0a73 0x60, regval.mk 0x0a75 0x41, regval.mk 0x0a70 0x03, regval.mk 0x0a5a 0x80, regval.mk 0x0181 0x30,
    regval.mk 0x0182 0x05, regval.mk 0x0185 0x01, regval.mk 0x0180 0x46, regval.mk 0x0100 0x08, regval.mk 0x010d 0x74, regval.mk 0x010e 0x0e,
    regval.mk 0x0113 0x02, regval.mk 0x0114 0x01, regval.mk 0x0115 0x10, regval.mk 0x0100 0x09, regval.mk 0x0a70 0x00, regval.mk 0x0080 0x02,
    regval.mk 0x0a67 0x00, regval.mk 0x0052 0x02, regval.mk 0x0076 0x01, regval.mk 0x021a 0x10, regval.mk 0x0049 0x0f, regval.mk 0x004a 0x3c,
    regval.mk 0x004b 0x00, regval.mk 0x0430 0x25, regval.mk 0x0431 0x25, regval.mk 0x0432 0x25, regval.mk 0x0433 0x25, regval.mk 0x0434 0x59,
    regval.mk 0x0435 0x59, regval.mk 0x0436 0x59, regval.mk 0x0437 0x59, regval.mk 0x0100 0x09, regval.mk REG_NULL 0x00 ]

/-- The register list `supported_modes[idx].reg_list` of gc5603. -/
def reg_list (idx : Nat) : List regval :=
  if idx = 0 then gc5603_2960x1666_regs_2lane else []

/-- The function `gc5603_set_gain` on the bus: the eleven writes of
`gc5603_set_gain` in program order; the first nine assign `ret`, the last two
or into it, so that the value returned combines the results of the writes to
`0x00b9`, `0x0064` and `0x0065`.  (The table reads always succeed, see the
theorem on the row index; were one to fail, nothing is written here.) -/
def gc5603_set_gain_bus (a : I2cAdapter) (bus : Bus) (gain : Nat) : Int × Bus :=
  match gc5603_set_gain gain with
  | Option.none => (0, bus)
  | some e =>
    let r := write_regs a e.writes bus
    (int_or (int_or (r.1.getD 8 0) (r.1.getD 9 0)) (r.1.getD 10 0), r.2)

/-- The function `gc5603_set_ctrl` with its register traffic (`ctrl->val` is
an `s32`): the value returned, the driver state and the bus.  The result of
`gc5603_set_gain` is dropped by the `V4L2_CID_ANALOGUE_GAIN` case. -/
def gc5603_set_ctrl_bus (a : I2cAdapter) (dev : Dev) (bus : Bus) (id : CtrlId) (val : Int) :
    Int × Dev × Bus :=
  let dev1 := gc5603_set_ctrl_propagate dev id val
  if !dev1.in_use then (0, dev1, bus)
  else
    match id with
    | CtrlId.V4L2_CID_EXPOSURE =>
      let r := write_regs a [(GC5603_REG_EXP_H, ofS32 (val >>> 8)),
                             (GC5603_REG_EXP_L, ofS32 val &&& 0xff)] bus
      (int_or (r.1.getD 0 0) (r.1.getD 1 0), dev1, r.2)
    | CtrlId.V4L2_CID_ANALOGUE_GAIN =>
      (0, dev1, (gc5603_set_gain_bus a bus (ofS32 val)).2)
    | CtrlId.V4L2_CID_VBLANK =>
      let vts := u32_add (ofS32 val) (supported_modes.getD dev1.cur_mode Mode.none).height
      let r := write_regs a [(GC5603_REG_VTS_H, vts >>> 8), (GC5603_REG_VTS_L, vts &&& 0xff)] bus
      (int_or (r.1.getD 0 0) (r.1.getD 1 0), dev1, r.2)
    | CtrlId.V4L2_CID_HFLIP =>
      if val ≠ 0 then (0, { dev1 with flip := dev1.flip ||| GC_MIRROR_BIT_MASK }, bus)
      else (0, { dev1 with flip := dev1.flip &&& (U32_MOD - 1 - GC_MIRROR_BIT_MASK) }, bus)
    | CtrlId.V4L2_CID_VFLIP =>
      if val ≠ 0 then (0, { dev1 with flip := dev1.flip ||| GC_FLIP_BIT_MASK }, bus)
      else (0, { dev1 with flip := dev1.flip &&& (U32_MOD - 1 - GC_FLIP_BIT_MASK) }, bus)
    | _ => (0, dev1, bus)

/-- The controls created with the driver's handler by
`gc5603_initialize_controls`, in creation order (gc5603 has no test-pattern
control). -/
def gc5603_handler_ctrls : List (CtrlId × (Dev → v4l2_ctrl)) :=
  [ (CtrlId.V4L2_CID_VBLANK, Dev.vblank), (CtrlId.V4L2_CID_EXPOSURE, Dev.exposure),
    (CtrlId.V4L2_CID_ANALOGUE_GAIN, Dev.anal_gain),
    (CtrlId.V4L2_CID_HFLIP, Dev.h_flip), (CtrlId.V4L2_CID_VFLIP, Dev.v_flip) ]

/-- The function `gc5603_set_flip` (`mode` is a `u8`): the register is read
(the result of the read is dropped, `match_reg` starts at 0), the two flip bits
are set from `mode`, and the register is written back. -/
def gc5603_set_flip (a : I2cAdapter) (bus : Bus) (mode : Nat) : Int × Bus :=
  let rd := gc5603_read_reg a bus GC5603_FLIP_MIRROR_REG 1 0
  let m := rd.2.1
  let match_reg :=
    if mode = GC_FLIP_BIT_MASK then
      (m ||| GC_FLIP_BIT_MASK) &&& (U32_MOD - 1 - GC_MIRROR_BIT_MASK)
    else if mode = GC_MIRROR_BIT_MASK then
      (m ||| GC_MIRROR_BIT_MASK) &&& (U32_MOD - 1 - GC_FLIP_BIT_MASK)
    else if mode = (GC_MIRROR_BIT_MASK ||| GC_FLIP_BIT_MASK) then
      (m ||| GC_FLIP_BIT_MASK) ||| GC_MIRROR_BIT_MASK
    else
      (m &&& (U32_MOD - 1 - GC_FLIP_BIT_MASK)) &&& (U32_MOD - 1 - GC_MIRROR_BIT_MASK)
  gc5603_write_reg a rd.2.2 GC5603_FLIP_MIRROR_REG 1 match_reg

/-- The function `__gc5603_start_stream`: the register list of the current
mode (left on failure), three writes whose results are dropped, the control
setup pass (result dropped), `gc5603_set_flip` (left on failure) and the write
of `GC5603_MODE_STREAMING` to `GC5603_REG_CTRL_MODE`. -/
def __gc5603_start_stream (a : I2cAdapter) (dev : Dev) (bus : Bus) : Int × Dev × Bus :=
  let w := gc5603_write_array a (reg_list dev.cur_mode) bus
  if w.1 ≠ 0 then (w.1, dev, w.2)
  else
    let p := write_regs a [(0x0a70, 0x00), (0x0080, 0x02), (0x0a67, 0x00)] w.2
    let s := __v4l2_ctrl_handler_setup (gc5603_set_ctrl_bus a) gc5603_handler_ctrls dev p.2
    let f := gc5603_set_flip a s.2.2 (s.2.1.flip % 256)
    if f.1 ≠ 0 then (f.1, s.2.1, f.2)
    else
      let m := gc5603_write_reg a f.2 GC5603_REG_CTRL_MODE 1 GC5603_MODE_STREAMING
      (m.1, s.2.1, m.2)

/-- The function `__gc5603_stop_stream`. -/
def __gc5603_stop_stream (a : I2cAdapter) (bus : Bus) : Int × Bus :=
  gc5603_write_reg a bus GC5603_REG_CTRL_MODE 1 GC5603_MODE_SW_STANDBY

/-- The function `gc5603_s_stream` (`rpm` is what `pm_runtime_get_sync`
returns when it is called).  Every path ends in `return 0`. -/
def gc5603_s_stream (a : I2cAdapter) (rpm : Int) (dev : Dev) (bus : Bus) (enable : Int) :
    Int × Dev × Bus :=
  let on1 : Bool := decide (enable ≠ 0)
  if on1 = dev.streaming then (0, dev, bus)
  else if on1 then
    let g := pm_runtime_get_sync rpm dev
    if g.1 < 0 then (0, pm_runtime_put_noidle g.2, bus)
    else
      let s := __gc5603_start_stream a g.2 bus
      if s.1 ≠ 0 then (0, pm_runtime_put s.2.1, s.2.2)
      else (0, { s.2.1 with streaming := on1 }, s.2.2)
  else
    let s := __gc5603_stop_stream a bus
    (0, { pm_runtime_put dev with streaming := on1 }, s.2)

/-- The function `gc5603_s_power`. -/
def gc5603_s_power (rpm : Int) (dev : Dev) (enable : Int) : Int × Dev :=
  let on1 : Bool := decide (enable ≠ 0)
  if dev.power_on = on1 then (0, dev)
  else if on1 then
    let g := pm_runtime_get_sync rpm dev
    if g.1 < 0 then (g.1, pm_runtime_put_noidle g.2)
    else (g.1, { g.2 with power_on := true })
  else (0, { pm_runtime_put dev with power_on := false })

end GC5603

/-! ## gc8613: registers, streaming, power -/

namespace GC8613
open Sensor

/-- The constant `GC8613_REG_EXPOSURE_H`. -/
def GC8613_REG_EXPOSURE_H : Nat := 0x0202

/-- The constant `GC8613_REG_EXPOSURE_L`. -/
def GC8613_REG_EXPOSURE_L : Nat := 0x0203

/-- The constant `GC8613_REG_VTS_H`. -/
def GC8613_REG_VTS_H : Nat := 0x0340

/-- The constant `GC8613_REG_VTS_L`. -/
def GC8613_REG_VTS_L : Nat := 0x0341

/-- The constant `GC8613_REG_CTRL_MODE`. -/
def GC8613_REG_CTRL_MODE : Nat := 0x0100

/-- The constant `GC8613_MODE_SW_STANDBY`. -/
def GC8613_MODE_SW_STANDBY : Nat := 0x00

/-- The constant `GC8613_MODE_STREAMING`. -/
def GC8613_MODE_STREAMING : Nat := 0x09

/-- The register list `gc8613_global_regs`: the terminator only. -/
def gc8613_global_regs : List regval := [regval.mk REG_NULL 0x00]

/-- The function `gc8613_set_gain_reg` on the bus: the twelve writes of the
path taken, in program order; none of the results is kept and the function ends
in `return 0`.  (The table reads always succeed, see the theorem on the row
index; were one to fail, nothing is written here.) -/
def gc8613_set_gain_reg_bus (a : I2cAdapter) (bus : Bus) (bpp gain : Nat) : Int × Bus :=
  match gc8613_set_gain_reg bpp gain with
  | Option.none => (0, bus)
  | some e => (0, (write_regs a e.writes bus).2)

/-- The `switch (gc8613->flip)` of the `V4L2_CID_HFLIP` and `V4L2_CID_VFLIP`
cases of `gc8613_set_ctrl`: the two writes of the case taken. -/
def gc8613_flip_regs (flip : Nat) : List (Nat × Nat) :=
  if flip = 1 then [(0x0063, 5), (0x022c, 0)]
  else if flip = 2 then [(0x0063, 2), (0x022c, 1)]
  else if flip = 3 then [(0x0063, 7), (0x022c, 1)]
  else [(0x0063, 0), (0x022c, 0)]

/-- The function `gc8613_set_ctrl` with its register traffic (`ctrl->val` is
an `s32`, `flip` a `u8`): the value returned, the driver state and the bus.
The reference taken by `pm_runtime_get_if_in_use` is dropped again before the
function returns.  The flip cases assign `ret` twice, so the result of the
second write is the one returned. -/
def gc8613_set_ctrl_bus (a : I2cAdapter) (dev : Dev) (bus : Bus) (id : CtrlId) (val : Int) :
    Int × Dev × Bus :=
  let dev1 := gc8613_set_ctrl_propagate dev id val
  if !dev1.in_use then (0, dev1, bus)
  else
    match id with
    | CtrlId.V4L2_CID_EXPOSURE =>
      let r := write_regs a [(GC8613_REG_EXPOSURE_H, ofS32 (val >>> 8)),
                             (GC8613_REG_EXPOSURE_L, ofS32 val &&& 0xff)] bus
      (int_or (r.1.getD 0 0) (r.1.getD 1 0), dev1, r.2)
    | CtrlId.V4L2_CID_ANALOGUE_GAIN =>
      let g := gc8613_set_gain_reg_bus a bus
        (supported_modes.getD dev1.cur_mode Mode.none).bpp (ofS32 val)
      (g.1, dev1, g.2)
    | CtrlId.V4L2_CID_VBLANK =>
      let vts := u32_add (ofS32 val) (supported_modes.getD dev1.cur_mode Mode.none).height
      let r := write_regs a [(GC8613_REG_VTS_H, vts >>> 8), (GC8613_REG_VTS_L, vts &&& 0xff)] bus
      (int_or (r.1.getD 0 0) (r.1.getD 1 0), { dev1 with cur_vts := vts }, r.2)
    | CtrlId.V4L2_CID_TEST_PATTERN => (0, dev1, bus)
    | CtrlId.V4L2_CID_HFLIP =>
      let flip :=
        if val ≠ 0 then (dev1.flip ||| GC8613_MIRROR_BIT_MASK) % 256
        else (dev1.flip &&& (U32_MOD - 1 - GC8613_MIRROR_BIT_MASK)) % 256
      let r := write_regs a (gc8613_flip_regs flip) bus
      (r.1.getD 1 0, { dev1 with flip := flip }, r.2)
    | CtrlId.V4L2_CID_VFLIP =>
      let flip :=
        if val ≠ 0 then (dev1.flip ||| GC8613_FLIP_BIT_MASK) % 256
        else (dev1.flip &&& (U32_MOD - 1 - GC8613_FLIP_BIT_MASK)) % 256
      let r := write_regs a (gc8613_flip_regs flip) bus
      (r.1.getD 1 0, { dev1 with flip := flip }, r.2)
    | _ => (0, dev1, bus)

/-- The function `gc8613_ioctl`, with the value returned, the driver state and
the bus (the structures filled for the caller are not part of the state).
`RKMODULE_SET_HDR_CFG` looks for the first catalog entry of the current width
and height with the HDR mode asked for.  `RKMODULE_GET_CHANNEL_INFO` and
`PREISP_CMD_SET_HDRAE_EXP` have no case of their own. -/
def gc8613_ioctl (a : I2cAdapter) (dev : Dev) (bus : Bus) (cmd : IoctlCmd) : Int × Dev × Bus :=
  match cmd with
  | IoctlCmd.RKMODULE_GET_MODULE_INFO => (0, dev, bus)
  | IoctlCmd.RKMODULE_GET_HDR_CFG => (0, dev, bus)
  | IoctlCmd.RKMODULE_SET_HDR_CFG hdr_mode =>
    let cur := supported_modes.getD dev.cur_mode Mode.none
    match (List.range dev.cfg_num).find? (fun i =>
        decide (cur.width = (supported_modes.getD i Mode.none).width) &&
        decide (cur.height = (supported_modes.getD i Mode.none).height) &&
        decide ((supported_modes.getD i Mode.none).hdr_mode = hdr_mode)) with
    | Option.none => (-EINVAL_NR, dev, bus)
    | some i =>
      let mode := supported_modes.getD i Mode.none
      let w : Int := u32_sub mode.hts_def mode.width
      let h : Int := u32_sub mode.vts_def mode.height
      (0, { dev with
            cur_mode := i,
            hblank := __v4l2_ctrl_modify_range dev.hblank w w 1 w,
            vblank := __v4l2_ctrl_modify_range dev.vblank h
                        (u32_sub GC8613_VTS_MAX mode.height) 1 h,
            link_freq := { dev.link_freq with val := mode.mipi_freq_idx },
            pixel_rate := { dev.pixel_rate with val := gc8613_pixel_rate mode } }, bus)
  | IoctlCmd.RKMODULE_SET_QUICK_STREAM stream =>
    let w :=
      if stream ≠ 0 then gc8613_write_reg a bus GC8613_REG_CTRL_MODE 1 GC8613_MODE_STREAMING
      else gc8613_write_reg a bus GC8613_REG_CTRL_MODE 1 GC8613_MODE_SW_STANDBY
    (w.1, dev, w.2)
  | _ => (-ENOIOCTLCMD_NR, dev, bus)

/-- The function `__gc8613_start_stream`; `reg_list` is the register list
`cur_mode->reg_list`.  The list is written (left on failure), the control setup
pass runs, a stored initial HDR exposure is applied when the mode is an HDR
mode, and with no failure so far `GC8613_MODE_STREAMING` is written to
`GC8613_REG_CTRL_MODE`. -/
def __gc8613_start_stream (a : I2cAdapter) (reg_list : List regval) (dev : Dev) (bus : Bus) :
    Int × Dev × Bus :=
  let w := gc8613_write_array a reg_list bus
  if w.1 ≠ 0 then (w.1, dev, w.2)
  else
    let s := __v4l2_ctrl_handler_setup (gc8613_set_ctrl_bus a) handler_ctrls dev w.2
    let r :=
      if s.2.1.has_init_exp ∧ (supported_modes.getD s.2.1.cur_mode Mode.none).hdr_mode ≠ NO_HDR
      then gc8613_ioctl a s.2.1 s.2.2 IoctlCmd.PREISP_CMD_SET_HDRAE_EXP
      else s
    if r.1 ≠ 0 then r
    else
      let m := gc8613_write_reg a r.2.2 GC8613_REG_CTRL_MODE 1 GC8613_MODE_STREAMING
      (int_or r.1 m.1, r.2.1, m.2)

/-- The function `__gc8613_stop_stream`. -/
def __gc8613_stop_stream (a : I2cAdapter) (dev : Dev) (bus : Bus) : Int × Dev × Bus :=
  let m := gc8613_write_reg a bus GC8613_REG_CTRL_MODE 1 GC8613_MODE_SW_STANDBY
  (m.1, { dev with has_init_exp := false }, m.2)

/-- The function `gc8613_s_stream` (`rpm` is what `pm_runtime_get_sync`
returns when it is called, `reg_list` the register list of the current mode). -/
def gc8613_s_stream (a : I2cAdapter) (rpm : Int) (reg_list : List regval) (dev : Dev)
    (bus : Bus) (enable : Int) : Int × Dev × Bus :=
  let on1 : Bool := decide (enable ≠ 0)
  if on1 = dev.streaming then (0, dev, bus)
  else if on1 then
    let g := pm_runtime_get_sync rpm dev
    if g.1 < 0 then (g.1, pm_runtime_put_noidle g.2, bus)
    else
      let s := __gc8613_start_stream a reg_list g.2 bus
      if s.1 ≠ 0 then (s.1, pm_runtime_put s.2.1, s.2.2)
      else (s.1, { s.2.1 with streaming := on1 }, s.2.2)
  else
    let s := __gc8613_stop_stream a dev bus
    (0, { pm_runtime_put s.2.1 with streaming := on1 }, s.2.2)

/-- The function `gc8613_s_power`. -/
def gc8613_s_power (a : I2cAdapter) (rpm : Int) (dev : Dev) (bus : Bus) (enable : Int) :
    Int × Dev × Bus :=
  let on1 : Bool := decide (enable ≠ 0)
  if dev.power_on = on1 then (0, dev, bus)
  else if on1 then
    let g := pm_runtime_get_sync rpm dev
    if g.1 < 0 then (g.1, pm_runtime_put_noidle g.2, bus)
    else
      let w := gc8613_write_array a gc8613_global_regs bus
      if w.1 ≠ 0 then (w.1, pm_runtime_put_noidle g.2, w.2)
      else (w.1, { g.2 with power_on := true }, w.2)
  else (0, { pm_runtime_put dev with power_on := false }, bus)

end GC8613

/-! ## imx708: registers, streaming, power -/

namespace IMX708
open Sensor

/-- The constant `IMX708_REG_CTRL_MODE`. -/
def IMX708_REG_CTRL_MODE : Nat := 0x0100

/-- The constant `IMX708_MODE_SW_STANDBY`. -/
def IMX708_MODE_SW_STANDBY : Nat := 0x0

/-- The constant `IMX708_MODE_STREAMING`. -/
def IMX708_MODE_STREAMING : Nat := 0x1

/-- The constant `IMX708_REG_EXPOSURE_H`. -/
def IMX708_REG_EXPOSURE_H : Nat := 0x0202

/-- The constant `IMX708_REG_EXPOSURE_L`. -/
def IMX708_REG_EXPOSURE_L : Nat := 0x0203

/-- The constant `IMX708_REG_GAIN_H`. -/
def IMX708_REG_GAIN_H : Nat := 0x0204

/-- The constant `IMX708_REG_GAIN_L`. -/
def IMX708_REG_GAIN_L : Nat := 0x0205

/-- The constant `IMX708_REG_TEST_PATTERN`. -/
def IMX708_REG_TEST_PATTERN : Nat := 0x0600

/-- The constant `IMX708_TEST_PATTERN_ENABLE`. -/
def IMX708_TEST_PATTERN_ENABLE : Nat := 0x1

/-- The constant `IMX708_TEST_PATTERN_DISABLE`. -/
def IMX708_TEST_PATTERN_DISABLE : Nat := 0x0

/-- The constant `IMX708_REG_VTS_H`. -/
def IMX708_REG_VTS_H : Nat := 0x0340

/-- The constant `IMX708_REG_VTS_L`. -/
def IMX708_REG_VTS_L : Nat := 0x0341

/-- The constant `IMX708_FLIP_MIRROR_REG`. -/
def IMX708_FLIP_MIRROR_REG : Nat := 0x0101

/-- The macro `IMX708_FETCH_EXP_H`. -/
def IMX708_FETCH_EXP_H (val : Int) : Nat := ofS32 (val >>> 8) &&& 0xFF

/-- The macro `IMX708_FETCH_EXP_L`. -/
def IMX708_FETCH_EXP_L (val : Int) : Nat := ofS32 val &&& 0xFF

/-- The macro `IMX708_FETCH_AGAIN_H` (applied to a `u32`). -/
def IMX708_FETCH_AGAIN_H (val : Nat) : Nat := (val >>> 8) &&& 0x03

/-- The macro `IMX708_FETCH_AGAIN_L` (applied to a `u32`). -/
def IMX708_FETCH_AGAIN_L (val : Nat) : Nat := val &&& 0xFF

/-- The macro `PIXEL_RATE_WITH_848M_10BIT`,
`(IMX708_LINK_FREQ_400 * 2 / 10 * 4)`.  The source does not define
`IMX708_LINK_FREQ_400`; its value is the parameter. -/
def PIXEL_RATE_WITH_848M_10BIT (link_freq_400 : Nat) : Nat := link_freq_400 * 2 / 10 * 4

/-- The macro `PIXEL_RATE_WITH_848M_12BIT`,
`(IMX708_LINK_FREQ_400 * 2 / 12 * 4)`; see `PIXEL_RATE_WITH_848M_10BIT`. -/
def PIXEL_RATE_WITH_848M_12BIT (link_freq_400 : Nat) : Nat := link_freq_400 * 2 / 12 * 4

/-- The function `imx708_enable_test_pattern` (`pattern` is a `u32`). -/
def imx708_enable_test_pattern (a : I2cAdapter) (bus : Bus) (pattern : Nat) : Int × Bus :=
  let val :=
    if pattern ≠ 0 then (u32_sub pattern 1) ||| IMX708_TEST_PATTERN_ENABLE
    else IMX708_TEST_PATTERN_DISABLE
  imx708_write_reg a bus IMX708_REG_TEST_PATTERN 1 val

/-- The register value of the analogue gain in `imx708_set_ctrl`,
`again = 1024 - 1024 * 16 / ctrl->val` (an `int` expression stored in a `u32`),
for the clamped `ctrl->val`. -/
def imx708_again (val : Int) : Nat := ofS32 (1024 - Int.tdiv (1024 * 16) val)

/-- The function `imx708_set_ctrl` with its register traffic (`ctrl->val` is
an `s32`, `flip` a `u8`): the value returned, the driver state and the bus.
The reference taken by `pm_runtime_get_if_in_use` is dropped again before the
function returns. -/
def imx708_set_ctrl_bus (a : I2cAdapter) (dev : Dev) (bus : Bus) (id : CtrlId) (val : Int) :
    Int × Dev × Bus :=
  let dev1 := imx708_set_ctrl_propagate dev id val
  if !dev1.in_use then (0, dev1, bus)
  else
    match id with
    | CtrlId.V4L2_CID_EXPOSURE =>
      let r := write_regs a [(IMX708_REG_EXPOSURE_H, IMX708_FETCH_EXP_H val),
                             (IMX708_REG_EXPOSURE_L, IMX708_FETCH_EXP_L val)] bus
      (int_or (r.1.getD 0 0) (r.1.getD 1 0), dev1, r.2)
    | CtrlId.V4L2_CID_ANALOGUE_GAIN =>
      let v1 := if val > 0x400 then 0x400 else val
      let v2 := if v1 < 0x10 then 0x10 else v1
      let again := imx708_again v2
      let r := write_regs a [(IMX708_REG_GAIN_H, IMX708_FETCH_AGAIN_H again),
                             (IMX708_REG_GAIN_L, IMX708_FETCH_AGAIN_L again)] bus
      (int_or (r.1.getD 0 0) (r.1.getD 1 0),
       { dev1 with anal_gain := { dev1.anal_gain with val := v2 } }, r.2)
    | CtrlId.V4L2_CID_VBLANK =>
      let vts := u32_add (ofS32 val) (supported_modes.getD dev1.cur_mode Mode.none).height
      let r := write_regs a [(IMX708_REG_VTS_H, vts >>> 8), (IMX708_REG_VTS_L, vts &&& 0xff)] bus
      (int_or (r.1.getD 0 0) (r.1.getD 1 0), { dev1 with cur_vts := vts }, r.2)
    | CtrlId.V4L2_CID_HFLIP =>
      if val ≠ 0 then
        (0, { dev1 with flip := (dev1.flip ||| IMX708_MIRROR_BIT_MASK) % 256 }, bus)
      else
        (0, { dev1 with flip := (dev1.flip &&& (U32_MOD - 1 - IMX708_MIRROR_BIT_MASK)) % 256 },
         bus)
    | CtrlId.V4L2_CID_VFLIP =>
      if val ≠ 0 then
        (0, { dev1 with flip := (dev1.flip ||| IMX708_FLIP_BIT_MASK) % 256 }, bus)
      else
        (0, { dev1 with flip := (dev1.flip &&& (U32_MOD - 1 - IMX708_FLIP_BIT_MASK)) % 256 },
         bus)
    | CtrlId.V4L2_CID_TEST_PATTERN =>
      let t := imx708_enable_test_pattern a bus (ofS32 val)
      (t.1, dev1, t.2)
    | _ => (0, dev1, bus)

/-- The function `imx708_set_flip`: the register is read (`val` starts at 0
and keeps it when the read fails), the two flip bits are set from
`imx708->flip`, the register is written back, and the two results are or-ed. -/
def imx708_set_flip (a : I2cAdapter) (dev : Dev) (bus : Bus) : Int × Bus :=
  let rd := imx708_read_reg a bus IMX708_FLIP_MIRROR_REG 1 0
  let v1 :=
    if dev.flip &&& IMX708_MIRROR_BIT_MASK ≠ 0 then rd.2.1 ||| IMX708_MIRROR_BIT_MASK
    else rd.2.1 &&& (U32_MOD - 1 - IMX708_MIRROR_BIT_MASK)
  let v2 :=
    if dev.flip &&& IMX708_FLIP_BIT_MASK ≠ 0 then v1 ||| IMX708_FLIP_BIT_MASK
    else v1 &&& (U32_MOD - 1 - IMX708_FLIP_BIT_MASK)
  let w := imx708_write_reg a rd.2.2 IMX708_FLIP_MIRROR_REG 1 v2
  (int_or rd.1 w.1, w.2)

/-- The function `imx708_ioctl`, with the value returned, the driver state and
the bus (the structures filled for the caller are not part of the state);
`link_freq_400` is the value of the undefined `IMX708_LINK_FREQ_400`. -/
def imx708_ioctl (a : I2cAdapter) (link_freq_400 : Nat) (dev : Dev) (bus : Bus)
    (cmd : IoctlCmd) : Int × Dev × Bus :=
  match cmd with
  | IoctlCmd.PREISP_CMD_SET_HDRAE_EXP => (0, dev, bus)
  | IoctlCmd.RKMODULE_GET_MODULE_INFO => (0, dev, bus)
  | IoctlCmd.RKMODULE_GET_HDR_CFG => (0, dev, bus)
  | IoctlCmd.RKMODULE_SET_HDR_CFG hdr_mode =>
    let cur := supported_modes.getD dev.cur_mode Mode.none
    match (List.range dev.cfg_num).find? (fun i =>
        decide (cur.width = (supported_modes.getD i Mode.none).width) &&
        decide (cur.height = (supported_modes.getD i Mode.none).height) &&
        decide ((supported_modes.getD i Mode.none).hdr_mode = hdr_mode)) with
    | Option.none => (-EINVAL_NR, dev, bus)
    | some i =>
      let mode := supported_modes.getD i Mode.none
      let w : Int := u32_sub mode.hts_def mode.width
      let h : Int := u32_sub mode.vts_def mode.height
      let rate :=
        if mode.bus_fmt = MEDIA_BUS_FMT_SRGGB10_1X10 then
          (0, PIXEL_RATE_WITH_848M_10BIT link_freq_400 % U32_MOD)
        else if mode.bus_fmt = MEDIA_BUS_FMT_SRGGB12_1X12 then
          (0, PIXEL_RATE_WITH_848M_12BIT link_freq_400 % U32_MOD)
        else (dev.cur_link_freq, dev.cur_pixel_rate)
      (0, { dev with
            cur_mode := i,
            hblank := __v4l2_ctrl_modify_range dev.hblank w w 1 w,
            vblank := __v4l2_ctrl_modify_range dev.vblank h
                        (u32_sub IMX708_VTS_MAX mode.height) 1 h,
            cur_link_freq := rate.1,
            cur_pixel_rate := rate.2,
            pixel_rate := { dev.pixel_rate with val := rate.2 },
            link_freq := { dev.link_freq with val := rate.1 } }, bus)
  | IoctlCmd.RKMODULE_SET_QUICK_STREAM stream =>
    let w :=
      if stream ≠ 0 then imx708_write_reg a bus IMX708_REG_CTRL_MODE 1 IMX708_MODE_STREAMING
      else imx708_write_reg a bus IMX708_REG_CTRL_MODE 1 IMX708_MODE_SW_STANDBY
    (w.1, dev, w.2)
  | IoctlCmd.RKMODULE_GET_CHANNEL_INFO index =>
    if index ≥ PAD_MAX then (-EINVAL_NR, dev, bus) else (0, dev, bus)
  | _ => (-ENOIOCTLCMD_NR, dev, bus)

/-- The function `__imx708_start_stream`; `global_reg_list` and `reg_list` are
the register lists of the current mode.  Both lists are written (left on the
first failure), `cur_vts` is reset, the control setup pass runs (left on
failure), a stored initial HDR exposure is applied when the mode is an HDR
mode, `imx708_set_flip` runs with its result dropped, and
`IMX708_MODE_STREAMING` is written to `IMX708_REG_CTRL_MODE`. -/
def __imx708_start_stream (a : I2cAdapter) (link_freq_400 : Nat)
    (global_reg_list reg_list : List regval) (dev : Dev) (bus : Bus) : Int × Dev × Bus :=
  let w1 := imx708_write_array a global_reg_list bus
  if w1.1 ≠ 0 then (w1.1, dev, w1.2)
  else
    let w2 := imx708_write_array a reg_list w1.2
    if w2.1 ≠ 0 then (w2.1, dev, w2.2)
    else
      let dev1 := { dev with cur_vts := (supported_modes.getD dev.cur_mode Mode.none).vts_def }
      let s := __v4l2_ctrl_handler_setup (imx708_set_ctrl_bus a) handler_ctrls dev1 w2.2
      if s.1 ≠ 0 then s
      else
        let r :=
          if s.2.1.has_init_exp ∧
              (supported_modes.getD s.2.1.cur_mode Mode.none).hdr_mode ≠ NO_HDR
          then imx708_ioctl a link_freq_400 s.2.1 s.2.2 IoctlCmd.PREISP_CMD_SET_HDRAE_EXP
          else s
        if r.1 ≠ 0 then r
        else
          let f := imx708_set_flip a r.2.1 r.2.2
          let m := imx708_write_reg a f.2 IMX708_REG_CTRL_MODE 1 IMX708_MODE_STREAMING
          (m.1, r.2.1, m.2)

/-- The function `__imx708_stop_stream`. -/
def __imx708_stop_stream (a : I2cAdapter) (bus : Bus) : Int × Bus :=
  imx708_write_reg a bus IMX708_REG_CTRL_MODE 1 IMX708_MODE_SW_STANDBY

/-- The function `imx708_s_stream` (`rpm` is what `pm_runtime_get_sync`
returns when it is called). -/
def imx708_s_stream (a : I2cAdapter) (rpm : Int) (link_freq_400 : Nat)
    (global_reg_list reg_list : List regval) (dev : Dev) (bus : Bus) (enable : Int) :
    Int × Dev × Bus :=
  let on1 : Bool := decide (enable ≠ 0)
  if on1 = dev.streaming then (0, dev, bus)
  else if on1 then
    let g := pm_runtime_get_sync rpm dev
    if g.1 < 0 then (g.1, pm_runtime_put_noidle g.2, bus)
    else
      let s := __imx708_start_stream a link_freq_400 global_reg_list reg_list g.2 bus
      if s.1 ≠ 0 then (s.1, pm_runtime_put s.2.1, s.2.2)
      else (s.1, { s.2.1 with streaming := on1 }, s.2.2)
  else
    let s := __imx708_stop_stream a bus
    (0, { pm_runtime_put dev with streaming := on1 }, s.2)

/-- The function `imx708_s_power`; it touches no register. -/
def imx708_s_power (rpm : Int) (dev : Dev) (enable : Int) : Int × Dev :=
  let on1 : Bool := decide (enable ≠ 0)
  if dev.power_on = on1 then (0, dev)
  else if on1 then
    let g := pm_runtime_get_sync rpm dev
    if g.1 < 0 then (g.1, pm_runtime_put_noidle g.2)
    else (g.1, { g.2 with power_on := true })
  else (0, { pm_runtime_put dev with power_on := false })

end IMX708

/-! ## ov50h40: registers, streaming, power -/

namespace OV50H40
open Sensor

/-- The constant `OV50H40_REG_CTRL_MODE`. -/
def OV50H40_REG_CTRL_MODE : Nat := 0x0100

/-- The constant `OV50H40_MODE_SW_STANDBY`. -/
def OV50H40_MODE_SW_STANDBY : Nat := 0x0

/-- The constant `OV50H40_MODE_STREAMING`, `BIT(0)`. -/
def OV50H40_MODE_STREAMING : Nat := 1

/-- The constant `OV50H40_REG_EXP_LONG_H`. -/
def OV50H40_REG_EXP_LONG_H : Nat := 0x3500

/-- The constant `OV50H40_REG_AGAIN_LONG_H`. -/
def OV50H40_REG_AGAIN_LONG_H : Nat := 0x3508

/-- The constant `OV50H40_REG_DGAIN_LONG_H`. -/
def OV50H40_REG_DGAIN_LONG_H : Nat := 0x350A

/-- The constant `OV50H40_SOFTWARE_RESET_REG`. -/
def OV50H40_SOFTWARE_RESET_REG : Nat := 0x0103

/-- The constant `OV50H40_REG_TEST_PATTERN`. -/
def OV50H40_REG_TEST_PATTERN : Nat := 0x50C1

/-- The constant `OV50H40_TEST_PATTERN_ENABLE`. -/
def OV50H40_TEST_PATTERN_ENABLE : Nat := 0x01

/-- The constant `OV50H40_TEST_PATTERN_DISABLE`. -/
def OV50H40_TEST_PATTERN_DISABLE : Nat := 0x0

/-- The constant `OV50H40_REG_VTS`. -/
def OV50H40_REG_VTS : Nat := 0x380e

/-- The constant `OV50H40_FLIP_REG`. -/
def OV50H40_FLIP_REG : Nat := 0x3820

/-- The constant `OV50H40_MIRROR_REG`. -/
def OV50H40_MIRROR_REG : Nat := 0x3821

/-- The constant `FLIP_BIT_MASK` of `ov50h40.c`, `BIT(2)`. -/
def FLIP_BIT_MASK : Nat := 4

/-- The register list `ov50h40_10bit_4096x3072_dphy_30fps_regs`: the
terminator only. -/
def ov50h40_10bit_4096x3072_dphy_30fps_regs : List regval := [regval.mk REG_NULL 0x00]

/-- The register list `ov50h40_10bit_8192x6144_dphy_12fps_regs`: the
terminator only. -/
def ov50h40_10bit_8192x6144_dphy_12fps_regs : List regval := [regval.mk REG_NULL 0x00]

/-- The function `ov50h40_enable_test_pattern` (`pattern` is a `u32`). -/
def ov50h40_enable_test_pattern (a : I2cAdapter) (bus : Bus) (pattern : Nat) : Int × Bus :=
  let val :=
    if pattern ≠ 0 then ((u32_sub pattern 1 <<< 4) % U32_MOD) ||| OV50H40_TEST_PATTERN_ENABLE
    else OV50H40_TEST_PATTERN_DISABLE
  ov50h40_write_reg a bus OV50H40_REG_TEST_PATTERN 1 val

/-- The analogue and digital gain `ov50h40_set_ctrl` derives from `ctrl->val`
(an `s32`; the product is an `int` expression): `(again, dgain)`. -/
def ov50h40_gain_split (val : Int) : Nat × Nat :=
  if val > 1984 then (1984, ofS32 (Int.tdiv (wrapS32 (val * 1024)) 1984))
  else (ofS32 val, 1024)

/-- The function `ov50h40_set_ctrl` with its register traffic (`ctrl->val` is
an `s32`): the value returned, the driver state and the bus.  The reference
taken by `pm_runtime_get_if_in_use` is dropped again before the function
returns.  The flip cases assign `ret` twice, so the result of the write is the
one returned. -/
def ov50h40_set_ctrl_bus (a : I2cAdapter) (dev : Dev) (bus : Bus) (id : CtrlId) (val : Int) :
    Int × Dev × Bus :=
  let dev1 := ov50h40_set_ctrl_propagate dev id val
  if !dev1.in_use then (0, dev1, bus)
  else
    let height := (dev1.support_modes.getD dev1.cur_mode Mode.none).height
    match id with
    | CtrlId.V4L2_CID_EXPOSURE =>
      let exp := if height = 6144 then ofS32 (Int.tdiv val 2) else ofS32 val
      let w := ov50h40_write_reg a bus OV50H40_REG_EXP_LONG_H 3 exp
      (w.1, dev1, w.2)
    | CtrlId.V4L2_CID_ANALOGUE_GAIN =>
      let g := ov50h40_gain_split val
      let w1 := ov50h40_write_reg a bus OV50H40_REG_AGAIN_LONG_H 2
        (((g.1 <<< 1) % U32_MOD) &&& 0x7ffe)
      let w2 := ov50h40_write_reg a w1.2 OV50H40_REG_DGAIN_LONG_H 3
        (((g.2 <<< 6) % U32_MOD) &&& 0xfffc0)
      (int_or w1.1 w2.1, dev1, w2.2)
    | CtrlId.V4L2_CID_VBLANK =>
      let vts0 := u32_add (ofS32 val) height
      let vts := if height = 6144 then vts0 / 2 else vts0
      let w := ov50h40_write_reg a bus OV50H40_REG_VTS 2 vts
      (w.1, dev1, w.2)
    | CtrlId.V4L2_CID_TEST_PATTERN =>
      let t := ov50h40_enable_test_pattern a bus (ofS32 val)
      (t.1, dev1, t.2)
    | CtrlId.V4L2_CID_HFLIP =>
      let rd := ov50h40_read_reg a bus OV50H40_MIRROR_REG 1 0
      let v :=
        if val ≠ 0 then rd.2.1 ||| FLIP_BIT_MASK else rd.2.1 &&& (U32_MOD - 1 - FLIP_BIT_MASK)
      let w := ov50h40_write_reg a rd.2.2 OV50H40_MIRROR_REG 1 v
      (w.1, dev1, w.2)
    | CtrlId.V4L2_CID_VFLIP =>
      let rd := ov50h40_read_reg a bus OV50H40_FLIP_REG 1 0
      let v :=
        if val ≠ 0 then rd.2.1 ||| FLIP_BIT_MASK else rd.2.1 &&& (U32_MOD - 1 - FLIP_BIT_MASK)
      let w := ov50h40_write_reg a rd.2.2 OV50H40_FLIP_REG 1 v
      (w.1, dev1, w.2)
    | _ => (0, dev1, bus)

/-- The function `ov50h40_ioctl`, with the value returned, the driver state
and the bus (the structures filled for the caller are not part of the state). -/
def ov50h40_ioctl (a : I2cAdapter) (dev : Dev) (bus : Bus) (cmd : IoctlCmd) :
    Int × Dev × Bus :=
  match cmd with
  | IoctlCmd.RKMODULE_SET_HDR_CFG hdr_mode =>
    let cur := dev.support_modes.getD dev.cur_mode Mode.none
    match (List.range dev.cfg_num).find? (fun i =>
        decide (cur.width = (dev.support_modes.getD i Mode.none).width) &&
        decide (cur.height = (dev.support_modes.getD i Mode.none).height) &&
        decide ((dev.support_modes.getD i Mode.none).hdr_mode = hdr_mode)) with
    | Option.none => (-EINVAL_NR, dev, bus)
    | some i =>
      let mode := dev.support_modes.getD i Mode.none
      let w : Int := u32_sub mode.hts_def mode.width
      let h : Int := u32_sub mode.vts_def mode.height
      (0, { dev with
            cur_mode := i,
            hblank := __v4l2_ctrl_modify_range dev.hblank w w 1 w,
            vblank := __v4l2_ctrl_modify_range dev.vblank h
                        (u32_sub OV50H40_VTS_MAX mode.height) 1 h }, bus)
  | IoctlCmd.RKMODULE_GET_MODULE_INFO => (0, dev, bus)
  | IoctlCmd.RKMODULE_GET_HDR_CFG => (0, dev, bus)
  | IoctlCmd.RKMODULE_SET_QUICK_STREAM stream =>
    let w :=
      if stream ≠ 0 then ov50h40_write_reg a bus OV50H40_REG_CTRL_MODE 1 OV50H40_MODE_STREAMING
      else ov50h40_write_reg a bus OV50H40_REG_CTRL_MODE 1 OV50H40_MODE_SW_STANDBY
    (w.1, dev, w.2)
  | IoctlCmd.RKMODULE_GET_CHANNEL_INFO index =>
    if index ≥ PAD_MAX then (-EINVAL_NR, dev, bus) else (0, dev, bus)
  | _ => (-ENOIOCTLCMD_NR, dev, bus)

/-- The function `__ov50h40_start_stream`; `reg_list` is the register list
`cur_mode->reg_list`.  Unless the sensor was started by the boot firmware the
list is written (left on failure); the control setup pass runs (left on
failure); then `OV50H40_MODE_STREAMING` is written to `OV50H40_REG_CTRL_MODE`. -/
def __ov50h40_start_stream (a : I2cAdapter) (reg_list : List regval) (dev : Dev) (bus : Bus) :
    Int × Dev × Bus :=
  let w : Int × Bus := if !dev.is_thunderboot then ov50h40_write_array a reg_list bus else (0, bus)
  if w.1 ≠ 0 then (w.1, dev, w.2)
  else
    let s := __v4l2_ctrl_handler_setup (ov50h40_set_ctrl_bus a) handler_ctrls dev w.2
    if s.1 ≠ 0 then s
    else
      let m := ov50h40_write_reg a s.2.2 OV50H40_REG_CTRL_MODE 1 OV50H40_MODE_STREAMING
      (m.1, s.2.1, m.2)

/-- The function `__ov50h40_stop_stream`. -/
def __ov50h40_stop_stream (a : I2cAdapter) (dev : Dev) (bus : Bus) : Int × Dev × Bus :=
  let dev1 := if dev.is_thunderboot then { dev with is_first_streamoff := true } else dev
  let m := ov50h40_write_reg a bus OV50H40_REG_CTRL_MODE 1 OV50H40_MODE_SW_STANDBY
  (m.1, dev1, m.2)

/-- The function `ov50h40_s_stream` (`rpm` is what `pm_runtime_get_sync`
returns when it is called, `tb_ng` whether `rkisp_tb_get_state()` reports
`RKISP_TB_NG`, `reg_list` the register list of the current mode).  The
`__ov50h40_power_on` of the failed-fast-boot branch drives the clock, the
GPIOs and the regulators, which are not part of the state, and touches no
register. -/
def ov50h40_s_stream (a : I2cAdapter) (rpm : Int) (tb_ng : Bool) (reg_list : List regval)
    (dev : Dev) (bus : Bus) (enable : Int) : Int × Dev × Bus :=
  let on1 : Bool := decide (enable ≠ 0)
  if on1 = dev.streaming then (0, dev, bus)
  else if on1 then
    let dev1 := if dev.is_thunderboot && tb_ng then { dev with is_thunderboot := false } else dev
    let g := pm_runtime_get_sync rpm dev1
    if g.1 < 0 then (g.1, pm_runtime_put_noidle g.2, bus)
    else
      let s := __ov50h40_start_stream a reg_list g.2 bus
      if s.1 ≠ 0 then (s.1, pm_runtime_put s.2.1, s.2.2)
      else (s.1, { s.2.1 with streaming := on1 }, s.2.2)
  else
    let s := __ov50h40_stop_stream a dev bus
    (0, { pm_runtime_put s.2.1 with streaming := on1 }, s.2.2)

/-- The function `ov50h40_s_power`: the software reset is written unless the
sensor was started by the boot firmware, its result is or-ed into `ret`, and
`power_on` is set whatever the result. -/
def ov50h40_s_power (a : I2cAdapter) (rpm : Int) (dev : Dev) (bus : Bus) (enable : Int) :
    Int × Dev × Bus :=
  let on1 : Bool := decide (enable ≠ 0)
  if dev.power_on = on1 then (0, dev, bus)
  else if on1 then
    let g := pm_runtime_get_sync rpm dev
    if g.1 < 0 then (g.1, pm_runtime_put_noidle g.2, bus)
    else if !g.2.is_thunderboot then
      let w := ov50h40_write_reg a bus OV50H40_SOFTWARE_RESET_REG 1 0x01
      (int_or g.1 w.1, { g.2 with power_on := true }, w.2)
    else (g.1, { g.2 with power_on := true }, bus)
  else (0, { pm_runtime_put dev with power_on := false }, bus)

end OV50H40

/-! ## sc5336: registers, streaming, power -/

namespace SC5336
open Sensor

/-- The constant `SC5336_REG_CTRL_MODE`. -/
def SC5336_REG_CTRL_MODE : Nat := 0x0100

/-- The constant `SC5336_MODE_SW_STANDBY`. -/
def SC5336_MODE_SW_STANDBY : Nat := 0x0

/-- The constant `SC5336_MODE_STREAMING`, `BIT(0)`. -/
def SC5336_MODE_STREAMING : Nat := 1

/-- The constant `SC5336_REG_EXPOSURE_H`. -/
def SC5336_REG_EXPOSURE_H : Nat := 0x3e00

/-- The constant `SC5336_REG_EXPOSURE_M`. -/
def SC5336_REG_EXPOSURE_M : Nat := 0x3e01

/-- The constant `SC5336_REG_EXPOSURE_L`. -/
def SC5336_REG_EXPOSURE_L : Nat := 0x3e02

/-- The constant `SC5336_REG_DIG_GAIN`. -/
def SC5336_REG_DIG_GAIN : Nat := 0x3e06

/-- The constant `SC5336_REG_DIG_FINE_GAIN`. -/
def SC5336_REG_DIG_FINE_GAIN : Nat := 0x3e07

/-- The constant `SC5336_REG_ANA_GAIN`. -/
def SC5336_REG_ANA_GAIN : Nat := 0x3e09

/-- The constant `SC5336_GAIN_MAX`, `(32 * 15 * 32)`. -/
def SC5336_GAIN_MAX : Nat := 32 * 15 * 32

/-- The constant `SC5336_REG_VTS_H`. -/
def SC5336_REG_VTS_H : Nat := 0x320e

/-- The constant `SC5336_REG_VTS_L`. -/
def SC5336_REG_VTS_L : Nat := 0x320f

/-- The constant `SC5336_FLIP_MIRROR_REG`. -/
def SC5336_FLIP_MIRROR_REG : Nat := 0x3221

/-- The macro `SC5336_FETCH_EXP_H` (applied to a `u32`). -/
def SC5336_FETCH_EXP_H (val : Nat) : Nat := (val >>> 12) &&& 0xF

/-- The macro `SC5336_FETCH_EXP_M` (applied to a `u32`). -/
def SC5336_FETCH_EXP_M (val : Nat) : Nat := (val >>> 4) &&& 0xFF

/-- The macro `SC5336_FETCH_EXP_L` (applied to a `u32`). -/
def SC5336_FETCH_EXP_L (val : Nat) : Nat := (val &&& 0xF) <<< 4

/-- The macro `SC5336_FETCH_MIRROR` (`val` a `u32`, `enable` an `s32`). -/
def SC5336_FETCH_MIRROR (val : Nat) (enable : Int) : Nat :=
  if enable ≠ 0 then val ||| 0x06 else val &&& 0xf9

/-- The macro `SC5336_FETCH_FLIP` (`val` a `u32`, `enable` an `s32`). -/
def SC5336_FETCH_FLIP (val : Nat) (enable : Int) : Nat :=
  if enable ≠ 0 then val ||| 0x60 else val &&& 0x9f

/-- The register list `sc5336_global_regs`: the terminator only. -/
def sc5336_global_regs : List regval := [regval.mk REG_NULL 0x00]

/-- The gain staging of `sc5336_set_gain_reg` (`gain` is a `u32`): the clamp to
`[32, SC5336_GAIN_MAX]`, `gain_factor = gain * 1000 / 32`, and the registers
`(coarse_again, coarse_dgian, fine_dgian)` of the stage `gain_factor` falls
in. -/
def sc5336_gain_stage (gain : Nat) : Nat × Nat × Nat :=
  let g := if gain < 32 then 32 else if gain > SC5336_GAIN_MAX then SC5336_GAIN_MAX else gain
  let gain_factor := u32_mul g 1000 / 32
  if gain_factor < 2000 then (0x00, 0x00, u32_mul gain_factor 128 / 1000)
  else if gain_factor < 4000 then (0x08, 0x00, u32_mul gain_factor 128 / 2000)
  else if gain_factor < 8000 then (0x09, 0x00, u32_mul gain_factor 128 / 4000)
  else if gain_factor < 16000 then (0x0b, 0x00, u32_mul gain_factor 128 / 8000)
  else if gain_factor < 32000 then (0x0f, 0x00, u32_mul gain_factor 128 / 16000)
  else if gain_factor < 32000 * 2 then (0x1f, 0x00, u32_mul gain_factor 128 / 32000)
  else if gain_factor < 32000 * 4 then (0x1f, 0x01, u32_mul gain_factor 128 / 32000 / 2)
  else if gain_factor < 32000 * 8 then (0x1f, 0x03, u32_mul gain_factor 128 / 32000 / 4)
  else if gain_factor < 32000 * 15 then (0x1f, 0x07, u32_mul gain_factor 128 / 32000 / 8)
  else (0x1f, 0x07, 0xf0)

/-- The function `sc5336_set_gain_reg`: the three writes, in program order,
with their results or-ed. -/
def sc5336_set_gain_reg (a : I2cAdapter) (bus : Bus) (gain : Nat) : Int × Bus :=
  let s := sc5336_gain_stage gain
  let r := write_regs a [(SC5336_REG_DIG_GAIN, s.2.1), (SC5336_REG_DIG_FINE_GAIN, s.2.2),
                         (SC5336_REG_ANA_GAIN, s.1)] bus
  (int_or (int_or (r.1.getD 0 0) (r.1.getD 1 0)) (r.1.getD 2 0), r.2)

/-- The function `sc5336_enable_test_pattern` (`pattern` is a `u32`): `ret`
starts at 0 and the results of the three writes are or-ed into it. -/
def sc5336_enable_test_pattern (a : I2cAdapter) (bus : Bus) (pattern : Nat) : Int × Bus :=
  let r :=
    if pattern ≠ 0 then write_regs a [(0x4501, 0xac), (0x3902, 0x80), (0x3e07, 0x40)] bus
    else write_regs a [(0x4501, 0xa4), (0x3902, 0xc0), (0x3e07, 0x80)] bus
  (r.1.foldl int_or 0, r.2)

/-- The function `sc5336_set_ctrl` with its register traffic (`ctrl->val` is
an `s32`): the value returned, the driver state and the bus.  The reference
taken by `pm_runtime_get_if_in_use` is dropped again before the function
returns. -/
def sc5336_set_ctrl_bus (a : I2cAdapter) (dev : Dev) (bus : Bus) (id : CtrlId) (val : Int) :
    Int × Dev × Bus :=
  let dev1 := sc5336_set_ctrl_propagate dev id val
  if !dev1.in_use then (0, dev1, bus)
  else
    let mode := supported_modes.getD dev1.cur_mode Mode.none
    match id with
    | CtrlId.V4L2_CID_EXPOSURE =>
      if mode.hdr_mode = NO_HDR then
        let v := ofS32 val
        let r := write_regs a [(SC5336_REG_EXPOSURE_H, SC5336_FETCH_EXP_H v),
                               (SC5336_REG_EXPOSURE_M, SC5336_FETCH_EXP_M v),
                               (SC5336_REG_EXPOSURE_L, SC5336_FETCH_EXP_L v)] bus
        (int_or (int_or (r.1.getD 0 0) (r.1.getD 1 0)) (r.1.getD 2 0), dev1, r.2)
      else (0, dev1, bus)
    | CtrlId.V4L2_CID_ANALOGUE_GAIN =>
      if mode.hdr_mode = NO_HDR then
        let g := sc5336_set_gain_reg a bus (ofS32 val)
        (g.1, dev1, g.2)
      else (0, dev1, bus)
    | CtrlId.V4L2_CID_VBLANK =>
      let vts := u32_add (ofS32 val) mode.height
      let r := write_regs a [(SC5336_REG_VTS_H, vts >>> 8), (SC5336_REG_VTS_L, vts &&& 0xff)] bus
      let dev2 : Dev := { dev1 with cur_vts := vts }
      let dev3 :=
        if dev2.cur_vts ≠ (supported_modes.getD dev2.cur_mode Mode.none).vts_def then
          sc5336_modify_fps_info dev2
        else dev2
      (int_or (r.1.getD 0 0) (r.1.getD 1 0), dev3, r.2)
    | CtrlId.V4L2_CID_TEST_PATTERN =>
      let t := sc5336_enable_test_pattern a bus (ofS32 val)
      (t.1, dev1, t.2)
    | CtrlId.V4L2_CID_HFLIP =>
      let rd := sc5336_read_reg a bus SC5336_FLIP_MIRROR_REG 1 0
      let w := sc5336_write_reg a rd.2.2 SC5336_FLIP_MIRROR_REG 1 (SC5336_FETCH_MIRROR rd.2.1 val)
      (int_or rd.1 w.1, dev1, w.2)
    | CtrlId.V4L2_CID_VFLIP =>
      let rd := sc5336_read_reg a bus SC5336_FLIP_MIRROR_REG 1 0
      let w := sc5336_write_reg a rd.2.2 SC5336_FLIP_MIRROR_REG 1 (SC5336_FETCH_FLIP rd.2.1 val)
      (int_or rd.1 w.1, dev1, w.2)
    | _ => (0, dev1, bus)

/-- The scan of the `RKMODULE_SET_HDR_CFG` case of `sc5336_ioctl` over
`ARRAY_SIZE(supported_modes)` entries: `(cur_best_fit, cur_best_fit_dist)` and
whether the `break` was taken.  `div_round_closest` is the kernel macro
`DIV_ROUND_CLOSEST`, whose definition is not part of the sources at hand. -/
def sc5336_hdr_cfg_scan (div_round_closest : Nat → Nat → Nat) (cur : Mode) (hdr_mode : Nat) :
    FitState × Bool :=
  let dst_fps : Int := toS32 (div_round_closest cur.max_fps_denominator cur.max_fps_numerator)
  (List.range supported_modes.length).foldl
    (fun (st : FitState × Bool) i =>
      if st.2 then st
      else
        let m := supported_modes.getD i Mode.none
        if cur.width = m.width ∧ cur.height = m.height ∧ m.hdr_mode = hdr_mode ∧
            m.bus_fmt = cur.bus_fmt then
          let cur_fps : Int := toS32 (div_round_closest m.max_fps_denominator m.max_fps_numerator)
          let cur_dist := Sensor.abs (ofS32 (cur_fps - dst_fps))
          if st.1.2 = -1 ∨ cur_dist < st.1.2 then (((i : Int), cur_dist), false)
          else if cur_dist = st.1.2 then (((i : Int), st.1.2), true)
          else st
        else st)
    ((-1, -1), false)

/-- The function `sc5336_ioctl`, with the value returned, the driver state and
the bus (the structures filled for the caller are not part of the state). -/
def sc5336_ioctl (a : I2cAdapter) (div_round_closest : Nat → Nat → Nat) (dev : Dev) (bus : Bus)
    (cmd : IoctlCmd) : Int × Dev × Bus :=
  match cmd with
  | IoctlCmd.RKMODULE_GET_MODULE_INFO => (0, dev, bus)
  | IoctlCmd.RKMODULE_GET_HDR_CFG => (0, dev, bus)
  | IoctlCmd.RKMODULE_SET_HDR_CFG hdr_mode =>
    let cur := supported_modes.getD dev.cur_mode Mode.none
    if hdr_mode = cur.hdr_mode then (0, dev, bus)
    else
      let fit := (sc5336_hdr_cfg_scan div_round_closest cur hdr_mode).1.1
      if fit = -1 then (-EINVAL_NR, dev, bus)
      else
        let mode := supported_modes.getD fit.toNat Mode.none
        let w : Int := u32_sub mode.hts_def mode.width
        let h : Int := u32_sub mode.vts_def mode.height
        (0, { dev with
              cur_mode := fit.toNat,
              hblank := __v4l2_ctrl_modify_range dev.hblank w w 1 w,
              vblank := __v4l2_ctrl_modify_range dev.vblank h
                          (u32_sub SC5336_VTS_MAX mode.height) 1 h }, bus)
  | IoctlCmd.PREISP_CMD_SET_HDRAE_EXP => (0, dev, bus)
  | IoctlCmd.RKMODULE_SET_QUICK_STREAM stream =>
    let w :=
      if stream ≠ 0 then sc5336_write_reg a bus SC5336_REG_CTRL_MODE 1 SC5336_MODE_STREAMING
      else sc5336_write_reg a bus SC5336_REG_CTRL_MODE 1 SC5336_MODE_SW_STANDBY
    (w.1, dev, w.2)
  | IoctlCmd.RKMODULE_GET_CHANNEL_INFO index =>
    if index ≥ PAD_MAX then (-EINVAL_NR, dev, bus) else (0, dev, bus)
  | _ => (-ENOIOCTLCMD_NR, dev, bus)

/-- The writes `__sc5336_start_stream` makes for the chip version read from
register `0x3040`. -/
def sc5336_version_regs (chip_version : Nat) : List (Nat × Nat) :=
  if chip_version = 0x00 then
    [(0x3258, 0x0c), (0x3249, 0x0b), (0x3934, 0x0a), (0x3935, 0x00), (0x3937, 0x75)]
  else if chip_version = 0x03 then
    [(0x3258, 0x08), (0x3249, 0x07), (0x3934, 0x05), (0x3935, 0x07), (0x3937, 0x74)]
  else []

/-- The function `__sc5336_start_stream`; `reg_list` is the register list
`cur_mode->reg_list`.  Unless the sensor was started by the boot firmware the
list is written and the control setup pass runs (left on the first failure);
the chip version is read (`chip_version` starts at 0), the writes for that
version are made with their results or-ed into the result of the read, and
with no failure `SC5336_MODE_STREAMING` is written to `SC5336_REG_CTRL_MODE`. -/
def __sc5336_start_stream (a : I2cAdapter) (reg_list : List regval) (dev : Dev) (bus : Bus) :
    Int × Dev × Bus :=
  let w : Int × Bus := if !dev.is_thunderboot then sc5336_write_array a reg_list bus else (0, bus)
  if w.1 ≠ 0 then (w.1, dev, w.2)
  else
    let s : Int × Dev × Bus :=
      if !dev.is_thunderboot then
        __v4l2_ctrl_handler_setup (sc5336_set_ctrl_bus a) handler_ctrls dev w.2
      else (0, dev, w.2)
    if s.1 ≠ 0 then s
    else
      let rd := sc5336_read_reg a s.2.2 0x3040 1 0
      let v := write_regs a (sc5336_version_regs rd.2.1) rd.2.2
      let ret := v.1.foldl int_or rd.1
      if ret ≠ 0 then (ret, s.2.1, v.2)
      else
        let m := sc5336_write_reg a v.2 SC5336_REG_CTRL_MODE 1 SC5336_MODE_STREAMING
        (m.1, s.2.1, m.2)

/-- The function `__sc5336_stop_stream`: after a start by the boot firmware it
records the first stream-off and drops a reference of its own. -/
def __sc5336_stop_stream (a : I2cAdapter) (dev : Dev) (bus : Bus) : Int × Dev × Bus :=
  let dev1 :=
    if dev.is_thunderboot then pm_runtime_put { dev with is_first_streamoff := true } else dev
  let m := sc5336_write_reg a bus SC5336_REG_CTRL_MODE 1 SC5336_MODE_SW_STANDBY
  (m.1, dev1, m.2)

/-- The function `sc5336_s_stream` (`rpm` is what `pm_runtime_get_sync`
returns when it is called, `tb_ng` whether `rkisp_tb_get_state()` reports
`RKISP_TB_NG`, `reg_list` the register list of the current mode).  The
`__sc5336_power_on` of the failed-fast-boot branch drives the clock, the GPIOs
and the regulators, which are not part of the state, and touches no register. -/
def sc5336_s_stream (a : I2cAdapter) (rpm : Int) (tb_ng : Bool) (reg_list : List regval)
    (dev : Dev) (bus : Bus) (enable : Int) : Int × Dev × Bus :=
  let on1 : Bool := decide (enable ≠ 0)
  if on1 = dev.streaming then (0, dev, bus)
  else if on1 then
    let dev1 := if dev.is_thunderboot && tb_ng then { dev with is_thunderboot := false } else dev
    let g := pm_runtime_get_sync rpm dev1
    if g.1 < 0 then (g.1, pm_runtime_put_noidle g.2, bus)
    else
      let s := __sc5336_start_stream a reg_list g.2 bus
      if s.1 ≠ 0 then (s.1, pm_runtime_put s.2.1, s.2.2)
      else (s.1, { s.2.1 with streaming := on1 }, s.2.2)
  else
    let s := __sc5336_stop_stream a dev bus
    (0, { pm_runtime_put s.2.1 with streaming := on1 }, s.2.2)

/-- The function `sc5336_s_power`. -/
def sc5336_s_power (a : I2cAdapter) (rpm : Int) (dev : Dev) (bus : Bus) (enable : Int) :
    Int × Dev × Bus :=
  let on1 : Bool := decide (enable ≠ 0)
  if dev.power_on = on1 then (0, dev, bus)
  else if on1 then
    let g := pm_runtime_get_sync rpm dev
    if g.1 < 0 then (g.1, pm_runtime_put_noidle g.2, bus)
    else if !g.2.is_thunderboot then
      let w := sc5336_write_array a sc5336_global_regs bus
      if w.1 ≠ 0 then (w.1, pm_runtime_put_noidle g.2, w.2)
      else (w.1, { g.2 with power_on := true }, w.2)
    else (g.1, { g.2 with power_on := true }, bus)
  else (0, { pm_runtime_put dev with power_on := false }, bus)

end SC5336

/-! ## gc8613: control creation -/

namespace Sensor

/-- Modelled from the spec: `v4l2_ctrl_new_std` belongs to the V4L2 control
framework, which is not part of the sources at hand.  Following the spec
("Device Control State is created at device-attach time") it creates a control
with the minimum, maximum, step and default handed over, whose current value
is the default. -/
def v4l2_ctrl_new_std (min max step «def» : Int) : v4l2_ctrl :=
  { minimum := min, maximum := max, step := step, default_value := «def», val := «def» }

/-- Modelled from the spec: `v4l2_ctrl_new_int_menu` and
`v4l2_ctrl_new_std_menu_items` (V4L2 control framework) create a menu control
with entries `0 .. max`, whose current value is the default. -/
def v4l2_ctrl_new_menu (max «def» : Int) : v4l2_ctrl :=
  { minimum := 0, maximum := max, step := 1, default_value := «def», val := «def» }

end Sensor

namespace GC8613
open Sensor

/-- The constant `GC8613_MAX_PIXEL_RATE`,
`(GC8613_LINK_FREQ_FPS * 2 / 10 * GC8613_LANES)`. -/
def GC8613_MAX_PIXEL_RATE : Nat := GC8613_LINK_FREQ_FPS * 2 / 10 * GC8613_LANES

/-- The constant `GC8613_EXPOSURE_MIN`. -/
def GC8613_EXPOSURE_MIN : Nat := 1

/-- The constant `GC8613_EXPOSURE_STEP`. -/
def GC8613_EXPOSURE_STEP : Nat := 1

/-- The constant `GC8613_GAIN_STEP`. -/
def GC8613_GAIN_STEP : Nat := 1

/-- The constant `GC8613_GAIN_DEFAULT`. -/
def GC8613_GAIN_DEFAULT : Nat := 64

/-- The table `gc8613_test_pattern_menu`. -/
def gc8613_test_pattern_menu : List String := ["Disabled", "Vertical Color Bar Type 1"]

/-- The function `gc8613_initialize_controls` on the path that returns 0 (a
failure of the control handler belongs to the framework): the controls are
created from the current mode, in program order. -/
def gc8613_initialize_controls (dev : Dev) : Dev :=
  let mode := supported_modes.getD dev.cur_mode Mode.none
  let link_freq := v4l2_ctrl_new_menu ((link_freq_items.length - 1 : Nat) : Int) 0
  let pixel_rate := gc8613_pixel_rate mode
  let h_blank : Int := u32_sub mode.hts_def mode.width
  let vblank_def : Int := u32_sub mode.vts_def mode.height
  let exposure_max : Int := u32_sub mode.vts_def 8
  { dev with
    link_freq := { link_freq with val := mode.mipi_freq_idx },
    pixel_rate := v4l2_ctrl_new_std 0 GC8613_MAX_PIXEL_RATE 1 pixel_rate,
    cur_vts := mode.vts_def,
    hblank := v4l2_ctrl_new_std h_blank h_blank 1 h_blank,
    vblank := v4l2_ctrl_new_std vblank_def (u32_sub GC8613_VTS_MAX mode.height) 1 vblank_def,
    exposure := v4l2_ctrl_new_std GC8613_EXPOSURE_MIN exposure_max GC8613_EXPOSURE_STEP
                  mode.exp_def,
    anal_gain := v4l2_ctrl_new_std GC8613_GAIN_MIN GC8613_GAIN_MAX GC8613_GAIN_STEP
                   GC8613_GAIN_DEFAULT,
    test_pattern := v4l2_ctrl_new_menu ((gc8613_test_pattern_menu.length - 1 : Nat) : Int) 0,
    flip := 0,
    h_flip := v4l2_ctrl_new_std 0 1 1 0,
    v_flip := v4l2_ctrl_new_std 0 1 1 0,
    has_init_exp := false }

end GC8613

/-! ## Power and streaming state -/

namespace Sensor

/-- The part of the driver state that belongs to the power and streaming
sequencer: the streaming flag, the power flag, the runtime-PM usage count and
in-use report, and the current mode. -/
def power_state (dev : Dev) : Bool × Bool × Int × Bool × Nat :=
  (dev.streaming, dev.power_on, dev.usage_count, dev.in_use, dev.cur_mode)

end Sensor

/-! ## Sensor identification -/

namespace Sensor

/-- A transport on which every transaction succeeds and a register read
returns what `mem` holds for the register address. -/
def adapter_reads (mem : Nat → Nat) : I2cAdapter :=
  { master_send := fun _ buf => (buf.length : Int), transfer := fun _ reg _ => (2, mem reg) }

end Sensor

namespace GC5603
open Sensor

/-- The constant `GC5603_REG_CHIP_ID_H`. -/
def GC5603_REG_CHIP_ID_H : Nat := 0x03F0

/-- The constant `GC5603_REG_CHIP_ID_L`. -/
def GC5603_REG_CHIP_ID_L : Nat := 0x03F1

/-- The constant `GC5603_CHIP_ID`. -/
def GC5603_CHIP_ID : Nat := 0x5603

/-- The function `gc5603_check_sensor_id`: the two ID registers are read
(`reg_H` and `reg_L` start at 0, the results of the reads are only logged), and
`-ENODEV` is returned when
`!(reg_H == (GC5603_CHIP_ID >> 8) || reg_L == (GC5603_CHIP_ID & 0xff))`. -/
def gc5603_check_sensor_id (a : I2cAdapter) (bus : Bus) : Int × Bus :=
  let rh := gc5603_read_reg a bus GC5603_REG_CHIP_ID_H 1 0
  let rl := gc5603_read_reg a rh.2.2 GC5603_REG_CHIP_ID_L 1 0
  if ¬ (rh.2.1 = GC5603_CHIP_ID >>> 8 ∨ rl.2.1 = GC5603_CHIP_ID &&& 0xff) then
    (-ENODEV_NR, rl.2.2)
  else (0, rl.2.2)

end GC5603

namespace GC8613
open Sensor

/-- The constant `CHIP_ID` of `gc8613.c`. -/
def CHIP_ID : Nat := 0x8613

/-- The constant `GC8613_REG_CHIP_ID_H`. -/
def GC8613_REG_CHIP_ID_H : Nat := 0x03f0

/-- The constant `GC8613_REG_CHIP_ID_L`. -/
def GC8613_REG_CHIP_ID_L : Nat := 0x03f1

/-- The function `gc8613_check_sensor_id`: as `gc5603_check_sensor_id`, with
the test `!(reg_H == (CHIP_ID >> 8) || reg_L == (CHIP_ID & 0xff))`. -/
def gc8613_check_sensor_id (a : I2cAdapter) (bus : Bus) : Int × Bus :=
  let rh := gc8613_read_reg a bus GC8613_REG_CHIP_ID_H 1 0
  let rl := gc8613_read_reg a rh.2.2 GC8613_REG_CHIP_ID_L 1 0
  if ¬ (rh.2.1 = CHIP_ID >>> 8 ∨ rl.2.1 = CHIP_ID &&& 0xff) then (-ENODEV_NR, rl.2.2)
  else (0, rl.2.2)

end GC8613

namespace IMX708
open Sensor

/-- The constant `CHIP_ID` of `imx708.c`. -/
def CHIP_ID : Nat := 0x0708

/-- The constant `IMX708_REG_CHIP_ID_H`. -/
def IMX708_REG_CHIP_ID_H : Nat := 0x0016

/-- The constant `IMX708_REG_CHIP_ID_L`. -/
def IMX708_REG_CHIP_ID_L : Nat := 0x0017

/-- The function `imx708_check_sensor_id`: as `gc5603_check_sensor_id`, with
the test `!(reg_H == (CHIP_ID >> 8) || reg_L == (CHIP_ID & 0xff))`. -/
def imx708_check_sensor_id (a : I2cAdapter) (bus : Bus) : Int × Bus :=
  let rh := imx708_read_reg a bus IMX708_REG_CHIP_ID_H 1 0
  let rl := imx708_read_reg a rh.2.2 IMX708_REG_CHIP_ID_L 1 0
  if ¬ (rh.2.1 = CHIP_ID >>> 8 ∨ rl.2.1 = CHIP_ID &&& 0xff) then (-ENODEV_NR, rl.2.2)
  else (0, rl.2.2)

end IMX708

namespace OV50H40
open Sensor

/-- The constant `CHIP_ID` of `ov50h40.c`. -/
def CHIP_ID : Nat := 0x564041

/-- The constant `OV50H40_REG_CHIP_ID`. -/
def OV50H40_REG_CHIP_ID : Nat := 0x300a

/-- The function `ov50h40_check_sensor_id`: skipped after a start by the boot
firmware; otherwise the 3-byte ID register is read (`id` starts at 0) and
`-ENODEV` is returned when `id != CHIP_ID`. -/
def ov50h40_check_sensor_id (a : I2cAdapter) (dev : Dev) (bus : Bus) : Int × Bus :=
  if dev.is_thunderboot then (0, bus)
  else
    let r := ov50h40_read_reg a bus OV50H40_REG_CHIP_ID 3 0
    if r.2.1 ≠ CHIP_ID then (-ENODEV_NR, r.2.2) else (0, r.2.2)

end OV50H40

namespace SC5336
open Sensor

/-- The constant `CHIP_ID` of `sc5336.c`. -/
def CHIP_ID : Nat := 0xce50

/-- The constant `SC5336_REG_CHIP_ID`. -/
def SC5336_REG_CHIP_ID : Nat := 0x3107

/-- The function `sc5336_check_sensor_id`: skipped after a start by the boot
firmware; otherwise the 2-byte ID register is read (`id` starts at 0) and
`-ENODEV` is returned when `id != CHIP_ID`. -/
def sc5336_check_sensor_id (a : I2cAdapter) (dev : Dev) (bus : Bus) : Int × Bus :=
  if dev.is_thunderboot then (0, bus)
  else
    let r := sc5336_read_reg a bus SC5336_REG_CHIP_ID 2 0
    if r.2.1 ≠ CHIP_ID then (-ENODEV_NR, r.2.2) else (0, r.2.2)

end SC5336

/-! ## gc8613: register program of the 3840x2160 mode -/

namespace GC8613
open Sensor

/-- The register list `gc8613_nolinear12bit_3840x2160_regs`, the `reg_list` of
catalog entry 0, terminator included. -/
def gc8613_nolinear12bit_3840x2160_regs : List regval :=
  [
    regval.mk 0x03fe 0xf0, regval.mk 0x03fe 0x00, regval.mk 0x03fe 0x10, regval.mk 0x0a38 0x01,
    regval.mk 0x0a20 0x19, regval.mk 0x061b 0x17, regval.mk 0x061c 0x48, regval.mk 0x061d 0x05,
    regval.mk 0x061e 0x5a, regval.mk 0x061f 0x05, regval.mk 0x0a21 0x24, regval.mk 0x0a31 0xc6,
    regval.mk 0x0a34 0x40, regval.mk 0x0a35 0x08, regval.mk 0x0a37 0x44, regval.mk 0x0314 0x50,
    regval.mk 0x0315 0x00, regval.mk 0x031c 0xce, regval.mk 0x0219 0x47, regval.mk 0x0342 0x03,
    regval.mk 0x0343 0x10, regval.mk 0x0259 0x08, regval.mk 0x025a 0x98, regval.mk 0x0340 0x08,
    regval.mk 0x0341 0xf8, regval.mk 0x0345 0x02, regval.mk 0x0347 0x02, regval.mk 0x0348 0x0f,
    regval.mk 0x0349 0x18, regval.mk 0x034a 0x08, regval.mk 0x034b 0x88, regval.mk 0x034f 0xf0,
    regval.mk 0x0094 0x0f, regval.mk 0x0095 0x00, regval.mk 0x0096 0x08, regval.mk 0x0097 0x70,
    regval.mk 0x0099 0x0c, regval.mk 0x009b 0x0c, regval.mk 0x060c 0x06, regval.mk 0x060e 0x20,
    regval.mk 0x060f 0x0f, regval.mk 0x070c 0x06, regval.mk 0x070e 0x20, regval.mk 0x070f 0x0f,
    regval.mk 0x0087 0x50, regval.mk 0x0907 0xd5, regval.mk 0x0909 0x06, regval.mk 0x0902 0x0b,
    regval.mk 0x0904 0x08, regval.mk 0x0908 0x09, regval.mk 0x0903 0xc5, regval.mk 0x090c 0x09,
    regval.mk 0x0905 0x10, regval.mk 0x0906 0x00, regval.mk 0x0724 0x2b, regval.mk 0x0727 0x2b,
    regval.mk 0x072b 0x1c, regval.mk 0x072a 0x7c, regval.mk 0x073e 0x40, regval.mk 0x0078 0x88,
    regval.mk 0x0268 0x40, regval.mk 0x0269 0x44, regval.mk 0x0351 0x54, regval.mk 0x0618 0x01,
    regval.mk 0x1466 0x45, regval.mk 0x1468 0x46, regval.mk 0x1467 0x46, regval.mk 0x0709 0x40,
    regval.mk 0x0719 0x40, regval.mk 0x1469 0xf0, regval.mk 0x146a 0xd0, regval.mk 0x146b 0x03,
    regval.mk 0x1480 0x07, regval.mk 0x1481 0x80, regval.mk 0x1484 0x0b, regval.mk 0x1485 0xc0,
    regval.mk 0x1430 0x80, regval.mk 0x1407 0x10, regval.mk 0x1408 0x16, regval.mk 0x1409 0x03,
    regval.mk 0x1434 0x04, regval.mk 0x1447 0x75, regval.mk 0x1470 0x10, regval.mk 0x1471 0x13,
    regval.mk 0x0122 0x0b, regval.mk 0x0123 0x30, regval.mk 0x0124 0x04, regval.mk 0x0125 0x30,
    regval.mk 0x0126 0x0f, regval.mk 0x0127 0x15, regval.mk 0x0128 0xa8, regval.mk 0x0129 0x0c,
    regval.mk 0x012a 0x18, regval.mk 0x012b 0x18, regval.mk 0x1438 0x00, regval.mk 0x143a 0x00,
    regval.mk 0x024b 0x02, regval.mk 0x0245 0xc7, regval.mk 0x025b 0x07, regval.mk 0x02bb 0x77,
    regval.mk 0x0612 0x01, regval.mk 0x0613 0x26, regval.mk 0x0243 0x66, regval.mk 0x0087 0x53,
    regval.mk 0x0053 0x05, regval.mk 0x0089 0x00, regval.mk 0x0002 0xeb, regval.mk 0x005a 0x0c,
    regval.mk 0x0040 0x83, regval.mk 0x0075 0x68, regval.mk 0x0205 0x0c, regval.mk 0x0202 0x03,
    regval.mk 0x0203 0x27, regval.mk 0x061a 0x02, regval.mk 0x0213 0x64, regval.mk 0x0265 0x01,
    regval.mk 0x0618 0x05, regval.mk 0x026e 0x74, regval.mk 0x0270 0x02, regval.mk 0x0709 0x00,
    regval.mk 0x0719 0x00, regval.mk 0x0812 0xdb, regval.mk 0x0822 0x0f, regval.mk 0x0821 0x18,
    regval.mk 0x0002 0xef, regval.mk 0x0813 0xfb, regval.mk 0x0070 0x88, regval.mk 0x03fe 0x00,
    regval.mk 0x0106 0x78, regval.mk 0x0136 0x00, regval.mk 0x0181 0xf0, regval.mk 0x0185 0x01,
    regval.mk 0x0180 0x46, regval.mk 0x0106 0x38, regval.mk 0x010d 0x80, regval.mk 0x010e 0x16,
    regval.mk 0x0111 0x2c, regval.mk 0x0112 0x02, regval.mk 0x0114 0x03, regval.mk 0x0100 0x09,
    regval.mk 0x79cf 0x01, regval.mk 0x0219 0x47, regval.mk 0x0054 0x98, regval.mk 0x0076 0x01,
    regval.mk 0x0052 0x02, regval.mk 0x021a 0x10, regval.mk 0x0430 0x05, regval.mk 0x0431 0x05,
    regval.mk 0x0432 0x05, regval.mk 0x0433 0x05, regval.mk 0x0434 0x70, regval.mk 0x0435 0x70,
    regval.mk 0x0436 0x70, regval.mk 0x0437 0x70, regval.mk 0x0004 0x0f, regval.mk 0x0704 0x03,
    regval.mk 0x071d 0xdc, regval.mk 0x071e 0x05, regval.mk 0x0706 0x02, regval.mk 0x0716 0x02,
    regval.mk 0x0708 0xc8, regval.mk 0x0718 0xc8, regval.mk 0x071d 0xdc, regval.mk 0x071e 0x05,
    regval.mk 0x1469 0x80, regval.mk 0x031f 0x01, regval.mk 0x031f 0x00, regval.mk 0x0a67 0x80,
    regval.mk 0x0a54 0x0e, regval.mk 0x0a65 0x10, regval.mk 0x0a98 0x04, regval.mk 0x05be 0x00,
    regval.mk 0x05a9 0x01, regval.mk 0x0089 0x02, regval.mk 0x0aa0 0x00, regval.mk 0x0023 0x00,
    regval.mk 0x0022 0x00, regval.mk 0x0025 0x00, regval.mk 0x0024 0x00, regval.mk 0x0028 0x0f,
    regval.mk 0x0029 0x18, regval.mk 0x002a 0x08, regval.mk 0x002b 0x88, regval.mk 0x0317 0x1c,
    regval.mk 0x0a70 0x03, regval.mk 0x0a82 0x00, regval.mk 0x0a83 0xe0, regval.mk 0x0a71 0x00,
    regval.mk 0x0a72 0x02, regval.mk 0x0a73 0x60, regval.mk 0x0a75 0x41, regval.mk 0x0a70 0x03,
    regval.mk 0x0a5a 0x80, regval.mk REG_DELAY 0x14, regval.mk 0x0089 0x00, regval.mk 0x05be 0x01,
    regval.mk 0x0a70 0x00, regval.mk 0x0080 0x02, regval.mk 0x0a67 0x00, regval.mk 0x024b 0x02,
    regval.mk 0x0220 0x80, regval.mk 0x0058 0x00, regval.mk 0x0059 0x04, regval.mk REG_NULL 0x00 ]

end GC8613

/-! ## Settle delay -/

namespace Sensor

/-- Modelled from the spec: the kernel macro `DIV_ROUND_UP` is declared in
`include/linux/kernel.h`, which is not part of the sources at hand.  The spec
gives the delay as `ceil(cycles / (xvclk_hz / 1_000_000))`; the macro computes
it as `((n) + (d) - 1) / (d)`, here on a `u32` dividend, so in `u32`
arithmetic. -/
def DIV_ROUND_UP (n d : Nat) : Nat := u32_sub (u32_add n d) 1 / d

end Sensor

namespace GC5603
open Sensor

/-- The constant `GC5603_XVCLK_FREQ_24M`. -/
def GC5603_XVCLK_FREQ_24M : Nat := 24000000

/-- The function `gc5603_cal_delay` (`cycles` is a `u32`). -/
def gc5603_cal_delay (cycles : Nat) : Nat :=
  DIV_ROUND_UP cycles (GC5603_XVCLK_FREQ_24M / 1000 / 1000)

end GC5603

namespace GC8613
open Sensor

/-- The constant `GC8613_XVCLK_FREQ`. -/
def GC8613_XVCLK_FREQ : Nat := 24000000

/-- The function `gc8613_cal_delay` (`cycles` is a `u32`). -/
def gc8613_cal_delay (cycles : Nat) : Nat :=
  DIV_ROUND_UP cycles (GC8613_XVCLK_FREQ / 1000 / 1000)

end GC8613

namespace IMX708
open Sensor

/-- The constant `IMX708_XVCLK_FREQ`. -/
def IMX708_XVCLK_FREQ : Nat := 24000000

/-- The function `imx708_cal_delay` (`cycles` is a `u32`). -/
def imx708_cal_delay (cycles : Nat) : Nat :=
  DIV_ROUND_UP cycles (IMX708_XVCLK_FREQ / 1000 / 1000)

end IMX708

namespace OV50H40
open Sensor

/-- The constant `OV50H40_XVCLK_FREQ`. -/
def OV50H40_XVCLK_FREQ : Nat := 19200000

/-- The function `ov50h40_cal_delay` (`cycles` is a `u32`). -/
def ov50h40_cal_delay (cycles : Nat) : Nat :=
  DIV_ROUND_UP cycles (OV50H40_XVCLK_FREQ / 1000 / 1000)

end OV50H40

namespace SC5336
open Sensor

/-- The constant `SC5336_XVCLK_FREQ`. -/
def SC5336_XVCLK_FREQ : Nat := 24000000

/-- The function `sc5336_cal_delay` (`cycles` is a `u32`). -/
def sc5336_cal_delay (cycles : Nat) : Nat :=
  DIV_ROUND_UP cycles (SC5336_XVCLK_FREQ / 1000 / 1000)

end SC5336

/-! ## Power sequencer -/

namespace Sensor

/-- An action of the power sequencer on an external resource: the pin
controller, the clock `xvclk`, the reset and power-down GPIOs (with the value
handed over) and the bulk of regulators. -/
inductive PwrOp where
  | pinctrl_select_default
  | pinctrl_select_sleep
  | clk_set_rate (hz : Nat)
  | clk_prepare_enable
  | clk_disable_unprepare
  | reset_gpio (value : Nat)
  | pwdn_gpio (value : Nat)
  | regulator_bulk_enable
  | regulator_bulk_disable
deriving Repr, DecidableEq

/-- The actions of the power sequencer so far, in order. -/
abbrev PwrLog := List PwrOp

/-- The optional resources `probe` obtained: whether `reset_gpio` and
`pwdn_gpio` are valid (`!IS_ERR(…)`) and whether the pin states
`pins_default` and `pins_sleep` exist (`!IS_ERR_OR_NULL(…)`). -/
structure Board where
  reset_gpio : Bool := true
  pwdn_gpio : Bool := true
  pins_default : Bool := true
  pins_sleep : Bool := true
deriving Repr, DecidableEq

end Sensor

namespace OV50H40
open Sensor

/-- The function `__ov50h40_power_on` (`clk_ret` and `reg_ret` are what
`clk_prepare_enable` and `regulator_bulk_enable` return; the sleeps are left
out): the value returned and the actions taken.  Nothing is done after a start
by the boot firmware. -/
def __ov50h40_power_on (board : Board) (clk_ret reg_ret : Int) (dev : Dev) (log : PwrLog) :
    Int × PwrLog :=
  if dev.is_thunderboot then (0, log)
  else
    let l1 := if board.pins_default then log ++ [PwrOp.pinctrl_select_default] else log
    let l2 := l1 ++ [PwrOp.clk_set_rate OV50H40_XVCLK_FREQ, PwrOp.clk_prepare_enable]
    if clk_ret < 0 then (clk_ret, l2)
    else
      let l3 := if board.reset_gpio then l2 ++ [PwrOp.reset_gpio 1] else l2
      let l4 := l3 ++ [PwrOp.regulator_bulk_enable]
      if reg_ret < 0 then (reg_ret, l4 ++ [PwrOp.clk_disable_unprepare])
      else
        let l5 := if board.reset_gpio then l4 ++ [PwrOp.reset_gpio 0] else l4
        let l6 := if board.pwdn_gpio then l5 ++ [PwrOp.pwdn_gpio 0] else l5
        (0, l6)

/-- The function `__ov50h40_power_off`: after a start by the boot firmware the
sequence is skipped until the first stream-off was seen, and then both flags
are cleared; the sequence ends with the regulators disabled. -/
def __ov50h40_power_off (board : Board) (dev : Dev) (log : PwrLog) : Dev × PwrLog :=
  if dev.is_thunderboot ∧ ¬ dev.is_first_streamoff then (dev, log)
  else
    let dev1 : Dev :=
      if dev.is_thunderboot then { dev with is_thunderboot := false, is_first_streamoff := false }
      else dev
    let l1 := if board.pwdn_gpio then log ++ [PwrOp.pwdn_gpio 1] else log
    let l2 := l1 ++ [PwrOp.clk_disable_unprepare]
    let l3 := if board.reset_gpio then l2 ++ [PwrOp.reset_gpio 1] else l2
    let l4 := if board.pins_sleep then l3 ++ [PwrOp.pinctrl_select_sleep] else l3
    ({ dev1 with is_thunderboot_ng := false }, l4 ++ [PwrOp.regulator_bulk_disable])

end OV50H40

namespace SC5336
open Sensor

/-- The function `__sc5336_power_on` (`clk_ret` and `reg_ret` are what
`clk_prepare_enable` and `regulator_bulk_enable` return; the sleeps are left
out): the value returned and the actions taken.  After a start by the boot
firmware only the clock is enabled. -/
def __sc5336_power_on (board : Board) (clk_ret reg_ret : Int) (dev : Dev) (log : PwrLog) :
    Int × PwrLog :=
  let l1 := if board.pins_default then log ++ [PwrOp.pinctrl_select_default] else log
  let l2 := l1 ++ [PwrOp.clk_set_rate SC5336_XVCLK_FREQ, PwrOp.clk_prepare_enable]
  if clk_ret < 0 then (clk_ret, l2)
  else if dev.is_thunderboot then (0, l2)
  else
    let l3 := if board.reset_gpio then l2 ++ [PwrOp.reset_gpio 0] else l2
    let l4 := l3 ++ [PwrOp.regulator_bulk_enable]
    if reg_ret < 0 then (reg_ret, l4 ++ [PwrOp.clk_disable_unprepare])
    else
      let l5 := if board.reset_gpio then l4 ++ [PwrOp.reset_gpio 1] else l4
      let l6 := if board.pwdn_gpio then l5 ++ [PwrOp.pwdn_gpio 1] else l5
      (0, l6)

/-- The function `__sc5336_power_off`: the clock is disabled first; after a
start by the boot firmware the rest of the sequence is skipped until the first
stream-off was seen, and then both flags are cleared; the sequence ends with
the regulators disabled. -/
def __sc5336_power_off (board : Board) (dev : Dev) (log : PwrLog) : Dev × PwrLog :=
  let l0 := log ++ [PwrOp.clk_disable_unprepare]
  if dev.is_thunderboot ∧ ¬ dev.is_first_streamoff then (dev, l0)
  else
    let dev1 : Dev :=
      if dev.is_thunderboot then { dev with is_thunderboot := false, is_first_streamoff := false }
      else dev
    let l1 := if board.pwdn_gpio then l0 ++ [PwrOp.pwdn_gpio 0] else l0
    let l2 := if board.reset_gpio then l1 ++ [PwrOp.reset_gpio 0] else l1
    let l3 := if board.pins_sleep then l2 ++ [PwrOp.pinctrl_select_sleep] else l2
    (dev1, l3 ++ [PwrOp.regulator_bulk_disable])

end SC5336

/-! ## ov50h40: gain range -/

namespace OV50H40

/-- The constant `OV50H40_GAIN_MIN`. -/
def OV50H40_GAIN_MIN : Nat := 0x80

/-- The constant `OV50H40_GAIN_MAX`. -/
def OV50H40_GAIN_MAX : Nat := 0x7C00

end OV50H40

/-! ## Exposure control creation -/

namespace Sensor

/-- A control is well-formed when its default lies within its range:
`minimum <= default_value <= maximum`. -/
def ctrl_well_formed (c : v4l2_ctrl) : Bool :=
  decide (c.minimum ≤ c.default_value) && decide (c.default_value ≤ c.maximum)

end Sensor

namespace GC5603
open Sensor

/-- The constant `GC5603_EXPOSURE_MIN`. -/
def GC5603_EXPOSURE_MIN : Nat := 1

/-- The constant `GC5603_EXPOSURE_STEP`. -/
def GC5603_EXPOSURE_STEP : Nat := 1

/-- The exposure control `gc5603_initialize_controls` creates for the current
mode `mode`: `exposure_max = mode->vts_def - 4` (a `u32` expression stored in
an `s64`), default `mode->exp_def`. -/
def gc5603_new_exposure (mode : Mode) : v4l2_ctrl :=
  v4l2_ctrl_new_std GC5603_EXPOSURE_MIN (u32_sub mode.vts_def 4 : Nat) GC5603_EXPOSURE_STEP
    mode.exp_def

end GC5603

namespace GC8613
open Sensor

/-- The exposure control `gc8613_initialize_controls` creates for the current
mode `mode`: `exposure_max = mode->vts_def - 8`, default `mode->exp_def`. -/
def gc8613_new_exposure (mode : Mode) : v4l2_ctrl :=
  v4l2_ctrl_new_std GC8613_EXPOSURE_MIN (u32_sub mode.vts_def 8 : Nat) GC8613_EXPOSURE_STEP
    mode.exp_def

end GC8613

namespace IMX708
open Sensor

/-- The constant `IMX708_EXPOSURE_MIN`. -/
def IMX708_EXPOSURE_MIN : Nat := 1

/-- The constant `IMX708_EXPOSURE_STEP`. -/
def IMX708_EXPOSURE_STEP : Nat := 1

/-- The exposure control `imx708_initialize_controls` creates for the current
mode `mode`: `exposure_max = mode->vts_def - 4`, default `mode->exp_def`. -/
def imx708_new_exposure (mode : Mode) : v4l2_ctrl :=
  v4l2_ctrl_new_std IMX708_EXPOSURE_MIN (u32_sub mode.vts_def 4 : Nat) IMX708_EXPOSURE_STEP
    mode.exp_def

end IMX708

namespace OV50H40
open Sensor

/-- The constant `OV50H40_EXPOSURE_MIN`. -/
def OV50H40_EXPOSURE_MIN : Nat := 4

/-- The constant `OV50H40_EXPOSURE_STEP`. -/
def OV50H40_EXPOSURE_STEP : Nat := 1

/-- The exposure control `ov50h40_initialize_controls` creates for the current
mode `mode`: `exposure_max = mode->vts_def - 44` when the height is 6144 and
`mode->vts_def - 22` otherwise, default `mode->exp_def`. -/
def ov50h40_new_exposure (mode : Mode) : v4l2_ctrl :=
  let exposure_max : Nat :=
    if mode.height = 6144 then u32_sub mode.vts_def 44 else u32_sub mode.vts_def 22
  v4l2_ctrl_new_std OV50H40_EXPOSURE_MIN exposure_max OV50H40_EXPOSURE_STEP mode.exp_def

end OV50H40

namespace SC5336
open Sensor

/-- The constant `SC5336_EXPOSURE_MIN`. -/
def SC5336_EXPOSURE_MIN : Nat := 2

/-- The constant `SC5336_EXPOSURE_STEP`. -/
def SC5336_EXPOSURE_STEP : Nat := 1

/-- The exposure control `sc5336_initialize_controls` creates for the current
mode `mode`: `exposure_max = mode->vts_def - 8`, default `mode->exp_def`. -/
def sc5336_new_exposure (mode : Mode) : v4l2_ctrl :=
  v4l2_ctrl_new_std SC5336_EXPOSURE_MIN (u32_sub mode.vts_def 8 : Nat) SC5336_EXPOSURE_STEP
    mode.exp_def

end SC5336

/-! ## sc5336: gain multipliers -/

namespace SC5336

/-- The analog multiplier selected by `coarse_again`, in the words of the
specification of the gain staging: `0x00:1, 0x08:2, 0x09:4, 0x0b:8, 0x0f:16,
0x1f:32` (any other code counts as 0). -/
def spec_again_mult (coarse_again : Nat) : Nat :=
  if coarse_again = 0x00 then 1
  else if coarse_again = 0x08 then 2
  else if coarse_again = 0x09 then 4
  else if coarse_again = 0x0b then 8
  else if coarse_again = 0x0f then 16
  else if coarse_again = 0x1f then 32
  else 0

/-- The digital multiplier selected by `coarse_dgain`, in the words of the
specification of the gain staging: `0x00:1, 0x01:2, 0x03:4, 0x07:8` (any other code
counts as 0). -/
def spec_dgain_mult (coarse_dgain : Nat) : Nat :=
  if coarse_dgain = 0x00 then 1
  else if coarse_dgain = 0x01 then 2
  else if coarse_dgain = 0x03 then 4
  else if coarse_dgain = 0x07 then 8
  else 0

/-- The clamp of `sc5336_set_gain_reg`: `gain` brought into
`[32, SC5336_GAIN_MAX]`. -/
def sc5336_gain_clamp (gain : Nat) : Nat :=
  if gain < 32 then 32 else if gain > SC5336_GAIN_MAX then SC5336_GAIN_MAX else gain

end SC5336

/-! ## imx708: analogue gain clamp -/

namespace IMX708

/-- The clamp of `V4L2_CID_ANALOGUE_GAIN` in `imx708_set_ctrl`:
`if (ctrl->val > 0x400) ctrl->val = 0x400; if (ctrl->val < 0x10) ctrl->val = 0x10;`. -/
def imx708_gain_clamp (val : Int) : Int :=
  let v1 := if val > 0x400 then 0x400 else val
  if v1 < 0x10 then 0x10 else v1

end IMX708

/-! ## imx708: mode selection -/

namespace IMX708
open Sensor

/-- The mode selection of `imx708_probe`: `cfg_num` is
`ARRAY_SIZE(supported_modes)`; `hdr_mode` is the devicetree value, `NO_HDR`
when the property cannot be read (`Option.none`); the first catalog entry with
that `hdr_mode` becomes current, and entry 0 when the loop ends without a
match.  The other fields of the driver state are left as they are. -/
def imx708_probe_mode (dev : Dev) (hdr_mode : Option Nat) : Dev :=
  let hdr := match hdr_mode with
    | some h => h
    | Option.none => NO_HDR
  let cfg_num := supported_modes.length
  let cur := match (List.range cfg_num).find? (fun i =>
      decide (hdr = (supported_modes.getD i Mode.none).hdr_mode)) with
    | some i => i
    | Option.none => 0
  { dev with cfg_num := cfg_num, cur_mode := cur }

/-- The calls on a probed imx708 that are followed here: `imx708_set_fmt` with
any `which` and frame format, and `imx708_ioctl` with any command. -/
inductive ModeOp where
  | set_fmt (which : v4l2_subdev_format_whence) (framefmt : v4l2_mbus_framefmt)
  | ioctl (cmd : IoctlCmd)
deriving Repr, DecidableEq

/-- One call on the driver state and the bus. -/
def imx708_step (a : I2cAdapter) (link_freq_400 : Nat) (st : Dev × Bus) (op : ModeOp) :
    Dev × Bus :=
  match op with
  | ModeOp.set_fmt which framefmt => (imx708_set_fmt st.1 which framefmt, st.2)
  | ModeOp.ioctl cmd => (imx708_ioctl a link_freq_400 st.1 st.2 cmd).2

/-- A sequence of calls, in order. -/
def imx708_run (a : I2cAdapter) (link_freq_400 : Nat) (st : Dev × Bus) (ops : List ModeOp) :
    Dev × Bus :=
  ops.foldl (imx708_step a link_freq_400) st

end IMX708

/-! ## Agreement up to the power flag -/

namespace Sensor

/-- Two results `(ret, dev, bus)` of a driver function agree up to the power
flag: same value returned, same bus, and the first state is the second with
`power_on` set to `b`. -/
def same_up_to_power (b : Bool) (r1 r2 : Int × Dev × Bus) : Prop :=
  r1.1 = r2.1 ∧ r1.2.1 = { r2.2.1 with power_on := b } ∧ r1.2.2 = r2.2.2

end Sensor

/-! ## Sample transports -/

namespace Sensor

/-- A transport on which every transaction succeeds: `i2c_master_send` returns
the number of bytes handed over, `i2c_transfer` returns 2 and the bytes read
are 0. -/
def adapter_ok : I2cAdapter :=
  { master_send := fun _ buf => (buf.length : Int), transfer := fun _ _ _ => (2, 0) }

/-- A transport on which every transaction fails with `-EIO`. -/
def adapter_down : I2cAdapter :=
  { master_send := fun _ _ => -EIO_NR, transfer := fun _ _ _ => (-EIO_NR, 0) }

/-- A transport on which the transaction number `k` (counted from 0) fails
with `-EIO` and every other one succeeds. -/
def adapter_fail_at (k : Nat) : I2cAdapter :=
  { master_send := fun n buf => if n = k then -EIO_NR else (buf.length : Int),
    transfer := fun n _ _ => if n = k then (-EIO_NR, 0) else (2, 0) }

end Sensor

/-! ## Sample driver states -/

namespace GC5603
open Sensor

/-- A gc5603 driver state: the only catalog entry is current and the exposure
control has the range `[GC5603_EXPOSURE_MIN, vts_def - 4]` and default
`exp_def` that `gc5603_initialize_controls` gives it. -/
def dev_sample : Dev :=
  { cur_mode := 0, cfg_num := 1, lane_num := 2,
    exposure := { minimum := 1, maximum := 0x06D6 - 4, step := 1,
                  default_value := 0x6ce, val := 0x6ce } }

end GC5603

namespace GC8613
open Sensor

/-- A gc8613 driver state: catalog entry 1 (1920x1080) is current, the device
is in use, and the exposure control has minimum `GC8613_EXPOSURE_MIN`, step
`GC8613_EXPOSURE_STEP` and default `exp_def` of that entry. -/
def dev_sample : Dev :=
  { cur_mode := 1, cfg_num := 2, in_use := true,
    exposure := { minimum := 1, maximum := 0x05fc - 8, step := 1,
                  default_value := 0x0127, val := 0x0127 } }

end GC8613

namespace SC5336
open Sensor

/-- A sc5336 driver state: the only catalog entry is current and the exposure
control has the range `[SC5336_EXPOSURE_MIN, vts_def - 8]` and default
`exp_def` that `sc5336_initialize_controls` gives it. -/
def dev_sample : Dev :=
  { cur_mode := 0, cfg_num := 1,
    exposure := { minimum := 2, maximum := 0x0708 - 8, step := 1,
                  default_value := 0x0080 * 4, val := 0x0080 * 4 } }

end SC5336

namespace OV50H40
open Sensor

/-- An ov50h40 driver state on a D-PHY bus with four data lanes: entry 0 of
`supported_modes_dphy` is current and the exposure control has the range
`[OV50H40_EXPOSURE_MIN, vts_def - 22]` and default `exp_def` of that entry. -/
def dev_sample_dphy : Dev :=
  { cur_mode := 0, cfg_num := 2, support_modes := supported_modes_dphy, lane_num := 4,
    exposure := { minimum := 4, maximum := 0x0c66 - 22, step := 1,
                  default_value := 0x0840, val := 0x0840 } }

/-- An ov50h40 driver state on a C-PHY bus with three data lanes: entry 0 of
`supported_modes_cphy` is current, as `ov50h40_probe` selects it, and the
exposure control has the range `[OV50H40_EXPOSURE_MIN, vts_def - 22]` and
default `exp_def` that `ov50h40_initialize_controls` asks for. -/
def dev_sample_cphy : Dev :=
  { cur_mode := 0, cfg_num := 3, support_modes := supported_modes_cphy, lane_num := 3,
    exposure := { minimum := 4, maximum := 0x08e0 - 22, step := 1,
                  default_value := 0x0C00, val := 0x0C00 } }

end OV50H40

namespace GC5603
open Sensor

/-- The gc5603 driver state after probe: `dev_sample` with the vblank, gain and
flip controls as `gc5603_initialize_controls` creates them for the only catalog
entry. -/
def dev_probed : Dev :=
  { dev_sample with
    vblank := v4l2_ctrl_new_std (0x06D6 - 1666) (0x7fff - 1666) 1 (0x06D6 - 1666),
    anal_gain := v4l2_ctrl_new_std 64 0xffff 1 64,
    h_flip := v4l2_ctrl_new_std 0 1 1 0,
    v_flip := v4l2_ctrl_new_std 0 1 1 0 }

end GC5603

namespace OV50H40
open Sensor

/-- The ov50h40 driver state after probe on a D-PHY bus: `dev_sample_dphy`
with the vblank, gain, test-pattern and flip controls as
`ov50h40_initialize_controls` creates them for entry 0. -/
def dev_probed_dphy : Dev :=
  { dev_sample_dphy with
    vblank := v4l2_ctrl_new_std (0x0c66 - 3072) (0xffff - 3072) 1 (0x0c66 - 3072),
    anal_gain := v4l2_ctrl_new_std 0x80 0x7C00 1 0x80,
    test_pattern := v4l2_ctrl_new_menu 4 0,
    h_flip := v4l2_ctrl_new_std 0 1 1 0,
    v_flip := v4l2_ctrl_new_std 0 1 1 0 }

end OV50H40

namespace IMX708
open Sensor

/-- An imx708 driver state: catalog entry 0 is current and the device is in
use; the controls are left at their zero values. -/
def dev_sample : Dev :=
  { cur_mode := 0, cfg_num := 4, in_use := true }

end IMX708

/-! # Theorems -/

namespace Sensor

/-- For operands below `2 ^ 31` the kernel `abs` of a `u32` difference is the
absolute value of the integer difference. -/
theorem abs_u32_sub (a b : Nat) (ha : a < 2 ^ 31) (hb : b < 2 ^ 31) :
    Sensor.abs (u32_sub a b) = |(a : Int) - (b : Int)| := by
  unfold Sensor.abs u32_sub toS32 wrapS32 toS32 U32_MOD
  rcases abs_cases ((a : Int) - (b : Int)) with ⟨h1, h2⟩ | ⟨h1, h2⟩ <;> rw [h1] <;>
    simp only [] <;> split_ifs <;> omega

/-- For 16-bit sizes `get_reso_dist` is the distance of the spec. -/
theorem get_reso_dist_eq (m : Mode) (f : v4l2_mbus_framefmt)
    (h1 : m.width < 2 ^ 16) (h2 : m.height < 2 ^ 16)
    (h3 : f.width < 2 ^ 16) (h4 : f.height < 2 ^ 16) :
    get_reso_dist m f = spec_dist m f.width f.height := by
  unfold get_reso_dist spec_dist
  rw [abs_u32_sub _ _ (by omega) (by omega), abs_u32_sub _ _ (by omega) (by omega)]
  unfold wrapS32 toS32 U32_MOD
  rcases abs_cases ((m.width : Int) - (f.width : Int)) with ⟨e1, e2⟩ | ⟨e1, e2⟩ <;>
  rcases abs_cases ((m.height : Int) - (f.height : Int)) with ⟨e3, e4⟩ | ⟨e3, e4⟩ <;>
    rw [e1, e3] <;> split_ifs <;> omega

theorem spec_dist_nonneg (m : Mode) (w h : Nat) : 0 ≤ spec_dist m w h := by
  unfold spec_dist
  positivity

/-- The strict-comparison scan keeps the first index of minimal distance. -/
theorem best_fit_fold (d : Nat → Int) (k : Nat) (hd : ∀ i, i < k + 1 → 0 ≤ d i) :
    ∃ b, b < k + 1 ∧
      (List.range (k + 1)).foldl (fun st i => best_fit_step (d i) i st) ((0 : Int), (-1 : Int))
        = ((b : Int), d b) ∧
      (∀ j, j < k + 1 → d b ≤ d j) ∧ (∀ j, j < b → d b < d j) := by
  induction k with
  | zero =>
    refine ⟨0, by omega, ?_, ?_, ?_⟩
    · simp [List.range_succ, best_fit_step]
    · intro j hj
      have : j = 0 := by omega
      subst this; exact le_refl _
    · intro j hj; omega
  | succ k ih =>
    obtain ⟨b, hb, hfold, hmin, hfirst⟩ := ih (fun i hi => hd i (by omega))
    rw [List.range_succ, List.foldl_append, hfold]
    have hb0 : 0 ≤ d b := hd b (by omega)
    by_cases hlt : d (k + 1) < d b
    · refine ⟨k + 1, by omega, ?_, ?_, ?_⟩
      · simp [best_fit_step, hlt]
      · intro j hj
        by_cases hjk : j < k + 1
        · have := hmin j hjk; omega
        · have : j = k + 1 := by omega
          subst this; exact le_refl _
      · intro j hj
        have := hmin j hj; omega
    · refine ⟨b, by omega, ?_, ?_, hfirst⟩
      · have hne : d b ≠ -1 := by omega
        simp [best_fit_step, hlt, hne]
      · intro j hj
        by_cases hjk : j < k + 1
        · exact hmin j hjk
        · have : j = k + 1 := by omega
          subst this; omega

/-- The scan of `imx708_find_best_fit` / `gc8613_find_best_fit` over a whole
catalog of 16-bit sizes, for a 16-bit request: the index found is inside the
catalog, of minimal spec distance, and the lowest such index. -/
theorem best_fit_scan_spec (modes : List Mode) (f : v4l2_mbus_framefmt)
    (hne : 0 < modes.length)
    (hdim : ∀ m, m ∈ modes → m.width < 2 ^ 16 ∧ m.height < 2 ^ 16)
    (hw : f.width < 2 ^ 16) (hh : f.height < 2 ^ 16) :
    ∃ b, b < modes.length ∧
      ((List.range modes.length).foldl
        (fun st i => best_fit_step (get_reso_dist (modes.getD i Mode.none) f) i st)
        ((0 : Int), (-1 : Int))).1.toNat = b ∧
      (∀ j, j < modes.length →
        spec_dist (modes.getD b Mode.none) f.width f.height
          ≤ spec_dist (modes.getD j Mode.none) f.width f.height) ∧
      (∀ j, j < b →
        spec_dist (modes.getD b Mode.none) f.width f.height
          < spec_dist (modes.getD j Mode.none) f.width f.height) := by
  obtain ⟨k, hk⟩ : ∃ k, modes.length = k + 1 := ⟨modes.length - 1, by omega⟩
  have hget : ∀ i, i < modes.length →
      get_reso_dist (modes.getD i Mode.none) f
        = spec_dist (modes.getD i Mode.none) f.width f.height := by
    intro i hi
    have hmem : modes.getD i Mode.none ∈ modes := by
      rw [List.getD_eq_getElem _ _ hi]
      exact List.getElem_mem _
    exact get_reso_dist_eq _ _ (hdim _ hmem).1 (hdim _ hmem).2 hw hh
  obtain ⟨b, hb, hfold, hmin, hfirst⟩ :=
    best_fit_fold (fun i => get_reso_dist (modes.getD i Mode.none) f) k
      (fun i hi => by
        show 0 ≤ get_reso_dist (modes.getD i Mode.none) f
        rw [hget i (by omega)]; exact spec_dist_nonneg _ _ _)
  refine ⟨b, by omega, ?_, ?_, ?_⟩
  · rw [hk, hfold]; simp
  · intro j hj
    have h1 := hmin j (by omega)
    simp only [] at h1
    rw [hget b (by omega), hget j hj] at h1
    exact h1
  · intro j hj
    have h1 := hfirst j hj
    simp only [] at h1
    rw [hget b (by omega), hget j (by omega)] at h1
    exact h1

end Sensor

/-- C1: `imx708_find_best_fit` and `gc8613_find_best_fit`, run over their whole
catalogs for a request of width and height below `2 ^ 16` and any format code,
return the catalog entry of minimal distance
`|mode.width - w| + |mode.height - h|`, and among the entries of minimal
distance the one of lowest index. -/
theorem C1_find_best_fit_minimal_first (w h code : Nat) (hw : w < 2 ^ 16) (hh : h < 2 ^ 16) :
    (IMX708.supported_modes[IMX708.imx708_find_best_fit_idx IMX708.supported_modes.length ⟨w, h, code⟩]?
        = some (IMX708.imx708_find_best_fit IMX708.supported_modes.length ⟨w, h, code⟩) ∧
      ∀ j m, IMX708.supported_modes[j]? = some m →
        Sensor.spec_dist (IMX708.imx708_find_best_fit IMX708.supported_modes.length ⟨w, h, code⟩) w h
            ≤ Sensor.spec_dist m w h ∧
        (Sensor.spec_dist m w h
            = Sensor.spec_dist (IMX708.imx708_find_best_fit IMX708.supported_modes.length ⟨w, h, code⟩) w h →
          IMX708.imx708_find_best_fit_idx IMX708.supported_modes.length ⟨w, h, code⟩ ≤ j)) ∧
    (GC8613.supported_modes[GC8613.gc8613_find_best_fit_idx GC8613.supported_modes.length ⟨w, h, code⟩]?
        = some (GC8613.gc8613_find_best_fit GC8613.supported_modes.length ⟨w, h, code⟩) ∧
      ∀ j m, GC8613.supported_modes[j]? = some m →
        Sensor.spec_dist (GC8613.gc8613_find_best_fit GC8613.supported_modes.length ⟨w, h, code⟩) w h
            ≤ Sensor.spec_dist m w h ∧
        (Sensor.spec_dist m w h
            = Sensor.spec_dist (GC8613.gc8613_find_best_fit GC8613.supported_modes.length ⟨w, h, code⟩) w h →
          GC8613.gc8613_find_best_fit_idx GC8613.supported_modes.length ⟨w, h, code⟩ ≤ j)) := by
  constructor
  · obtain ⟨b, hb, hidx, hmin, hfirst⟩ :=
      Sensor.best_fit_scan_spec IMX708.supported_modes ⟨w, h, code⟩ (by decide)
        (by decide) hw hh
    have hi : IMX708.imx708_find_best_fit_idx IMX708.supported_modes.length ⟨w, h, code⟩ = b := hidx
    have hm : IMX708.imx708_find_best_fit IMX708.supported_modes.length ⟨w, h, code⟩
        = IMX708.supported_modes.getD b Sensor.Mode.none := by
      unfold IMX708.imx708_find_best_fit; rw [hi]
    rw [hi, hm]
    refine ⟨?_, ?_⟩
    · rw [List.getD_eq_getElem _ _ hb]; exact List.getElem?_eq_getElem hb
    · intro j m hjm
      have hj : j < IMX708.supported_modes.length := by
        by_contra hcon
        rw [List.getElem?_eq_none (by omega)] at hjm
        exact Option.noConfusion hjm
      have hmj : IMX708.supported_modes.getD j Sensor.Mode.none = m := by
        rw [List.getD_eq_getElem?_getD, hjm]; rfl
      have h1 := hmin j hj
      rw [hmj] at h1
      refine ⟨h1, fun heq => ?_⟩
      by_contra hcon
      have h2 := hfirst j (by omega)
      rw [hmj] at h2
      simp only [] at h1 h2 heq
      omega
  · obtain ⟨b, hb, hidx, hmin, hfirst⟩ :=
      Sensor.best_fit_scan_spec GC8613.supported_modes ⟨w, h, code⟩ (by decide)
        (by decide) hw hh
    have hi : GC8613.gc8613_find_best_fit_idx GC8613.supported_modes.length ⟨w, h, code⟩ = b := hidx
    have hm : GC8613.gc8613_find_best_fit GC8613.supported_modes.length ⟨w, h, code⟩
        = GC8613.supported_modes.getD b Sensor.Mode.none := by
      unfold GC8613.gc8613_find_best_fit; rw [hi]
    rw [hi, hm]
    refine ⟨?_, ?_⟩
    · rw [List.getD_eq_getElem _ _ hb]; exact List.getElem?_eq_getElem hb
    · intro j m hjm
      have hj : j < GC8613.supported_modes.length := by
        by_contra hcon
        rw [List.getElem?_eq_none (by omega)] at hjm
        exact Option.noConfusion hjm
      have hmj : GC8613.supported_modes.getD j Sensor.Mode.none = m := by
        rw [List.getD_eq_getElem?_getD, hjm]; rfl
      have h1 := hmin j hj
      rw [hmj] at h1
      refine ⟨h1, fun heq => ?_⟩
      by_contra hcon
      have h2 := hfirst j (by omega)
      rw [hmj] at h2
      simp only [] at h1 h2 heq
      omega

/-- Witness of C1 at the request 2304x1296 (the size shared by catalog entries
1 and 3 of imx708). -/
theorem C1_find_best_fit_minimal_first_witness :
    ((2304 : Nat) < 2 ^ 16 ∧ (1296 : Nat) < 2 ^ 16) ∧
    ((IMX708.supported_modes[IMX708.imx708_find_best_fit_idx IMX708.supported_modes.length ⟨2304, 1296, 0⟩]?
        = some (IMX708.imx708_find_best_fit IMX708.supported_modes.length ⟨2304, 1296, 0⟩) ∧
      ∀ j m, IMX708.supported_modes[j]? = some m →
        Sensor.spec_dist (IMX708.imx708_find_best_fit IMX708.supported_modes.length ⟨2304, 1296, 0⟩) 2304 1296
            ≤ Sensor.spec_dist m 2304 1296 ∧
        (Sensor.spec_dist m 2304 1296
            = Sensor.spec_dist (IMX708.imx708_find_best_fit IMX708.supported_modes.length ⟨2304, 1296, 0⟩) 2304 1296 →
          IMX708.imx708_find_best_fit_idx IMX708.supported_modes.length ⟨2304, 1296, 0⟩ ≤ j)) ∧
    (GC8613.supported_modes[GC8613.gc8613_find_best_fit_idx GC8613.supported_modes.length ⟨2304, 1296, 0⟩]?
        = some (GC8613.gc8613_find_best_fit GC8613.supported_modes.length ⟨2304, 1296, 0⟩) ∧
      ∀ j m, GC8613.supported_modes[j]? = some m →
        Sensor.spec_dist (GC8613.gc8613_find_best_fit GC8613.supported_modes.length ⟨2304, 1296, 0⟩) 2304 1296
            ≤ Sensor.spec_dist m 2304 1296 ∧
        (Sensor.spec_dist m 2304 1296
            = Sensor.spec_dist (GC8613.gc8613_find_best_fit GC8613.supported_modes.length ⟨2304, 1296, 0⟩) 2304 1296 →
          GC8613.gc8613_find_best_fit_idx GC8613.supported_modes.length ⟨2304, 1296, 0⟩ ≤ j))) :=
  ⟨⟨by decide, by decide⟩, C1_find_best_fit_minimal_first 2304 1296 0 (by decide) (by decide)⟩

/-- C2 (counterexample): over the D-PHY catalog a request of exactly the size
of entry 1 (8192x6144) with a format code that no entry carries (0) returns
entry 0, of size 4096x3072. -/
theorem C2_find_best_fit_exact_counterexample :
    OV50H40.supported_modes_dphy.length = 2 ∧
    (OV50H40.supported_modes_dphy.getD 1 Sensor.Mode.none).width = 8192 ∧
    (OV50H40.supported_modes_dphy.getD 1 Sensor.Mode.none).height = 6144 ∧
    OV50H40.ov50h40_find_best_fit_idx OV50H40.supported_modes_dphy 2 ⟨8192, 6144, 0⟩ = 0 ∧
    (OV50H40.ov50h40_find_best_fit OV50H40.supported_modes_dphy 2 ⟨8192, 6144, 0⟩).width = 4096 ∧
    (OV50H40.ov50h40_find_best_fit OV50H40.supported_modes_dphy 2 ⟨8192, 6144, 0⟩).height = 3072 ∧
    ¬ ((OV50H40.ov50h40_find_best_fit OV50H40.supported_modes_dphy 2 ⟨8192, 6144, 0⟩).width
          = (OV50H40.supported_modes_dphy.getD 1 Sensor.Mode.none).width ∧
        (OV50H40.ov50h40_find_best_fit OV50H40.supported_modes_dphy 2 ⟨8192, 6144, 0⟩).height
          = (OV50H40.supported_modes_dphy.getD 1 Sensor.Mode.none).height) := by
  decide

/-- C2 (amended): over each of the two catalogs of ov50h40, a request whose
width, height and format code equal those of a catalog entry `m` returns an
entry of the width and height of `m`; a request whose format code is not
`MEDIA_BUS_FMT_SGBRG10_1X10` (the code of every entry) returns catalog entry 0
whatever its size. -/
theorem C2_find_best_fit_exact_same_code (m : Sensor.Mode) (w h c : Nat) :
    (m ∈ OV50H40.supported_modes_dphy →
      (OV50H40.ov50h40_find_best_fit OV50H40.supported_modes_dphy
          OV50H40.supported_modes_dphy.length ⟨m.width, m.height, m.bus_fmt⟩).width = m.width ∧
      (OV50H40.ov50h40_find_best_fit OV50H40.supported_modes_dphy
          OV50H40.supported_modes_dphy.length ⟨m.width, m.height, m.bus_fmt⟩).height = m.height) ∧
    (m ∈ OV50H40.supported_modes_cphy →
      (OV50H40.ov50h40_find_best_fit OV50H40.supported_modes_cphy
          OV50H40.supported_modes_cphy.length ⟨m.width, m.height, m.bus_fmt⟩).width = m.width ∧
      (OV50H40.ov50h40_find_best_fit OV50H40.supported_modes_cphy
          OV50H40.supported_modes_cphy.length ⟨m.width, m.height, m.bus_fmt⟩).height = m.height) ∧
    (c ≠ Sensor.MEDIA_BUS_FMT_SGBRG10_1X10 →
      OV50H40.ov50h40_find_best_fit_idx OV50H40.supported_modes_dphy
          OV50H40.supported_modes_dphy.length ⟨w, h, c⟩ = 0 ∧
      OV50H40.ov50h40_find_best_fit_idx OV50H40.supported_modes_cphy
          OV50H40.supported_modes_cphy.length ⟨w, h, c⟩ = 0) := by
  refine ⟨?_, ?_, ?_⟩
  · intro hm
    simp only [OV50H40.supported_modes_dphy, List.mem_cons, List.mem_singleton,
      List.not_mem_nil, or_false] at hm
    rcases hm with rfl | rfl <;> decide
  · intro hm
    simp only [OV50H40.supported_modes_cphy, List.mem_cons, List.mem_singleton,
      List.not_mem_nil, or_false] at hm
    rcases hm with rfl | rfl | rfl <;> decide
  · intro hc
    have hc2 : ¬ (Sensor.MEDIA_BUS_FMT_SGBRG10_1X10 = c) := fun e => hc e.symm
    constructor
    · simp [OV50H40.ov50h40_find_best_fit_idx, OV50H40.ov50h40_find_best_fit_scan,
        OV50H40.supported_modes_dphy, List.range_succ, hc2]
    · simp [OV50H40.ov50h40_find_best_fit_idx, OV50H40.ov50h40_find_best_fit_scan,
        OV50H40.supported_modes_cphy, List.range_succ, hc2]

/-- Witness of C2 (amended): entry 1 of the D-PHY catalog, entry 2 of the
C-PHY catalog and the foreign format code 0. -/
theorem C2_find_best_fit_exact_same_code_witness :
    (OV50H40.supported_modes_dphy.getD 1 Sensor.Mode.none ∈ OV50H40.supported_modes_dphy ∧
      OV50H40.supported_modes_cphy.getD 2 Sensor.Mode.none ∈ OV50H40.supported_modes_cphy ∧
      (0 : Nat) ≠ Sensor.MEDIA_BUS_FMT_SGBRG10_1X10) ∧
    ((OV50H40.ov50h40_find_best_fit OV50H40.supported_modes_dphy
        OV50H40.supported_modes_dphy.length
        ⟨(OV50H40.supported_modes_dphy.getD 1 Sensor.Mode.none).width,
         (OV50H40.supported_modes_dphy.getD 1 Sensor.Mode.none).height,
         (OV50H40.supported_modes_dphy.getD 1 Sensor.Mode.none).bus_fmt⟩).width = 8192 ∧
     (OV50H40.ov50h40_find_best_fit OV50H40.supported_modes_cphy
        OV50H40.supported_modes_cphy.length
        ⟨(OV50H40.supported_modes_cphy.getD 2 Sensor.Mode.none).width,
         (OV50H40.supported_modes_cphy.getD 2 Sensor.Mode.none).height,
         (OV50H40.supported_modes_cphy.getD 2 Sensor.Mode.none).bus_fmt⟩).height = 6144 ∧
     OV50H40.ov50h40_find_best_fit_idx OV50H40.supported_modes_dphy
        OV50H40.supported_modes_dphy.length ⟨8192, 6144, 0⟩ = 0) :=
  ⟨⟨by decide, by decide, by decide⟩,
   ((C2_find_best_fit_exact_same_code (OV50H40.supported_modes_dphy.getD 1 Sensor.Mode.none)
      8192 6144 0).1 (by decide)).1,
   ((C2_find_best_fit_exact_same_code (OV50H40.supported_modes_cphy.getD 2 Sensor.Mode.none)
      8192 6144 0).2.1 (by decide)).2,
   ((C2_find_best_fit_exact_same_code (OV50H40.supported_modes_dphy.getD 1 Sensor.Mode.none)
      8192 6144 0).2.2 (by decide)).1⟩

/-- C3 (evaluation at the failing input): `gc5603_set_gain(100)` reads the
tables at row 0, whose bracket is `64 <= gain < 74`; the row whose bracket
holds 100 is row 3 (`96 <= 100 < 112`). -/
theorem C3_gc5603_gain_row_outside_bracket :
    GC5603.gc5603_gain_row 100 = some 0 ∧
    (GC5603.gc5603_set_gain 100).map (fun e => e.i) = some 0 ∧
    GC5603.gain_level_table[0]? = some 64 ∧
    GC5603.gain_level_table[0 + 1]? = some 74 ∧
    ¬ (100 < 74) ∧
    GC5603.gain_level_table[3]? = some 96 ∧
    GC5603.gain_level_table[3 + 1]? = some 112 := by
  decide

namespace Sensor

/-- The bus after a 1-byte `write_reg`: one transaction with the register
address and the low byte of the value, whatever the transport answers. -/
theorem write_reg_byte_bus (a : I2cAdapter) (bus : Bus) (reg val : Nat) :
    (write_reg a bus reg 1 val).2
      = bus ++ [BusOp.send [(reg >>> 8) % 256, reg &&& 0xff, val &&& 0xff]] := by
  unfold write_reg be32_bytes
  simp only [show ¬ (1 > 4) by decide, if_false]
  split_ifs <;> rfl

/-- The bus after consecutive 1-byte `write_reg` calls: one transaction per
call, with the register address and the low byte of the value, whatever the
transport answers. -/
theorem write_regs_bus (a : I2cAdapter) (ws : List (Nat × Nat)) :
    ∀ bus : Bus, (write_regs a ws bus).2
      = bus ++ ws.map (fun w => BusOp.send [(w.1 >>> 8) % 256, w.1 &&& 0xff, w.2 &&& 0xff]) := by
  induction ws with
  | nil => intro bus; simp [write_regs]
  | cons w rest ih =>
    intro bus
    simp only [write_regs, ih, write_reg_byte_bus, List.map_cons, List.append_assoc,
      List.singleton_append]

end Sensor

/-- C4: `gc5603_set_gain(70)` uses table row 0: it writes the seven values of
`regValTable[0]` and the two bytes of the residual
`64 * 70 / gain_level_table[0] = 70`.  For every gain from 3965 on it uses row
25, the last row of `regValTable`: it writes the seven values of
`regValTable[25]` and the two bytes of the residual
`64 * gain / gain_level_table[25]`, which for gains up to
`GC5603_GAIN_MAX = 0xffff` is the exact quotient `64 * gain / 3965`. -/
theorem C4_gc5603_gain_rows (a : Sensor.I2cAdapter) (bus : Sensor.Bus) (gain : Nat)
    (h1 : 3965 ≤ gain) :
    (GC5603.regValTable[0]? = some [0x00, 0x00, 0x04, 0x15, 0x15, 0x01, 0x00] ∧
     GC5603.gain_level_table[0]? = some 64 ∧
     GC5603.gc5603_set_gain 70
       = some { gain := 70, i := 0, residual := 64 * 70 / 64,
                writes := [ (0x031d, 0x2d), (0x0614, 0x00), (0x0615, 0x00), (0x0225, 0x04),
                            (0x031d, 0x28), (0x1467, 0x15), (0x1468, 0x15), (0x00b8, 0x01),
                            (0x00b9, 0x00), (0x0064, 70 >>> 6), (0x0065, (70 &&& 0x3f) <<< 2) ] } ∧
     (GC5603.gc5603_set_gain_bus a bus 70).2
       = bus ++ [ Sensor.BusOp.send [0x03, 0x1d, 0x2d], Sensor.BusOp.send [0x06, 0x14, 0x00],
                  Sensor.BusOp.send [0x06, 0x15, 0x00], Sensor.BusOp.send [0x02, 0x25, 0x04],
                  Sensor.BusOp.send [0x03, 0x1d, 0x28], Sensor.BusOp.send [0x14, 0x67, 0x15],
                  Sensor.BusOp.send [0x14, 0x68, 0x15], Sensor.BusOp.send [0x00, 0xb8, 0x01],
                  Sensor.BusOp.send [0x00, 0xb9, 0x00], Sensor.BusOp.send [0x00, 0x64, 0x01],
                  Sensor.BusOp.send [0x00, 0x65, 0x18] ]) ∧
    (GC5603.regValTable.length = 25 + 1 ∧
     GC5603.regValTable[25]? = some [0x86, 0x06, 0x01, 0x20, 0x20, 0x3D, 0x3D] ∧
     GC5603.gain_level_table[25]? = some 3965 ∧
     GC5603.gc5603_set_gain gain
       = some { gain := gain, i := 25,
                residual := (Sensor.u32_mul 64 gain / 3965) % 2 ^ 16,
                writes := [ (0x031d, 0x2d), (0x0614, 0x86), (0x0615, 0x06), (0x0225, 0x01),
                            (0x031d, 0x28), (0x1467, 0x20), (0x1468, 0x20), (0x00b8, 0x3D),
                            (0x00b9, 0x3D),
                            (0x0064, ((Sensor.u32_mul 64 gain / 3965) % 2 ^ 16) >>> 6),
                            (0x0065, (((Sensor.u32_mul 64 gain / 3965) % 2 ^ 16) &&& 0x3f)
                                       <<< 2) ] } ∧
     (GC5603.gc5603_set_gain_bus a bus gain).2
       = bus ++ [ Sensor.BusOp.send [0x03, 0x1d, 0x2d], Sensor.BusOp.send [0x06, 0x14, 0x86],
                  Sensor.BusOp.send [0x06, 0x15, 0x06], Sensor.BusOp.send [0x02, 0x25, 0x01],
                  Sensor.BusOp.send [0x03, 0x1d, 0x28], Sensor.BusOp.send [0x14, 0x67, 0x20],
                  Sensor.BusOp.send [0x14, 0x68, 0x20], Sensor.BusOp.send [0x00, 0xb8, 0x3D],
                  Sensor.BusOp.send [0x00, 0xb9, 0x3D],
                  Sensor.BusOp.send
                    [0x00, 0x64, (((Sensor.u32_mul 64 gain / 3965) % 2 ^ 16) >>> 6) &&& 0xff],
                  Sensor.BusOp.send
                    [0x00, 0x65,
                     ((((Sensor.u32_mul 64 gain / 3965) % 2 ^ 16) &&& 0x3f) <<< 2) &&& 0xff] ] ∧
     (gain ≤ GC5603.GC5603_GAIN_MAX →
       (Sensor.u32_mul 64 gain / 3965) % 2 ^ 16 = 64 * gain / 3965)) := by
  have hrow : GC5603.gc5603_gain_row gain = some 25 := by
    have hc : gain > 3965 ∨ gain = 3965 := by omega
    simp [GC5603.gc5603_gain_row, Sensor.gain_scan, hc]
  have hset : GC5603.gc5603_set_gain gain
      = some { gain := gain, i := 25,
               residual := (Sensor.u32_mul 64 gain / 3965) % 2 ^ 16,
               writes := [ (0x031d, 0x2d), (0x0614, 0x86), (0x0615, 0x06), (0x0225, 0x01),
                           (0x031d, 0x28), (0x1467, 0x20), (0x1468, 0x20), (0x00b8, 0x3D),
                           (0x00b9, 0x3D),
                           (0x0064, ((Sensor.u32_mul 64 gain / 3965) % 2 ^ 16) >>> 6),
                           (0x0065, (((Sensor.u32_mul 64 gain / 3965) % 2 ^ 16) &&& 0x3f)
                                      <<< 2) ] } := by
    simp [GC5603.gc5603_set_gain, hrow, GC5603.gc5603_gain_regs, GC5603.regValTable,
      GC5603.gain_level_table]
  have h70 : GC5603.gc5603_set_gain 70
       = some { gain := 70, i := 0, residual := 64 * 70 / 64,
                writes := [ (0x031d, 0x2d), (0x0614, 0x00), (0x0615, 0x00), (0x0225, 0x04),
                            (0x031d, 0x28), (0x1467, 0x15), (0x1468, 0x15), (0x00b8, 0x01),
                            (0x00b9, 0x00), (0x0064, 70 >>> 6), (0x0065, (70 &&& 0x3f) <<< 2) ] } := by
    decide
  refine ⟨⟨by decide, by decide, h70, ?_⟩, by decide, by decide, by decide, hset, ?_, ?_⟩
  · unfold GC5603.gc5603_set_gain_bus
    rw [h70]
    dsimp only
    rw [Sensor.write_regs_bus]
    rfl
  · unfold GC5603.gc5603_set_gain_bus
    rw [hset]
    dsimp only
    rw [Sensor.write_regs_bus]
    simp only [List.map_cons, List.map_nil]
    norm_num
    decide
  · intro h2
    have h2' : gain ≤ 65535 := h2
    have e1 : Sensor.u32_mul 64 gain = 64 * gain := by
      unfold Sensor.u32_mul Sensor.U32_MOD
      exact Nat.mod_eq_of_lt (by omega)
    rw [e1]
    exact Nat.mod_eq_of_lt (by omega)

/-- Witness of C4 at gain 4000: row 25, residual `64 * 4000 / 3965 = 64`. -/
theorem C4_gc5603_gain_rows_witness :
    (3965 ≤ 4000 ∧ 4000 ≤ GC5603.GC5603_GAIN_MAX) ∧
    (GC5603.gc5603_set_gain 4000).map (fun e => (e.i, e.residual)) = some (25, 64) ∧
    (Sensor.u32_mul 64 4000 / 3965) % 2 ^ 16 = 64 * 4000 / 3965 :=
  ⟨⟨by decide, by decide⟩, by decide,
   (C4_gc5603_gain_rows Sensor.adapter_ok [] 4000 (by decide)).2.2.2.2.2.2 (by decide)⟩

/-- C5 (evaluation at the failing inputs): on the 10-bit path gain 64 selects
row 25 and the larger gain 1024 selects row 0; on the 12-bit path gain
`2 ^ 28 - 1` selects row 21 and the larger gain `2 ^ 28` selects row 0.  All
four gains lie in `[GC8613_GAIN_MIN, GC8613_GAIN_MAX]`. -/
theorem C5_gc8613_gain_row_not_monotone :
    (GC8613.GC8613_GAIN_MIN ≤ 64 ∧ 64 < 1024 ∧ 1024 ≤ GC8613.GC8613_GAIN_MAX) ∧
    (GC8613.gc8613_set_gain_reg 10 64).map (fun e => e.i) = some 25 ∧
    (GC8613.gc8613_set_gain_reg 10 1024).map (fun e => e.i) = some 0 ∧
    (GC8613.GC8613_GAIN_MIN ≤ 2 ^ 28 - 1 ∧ 2 ^ 28 - 1 < 2 ^ 28 ∧
      2 ^ 28 ≤ GC8613.GC8613_GAIN_MAX) ∧
    (GC8613.gc8613_set_gain_reg 12 (2 ^ 28 - 1)).map (fun e => e.i) = some 21 ∧
    (GC8613.gc8613_set_gain_reg 12 (2 ^ 28)).map (fun e => e.i) = some 0 ∧
    ¬ ((25 : Nat) ≤ 0) ∧ ¬ ((21 : Nat) ≤ 0) := by
  decide

/-- C6 (evaluation at the failing inputs): at gain `GC8613_GAIN_MAX` the
10-bit path computes `gain * 64` modulo `2 ^ 32`, so that the residual is
61469 instead of `gain * 64 / 69872 = 1967010`, and `tol_dig_gain >> 6` is
960; the 12-bit path rescales the gain to `2 ^ 32 - 16` instead of
`gain * 16` and `tol_dig_gain >> 6` is 1982; at gain 20000000 the 10-bit path
does not wrap and `tol_dig_gain >> 6` is 286.  Each exceeds `0xff`. -/
theorem C6_gc8613_residual_overflows :
    (GC8613.gc8613_set_gain_reg 10 GC8613.GC8613_GAIN_MAX).map
        (fun e => (e.i, e.residual, e.residual >>> 6)) = some (25, 61469, 960) ∧
    GC8613.gain_level_table_linear[25]? = some 69872 ∧
    GC8613.GC8613_GAIN_MAX * 64 / 69872 = 1967010 ∧
    (GC8613.gc8613_set_gain_reg 10 GC8613.GC8613_GAIN_MAX).map
        (fun e => e.writes.lookup 0x0064) = some (some 960) ∧
    (GC8613.gc8613_set_gain_reg 12 GC8613.GC8613_GAIN_MAX).map
        (fun e => (e.gain, e.i, e.residual >>> 6)) = some (2 ^ 32 - 16, 21, 1982) ∧
    (GC8613.gc8613_set_gain_reg 10 20000000).map
        (fun e => (e.gain, e.i, e.residual, e.residual >>> 6))
      = some (20000000, 25, 20000000 * 64 / 69872, 286) ∧
    ¬ (960 ≤ 0xff) ∧ ¬ (1982 ≤ 0xff) ∧ ¬ (286 ≤ 0xff) := by
  decide

namespace Sensor

/-- The scan loop reads inside a table that has more entries than the loop
bound, and leaves `i` at most at the bound. -/
theorem gain_scan_some (table : List Nat) (gain : Nat) (n : Nat) :
    ∀ i, i + n < table.length → ∃ r, gain_scan table gain n i = some r ∧ r ≤ i + n := by
  induction n with
  | zero => intro i _; exact ⟨i, rfl, by omega⟩
  | succ n ih =>
    intro i hi
    have h0 : table[i]? = some table[i] := List.getElem?_eq_getElem (by omega)
    have h1 : table[i + 1]? = some table[i + 1] := List.getElem?_eq_getElem (by omega)
    obtain ⟨r, hr, hle⟩ := ih (i + 1) (by omega)
    unfold gain_scan
    rw [h0]
    simp only []
    by_cases hc : table[i] ≤ gain
    · rw [if_pos hc, h1]
      simp only []
      by_cases hd : gain < table[i + 1]
      · rw [if_pos hd]; exact ⟨i, rfl, by omega⟩
      · rw [if_neg hd]; exact ⟨r, hr, by omega⟩
    · rw [if_neg hc]; exact ⟨r, hr, by omega⟩

end Sensor

namespace GC8613
open Sensor

/-- The row index of either path of `gc8613_set_gain_reg` is at most the index
of the last real threshold of the table. -/
theorem gain_row_some (table : List Nat) (g : Nat) (h : 2 ≤ table.length) :
    ∃ i, gain_row table g = some i ∧ i + 2 ≤ table.length := by
  obtain ⟨r, hr, hle⟩ := gain_scan_some table g (table.length - 1) 0 (by omega)
  unfold gain_row
  simp only [hr]
  by_cases hc : r = table.length - 1
  · exact ⟨table.length - 2, by rw [if_pos hc], by omega⟩
  · exact ⟨r, by rw [if_neg hc], by omega⟩

theorem gain_regs_linear_some (g i : Nat) (hi : i < 26) :
    ∃ e t, gc8613_gain_regs_linear g i = some e ∧ e.i = i ∧
      gain_level_table_linear[i]? = some t ∧ t ≠ 0 := by
  interval_cases i <;>
    simp [gc8613_gain_regs_linear, reg_val_table_linear, gain_level_table_linear]

theorem gain_regs_nolinear_some (g i : Nat) (hi : i < 22) :
    ∃ e t, gc8613_gain_regs_nolinear g i = some e ∧ e.i = i ∧
      gain_level_table_nolinear[i]? = some t ∧ t ≠ 0 := by
  interval_cases i <;>
    simp [gc8613_gain_regs_nolinear, reg_val_table_nolinear, gain_level_table_nolinear]

end GC8613

/-- C7: for every gain, `gc5603_set_gain` and both paths of
`gc8613_set_gain_reg` run to completion with every read of a threshold table
(the reads at `i` and `i + 1` of the scan loop included) and of a register
table inside the table: the row index is below 26 for gc5603, below 26 on the
10-bit path and below 22 on the 12-bit path of gc8613 (the numbers of rows of
`regValTable`, `reg_val_table_linear` and `reg_val_table_nolinear`), and the
divisor `gain_level_table[i]` of the residual is not zero. -/
theorem C7_gain_row_in_bounds (gain bpp : Nat) :
    (∃ e t, GC5603.gc5603_set_gain gain = some e ∧ e.i < 26 ∧
      GC5603.gain_level_table[e.i]? = some t ∧ t ≠ 0) ∧
    (∃ e t, GC8613.gc8613_set_gain_reg bpp gain = some e ∧
      (if bpp = 10 then e.i < 26 ∧ GC8613.gain_level_table_linear[e.i]? = some t
       else e.i < 22 ∧ GC8613.gain_level_table_nolinear[e.i]? = some t) ∧ t ≠ 0) ∧
    GC5603.regValTable.length = 26 ∧
    GC8613.reg_val_table_linear.length = 26 ∧
    GC8613.reg_val_table_nolinear.length = 22 := by
  refine ⟨?_, ?_, by decide, by decide, by decide⟩
  · by_cases hc : gain > 3965 ∨ gain = 3965
    · have hrow : GC5603.gc5603_gain_row gain = some 25 := by
        simp [GC5603.gc5603_gain_row, Sensor.gain_scan, hc]
      simp [GC5603.gc5603_set_gain, hrow, GC5603.gc5603_gain_regs, GC5603.regValTable,
        GC5603.gain_level_table]
    · have hrow : GC5603.gc5603_gain_row gain = some 0 := by
        simp [GC5603.gc5603_gain_row, Sensor.gain_scan, hc]
      simp [GC5603.gc5603_set_gain, hrow, GC5603.gc5603_gain_regs, GC5603.regValTable,
        GC5603.gain_level_table]
  · by_cases hb : bpp = 10
    · obtain ⟨i, hi, hle⟩ :=
        GC8613.gain_row_some GC8613.gain_level_table_linear (GC8613.gain_linear gain)
          (by decide)
      have hi26 : i < 26 := by
        have : GC8613.gain_level_table_linear.length = 27 := by decide
        omega
      obtain ⟨e, t, he, hei, ht, ht0⟩ :=
        GC8613.gain_regs_linear_some (GC8613.gain_linear gain) i hi26
      refine ⟨e, t, ?_, ?_, ht0⟩
      · simp [GC8613.gc8613_set_gain_reg, hb, hi, he]
      · rw [if_pos hb, hei]; exact ⟨hi26, ht⟩
    · obtain ⟨i, hi, hle⟩ :=
        GC8613.gain_row_some GC8613.gain_level_table_nolinear (GC8613.gain_nolinear gain)
          (by decide)
      have hi22 : i < 22 := by
        have : GC8613.gain_level_table_nolinear.length = 23 := by decide
        omega
      obtain ⟨e, t, he, hei, ht, ht0⟩ :=
        GC8613.gain_regs_nolinear_some (GC8613.gain_nolinear gain) i hi22
      refine ⟨e, t, ?_, ?_, ht0⟩
      · simp [GC8613.gc8613_set_gain_reg, hb, hi, he]
      · rw [if_neg hb, hei]; exact ⟨hi22, ht⟩

namespace Sensor

/-- The `u32` computation `height + val - offset` of the `set_ctrl` handlers
is exact when `val` is an `s32` and the sum does not fall below the offset. -/
theorem vblank_max_exact (H off : Nat) (v : Int) (hH : H < 2 ^ 31) (hoff : off < 2 ^ 31)
    (hlo : -(2 : Int) ^ 31 ≤ v) (hhi : v < (2 : Int) ^ 31) (h : (off : Int) ≤ (H : Int) + v) :
    ((u32_sub (u32_add H (ofS32 v)) off : Nat) : Int) = (H : Int) + v - (off : Int) := by
  unfold u32_sub u32_add ofS32 U32_MOD
  omega

end Sensor

namespace GC5603
open Sensor

theorem gc5603_set_ctrl_vblank_exposure (dev : Dev) (b : Bool) (v : Int) :
    (gc5603_set_ctrl { dev with in_use := b } CtrlId.V4L2_CID_VBLANK v).exposure
      = { dev.exposure with
          maximum := ((u32_sub (u32_add (supported_modes.getD dev.cur_mode Mode.none).height
            (ofS32 v)) 4 : Nat) : Int) } := by
  cases b <;> rfl

theorem gc5603_height_lt : ∀ i, i < supported_modes.length →
    (supported_modes.getD i Mode.none).height < 2 ^ 31 := by
  decide

end GC5603

namespace GC8613
open Sensor

theorem gc8613_set_ctrl_vblank_exposure (dev : Dev) (b : Bool) (v : Int) :
    (gc8613_set_ctrl { dev with in_use := b } CtrlId.V4L2_CID_VBLANK v).exposure
      = { dev.exposure with
          maximum := ((u32_sub (u32_add (supported_modes.getD dev.cur_mode Mode.none).height
            (ofS32 v)) 8 : Nat) : Int) } := by
  cases b <;> rfl

theorem gc8613_height_lt : ∀ i, i < supported_modes.length →
    (supported_modes.getD i Mode.none).height < 2 ^ 31 := by
  decide

end GC8613

namespace IMX708
open Sensor

theorem imx708_set_ctrl_vblank_exposure (dev : Dev) (b : Bool) (v : Int) :
    (imx708_set_ctrl { dev with in_use := b } CtrlId.V4L2_CID_VBLANK v).exposure
      = { dev.exposure with
          maximum := ((u32_sub (u32_add (supported_modes.getD dev.cur_mode Mode.none).height
            (ofS32 v)) 4 : Nat) : Int) } := by
  cases b <;> rfl

theorem imx708_height_lt : ∀ i, i < supported_modes.length →
    (supported_modes.getD i Mode.none).height < 2 ^ 31 := by
  decide

end IMX708

namespace SC5336
open Sensor

theorem sc5336_set_ctrl_vblank_exposure (dev : Dev) (b : Bool) (v : Int) :
    (sc5336_set_ctrl { dev with in_use := b } CtrlId.V4L2_CID_VBLANK v).exposure
      = { dev.exposure with
          maximum := ((u32_sub (u32_add (supported_modes.getD dev.cur_mode Mode.none).height
            (ofS32 v)) 8 : Nat) : Int) } := by
  cases b
  · rfl
  · simp only [sc5336_set_ctrl, sc5336_set_ctrl_propagate, sc5336_modify_fps_info,
      __v4l2_ctrl_modify_range]
    split_ifs <;> rfl

theorem sc5336_height_lt : ∀ i, i < supported_modes.length →
    (supported_modes.getD i Mode.none).height < 2 ^ 31 := by
  decide

end SC5336

namespace OV50H40
open Sensor

theorem ov50h40_set_ctrl_vblank_exposure (dev : Dev) (b : Bool) (v : Int) :
    (ov50h40_set_ctrl { dev with in_use := b } CtrlId.V4L2_CID_VBLANK v).exposure
      = { dev.exposure with
          maximum :=
            if (dev.support_modes.getD dev.cur_mode Mode.none).height = 6144 then
              ((u32_sub (u32_add (dev.support_modes.getD dev.cur_mode Mode.none).height
                (ofS32 v)) 44 : Nat) : Int)
            else
              ((u32_sub (u32_add (dev.support_modes.getD dev.cur_mode Mode.none).height
                (ofS32 v)) 22 : Nat) : Int) } := by
  cases b <;> rfl

theorem ov50h40_height_lt_dphy : ∀ i, i < supported_modes_dphy.length →
    (supported_modes_dphy.getD i Mode.none).height < 2 ^ 31 := by
  decide

theorem ov50h40_height_lt_cphy : ∀ i, i < supported_modes_cphy.length →
    (supported_modes_cphy.getD i Mode.none).height < 2 ^ 31 := by
  decide

end OV50H40

/-- C8: for each of the five sensors, `set_ctrl` with id `V4L2_CID_VBLANK` and
an `s32` value `v` (with `cur_mode` a catalog entry and
`cur_mode.height + v` not below the offset, as for every value of the vblank
control's range) sets the maximum of the exposure control to
`cur_mode.height + v - offset`, the offset being 4 for gc5603 and imx708, 8
for gc8613 and sc5336, and for ov50h40 44 when the height is 6144 and 22
otherwise; minimum, step and default (and the current value) of the exposure
control are unchanged; and the update is the same whether the device is in
use (`b = true`) or not (`b = false`). -/
theorem C8_vblank_sets_exposure_max (dev : Sensor.Dev) (b : Bool) (v : Int)
    (hlo : -(2 : Int) ^ 31 ≤ v) (hhi : v < (2 : Int) ^ 31) :
    (dev.cur_mode < GC5603.supported_modes.length →
      4 ≤ ((GC5603.supported_modes.getD dev.cur_mode Sensor.Mode.none).height : Int) + v →
      (GC5603.gc5603_set_ctrl { dev with in_use := b } Sensor.CtrlId.V4L2_CID_VBLANK v).exposure
        = { dev.exposure with
            maximum := ((GC5603.supported_modes.getD dev.cur_mode Sensor.Mode.none).height : Int)
              + v - 4 }) ∧
    (dev.cur_mode < IMX708.supported_modes.length →
      4 ≤ ((IMX708.supported_modes.getD dev.cur_mode Sensor.Mode.none).height : Int) + v →
      (IMX708.imx708_set_ctrl { dev with in_use := b } Sensor.CtrlId.V4L2_CID_VBLANK v).exposure
        = { dev.exposure with
            maximum := ((IMX708.supported_modes.getD dev.cur_mode Sensor.Mode.none).height : Int)
              + v - 4 }) ∧
    (dev.cur_mode < GC8613.supported_modes.length →
      8 ≤ ((GC8613.supported_modes.getD dev.cur_mode Sensor.Mode.none).height : Int) + v →
      (GC8613.gc8613_set_ctrl { dev with in_use := b } Sensor.CtrlId.V4L2_CID_VBLANK v).exposure
        = { dev.exposure with
            maximum := ((GC8613.supported_modes.getD dev.cur_mode Sensor.Mode.none).height : Int)
              + v - 8 }) ∧
    (dev.cur_mode < SC5336.supported_modes.length →
      8 ≤ ((SC5336.supported_modes.getD dev.cur_mode Sensor.Mode.none).height : Int) + v →
      (SC5336.sc5336_set_ctrl { dev with in_use := b } Sensor.CtrlId.V4L2_CID_VBLANK v).exposure
        = { dev.exposure with
            maximum := ((SC5336.supported_modes.getD dev.cur_mode Sensor.Mode.none).height : Int)
              + v - 8 }) ∧
    ((dev.support_modes = OV50H40.supported_modes_dphy ∨
        dev.support_modes = OV50H40.supported_modes_cphy) →
      dev.cur_mode < dev.support_modes.length →
      (if (dev.support_modes.getD dev.cur_mode Sensor.Mode.none).height = 6144
          then (44 : Int) else 22)
        ≤ ((dev.support_modes.getD dev.cur_mode Sensor.Mode.none).height : Int) + v →
      (OV50H40.ov50h40_set_ctrl { dev with in_use := b } Sensor.CtrlId.V4L2_CID_VBLANK v).exposure
        = { dev.exposure with
            maximum := ((dev.support_modes.getD dev.cur_mode Sensor.Mode.none).height : Int)
              + v - (if (dev.support_modes.getD dev.cur_mode Sensor.Mode.none).height = 6144
                      then (44 : Int) else 22) }) := by
  refine ⟨?_, ?_, ?_, ?_, ?_⟩
  · intro hc hge
    rw [GC5603.gc5603_set_ctrl_vblank_exposure,
      Sensor.vblank_max_exact _ 4 v (GC5603.gc5603_height_lt _ hc) (by norm_num) hlo hhi hge]
    rfl
  · intro hc hge
    rw [IMX708.imx708_set_ctrl_vblank_exposure,
      Sensor.vblank_max_exact _ 4 v (IMX708.imx708_height_lt _ hc) (by norm_num) hlo hhi hge]
    rfl
  · intro hc hge
    rw [GC8613.gc8613_set_ctrl_vblank_exposure,
      Sensor.vblank_max_exact _ 8 v (GC8613.gc8613_height_lt _ hc) (by norm_num) hlo hhi hge]
    rfl
  · intro hc hge
    rw [SC5336.sc5336_set_ctrl_vblank_exposure,
      Sensor.vblank_max_exact _ 8 v (SC5336.sc5336_height_lt _ hc) (by norm_num) hlo hhi hge]
    rfl
  · intro hcat hc hge
    have hH : (dev.support_modes.getD dev.cur_mode Sensor.Mode.none).height < 2 ^ 31 := by
      rcases hcat with h | h
      · rw [h] at hc ⊢; exact OV50H40.ov50h40_height_lt_dphy _ hc
      · rw [h] at hc ⊢; exact OV50H40.ov50h40_height_lt_cphy _ hc
    rw [OV50H40.ov50h40_set_ctrl_vblank_exposure]
    by_cases h6 : (dev.support_modes.getD dev.cur_mode Sensor.Mode.none).height = 6144
    · rw [if_pos h6] at hge
      simp only [if_pos h6]
      rw [Sensor.vblank_max_exact _ 44 v hH (by norm_num) hlo hhi hge]
      rfl
    · rw [if_neg h6] at hge
      simp only [if_neg h6]
      rw [Sensor.vblank_max_exact _ 22 v hH (by norm_num) hlo hhi hge]
      rfl

/-- Witness of C8: the D-PHY sample state of ov50h40 (whose `cur_mode` index 0
lies in every catalog), not in use, and vblank value 100. -/
theorem C8_vblank_sets_exposure_max_witness :
    (-(2 : Int) ^ 31 ≤ 100 ∧ (100 : Int) < (2 : Int) ^ 31 ∧
      OV50H40.dev_sample_dphy.cur_mode < GC5603.supported_modes.length ∧
      OV50H40.dev_sample_dphy.cur_mode < OV50H40.dev_sample_dphy.support_modes.length) ∧
    ((GC5603.gc5603_set_ctrl { OV50H40.dev_sample_dphy with in_use := false }
        Sensor.CtrlId.V4L2_CID_VBLANK 100).exposure
      = { OV50H40.dev_sample_dphy.exposure with
          maximum := ((GC5603.supported_modes.getD OV50H40.dev_sample_dphy.cur_mode
            Sensor.Mode.none).height : Int) + 100 - 4 } ∧
     (IMX708.imx708_set_ctrl { OV50H40.dev_sample_dphy with in_use := false }
        Sensor.CtrlId.V4L2_CID_VBLANK 100).exposure
      = { OV50H40.dev_sample_dphy.exposure with
          maximum := ((IMX708.supported_modes.getD OV50H40.dev_sample_dphy.cur_mode
            Sensor.Mode.none).height : Int) + 100 - 4 } ∧
     (GC8613.gc8613_set_ctrl { OV50H40.dev_sample_dphy with in_use := false }
        Sensor.CtrlId.V4L2_CID_VBLANK 100).exposure
      = { OV50H40.dev_sample_dphy.exposure with
          maximum := ((GC8613.supported_modes.getD OV50H40.dev_sample_dphy.cur_mode
            Sensor.Mode.none).height : Int) + 100 - 8 } ∧
     (SC5336.sc5336_set_ctrl { OV50H40.dev_sample_dphy with in_use := false }
        Sensor.CtrlId.V4L2_CID_VBLANK 100).exposure
      = { OV50H40.dev_sample_dphy.exposure with
          maximum := ((SC5336.supported_modes.getD OV50H40.dev_sample_dphy.cur_mode
            Sensor.Mode.none).height : Int) + 100 - 8 } ∧
     (OV50H40.ov50h40_set_ctrl { OV50H40.dev_sample_dphy with in_use := false }
        Sensor.CtrlId.V4L2_CID_VBLANK 100).exposure
      = { OV50H40.dev_sample_dphy.exposure with maximum := 3072 + 100 - 22 }) :=
  ⟨⟨by decide, by decide, by decide, by decide⟩,
   (C8_vblank_sets_exposure_max OV50H40.dev_sample_dphy false 100 (by decide) (by decide)).1
      (by decide) (by decide),
   (C8_vblank_sets_exposure_max OV50H40.dev_sample_dphy false 100 (by decide) (by decide)).2.1
      (by decide) (by decide),
   (C8_vblank_sets_exposure_max OV50H40.dev_sample_dphy false 100 (by decide) (by decide)).2.2.1
      (by decide) (by decide),
   (C8_vblank_sets_exposure_max OV50H40.dev_sample_dphy false 100 (by decide) (by decide)).2.2.2.1
      (by decide) (by decide),
   (C8_vblank_sets_exposure_max OV50H40.dev_sample_dphy false 100 (by decide) (by decide)).2.2.2.2
      (Or.inl rfl) (by decide) (by decide)⟩

/-- C9 (evaluation at the failing input): on the C-PHY catalog,
`ov50h40_set_fmt` with an ACTIVE format of 4096x3072 commits entry 0
(`hts_def = 1100`, `vts_def = 2272`) and republishes hblank with
`min = max = default = 2 ^ 32 + 1100 - 4096 = 4294964300`, not the integer
difference `-2996`, and vblank with `min = default = 2 ^ 32 + 2272 - 3072 =
4294966496` above `max = 65535 - 3072 = 62463`; with 8192x6144 it commits
entry 2 (`hts_def = 774`, `vts_def = 3222`) and the values wrap likewise. -/
theorem C9_ov50h40_set_fmt_cphy_wraps :
    (OV50H40.ov50h40_set_fmt OV50H40.dev_sample_cphy
        Sensor.v4l2_subdev_format_whence.V4L2_SUBDEV_FORMAT_ACTIVE
        ⟨4096, 3072, Sensor.MEDIA_BUS_FMT_SGBRG10_1X10⟩).cur_mode = 0 ∧
    ((OV50H40.supported_modes_cphy.getD 0 Sensor.Mode.none).hts_def : Int)
      - ((OV50H40.supported_modes_cphy.getD 0 Sensor.Mode.none).width : Int) = -2996 ∧
    (OV50H40.ov50h40_set_fmt OV50H40.dev_sample_cphy
        Sensor.v4l2_subdev_format_whence.V4L2_SUBDEV_FORMAT_ACTIVE
        ⟨4096, 3072, Sensor.MEDIA_BUS_FMT_SGBRG10_1X10⟩).hblank.minimum = 4294964300 ∧
    (OV50H40.ov50h40_set_fmt OV50H40.dev_sample_cphy
        Sensor.v4l2_subdev_format_whence.V4L2_SUBDEV_FORMAT_ACTIVE
        ⟨4096, 3072, Sensor.MEDIA_BUS_FMT_SGBRG10_1X10⟩).hblank.maximum = 4294964300 ∧
    (OV50H40.ov50h40_set_fmt OV50H40.dev_sample_cphy
        Sensor.v4l2_subdev_format_whence.V4L2_SUBDEV_FORMAT_ACTIVE
        ⟨4096, 3072, Sensor.MEDIA_BUS_FMT_SGBRG10_1X10⟩).hblank.default_value = 4294964300 ∧
    ((OV50H40.supported_modes_cphy.getD 0 Sensor.Mode.none).vts_def : Int)
      - ((OV50H40.supported_modes_cphy.getD 0 Sensor.Mode.none).height : Int) = -800 ∧
    (OV50H40.ov50h40_set_fmt OV50H40.dev_sample_cphy
        Sensor.v4l2_subdev_format_whence.V4L2_SUBDEV_FORMAT_ACTIVE
        ⟨4096, 3072, Sensor.MEDIA_BUS_FMT_SGBRG10_1X10⟩).vblank.minimum = 4294966496 ∧
    (OV50H40.ov50h40_set_fmt OV50H40.dev_sample_cphy
        Sensor.v4l2_subdev_format_whence.V4L2_SUBDEV_FORMAT_ACTIVE
        ⟨4096, 3072, Sensor.MEDIA_BUS_FMT_SGBRG10_1X10⟩).vblank.default_value = 4294966496 ∧
    (OV50H40.ov50h40_set_fmt OV50H40.dev_sample_cphy
        Sensor.v4l2_subdev_format_whence.V4L2_SUBDEV_FORMAT_ACTIVE
        ⟨4096, 3072, Sensor.MEDIA_BUS_FMT_SGBRG10_1X10⟩).vblank.maximum = 62463 ∧
    (OV50H40.ov50h40_set_fmt OV50H40.dev_sample_cphy
        Sensor.v4l2_subdev_format_whence.V4L2_SUBDEV_FORMAT_ACTIVE
        ⟨8192, 6144, Sensor.MEDIA_BUS_FMT_SGBRG10_1X10⟩).cur_mode = 2 ∧
    (OV50H40.ov50h40_set_fmt OV50H40.dev_sample_cphy
        Sensor.v4l2_subdev_format_whence.V4L2_SUBDEV_FORMAT_ACTIVE
        ⟨8192, 6144, Sensor.MEDIA_BUS_FMT_SGBRG10_1X10⟩).hblank.minimum = 4294959878 ∧
    (OV50H40.ov50h40_set_fmt OV50H40.dev_sample_cphy
        Sensor.v4l2_subdev_format_whence.V4L2_SUBDEV_FORMAT_ACTIVE
        ⟨8192, 6144, Sensor.MEDIA_BUS_FMT_SGBRG10_1X10⟩).vblank.minimum = 4294964374 ∧
    (OV50H40.ov50h40_set_fmt OV50H40.dev_sample_cphy
        Sensor.v4l2_subdev_format_whence.V4L2_SUBDEV_FORMAT_ACTIVE
        ⟨8192, 6144, Sensor.MEDIA_BUS_FMT_SGBRG10_1X10⟩).vblank.maximum = 59391 := by
  decide

/-- The set_fmt handlers of gc5603, gc8613 and sc5336 never touch the exposure
control. -/
theorem set_fmt_keeps_exposure (dev : Sensor.Dev) (which : Sensor.v4l2_subdev_format_whence)
    (f : Sensor.v4l2_mbus_framefmt) :
    (GC5603.gc5603_set_fmt dev which f).exposure = dev.exposure ∧
    (GC8613.gc8613_set_fmt dev which f).exposure = dev.exposure ∧
    (SC5336.sc5336_set_fmt dev which f).exposure = dev.exposure := by
  refine ⟨?_, ?_, ?_⟩ <;> cases which <;> rfl

/-- C10 (evaluation at the failing input): gc8613 with the 1920x1080 entry
current and vblank set to 452 has exposure maximum `1080 + 452 - 8 = 1524`;
`gc8613_set_fmt` with an ACTIVE format of 3840x2160 then commits entry 0
(`vts_def = 2296`) and leaves the exposure maximum at 1524, not
`2296 - 8 = 2288`.  Likewise gc5603 and sc5336 after vblank was set to 1000:
`gc5603_set_fmt` leaves the maximum at `1666 + 1000 - 4 = 2662` (not
`1750 - 4 = 1746`) and `sc5336_set_fmt` at `1620 + 1000 - 8 = 2612` (not
`1800 - 8 = 1792`). -/
theorem C10_set_fmt_leaves_exposure_max_stale :
    (GC8613.gc8613_set_ctrl GC8613.dev_sample Sensor.CtrlId.V4L2_CID_VBLANK 452).exposure.maximum
      = 1524 ∧
    (GC8613.gc8613_set_fmt
        (GC8613.gc8613_set_ctrl GC8613.dev_sample Sensor.CtrlId.V4L2_CID_VBLANK 452)
        Sensor.v4l2_subdev_format_whence.V4L2_SUBDEV_FORMAT_ACTIVE
        ⟨3840, 2160, Sensor.MEDIA_BUS_FMT_SRGGB12_1X12⟩).cur_mode = 0 ∧
    (GC8613.gc8613_set_fmt
        (GC8613.gc8613_set_ctrl GC8613.dev_sample Sensor.CtrlId.V4L2_CID_VBLANK 452)
        Sensor.v4l2_subdev_format_whence.V4L2_SUBDEV_FORMAT_ACTIVE
        ⟨3840, 2160, Sensor.MEDIA_BUS_FMT_SRGGB12_1X12⟩).exposure.maximum = 1524 ∧
    ((GC8613.supported_modes.getD 0 Sensor.Mode.none).vts_def : Int) - 8 = 2288 ∧
    (GC5603.gc5603_set_fmt
        (GC5603.gc5603_set_ctrl GC5603.dev_sample Sensor.CtrlId.V4L2_CID_VBLANK 1000)
        Sensor.v4l2_subdev_format_whence.V4L2_SUBDEV_FORMAT_ACTIVE
        ⟨2960, 1666, Sensor.MEDIA_BUS_FMT_SGRBG10_1X10⟩).cur_mode = 0 ∧
    (GC5603.gc5603_set_fmt
        (GC5603.gc5603_set_ctrl GC5603.dev_sample Sensor.CtrlId.V4L2_CID_VBLANK 1000)
        Sensor.v4l2_subdev_format_whence.V4L2_SUBDEV_FORMAT_ACTIVE
        ⟨2960, 1666, Sensor.MEDIA_BUS_FMT_SGRBG10_1X10⟩).exposure.maximum = 2662 ∧
    ((GC5603.supported_modes.getD 0 Sensor.Mode.none).vts_def : Int) - 4 = 1746 ∧
    (SC5336.sc5336_set_fmt
        (SC5336.sc5336_set_ctrl SC5336.dev_sample Sensor.CtrlId.V4L2_CID_VBLANK 1000)
        Sensor.v4l2_subdev_format_whence.V4L2_SUBDEV_FORMAT_ACTIVE
        ⟨2880, 1620, Sensor.MEDIA_BUS_FMT_SBGGR10_1X10⟩).cur_mode = 0 ∧
    (SC5336.sc5336_set_fmt
        (SC5336.sc5336_set_ctrl SC5336.dev_sample Sensor.CtrlId.V4L2_CID_VBLANK 1000)
        Sensor.v4l2_subdev_format_whence.V4L2_SUBDEV_FORMAT_ACTIVE
        ⟨2880, 1620, Sensor.MEDIA_BUS_FMT_SBGGR10_1X10⟩).exposure.maximum = 2612 ∧
    ((SC5336.supported_modes.getD 0 Sensor.Mode.none).vts_def : Int) - 8 = 1792 := by
  decide

namespace Sensor

/-- A 1-byte `write_reg` hands the three-byte buffer of the entry to the bus
and reports `-EIO` unless 3 is returned. -/
theorem write_reg_one (a : I2cAdapter) (bus : Bus) (r : regval) :
    write_reg a bus r.addr 1 r.val
      = (if a.master_send bus.length (regval_buf r) = 3 then 0 else -EIO_NR,
         bus ++ [BusOp.send (regval_buf r)]) := by
  unfold write_reg regval_buf be32_bytes
  by_cases h : a.master_send bus.length
      [(r.addr >>> 8) % 256, r.addr &&& 0xff, r.val &&& 0xff] = 3
  · simp [h]
  · simp [h]

/-- The trace of `write_array` on a list whose entries before the terminator
are `body`. -/
theorem write_array_trace (a : I2cAdapter) (v : Nat) (rest : List regval) :
    ∀ (body : List regval) (bus : Bus), (∀ r, r ∈ body → r.addr ≠ REG_NULL) →
      ∃ n, n ≤ body.length ∧
        (write_array a (body ++ ⟨REG_NULL, v⟩ :: rest) bus).2
          = bus ++ (regval_ops body).take n ∧
        (∀ j, j + 1 < n → regval_sent a bus.length body j) ∧
        (((write_array a (body ++ ⟨REG_NULL, v⟩ :: rest) bus).1 = 0 ∧ n = body.length ∧
            ∀ j, j < n → regval_sent a bus.length body j) ∨
         ((write_array a (body ++ ⟨REG_NULL, v⟩ :: rest) bus).1 = -EIO_NR ∧ 0 < n ∧
            ¬ regval_sent a bus.length body (n - 1))) := by
  intro body
  induction body with
  | nil =>
    intro bus _
    refine ⟨0, le_refl _, ?_, ?_, ?_⟩
    · simp [write_array]
    · intro j hj; omega
    · left; simp [write_array]
  | cons r body ih =>
    intro bus hnull
    have hr : r.addr ≠ REG_NULL := hnull r (List.mem_cons_self _ _)
    by_cases hs : a.master_send bus.length (regval_buf r) = 3
    · obtain ⟨n, hn, htr, hok, hres⟩ :=
        ih (bus ++ [BusOp.send (regval_buf r)])
          (fun x hx => hnull x (List.mem_cons_of_mem _ hx))
      have hstep : write_array a ((r :: body) ++ ⟨REG_NULL, v⟩ :: rest) bus
          = write_array a (body ++ ⟨REG_NULL, v⟩ :: rest)
              (bus ++ [BusOp.send (regval_buf r)]) := by
        simp [write_array, hr, write_reg_one, hs]
      have hlen : (bus ++ [BusOp.send (regval_buf r)]).length = bus.length + 1 := by simp
      have hshift : ∀ j, regval_sent a (bus.length + 1) body j →
          regval_sent a bus.length (r :: body) (j + 1) := by
        intro j ⟨x, hx, hsx⟩
        refine ⟨x, by simpa using hx, ?_⟩
        have : bus.length + (j + 1) = bus.length + 1 + j := by omega
        rw [this]; exact hsx
      have h0 : regval_sent a bus.length (r :: body) 0 := ⟨r, by simp, by simpa using hs⟩
      rw [hlen] at hok hres
      refine ⟨n + 1, by simp; omega, ?_, ?_, ?_⟩
      · rw [hstep, htr]; simp [regval_ops]
      · intro j hj
        cases j with
        | zero => exact h0
        | succ j => exact hshift j (hok j (by omega))
      · rw [hstep]
        rcases hres with ⟨h1, h2, h3⟩ | ⟨h1, h2, h3⟩
        · left
          refine ⟨h1, by simp; omega, ?_⟩
          intro j hj
          cases j with
          | zero => exact h0
          | succ j => exact hshift j (h3 j (by omega))
        · right
          refine ⟨h1, by omega, ?_⟩
          intro hcon
          apply h3
          obtain ⟨x, hx, hsx⟩ := hcon
          have hn1 : n + 1 - 1 = (n - 1) + 1 := by omega
          rw [hn1] at hx hsx
          refine ⟨x, by simpa using hx, ?_⟩
          have : bus.length + 1 + (n - 1) = bus.length + (n - 1 + 1) := by omega
          rw [this]; exact hsx
    · refine ⟨1, by simp, ?_, ?_, ?_⟩
      · simp [write_array, hr, write_reg_one, hs, regval_ops, EIO_NR]
      · intro j hj; omega
      · right
        refine ⟨by simp [write_array, hr, write_reg_one, hs, EIO_NR], by omega, ?_⟩
        intro ⟨x, hx, hsx⟩
        simp at hx
        subst hx
        exact hs (by simpa using hsx)

end Sensor

namespace Sensor

/-- The trace of `write_array_delay` on a list whose entries before the
terminator are `body`: the entries other than `REG_DELAY` are written. -/
theorem write_array_delay_trace (a : I2cAdapter) (v : Nat) (rest : List regval) :
    ∀ (body : List regval) (bus : Bus), (∀ r, r ∈ body → r.addr ≠ REG_NULL) →
      ∃ n, n ≤ (body.filter (fun r => decide (r.addr ≠ REG_DELAY))).length ∧
        (write_array_delay a (body ++ ⟨REG_NULL, v⟩ :: rest) bus).2
          = bus ++ (regval_ops (body.filter (fun r => decide (r.addr ≠ REG_DELAY)))).take n ∧
        (∀ j, j + 1 < n →
          regval_sent a bus.length (body.filter (fun r => decide (r.addr ≠ REG_DELAY))) j) ∧
        (((write_array_delay a (body ++ ⟨REG_NULL, v⟩ :: rest) bus).1 = 0 ∧
            n = (body.filter (fun r => decide (r.addr ≠ REG_DELAY))).length ∧
            ∀ j, j < n →
              regval_sent a bus.length (body.filter (fun r => decide (r.addr ≠ REG_DELAY))) j) ∨
         ((write_array_delay a (body ++ ⟨REG_NULL, v⟩ :: rest) bus).1 = -EIO_NR ∧ 0 < n ∧
            ¬ regval_sent a bus.length
                (body.filter (fun r => decide (r.addr ≠ REG_DELAY))) (n - 1))) := by
  intro body
  induction body with
  | nil =>
    intro bus _
    refine ⟨0, le_refl _, ?_, ?_, ?_⟩
    · simp [write_array_delay]
    · intro j hj; omega
    · left; simp [write_array_delay]
  | cons r body ih =>
    intro bus hnull
    have hr : r.addr ≠ REG_NULL := hnull r (List.mem_cons_self _ _)
    by_cases hd : r.addr = REG_DELAY
    · obtain ⟨n, hn, htr, hok, hres⟩ := ih bus (fun x hx => hnull x (List.mem_cons_of_mem _ hx))
      have hstep : write_array_delay a ((r :: body) ++ ⟨REG_NULL, v⟩ :: rest) bus
          = write_array_delay a (body ++ ⟨REG_NULL, v⟩ :: rest) bus := by
        have hnd : ¬ (REG_DELAY = REG_NULL) := by decide
        simp [write_array_delay, hd, hnd]
      have hfil : (r :: body).filter (fun r => decide (r.addr ≠ REG_DELAY))
          = body.filter (fun r => decide (r.addr ≠ REG_DELAY)) := by
        simp [List.filter_cons, hd]
      rw [hstep, hfil]
      exact ⟨n, hn, htr, hok, hres⟩
    · have hfil : (r :: body).filter (fun r => decide (r.addr ≠ REG_DELAY))
          = r :: body.filter (fun r => decide (r.addr ≠ REG_DELAY)) := by
        simp [List.filter_cons, hd]
      rw [hfil]
      generalize hws : body.filter (fun r => decide (r.addr ≠ REG_DELAY)) = ws at ih ⊢
      by_cases hs : a.master_send bus.length (regval_buf r) = 3
      · obtain ⟨n, hn, htr, hok, hres⟩ :=
          ih (bus ++ [BusOp.send (regval_buf r)])
            (fun x hx => hnull x (List.mem_cons_of_mem _ hx))
        have hstep : write_array_delay a ((r :: body) ++ ⟨REG_NULL, v⟩ :: rest) bus
            = write_array_delay a (body ++ ⟨REG_NULL, v⟩ :: rest)
                (bus ++ [BusOp.send (regval_buf r)]) := by
          simp [write_array_delay, hr, hd, write_reg_one, hs]
        have hlen : (bus ++ [BusOp.send (regval_buf r)]).length = bus.length + 1 := by simp
        have hshift : ∀ j, regval_sent a (bus.length + 1) ws j →
            regval_sent a bus.length (r :: ws) (j + 1) := by
          intro j ⟨x, hx, hsx⟩
          refine ⟨x, by simpa using hx, ?_⟩
          have : bus.length + (j + 1) = bus.length + 1 + j := by omega
          rw [this]; exact hsx
        have h0 : regval_sent a bus.length (r :: ws) 0 := ⟨r, by simp, by simpa using hs⟩
        rw [hlen] at hok hres
        refine ⟨n + 1, by simp; omega, ?_, ?_, ?_⟩
        · rw [hstep, htr]; simp [regval_ops]
        · intro j hj
          cases j with
          | zero => exact h0
          | succ j => exact hshift j (hok j (by omega))
        · rw [hstep]
          rcases hres with ⟨h1, h2, h3⟩ | ⟨h1, h2, h3⟩
          · left
            refine ⟨h1, by simp; omega, ?_⟩
            intro j hj
            cases j with
            | zero => exact h0
            | succ j => exact hshift j (h3 j (by omega))
          · right
            refine ⟨h1, by omega, ?_⟩
            intro hcon
            apply h3
            obtain ⟨x, hx, hsx⟩ := hcon
            have hn1 : n + 1 - 1 = (n - 1) + 1 := by omega
            rw [hn1] at hx hsx
            refine ⟨x, by simpa using hx, ?_⟩
            have : bus.length + 1 + (n - 1) = bus.length + (n - 1 + 1) := by omega
            rw [this]; exact hsx
      · refine ⟨1, by simp, ?_, ?_, ?_⟩
        · simp [write_array_delay, hr, hd, write_reg_one, hs, regval_ops, EIO_NR]
        · intro j hj; omega
        · right
          refine ⟨by simp [write_array_delay, hr, hd, write_reg_one, hs, EIO_NR], by omega, ?_⟩
          intro ⟨x, hx, hsx⟩
          simp at hx
          subst hx
          exact hs (by simpa using hsx)

end Sensor

/-- C12: for each sensor's `write_array` applied to a register list whose
entries before the `REG_NULL` terminator are `body`: the bus receives, in list
order and once each, the 1-byte writes of a prefix of the entries to write
(all of `body` for gc5603, ov50h40 and sc5336; `body` without its `REG_DELAY`
entries for gc8613 and imx708); every write before the last one of the prefix
was accepted; either 0 is returned, the prefix is the whole list and every
write was accepted, or `-EIO` (the error of `write_reg`) is returned and the
last write of the prefix is the one that failed, nothing being written after
it. -/
theorem C12_write_array_trace (a : Sensor.I2cAdapter) (bus : Sensor.Bus)
    (body : List Sensor.regval) (v : Nat) (rest : List Sensor.regval)
    (hbody : ∀ r, r ∈ body → r.addr ≠ Sensor.REG_NULL) :
    (∀ f, f ∈ [GC5603.gc5603_write_array, OV50H40.ov50h40_write_array,
               SC5336.sc5336_write_array] →
      ∃ n, n ≤ body.length ∧
        (f a (body ++ ⟨Sensor.REG_NULL, v⟩ :: rest) bus).2
          = bus ++ (Sensor.regval_ops body).take n ∧
        (∀ j, j + 1 < n → Sensor.regval_sent a bus.length body j) ∧
        (((f a (body ++ ⟨Sensor.REG_NULL, v⟩ :: rest) bus).1 = 0 ∧ n = body.length ∧
            ∀ j, j < n → Sensor.regval_sent a bus.length body j) ∨
         ((f a (body ++ ⟨Sensor.REG_NULL, v⟩ :: rest) bus).1 = -Sensor.EIO_NR ∧ 0 < n ∧
            ¬ Sensor.regval_sent a bus.length body (n - 1)))) ∧
    (∀ f, f ∈ [GC8613.gc8613_write_array, IMX708.imx708_write_array] →
      ∃ n, n ≤ (body.filter (fun r => decide (r.addr ≠ Sensor.REG_DELAY))).length ∧
        (f a (body ++ ⟨Sensor.REG_NULL, v⟩ :: rest) bus).2
          = bus ++ (Sensor.regval_ops
              (body.filter (fun r => decide (r.addr ≠ Sensor.REG_DELAY)))).take n ∧
        (∀ j, j + 1 < n → Sensor.regval_sent a bus.length
          (body.filter (fun r => decide (r.addr ≠ Sensor.REG_DELAY))) j) ∧
        (((f a (body ++ ⟨Sensor.REG_NULL, v⟩ :: rest) bus).1 = 0 ∧
            n = (body.filter (fun r => decide (r.addr ≠ Sensor.REG_DELAY))).length ∧
            ∀ j, j < n → Sensor.regval_sent a bus.length
              (body.filter (fun r => decide (r.addr ≠ Sensor.REG_DELAY))) j) ∨
         ((f a (body ++ ⟨Sensor.REG_NULL, v⟩ :: rest) bus).1 = -Sensor.EIO_NR ∧ 0 < n ∧
            ¬ Sensor.regval_sent a bus.length
              (body.filter (fun r => decide (r.addr ≠ Sensor.REG_DELAY))) (n - 1)))) := by
  constructor
  · intro f hf
    simp only [List.mem_cons, List.mem_singleton, List.not_mem_nil, or_false] at hf
    rcases hf with rfl | rfl | rfl <;>
      exact Sensor.write_array_trace a v rest body bus hbody
  · intro f hf
    simp only [List.mem_cons, List.mem_singleton, List.not_mem_nil, or_false] at hf
    rcases hf with rfl | rfl <;>
      exact Sensor.write_array_delay_trace a v rest body bus hbody

/-- Witness of C12: the list `{0x0a70, 0x03}, {REG_DELAY, 0x14}, {0x0100, 0x09},
{REG_NULL, 0x00}` on a transport whose transaction number 1 fails. -/
theorem C12_write_array_trace_witness :
    (∀ r, r ∈ [(⟨0x0a70, 0x03⟩ : Sensor.regval), ⟨Sensor.REG_DELAY, 0x14⟩, ⟨0x0100, 0x09⟩] →
      r.addr ≠ Sensor.REG_NULL) ∧
    (∃ n, n ≤ ([(⟨0x0a70, 0x03⟩ : Sensor.regval), ⟨Sensor.REG_DELAY, 0x14⟩, ⟨0x0100, 0x09⟩].filter
              (fun r => decide (r.addr ≠ Sensor.REG_DELAY))).length ∧
        (GC8613.gc8613_write_array (Sensor.adapter_fail_at 1)
          ([(⟨0x0a70, 0x03⟩ : Sensor.regval), ⟨Sensor.REG_DELAY, 0x14⟩, ⟨0x0100, 0x09⟩]
            ++ ⟨Sensor.REG_NULL, 0⟩ :: []) []).2
          = [] ++ (Sensor.regval_ops
              ([(⟨0x0a70, 0x03⟩ : Sensor.regval), ⟨Sensor.REG_DELAY, 0x14⟩, ⟨0x0100, 0x09⟩].filter
                (fun r => decide (r.addr ≠ Sensor.REG_DELAY)))).take n ∧
        (∀ j, j + 1 < n → Sensor.regval_sent (Sensor.adapter_fail_at 1) ([] : Sensor.Bus).length
          ([(⟨0x0a70, 0x03⟩ : Sensor.regval), ⟨Sensor.REG_DELAY, 0x14⟩, ⟨0x0100, 0x09⟩].filter
            (fun r => decide (r.addr ≠ Sensor.REG_DELAY))) j) ∧
        (((GC8613.gc8613_write_array (Sensor.adapter_fail_at 1)
            ([(⟨0x0a70, 0x03⟩ : Sensor.regval), ⟨Sensor.REG_DELAY, 0x14⟩, ⟨0x0100, 0x09⟩]
              ++ ⟨Sensor.REG_NULL, 0⟩ :: []) []).1 = 0 ∧
            n = ([(⟨0x0a70, 0x03⟩ : Sensor.regval), ⟨Sensor.REG_DELAY, 0x14⟩, ⟨0x0100, 0x09⟩].filter
              (fun r => decide (r.addr ≠ Sensor.REG_DELAY))).length ∧
            ∀ j, j < n → Sensor.regval_sent (Sensor.adapter_fail_at 1) ([] : Sensor.Bus).length
              ([(⟨0x0a70, 0x03⟩ : Sensor.regval), ⟨Sensor.REG_DELAY, 0x14⟩, ⟨0x0100, 0x09⟩].filter
                (fun r => decide (r.addr ≠ Sensor.REG_DELAY))) j) ∨
         ((GC8613.gc8613_write_array (Sensor.adapter_fail_at 1)
            ([(⟨0x0a70, 0x03⟩ : Sensor.regval), ⟨Sensor.REG_DELAY, 0x14⟩, ⟨0x0100, 0x09⟩]
              ++ ⟨Sensor.REG_NULL, 0⟩ :: []) []).1 = -Sensor.EIO_NR ∧ 0 < n ∧
            ¬ Sensor.regval_sent (Sensor.adapter_fail_at 1) ([] : Sensor.Bus).length
              ([(⟨0x0a70, 0x03⟩ : Sensor.regval), ⟨Sensor.REG_DELAY, 0x14⟩, ⟨0x0100, 0x09⟩].filter
                (fun r => decide (r.addr ≠ Sensor.REG_DELAY))) (n - 1)))) :=
  ⟨by decide,
   (C12_write_array_trace (Sensor.adapter_fail_at 1) []
      [⟨0x0a70, 0x03⟩, ⟨Sensor.REG_DELAY, 0x14⟩, ⟨0x0100, 0x09⟩] 0 [] (by decide)).2
      GC8613.gc8613_write_array (List.mem_cons_self _ _)⟩

/-- C13: for each sensor's `write_reg(reg, len, val)` with a `u16` register
address: if `len > 4` it returns `-EINVAL` and hands nothing to the bus; if
`1 <= len <= 4` it hands the bus one buffer of exactly `len + 2` bytes,
`reg >> 8`, `reg & 0xff` and then the low `len` bytes of `val`, most
significant first, and returns 0 if the transport reports `len + 2` and `-EIO`
otherwise. -/
theorem C13_write_reg_contract (f : Sensor.I2cAdapter → Sensor.Bus → Nat → Nat → Nat → Int × Sensor.Bus)
    (hf : f ∈ [GC5603.gc5603_write_reg, GC8613.gc8613_write_reg, IMX708.imx708_write_reg,
               OV50H40.ov50h40_write_reg, SC5336.sc5336_write_reg])
    (a : Sensor.I2cAdapter) (bus : Sensor.Bus) (reg len val : Nat) (hreg : reg < 2 ^ 16) :
    (4 < len → f a bus reg len val = (-Sensor.EINVAL_NR, bus)) ∧
    (1 ≤ len → len ≤ 4 →
      ([reg >>> 8, reg &&& 0xff] ++
          (List.range len).map (fun j => (val >>> (8 * (len - 1 - j))) &&& 0xff)).length
        = len + 2 ∧
      (f a bus reg len val).2
        = bus ++ [Sensor.BusOp.send ([reg >>> 8, reg &&& 0xff] ++
            (List.range len).map (fun j => (val >>> (8 * (len - 1 - j))) &&& 0xff))] ∧
      (f a bus reg len val).1
        = if a.master_send bus.length ([reg >>> 8, reg &&& 0xff] ++
              (List.range len).map (fun j => (val >>> (8 * (len - 1 - j))) &&& 0xff))
            = ((len + 2 : Nat) : Int)
          then 0 else -Sensor.EIO_NR) := by
  have hf2 : f = Sensor.write_reg := by
    simp only [List.mem_cons, List.mem_singleton, List.not_mem_nil, or_false] at hf
    rcases hf with rfl | rfl | rfl | rfl | rfl <;> rfl
  subst hf2
  have hhi : (reg >>> 8) % 256 = reg >>> 8 := by
    apply Nat.mod_eq_of_lt
    rw [Nat.shiftRight_eq_div_pow]
    omega
  refine ⟨?_, ?_⟩
  · intro h
    simp [Sensor.write_reg, h]
  · intro h1 h4
    have hcases : len = 1 ∨ len = 2 ∨ len = 3 ∨ len = 4 := by omega
    rcases hcases with rfl | rfl | rfl | rfl
    all_goals
      refine ⟨by simp, ?_, ?_⟩
      · simp only [Sensor.write_reg, Sensor.be32_bytes, hhi]
        split_ifs <;> first | omega | simp [List.range_succ]
      · simp only [Sensor.write_reg, Sensor.be32_bytes, hhi]
        split_ifs <;> simp_all [List.range_succ]

/-- Witness of C13: `gc5603_write_reg(0x0100, 1, 0x09)` on a working
transport. -/
theorem C13_write_reg_contract_witness :
    (GC5603.gc5603_write_reg ∈ [GC5603.gc5603_write_reg, GC8613.gc8613_write_reg,
        IMX708.imx708_write_reg, OV50H40.ov50h40_write_reg, SC5336.sc5336_write_reg] ∧
      (0x0100 : Nat) < 2 ^ 16 ∧ 1 ≤ 1 ∧ 1 ≤ 4) ∧
    (GC5603.gc5603_write_reg Sensor.adapter_ok [] 0x0100 1 0x09).2
      = [] ++ [Sensor.BusOp.send ([0x0100 >>> 8, 0x0100 &&& 0xff] ++
          (List.range 1).map (fun j => (0x09 >>> (8 * (1 - 1 - j))) &&& 0xff))] :=
  ⟨⟨List.mem_cons_self _ _, by decide, by decide, by decide⟩,
   ((C13_write_reg_contract GC5603.gc5603_write_reg (List.mem_cons_self _ _)
      Sensor.adapter_ok [] 0x0100 1 0x09 (by decide)).2 (by decide) (by decide)).2.1⟩

namespace GC8613
open Sensor

/-- C11: `gc8613_set_fmt` (ACTIVE) and `gc8613_initialize_controls` store the
pixel rate `link_freq_items[m.mipi_freq_idx] / m.bpp * 2 * GC8613_LANES` of the
mode they work on; for a catalog mode `m` the `u32` computation is this
integer expression and does not exceed `GC8613_MAX_PIXEL_RATE`, the maximum
the pixel-rate control is created with; the value is 396000000 for the
3840x2160 12-bit mode and 400952000 for the 1920x1080 10-bit mode. -/
theorem C11_gc8613_pixel_rate (dev : Dev) (framefmt : v4l2_mbus_framefmt) (m : Mode)
    (hm : m ∈ supported_modes) :
    (gc8613_set_fmt dev v4l2_subdev_format_whence.V4L2_SUBDEV_FORMAT_ACTIVE
        framefmt).pixel_rate.val
      = gc8613_pixel_rate (gc8613_find_best_fit dev.cfg_num framefmt) ∧
    (gc8613_initialize_controls dev).pixel_rate.val
      = gc8613_pixel_rate (supported_modes.getD dev.cur_mode Mode.none) ∧
    (gc8613_initialize_controls dev).pixel_rate.maximum = GC8613_MAX_PIXEL_RATE ∧
    gc8613_pixel_rate m = link_freq_items.getD m.mipi_freq_idx 0 / m.bpp * 2 * GC8613_LANES ∧
    gc8613_pixel_rate m ≤ GC8613_MAX_PIXEL_RATE ∧
    supported_modes.map (fun e => (e.width, e.height, e.bpp, gc8613_pixel_rate e))
      = [(3840, 2160, 12, 396000000), (1920, 1080, 10, 400952000)] := by
  refine ⟨rfl, rfl, rfl, ?_, ?_, by decide⟩
  · simp only [supported_modes, List.mem_cons, List.mem_singleton, List.not_mem_nil,
      or_false] at hm
    rcases hm with rfl | rfl <;> decide
  · simp only [supported_modes, List.mem_cons, List.mem_singleton, List.not_mem_nil,
      or_false] at hm
    rcases hm with rfl | rfl <;> decide

/-- C11 at the 1920x1080 entry, on the sample state. -/
theorem C11_gc8613_pixel_rate_witness :
    gc8613_pixel_rate (supported_modes.getD 1 Mode.none) = 400952000 ∧
    (gc8613_initialize_controls dev_sample).pixel_rate.val = 400952000 ∧
    gc8613_pixel_rate (supported_modes.getD 1 Mode.none) ≤ GC8613_MAX_PIXEL_RATE :=
  ⟨by decide, by decide,
   (C11_gc8613_pixel_rate dev_sample ⟨1920, 1080, MEDIA_BUS_FMT_SRGGB10_1X10⟩
      (supported_modes.getD 1 Mode.none) (by decide)).2.2.2.2.1⟩

end GC8613

namespace Sensor

/-- The control setup pass keeps every part of the state that the handler
keeps. -/
theorem handler_setup_frame {α : Type} (f : Dev → α)
    (s_ctrl : Dev → Bus → CtrlId → Int → Int × Dev × Bus)
    (h : ∀ dev bus id val, f (s_ctrl dev bus id val).2.1 = f dev)
    (cs : List (CtrlId × (Dev → v4l2_ctrl))) (dev : Dev) (bus : Bus) :
    f (__v4l2_ctrl_handler_setup s_ctrl cs dev bus).2.1 = f dev := by
  induction cs generalizing dev bus with
  | nil => rfl
  | cons c rest ih =>
    simp only [__v4l2_ctrl_handler_setup]
    split_ifs with hc
    · exact h _ _ _ _
    · rw [ih, h]

/-- The handler `gc5603_set_ctrl` keeps the power and streaming state. -/
theorem gc5603_set_ctrl_bus_frame (a : I2cAdapter) (dev : Dev) (bus : Bus) (id : CtrlId)
    (val : Int) :
    power_state (GC5603.gc5603_set_ctrl_bus a dev bus id val).2.1 = power_state dev := by
  unfold GC5603.gc5603_set_ctrl_bus GC5603.gc5603_set_ctrl_propagate power_state
  cases id <;> dsimp only <;> split_ifs <;> rfl

/-- The handler `gc8613_set_ctrl` keeps the power and streaming state. -/
theorem gc8613_set_ctrl_bus_frame (a : I2cAdapter) (dev : Dev) (bus : Bus) (id : CtrlId)
    (val : Int) :
    power_state (GC8613.gc8613_set_ctrl_bus a dev bus id val).2.1 = power_state dev := by
  unfold GC8613.gc8613_set_ctrl_bus GC8613.gc8613_set_ctrl_propagate power_state
  cases id <;> dsimp only <;> split_ifs <;> rfl

/-- The handler `imx708_set_ctrl` keeps the power and streaming state. -/
theorem imx708_set_ctrl_bus_frame (a : I2cAdapter) (dev : Dev) (bus : Bus) (id : CtrlId)
    (val : Int) :
    power_state (IMX708.imx708_set_ctrl_bus a dev bus id val).2.1 = power_state dev := by
  unfold IMX708.imx708_set_ctrl_bus IMX708.imx708_set_ctrl_propagate power_state
  cases id <;> dsimp only <;> split_ifs <;> rfl

/-- The handler `ov50h40_set_ctrl` keeps the power and streaming state. -/
theorem ov50h40_set_ctrl_bus_frame (a : I2cAdapter) (dev : Dev) (bus : Bus) (id : CtrlId)
    (val : Int) :
    power_state (OV50H40.ov50h40_set_ctrl_bus a dev bus id val).2.1 = power_state dev := by
  unfold OV50H40.ov50h40_set_ctrl_bus OV50H40.ov50h40_set_ctrl_propagate power_state
  cases id <;> dsimp only <;> split_ifs <;> rfl

/-- The handler `sc5336_set_ctrl` keeps the power and streaming state. -/
theorem sc5336_set_ctrl_bus_frame (a : I2cAdapter) (dev : Dev) (bus : Bus) (id : CtrlId)
    (val : Int) :
    power_state (SC5336.sc5336_set_ctrl_bus a dev bus id val).2.1 = power_state dev := by
  unfold SC5336.sc5336_set_ctrl_bus SC5336.sc5336_set_ctrl_propagate power_state
    SC5336.sc5336_modify_fps_info
  cases id <;> dsimp only <;> split_ifs <;> rfl

end Sensor

namespace Sensor

/-- The start sequence of gc5603 keeps the power and streaming state. -/
theorem gc5603_start_stream_frame (a : I2cAdapter) (dev : Dev) (bus : Bus) :
    power_state (GC5603.__gc5603_start_stream a dev bus).2.1 = power_state dev := by
  have hs := fun b => handler_setup_frame power_state (GC5603.gc5603_set_ctrl_bus a)
    (gc5603_set_ctrl_bus_frame a) GC5603.gc5603_handler_ctrls dev b
  unfold GC5603.__gc5603_start_stream
  dsimp only
  split_ifs <;> first | rfl | exact hs _

/-- The start sequence of gc8613 keeps the power and streaming state. -/
theorem gc8613_start_stream_frame (a : I2cAdapter) (reg_list : List regval) (dev : Dev)
    (bus : Bus) :
    power_state (GC8613.__gc8613_start_stream a reg_list dev bus).2.1 = power_state dev := by
  have hs := fun b => handler_setup_frame power_state (GC8613.gc8613_set_ctrl_bus a)
    (gc8613_set_ctrl_bus_frame a) handler_ctrls dev b
  unfold GC8613.__gc8613_start_stream
  dsimp only
  split_ifs <;> first | rfl | exact hs _

/-- The start sequence of imx708 keeps the power and streaming state. -/
theorem imx708_start_stream_frame (a : I2cAdapter) (link_freq_400 : Nat)
    (global_reg_list reg_list : List regval) (dev : Dev) (bus : Bus) :
    power_state (IMX708.__imx708_start_stream a link_freq_400 global_reg_list reg_list dev
      bus).2.1 = power_state dev := by
  have hs := fun d b => handler_setup_frame power_state (IMX708.imx708_set_ctrl_bus a)
    (imx708_set_ctrl_bus_frame a) handler_ctrls d b
  unfold IMX708.__imx708_start_stream
  dsimp only
  split_ifs <;> first | rfl | (rw [hs]; rfl) | exact (hs _ _).trans rfl

/-- The start sequence of ov50h40 keeps the power and streaming state. -/
theorem ov50h40_start_stream_frame (a : I2cAdapter) (reg_list : List regval) (dev : Dev)
    (bus : Bus) :
    power_state (OV50H40.__ov50h40_start_stream a reg_list dev bus).2.1 = power_state dev := by
  have hs := fun b => handler_setup_frame power_state (OV50H40.ov50h40_set_ctrl_bus a)
    (ov50h40_set_ctrl_bus_frame a) handler_ctrls dev b
  unfold OV50H40.__ov50h40_start_stream
  dsimp only
  split_ifs <;> first | rfl | exact hs _

/-- The start sequence of sc5336 keeps the power and streaming state. -/
theorem sc5336_start_stream_frame (a : I2cAdapter) (reg_list : List regval) (dev : Dev)
    (bus : Bus) :
    power_state (SC5336.__sc5336_start_stream a reg_list dev bus).2.1 = power_state dev := by
  have hs := fun b => handler_setup_frame power_state (SC5336.sc5336_set_ctrl_bus a)
    (sc5336_set_ctrl_bus_frame a) handler_ctrls dev b
  unfold SC5336.__sc5336_start_stream
  dsimp only
  split_ifs <;> first | rfl | exact hs _

end Sensor

namespace Sensor

/-- After `pm_runtime_get_sync` and the drop of the reference the usage count
is what it was. -/
theorem usage_count_get_put (rpm : Int) (dev : Dev) :
    (pm_runtime_put (pm_runtime_get_sync rpm dev).2).usage_count = dev.usage_count ∧
    (pm_runtime_put_noidle (pm_runtime_get_sync rpm dev).2).usage_count = dev.usage_count := by
  unfold pm_runtime_put pm_runtime_put_noidle pm_runtime_get_sync
  constructor <;> split_ifs <;> simp

/-- The four sibling drivers of gc5603 hand a failure of their start sequence
on: when `pm_runtime_get_sync` succeeded and the start sequence does not
return 0, `s_stream(1)` from the not-streaming state returns a non-zero value,
leaves the streaming flag clear and leaves the usage count as it found it
(`dev1` is the state after the fast-boot check of ov50h40 and sc5336). -/
theorem s_stream_reports_start_failure (a : I2cAdapter) (rpm : Int) (tb_ng : Bool)
    (link_freq_400 : Nat) (global_reg_list reg_list : List regval) (dev dev1 : Dev) (bus : Bus)
    (hs : dev.streaming = false) (hr : 0 ≤ rpm)
    (h1 : dev1 = if dev.is_thunderboot && tb_ng then { dev with is_thunderboot := false }
                 else dev) :
    ((GC8613.__gc8613_start_stream a reg_list (pm_runtime_get_sync rpm dev).2 bus).1 ≠ 0 →
      (GC8613.gc8613_s_stream a rpm reg_list dev bus 1).1 ≠ 0 ∧
      (GC8613.gc8613_s_stream a rpm reg_list dev bus 1).2.1.streaming = false ∧
      (GC8613.gc8613_s_stream a rpm reg_list dev bus 1).2.1.usage_count = dev.usage_count) ∧
    ((IMX708.__imx708_start_stream a link_freq_400 global_reg_list reg_list
        (pm_runtime_get_sync rpm dev).2 bus).1 ≠ 0 →
      (IMX708.imx708_s_stream a rpm link_freq_400 global_reg_list reg_list dev bus 1).1 ≠ 0 ∧
      (IMX708.imx708_s_stream a rpm link_freq_400 global_reg_list reg_list dev bus
        1).2.1.streaming = false ∧
      (IMX708.imx708_s_stream a rpm link_freq_400 global_reg_list reg_list dev bus
        1).2.1.usage_count = dev.usage_count) ∧
    ((OV50H40.__ov50h40_start_stream a reg_list (pm_runtime_get_sync rpm dev1).2 bus).1 ≠ 0 →
      (OV50H40.ov50h40_s_stream a rpm tb_ng reg_list dev bus 1).1 ≠ 0 ∧
      (OV50H40.ov50h40_s_stream a rpm tb_ng reg_list dev bus 1).2.1.streaming = false ∧
      (OV50H40.ov50h40_s_stream a rpm tb_ng reg_list dev bus 1).2.1.usage_count
        = dev.usage_count) ∧
    ((SC5336.__sc5336_start_stream a reg_list (pm_runtime_get_sync rpm dev1).2 bus).1 ≠ 0 →
      (SC5336.sc5336_s_stream a rpm tb_ng reg_list dev bus 1).1 ≠ 0 ∧
      (SC5336.sc5336_s_stream a rpm tb_ng reg_list dev bus 1).2.1.streaming = false ∧
      (SC5336.sc5336_s_stream a rpm tb_ng reg_list dev bus 1).2.1.usage_count
        = dev.usage_count) := by
  have hg : ∀ d : Dev, ¬ (pm_runtime_get_sync rpm d).1 < 0 := by
    intro d; unfold pm_runtime_get_sync; split_ifs <;> simp <;> omega
  have hgs : ∀ d : Dev, (pm_runtime_get_sync rpm d).2.streaming = d.streaming := by
    intro d; unfold pm_runtime_get_sync; split_ifs <;> rfl
  have hgu : ∀ d : Dev, (pm_runtime_get_sync rpm d).2.usage_count = d.usage_count + 1 := by
    intro d; unfold pm_runtime_get_sync; split_ifs <;> rfl
  have hd1 : dev1.streaming = false ∧ dev1.usage_count = dev.usage_count := by
    subst h1; split_ifs <;> exact ⟨hs, rfl⟩
  refine ⟨?_, ?_, ?_, ?_⟩
  · intro h
    have hf := gc8613_start_stream_frame a reg_list (pm_runtime_get_sync rpm dev).2 bus
    simp only [power_state, Prod.mk.injEq] at hf
    simp [GC8613.gc8613_s_stream, hs, hg, h, pm_runtime_put, hf.1, hf.2.2.1, hgs, hgu]
  · intro h
    have hf := imx708_start_stream_frame a link_freq_400 global_reg_list reg_list
      (pm_runtime_get_sync rpm dev).2 bus
    simp only [power_state, Prod.mk.injEq] at hf
    simp [IMX708.imx708_s_stream, hs, hg, h, pm_runtime_put, hf.1, hf.2.2.1, hgs, hgu]
  · intro h
    have hf := ov50h40_start_stream_frame a reg_list (pm_runtime_get_sync rpm dev1).2 bus
    simp only [power_state, Prod.mk.injEq] at hf
    simp only [OV50H40.ov50h40_s_stream, ← h1]
    simp [hs, hg, h, pm_runtime_put, hf.1, hf.2.2.1, hgs, hgu, hd1.1, hd1.2]
  · intro h
    have hf := sc5336_start_stream_frame a reg_list (pm_runtime_get_sync rpm dev1).2 bus
    simp only [power_state, Prod.mk.injEq] at hf
    simp only [SC5336.sc5336_s_stream, ← h1]
    simp [hs, hg, h, pm_runtime_put, hf.1, hf.2.2.1, hgs, hgu, hd1.1, hd1.2]

/-- The handlers `set_ctrl` of the five drivers never read the power flag:
with the flag set to any value `b` beforehand they return the same value, hand
the same transactions to the bus and leave the same state, up to that flag. -/
theorem set_ctrl_bus_power_flag (a : I2cAdapter) (dev : Dev) (bus : Bus) (id : CtrlId)
    (val : Int) (b : Bool) :
    same_up_to_power b (GC5603.gc5603_set_ctrl_bus a { dev with power_on := b } bus id val)
      (GC5603.gc5603_set_ctrl_bus a dev bus id val) ∧
    same_up_to_power b (GC8613.gc8613_set_ctrl_bus a { dev with power_on := b } bus id val)
      (GC8613.gc8613_set_ctrl_bus a dev bus id val) ∧
    same_up_to_power b (IMX708.imx708_set_ctrl_bus a { dev with power_on := b } bus id val)
      (IMX708.imx708_set_ctrl_bus a dev bus id val) ∧
    same_up_to_power b (OV50H40.ov50h40_set_ctrl_bus a { dev with power_on := b } bus id val)
      (OV50H40.ov50h40_set_ctrl_bus a dev bus id val) ∧
    same_up_to_power b (SC5336.sc5336_set_ctrl_bus a { dev with power_on := b } bus id val)
      (SC5336.sc5336_set_ctrl_bus a dev bus id val) := by
  refine ⟨?_, ?_, ?_, ?_, ?_⟩
  · unfold same_up_to_power GC5603.gc5603_set_ctrl_bus GC5603.gc5603_set_ctrl_propagate
    refine ⟨?_, ?_, ?_⟩ <;> cases id <;> dsimp only <;> split_ifs <;> rfl
  · unfold same_up_to_power GC8613.gc8613_set_ctrl_bus GC8613.gc8613_set_ctrl_propagate
    refine ⟨?_, ?_, ?_⟩ <;> cases id <;> dsimp only <;> split_ifs <;> rfl
  · unfold same_up_to_power IMX708.imx708_set_ctrl_bus IMX708.imx708_set_ctrl_propagate
    refine ⟨?_, ?_, ?_⟩ <;> cases id <;> dsimp only <;> split_ifs <;> rfl
  · unfold same_up_to_power OV50H40.ov50h40_set_ctrl_bus OV50H40.ov50h40_set_ctrl_propagate
    refine ⟨?_, ?_, ?_⟩ <;> cases id <;> dsimp only <;> split_ifs <;> rfl
  · unfold same_up_to_power SC5336.sc5336_set_ctrl_bus SC5336.sc5336_set_ctrl_propagate
      SC5336.sc5336_modify_fps_info
    refine ⟨?_, ?_, ?_⟩ <;> cases id <;> dsimp only <;> split_ifs <;> rfl

/-- The control setup pass does not read the power flag when the handler and
the controls it walks do not. -/
theorem handler_setup_power_flag (s_ctrl : Dev → Bus → CtrlId → Int → Int × Dev × Bus)
    (hS : ∀ dev bus id val b,
      same_up_to_power b (s_ctrl { dev with power_on := b } bus id val) (s_ctrl dev bus id val))
    (l : List (CtrlId × (Dev → v4l2_ctrl)))
    (hl : ∀ c ∈ l, ∀ (dev : Dev) (b : Bool), c.2 { dev with power_on := b } = c.2 dev) :
    ∀ (dev : Dev) (bus : Bus) (b : Bool),
      same_up_to_power b (__v4l2_ctrl_handler_setup s_ctrl l { dev with power_on := b } bus)
        (__v4l2_ctrl_handler_setup s_ctrl l dev bus) := by
  induction l with
  | nil => intro dev bus b; exact ⟨rfl, rfl, rfl⟩
  | cons c rest ih =>
    intro dev bus b
    have hc := hl c (List.mem_cons_self _ _) dev b
    have ih2 := ih (fun c2 h2 => hl c2 (List.mem_cons_of_mem _ h2))
    obtain ⟨s1, s2, s3⟩ := hS dev bus c.1 (c.2 dev).val b
    simp only [__v4l2_ctrl_handler_setup, hc]
    by_cases h0 : (s_ctrl dev bus c.1 (c.2 dev).val).1 ≠ 0
    · rw [if_pos (by rw [s1]; exact h0), if_pos h0]
      exact ⟨s1, s2, s3⟩
    · rw [if_neg (by rw [s1]; exact h0), if_neg h0, s2, s3]
      exact ih2 _ _ b

/-- The controls walked by the setup pass are read from fields other than the
power flag. -/
theorem handler_ctrls_power_flag :
    (∀ c ∈ handler_ctrls, ∀ (dev : Dev) (b : Bool), c.2 { dev with power_on := b } = c.2 dev) ∧
    (∀ c ∈ GC5603.gc5603_handler_ctrls, ∀ (dev : Dev) (b : Bool),
      c.2 { dev with power_on := b } = c.2 dev) := by
  constructor
  · intro c hc dev b
    simp only [handler_ctrls, List.mem_cons, List.mem_singleton, List.not_mem_nil,
      or_false] at hc
    rcases hc with rfl | rfl | rfl | rfl | rfl | rfl <;> rfl
  · intro c hc dev b
    simp only [GC5603.gc5603_handler_ctrls, List.mem_cons, List.mem_singleton,
      List.not_mem_nil, or_false] at hc
    rcases hc with rfl | rfl | rfl | rfl | rfl <;> rfl

/-- The start sequence of gc5603 never reads the power flag. -/
theorem gc5603_start_stream_power_flag (a : I2cAdapter) (dev : Dev) (bus : Bus) (b : Bool) :
    same_up_to_power b (GC5603.__gc5603_start_stream a { dev with power_on := b } bus)
      (GC5603.__gc5603_start_stream a dev bus) := by
  have h := handler_setup_power_flag (GC5603.gc5603_set_ctrl_bus a)
    (fun d bu i v c => (set_ctrl_bus_power_flag a d bu i v c).1) _ handler_ctrls_power_flag.2
  unfold GC5603.__gc5603_start_stream
  dsimp only
  by_cases h1 : (GC5603.gc5603_write_array a (GC5603.reg_list dev.cur_mode) bus).1 ≠ 0
  · rw [if_pos h1, if_pos h1]
    exact ⟨rfl, rfl, rfl⟩
  · rw [if_neg h1, if_neg h1]
    generalize (write_regs a [(0x0a70, 0x00), (0x0080, 0x02), (0x0a67, 0x00)]
      (GC5603.gc5603_write_array a (GC5603.reg_list dev.cur_mode) bus).2).2 = bus1
    obtain ⟨s1, s2, s3⟩ := h dev bus1 b
    generalize __v4l2_ctrl_handler_setup (GC5603.gc5603_set_ctrl_bus a)
      GC5603.gc5603_handler_ctrls { dev with power_on := b } bus1 = r1 at s1 s2 s3 ⊢
    generalize __v4l2_ctrl_handler_setup (GC5603.gc5603_set_ctrl_bus a)
      GC5603.gc5603_handler_ctrls dev bus1 = r2 at s1 s2 s3 ⊢
    obtain ⟨x1, d1, b1⟩ := r1
    obtain ⟨x2, d2, b2⟩ := r2
    dsimp only at s1 s2 s3
    subst s1 s2 s3
    dsimp only
    split_ifs <;> exact ⟨rfl, rfl, rfl⟩

/-- The start sequence of gc8613 never reads the power flag. -/
theorem gc8613_start_stream_power_flag (a : I2cAdapter) (reg_list : List regval) (dev : Dev)
    (bus : Bus) (b : Bool) :
    same_up_to_power b (GC8613.__gc8613_start_stream a reg_list { dev with power_on := b } bus)
      (GC8613.__gc8613_start_stream a reg_list dev bus) := by
  have h := handler_setup_power_flag (GC8613.gc8613_set_ctrl_bus a)
    (fun d bu i v c => (set_ctrl_bus_power_flag a d bu i v c).2.1) _
    handler_ctrls_power_flag.1
  unfold GC8613.__gc8613_start_stream
  dsimp only
  by_cases h1 : (GC8613.gc8613_write_array a reg_list bus).1 ≠ 0
  · rw [if_pos h1, if_pos h1]
    exact ⟨rfl, rfl, rfl⟩
  · rw [if_neg h1, if_neg h1]
    generalize (GC8613.gc8613_write_array a reg_list bus).2 = bus1
    obtain ⟨s1, s2, s3⟩ := h dev bus1 b
    generalize __v4l2_ctrl_handler_setup (GC8613.gc8613_set_ctrl_bus a) handler_ctrls
      { dev with power_on := b } bus1 = r1 at s1 s2 s3 ⊢
    generalize __v4l2_ctrl_handler_setup (GC8613.gc8613_set_ctrl_bus a) handler_ctrls
      dev bus1 = r2 at s1 s2 s3 ⊢
    obtain ⟨x1, d1, b1⟩ := r1
    obtain ⟨x2, d2, b2⟩ := r2
    dsimp only at s1 s2 s3
    subst s1 s2 s3
    simp only [GC8613.gc8613_ioctl]
    split_ifs <;> exact ⟨rfl, rfl, rfl⟩

/-- The start sequence of imx708 never reads the power flag. -/
theorem imx708_start_stream_power_flag (a : I2cAdapter) (link_freq_400 : Nat)
    (global_reg_list reg_list : List regval) (dev : Dev) (bus : Bus) (b : Bool) :
    same_up_to_power b
      (IMX708.__imx708_start_stream a link_freq_400 global_reg_list reg_list
        { dev with power_on := b } bus)
      (IMX708.__imx708_start_stream a link_freq_400 global_reg_list reg_list dev bus) := by
  have h := handler_setup_power_flag (IMX708.imx708_set_ctrl_bus a)
    (fun d bu i v c => (set_ctrl_bus_power_flag a d bu i v c).2.2.1) _
    handler_ctrls_power_flag.1
  unfold IMX708.__imx708_start_stream
  dsimp only
  by_cases h1 : (IMX708.imx708_write_array a global_reg_list bus).1 ≠ 0
  · rw [if_pos h1, if_pos h1]
    exact ⟨rfl, rfl, rfl⟩
  · rw [if_neg h1, if_neg h1]
    generalize (IMX708.imx708_write_array a global_reg_list bus).2 = bus0
    by_cases h2 : (IMX708.imx708_write_array a reg_list bus0).1 ≠ 0
    · rw [if_pos h2, if_pos h2]
      exact ⟨rfl, rfl, rfl⟩
    · rw [if_neg h2, if_neg h2]
      generalize (IMX708.imx708_write_array a reg_list bus0).2 = bus1
      obtain ⟨s1, s2, s3⟩ := h
        { dev with cur_vts := (IMX708.supported_modes.getD dev.cur_mode Mode.none).vts_def }
        bus1 b
      generalize __v4l2_ctrl_handler_setup (IMX708.imx708_set_ctrl_bus a) handler_ctrls
        _ bus1 = r1 at s1 s2 s3 ⊢
      generalize __v4l2_ctrl_handler_setup (IMX708.imx708_set_ctrl_bus a) handler_ctrls
        _ bus1 = r2 at s1 s2 s3 ⊢
      obtain ⟨x1, d1, b1⟩ := r1
      obtain ⟨x2, d2, b2⟩ := r2
      dsimp only at s1 s2 s3
      subst s1 s2 s3
      simp only [IMX708.imx708_ioctl]
      split_ifs <;> exact ⟨rfl, rfl, rfl⟩

/-- The start sequence of ov50h40 never reads the power flag. -/
theorem ov50h40_start_stream_power_flag (a : I2cAdapter) (reg_list : List regval) (dev : Dev)
    (bus : Bus) (b : Bool) :
    same_up_to_power b
      (OV50H40.__ov50h40_start_stream a reg_list { dev with power_on := b } bus)
      (OV50H40.__ov50h40_start_stream a reg_list dev bus) := by
  have h := handler_setup_power_flag (OV50H40.ov50h40_set_ctrl_bus a)
    (fun d bu i v c => (set_ctrl_bus_power_flag a d bu i v c).2.2.2.1) _
    handler_ctrls_power_flag.1
  unfold OV50H40.__ov50h40_start_stream
  dsimp only
  generalize (if (!dev.is_thunderboot) = true then OV50H40.ov50h40_write_array a reg_list bus
    else (0, bus)) = w
  by_cases h1 : w.1 ≠ 0
  · rw [if_pos h1, if_pos h1]
    exact ⟨rfl, rfl, rfl⟩
  · rw [if_neg h1, if_neg h1]
    obtain ⟨s1, s2, s3⟩ := h dev w.2 b
    generalize __v4l2_ctrl_handler_setup (OV50H40.ov50h40_set_ctrl_bus a) handler_ctrls
      { dev with power_on := b } w.2 = r1 at s1 s2 s3 ⊢
    generalize __v4l2_ctrl_handler_setup (OV50H40.ov50h40_set_ctrl_bus a) handler_ctrls
      dev w.2 = r2 at s1 s2 s3 ⊢
    obtain ⟨x1, d1, b1⟩ := r1
    obtain ⟨x2, d2, b2⟩ := r2
    dsimp only at s1 s2 s3
    subst s1 s2 s3
    dsimp only
    split_ifs <;> exact ⟨rfl, rfl, rfl⟩

/-- The start sequence of sc5336 never reads the power flag. -/
theorem sc5336_start_stream_power_flag (a : I2cAdapter) (reg_list : List regval) (dev : Dev)
    (bus : Bus) (b : Bool) :
    same_up_to_power b
      (SC5336.__sc5336_start_stream a reg_list { dev with power_on := b } bus)
      (SC5336.__sc5336_start_stream a reg_list dev bus) := by
  have h := handler_setup_power_flag (SC5336.sc5336_set_ctrl_bus a)
    (fun d bu i v c => (set_ctrl_bus_power_flag a d bu i v c).2.2.2.2) _
    handler_ctrls_power_flag.1
  unfold SC5336.__sc5336_start_stream
  dsimp only
  generalize (if (!dev.is_thunderboot) = true then SC5336.sc5336_write_array a reg_list bus
    else (0, bus)) = w
  by_cases h1 : w.1 ≠ 0
  · rw [if_pos h1, if_pos h1]
    exact ⟨rfl, rfl, rfl⟩
  · rw [if_neg h1, if_neg h1]
    by_cases ht : (!dev.is_thunderboot) = true
    · rw [if_pos ht, if_pos ht]
      obtain ⟨s1, s2, s3⟩ := h dev w.2 b
      generalize __v4l2_ctrl_handler_setup (SC5336.sc5336_set_ctrl_bus a) handler_ctrls
        { dev with power_on := b } w.2 = r1 at s1 s2 s3 ⊢
      generalize __v4l2_ctrl_handler_setup (SC5336.sc5336_set_ctrl_bus a) handler_ctrls
        dev w.2 = r2 at s1 s2 s3 ⊢
      obtain ⟨x1, d1, b1⟩ := r1
      obtain ⟨x2, d2, b2⟩ := r2
      dsimp only at s1 s2 s3
      subst s1 s2 s3
      dsimp only
      split_ifs <;> exact ⟨rfl, rfl, rfl⟩
    · rw [if_neg ht, if_neg ht]
      dsimp only
      split_ifs <;> exact ⟨rfl, rfl, rfl⟩

/-- The call `pm_runtime_get_sync` does not read the power flag. -/
theorem pm_runtime_get_sync_power_flag (rpm : Int) (dev : Dev) (b : Bool) :
    pm_runtime_get_sync rpm { dev with power_on := b }
      = ((pm_runtime_get_sync rpm dev).1,
         { (pm_runtime_get_sync rpm dev).2 with power_on := b }) := by
  unfold pm_runtime_get_sync
  split_ifs <;> rfl

/-- The function `gc5603_s_stream` never reads the power flag. -/
theorem gc5603_s_stream_power_flag (a : I2cAdapter) (rpm : Int) (dev : Dev) (bus : Bus)
    (enable : Int) (b : Bool) :
    same_up_to_power b (GC5603.gc5603_s_stream a rpm { dev with power_on := b } bus enable)
      (GC5603.gc5603_s_stream a rpm dev bus enable) := by
  unfold GC5603.gc5603_s_stream
  dsimp only
  rw [pm_runtime_get_sync_power_flag]
  generalize pm_runtime_get_sync rpm dev = g
  obtain ⟨g1, gd⟩ := g
  dsimp only
  have hs := gc5603_start_stream_power_flag a gd bus b
  generalize GC5603.__gc5603_start_stream a { gd with power_on := b } bus = r1 at hs ⊢
  generalize GC5603.__gc5603_start_stream a gd bus = r2 at hs ⊢
  obtain ⟨x1, d1, b1⟩ := r1
  obtain ⟨x2, d2, b2⟩ := r2
  obtain ⟨s1, s2, s3⟩ := hs
  dsimp only at s1 s2 s3
  subst s1 s2 s3
  unfold pm_runtime_put pm_runtime_put_noidle
  dsimp only
  split_ifs <;> exact ⟨rfl, rfl, rfl⟩

/-- The function `gc8613_s_stream` never reads the power flag. -/
theorem gc8613_s_stream_power_flag (a : I2cAdapter) (rpm : Int) (reg_list : List regval)
    (dev : Dev) (bus : Bus) (enable : Int) (b : Bool) :
    same_up_to_power b
      (GC8613.gc8613_s_stream a rpm reg_list { dev with power_on := b } bus enable)
      (GC8613.gc8613_s_stream a rpm reg_list dev bus enable) := by
  unfold GC8613.gc8613_s_stream
  dsimp only
  rw [pm_runtime_get_sync_power_flag]
  generalize pm_runtime_get_sync rpm dev = g
  obtain ⟨g1, gd⟩ := g
  dsimp only
  have hs := gc8613_start_stream_power_flag a reg_list gd bus b
  generalize GC8613.__gc8613_start_stream a reg_list { gd with power_on := b } bus = r1 at hs ⊢
  generalize GC8613.__gc8613_start_stream a reg_list gd bus = r2 at hs ⊢
  obtain ⟨x1, d1, b1⟩ := r1
  obtain ⟨x2, d2, b2⟩ := r2
  obtain ⟨s1, s2, s3⟩ := hs
  dsimp only at s1 s2 s3
  subst s1 s2 s3
  unfold pm_runtime_put pm_runtime_put_noidle GC8613.__gc8613_stop_stream
  dsimp only
  split_ifs <;> exact ⟨rfl, rfl, rfl⟩

/-- The function `imx708_s_stream` never reads the power flag. -/
theorem imx708_s_stream_power_flag (a : I2cAdapter) (rpm : Int) (link_freq_400 : Nat)
    (global_reg_list reg_list : List regval) (dev : Dev) (bus : Bus) (enable : Int) (b : Bool) :
    same_up_to_power b
      (IMX708.imx708_s_stream a rpm link_freq_400 global_reg_list reg_list
        { dev with power_on := b } bus enable)
      (IMX708.imx708_s_stream a rpm link_freq_400 global_reg_list reg_list dev bus enable) := by
  unfold IMX708.imx708_s_stream
  dsimp only
  rw [pm_runtime_get_sync_power_flag]
  generalize pm_runtime_get_sync rpm dev = g
  obtain ⟨g1, gd⟩ := g
  dsimp only
  have hs := imx708_start_stream_power_flag a link_freq_400 global_reg_list reg_list gd bus b
  generalize IMX708.__imx708_start_stream a link_freq_400 global_reg_list reg_list
    { gd with power_on := b } bus = r1 at hs ⊢
  generalize IMX708.__imx708_start_stream a link_freq_400 global_reg_list reg_list gd bus
    = r2 at hs ⊢
  obtain ⟨x1, d1, b1⟩ := r1
  obtain ⟨x2, d2, b2⟩ := r2
  obtain ⟨s1, s2, s3⟩ := hs
  dsimp only at s1 s2 s3
  subst s1 s2 s3
  unfold pm_runtime_put pm_runtime_put_noidle
  dsimp only
  split_ifs <;> exact ⟨rfl, rfl, rfl⟩

/-- The function `ov50h40_s_stream` never reads the power flag. -/
theorem ov50h40_s_stream_power_flag (a : I2cAdapter) (rpm : Int) (tb_ng : Bool)
    (reg_list : List regval) (dev : Dev) (bus : Bus) (enable : Int) (b : Bool) :
    same_up_to_power b
      (OV50H40.ov50h40_s_stream a rpm tb_ng reg_list { dev with power_on := b } bus enable)
      (OV50H40.ov50h40_s_stream a rpm tb_ng reg_list dev bus enable) := by
  have h1 : (if (dev.is_thunderboot && tb_ng) = true
        then ({ ({ dev with power_on := b } : Dev) with is_thunderboot := false } : Dev)
        else { dev with power_on := b })
      = { (if (dev.is_thunderboot && tb_ng) = true then { dev with is_thunderboot := false }
           else dev) with power_on := b } := by
    split_ifs <;> rfl
  unfold OV50H40.ov50h40_s_stream OV50H40.__ov50h40_stop_stream
  dsimp only
  rw [h1]
  generalize (if (dev.is_thunderboot && tb_ng) = true then { dev with is_thunderboot := false }
    else dev) = dev1
  rw [pm_runtime_get_sync_power_flag]
  generalize pm_runtime_get_sync rpm dev1 = g
  obtain ⟨g1, gd⟩ := g
  dsimp only
  have hs := ov50h40_start_stream_power_flag a reg_list gd bus b
  generalize OV50H40.__ov50h40_start_stream a reg_list { gd with power_on := b } bus
    = r1 at hs ⊢
  generalize OV50H40.__ov50h40_start_stream a reg_list gd bus = r2 at hs ⊢
  obtain ⟨x1, d1, b1⟩ := r1
  obtain ⟨x2, d2, b2⟩ := r2
  obtain ⟨s1, s2, s3⟩ := hs
  dsimp only at s1 s2 s3
  subst s1 s2 s3
  unfold pm_runtime_put pm_runtime_put_noidle
  dsimp only
  split_ifs <;> exact ⟨rfl, rfl, rfl⟩

/-- The function `sc5336_s_stream` never reads the power flag. -/
theorem sc5336_s_stream_power_flag (a : I2cAdapter) (rpm : Int) (tb_ng : Bool)
    (reg_list : List regval) (dev : Dev) (bus : Bus) (enable : Int) (b : Bool) :
    same_up_to_power b
      (SC5336.sc5336_s_stream a rpm tb_ng reg_list { dev with power_on := b } bus enable)
      (SC5336.sc5336_s_stream a rpm tb_ng reg_list dev bus enable) := by
  have h1 : (if (dev.is_thunderboot && tb_ng) = true
        then ({ ({ dev with power_on := b } : Dev) with is_thunderboot := false } : Dev)
        else { dev with power_on := b })
      = { (if (dev.is_thunderboot && tb_ng) = true then { dev with is_thunderboot := false }
           else dev) with power_on := b } := by
    split_ifs <;> rfl
  unfold SC5336.sc5336_s_stream SC5336.__sc5336_stop_stream
  dsimp only
  rw [h1]
  generalize (if (dev.is_thunderboot && tb_ng) = true then { dev with is_thunderboot := false }
    else dev) = dev1
  rw [pm_runtime_get_sync_power_flag]
  generalize pm_runtime_get_sync rpm dev1 = g
  obtain ⟨g1, gd⟩ := g
  dsimp only
  have hs := sc5336_start_stream_power_flag a reg_list gd bus b
  generalize SC5336.__sc5336_start_stream a reg_list { gd with power_on := b } bus
    = r1 at hs ⊢
  generalize SC5336.__sc5336_start_stream a reg_list gd bus = r2 at hs ⊢
  obtain ⟨x1, d1, b1⟩ := r1
  obtain ⟨x2, d2, b2⟩ := r2
  obtain ⟨s1, s2, s3⟩ := hs
  dsimp only at s1 s2 s3
  subst s1 s2 s3
  unfold pm_runtime_put pm_runtime_put_noidle
  dsimp only
  split_ifs <;> exact ⟨rfl, rfl, rfl⟩

/-- C14, as stated, fails: on a working transport, with `pm_runtime_get_sync`
returning 0, `ov50h40_s_stream(1)` called with `power_on` and `streaming` both
clear returns 0, sets the streaming flag and hands ten transactions to the
bus, the last one the write of `OV50H40_MODE_STREAMING`; `gc5603_s_stream(1)`
from such a state hands 157 transactions to the bus. -/
theorem C14_s_stream_starts_from_powered_off :
    (OV50H40.dev_probed_dphy.power_on = false ∧ OV50H40.dev_probed_dphy.streaming = false ∧
     OV50H40.ov50h40_s_stream adapter_ok 0 false OV50H40.ov50h40_10bit_4096x3072_dphy_30fps_regs
        OV50H40.dev_probed_dphy [] 1
      = (0, { OV50H40.dev_probed_dphy with streaming := true, usage_count := 1, in_use := true },
         [ BusOp.send [0x38, 0x0e, 0x0c, 0x66], BusOp.send [0x35, 0x00, 0x00, 0x08, 0x40],
           BusOp.send [0x35, 0x08, 0x01, 0x00], BusOp.send [0x35, 0x0a, 0x01, 0x00, 0x00],
           BusOp.send [0x50, 0xc1, 0x00], BusOp.xfer 0x3821 1, BusOp.send [0x38, 0x21, 0x00],
           BusOp.xfer 0x3820 1, BusOp.send [0x38, 0x20, 0x00], BusOp.send [0x01, 0x00, 0x01] ])) ∧
    (GC5603.dev_probed.power_on = false ∧ GC5603.dev_probed.streaming = false ∧
     (GC5603.gc5603_s_stream adapter_ok 0 GC5603.dev_probed [] 1).2.1.streaming = true ∧
     (GC5603.gc5603_s_stream adapter_ok 0 GC5603.dev_probed [] 1).2.2.length = 157) := by
  refine ⟨⟨rfl, rfl, by decide⟩, rfl, rfl, ?_, ?_⟩
  · set_option maxRecDepth 100000 in decide
  · set_option maxRecDepth 100000 in decide

/-- C14, amended: `s_stream(on)` with `on` non-zero, called in the
not-streaming state, does not consult the power flag.  With the flag set to
any value beforehand it returns the same value, hands the same transactions to
the bus and leaves the same state up to that flag (all five drivers, every
result of `pm_runtime_get_sync`).  When `pm_runtime_get_sync` fails
(`rpm < 0`) it issues no register read or write, leaves the streaming flag
clear, the power flag and the usage count as they were, and (gc8613, imx708,
ov50h40, sc5336) returns the error of `pm_runtime_get_sync`.  When it succeeds
(`0 <= rpm2`) the start sequence runs on the resumed state: the bus is the one
the start sequence leaves, the value returned is the one of the start
sequence (gc8613, imx708, ov50h40, sc5336), and the streaming flag is set when
that value is 0. -/
theorem C14_s_stream_ignores_power_flag (a : I2cAdapter) (rpm rpm2 : Int) (tb_ng : Bool)
    (link_freq_400 : Nat) (global_reg_list reg_list : List regval) (dev : Dev) (bus : Bus)
    (enable : Int) (hs : dev.streaming = false) (he : enable ≠ 0) (hr : rpm < 0)
    (hr2 : 0 ≤ rpm2) :
    ((∀ (r : Int) (b : Bool),
        same_up_to_power b (GC5603.gc5603_s_stream a r { dev with power_on := b } bus enable)
          (GC5603.gc5603_s_stream a r dev bus enable)) ∧
     (∀ (r : Int) (b : Bool),
        same_up_to_power b
          (GC8613.gc8613_s_stream a r reg_list { dev with power_on := b } bus enable)
          (GC8613.gc8613_s_stream a r reg_list dev bus enable)) ∧
     (∀ (r : Int) (b : Bool),
        same_up_to_power b
          (IMX708.imx708_s_stream a r link_freq_400 global_reg_list reg_list
            { dev with power_on := b } bus enable)
          (IMX708.imx708_s_stream a r link_freq_400 global_reg_list reg_list dev bus
            enable)) ∧
     (∀ (r : Int) (b : Bool),
        same_up_to_power b
          (OV50H40.ov50h40_s_stream a r tb_ng reg_list { dev with power_on := b } bus enable)
          (OV50H40.ov50h40_s_stream a r tb_ng reg_list dev bus enable)) ∧
     (∀ (r : Int) (b : Bool),
        same_up_to_power b
          (SC5336.sc5336_s_stream a r tb_ng reg_list { dev with power_on := b } bus enable)
          (SC5336.sc5336_s_stream a r tb_ng reg_list dev bus enable))) ∧
    (((GC5603.gc5603_s_stream a rpm dev bus enable).2.2 = bus ∧
      (GC5603.gc5603_s_stream a rpm dev bus enable).2.1.streaming = false ∧
      (GC5603.gc5603_s_stream a rpm dev bus enable).2.1.power_on = dev.power_on ∧
      (GC5603.gc5603_s_stream a rpm dev bus enable).2.1.usage_count = dev.usage_count) ∧
     ((GC8613.gc8613_s_stream a rpm reg_list dev bus enable).1 = rpm ∧
      (GC8613.gc8613_s_stream a rpm reg_list dev bus enable).2.2 = bus ∧
      (GC8613.gc8613_s_stream a rpm reg_list dev bus enable).2.1.streaming = false ∧
      (GC8613.gc8613_s_stream a rpm reg_list dev bus enable).2.1.power_on = dev.power_on ∧
      (GC8613.gc8613_s_stream a rpm reg_list dev bus enable).2.1.usage_count
        = dev.usage_count) ∧
     ((IMX708.imx708_s_stream a rpm link_freq_400 global_reg_list reg_list dev bus enable).1
        = rpm ∧
      (IMX708.imx708_s_stream a rpm link_freq_400 global_reg_list reg_list dev bus enable).2.2
        = bus ∧
      (IMX708.imx708_s_stream a rpm link_freq_400 global_reg_list reg_list dev bus
        enable).2.1.streaming = false ∧
      (IMX708.imx708_s_stream a rpm link_freq_400 global_reg_list reg_list dev bus
        enable).2.1.power_on = dev.power_on ∧
      (IMX708.imx708_s_stream a rpm link_freq_400 global_reg_list reg_list dev bus
        enable).2.1.usage_count = dev.usage_count) ∧
     ((OV50H40.ov50h40_s_stream a rpm tb_ng reg_list dev bus enable).1 = rpm ∧
      (OV50H40.ov50h40_s_stream a rpm tb_ng reg_list dev bus enable).2.2 = bus ∧
      (OV50H40.ov50h40_s_stream a rpm tb_ng reg_list dev bus enable).2.1.streaming = false ∧
      (OV50H40.ov50h40_s_stream a rpm tb_ng reg_list dev bus enable).2.1.power_on
        = dev.power_on ∧
      (OV50H40.ov50h40_s_stream a rpm tb_ng reg_list dev bus enable).2.1.usage_count
        = dev.usage_count) ∧
     ((SC5336.sc5336_s_stream a rpm tb_ng reg_list dev bus enable).1 = rpm ∧
      (SC5336.sc5336_s_stream a rpm tb_ng reg_list dev bus enable).2.2 = bus ∧
      (SC5336.sc5336_s_stream a rpm tb_ng reg_list dev bus enable).2.1.streaming = false ∧
      (SC5336.sc5336_s_stream a rpm tb_ng reg_list dev bus enable).2.1.power_on
        = dev.power_on ∧
      (SC5336.sc5336_s_stream a rpm tb_ng reg_list dev bus enable).2.1.usage_count
        = dev.usage_count)) ∧
    (((GC5603.gc5603_s_stream a rpm2 dev bus enable).2.2
        = (GC5603.__gc5603_start_stream a (pm_runtime_get_sync rpm2 dev).2 bus).2.2 ∧
      ((GC5603.__gc5603_start_stream a (pm_runtime_get_sync rpm2 dev).2 bus).1 = 0 →
        (GC5603.gc5603_s_stream a rpm2 dev bus enable).2.1.streaming = true)) ∧
     ((GC8613.gc8613_s_stream a rpm2 reg_list dev bus enable).1
        = (GC8613.__gc8613_start_stream a reg_list (pm_runtime_get_sync rpm2 dev).2 bus).1 ∧
      (GC8613.gc8613_s_stream a rpm2 reg_list dev bus enable).2.2
        = (GC8613.__gc8613_start_stream a reg_list (pm_runtime_get_sync rpm2 dev).2 bus).2.2 ∧
      ((GC8613.__gc8613_start_stream a reg_list (pm_runtime_get_sync rpm2 dev).2 bus).1 = 0 →
        (GC8613.gc8613_s_stream a rpm2 reg_list dev bus enable).2.1.streaming = true)) ∧
     ((IMX708.imx708_s_stream a rpm2 link_freq_400 global_reg_list reg_list dev bus enable).1
        = (IMX708.__imx708_start_stream a link_freq_400 global_reg_list reg_list
            (pm_runtime_get_sync rpm2 dev).2 bus).1 ∧
      (IMX708.imx708_s_stream a rpm2 link_freq_400 global_reg_list reg_list dev bus
          enable).2.2
        = (IMX708.__imx708_start_stream a link_freq_400 global_reg_list reg_list
            (pm_runtime_get_sync rpm2 dev).2 bus).2.2 ∧
      ((IMX708.__imx708_start_stream a link_freq_400 global_reg_list reg_list
            (pm_runtime_get_sync rpm2 dev).2 bus).1 = 0 →
        (IMX708.imx708_s_stream a rpm2 link_freq_400 global_reg_list reg_list dev bus
          enable).2.1.streaming = true)) ∧
     ((OV50H40.ov50h40_s_stream a rpm2 tb_ng reg_list dev bus enable).1
        = (OV50H40.__ov50h40_start_stream a reg_list
            (pm_runtime_get_sync rpm2
              (if dev.is_thunderboot && tb_ng then { dev with is_thunderboot := false }
               else dev)).2 bus).1 ∧
      (OV50H40.ov50h40_s_stream a rpm2 tb_ng reg_list dev bus enable).2.2
        = (OV50H40.__ov50h40_start_stream a reg_list
            (pm_runtime_get_sync rpm2
              (if dev.is_thunderboot && tb_ng then { dev with is_thunderboot := false }
               else dev)).2 bus).2.2 ∧
      ((OV50H40.__ov50h40_start_stream a reg_list
            (pm_runtime_get_sync rpm2
              (if dev.is_thunderboot && tb_ng then { dev with is_thunderboot := false }
               else dev)).2 bus).1 = 0 →
        (OV50H40.ov50h40_s_stream a rpm2 tb_ng reg_list dev bus enable).2.1.streaming
          = true)) ∧
     ((SC5336.sc5336_s_stream a rpm2 tb_ng reg_list dev bus enable).1
        = (SC5336.__sc5336_start_stream a reg_list
            (pm_runtime_get_sync rpm2
              (if dev.is_thunderboot && tb_ng then { dev with is_thunderboot := false }
               else dev)).2 bus).1 ∧
      (SC5336.sc5336_s_stream a rpm2 tb_ng reg_list dev bus enable).2.2
        = (SC5336.__sc5336_start_stream a reg_list
            (pm_runtime_get_sync rpm2
              (if dev.is_thunderboot && tb_ng then { dev with is_thunderboot := false }
               else dev)).2 bus).2.2 ∧
      ((SC5336.__sc5336_start_stream a reg_list
            (pm_runtime_get_sync rpm2
              (if dev.is_thunderboot && tb_ng then { dev with is_thunderboot := false }
               else dev)).2 bus).1 = 0 →
        (SC5336.sc5336_s_stream a rpm2 tb_ng reg_list dev bus enable).2.1.streaming
          = true))) := by
  have hg : ∀ d : Dev, ¬ (pm_runtime_get_sync rpm2 d).1 < 0 := by
    intro d; unfold pm_runtime_get_sync; split_ifs <;> simp <;> omega
  have hd1 : (if dev.is_thunderboot && tb_ng then { dev with is_thunderboot := false }
      else dev).streaming = false := by
    split_ifs <;> exact hs
  refine ⟨⟨fun r b => gc5603_s_stream_power_flag a r dev bus enable b,
      fun r b => gc8613_s_stream_power_flag a r reg_list dev bus enable b,
      fun r b => imx708_s_stream_power_flag a r link_freq_400 global_reg_list reg_list dev bus
        enable b,
      fun r b => ov50h40_s_stream_power_flag a r tb_ng reg_list dev bus enable b,
      fun r b => sc5336_s_stream_power_flag a r tb_ng reg_list dev bus enable b⟩,
    ⟨?_, ?_, ?_, ?_, ?_⟩, ⟨?_, ?_, ?_, ?_, ?_⟩⟩
  · simp [GC5603.gc5603_s_stream, hs, he, hr, pm_runtime_get_sync, pm_runtime_put_noidle]
  · simp [GC8613.gc8613_s_stream, hs, he, hr, pm_runtime_get_sync, pm_runtime_put_noidle]
  · simp [IMX708.imx708_s_stream, hs, he, hr, pm_runtime_get_sync, pm_runtime_put_noidle]
  · simp only [OV50H40.ov50h40_s_stream]
    split_ifs <;>
      simp_all [pm_runtime_get_sync, pm_runtime_put_noidle]
  · simp only [SC5336.sc5336_s_stream]
    split_ifs <;>
      simp_all [pm_runtime_get_sync, pm_runtime_put_noidle]
  · by_cases h : (GC5603.__gc5603_start_stream a (pm_runtime_get_sync rpm2 dev).2 bus).1 = 0 <;>
      simp [GC5603.gc5603_s_stream, hs, he, hg, h]
  · by_cases h : (GC8613.__gc8613_start_stream a reg_list
        (pm_runtime_get_sync rpm2 dev).2 bus).1 = 0 <;>
      simp [GC8613.gc8613_s_stream, hs, he, hg, h]
  · by_cases h : (IMX708.__imx708_start_stream a link_freq_400 global_reg_list reg_list
        (pm_runtime_get_sync rpm2 dev).2 bus).1 = 0 <;>
      simp [IMX708.imx708_s_stream, hs, he, hg, h]
  · simp only [OV50H40.ov50h40_s_stream]
    generalize (if dev.is_thunderboot && tb_ng then { dev with is_thunderboot := false }
      else dev) = dev1 at hd1 ⊢
    by_cases h : (OV50H40.__ov50h40_start_stream a reg_list
        (pm_runtime_get_sync rpm2 dev1).2 bus).1 = 0 <;>
      simp [hs, he, hg, h]
  · simp only [SC5336.sc5336_s_stream]
    generalize (if dev.is_thunderboot && tb_ng then { dev with is_thunderboot := false }
      else dev) = dev1 at hd1 ⊢
    by_cases h : (SC5336.__sc5336_start_stream a reg_list
        (pm_runtime_get_sync rpm2 dev1).2 bus).1 = 0 <;>
      simp [hs, he, hg, h]

/-- C14 amended, on the gc8613 sample state with the power flag clear: with a
failing resume nothing is handed to the bus and the error is returned; with a
successful resume the bus is the one the start sequence leaves. -/
theorem C14_s_stream_ignores_power_flag_witness :
    GC8613.dev_sample.power_on = false ∧
    (GC8613.gc8613_s_stream adapter_ok (-19) GC8613.gc8613_global_regs GC8613.dev_sample []
      1).1 = -19 ∧
    (GC8613.gc8613_s_stream adapter_ok (-19) GC8613.gc8613_global_regs GC8613.dev_sample []
      1).2.2 = [] ∧
    (GC8613.gc8613_s_stream adapter_ok 0 GC8613.gc8613_global_regs GC8613.dev_sample [] 1).2.2
      = (GC8613.__gc8613_start_stream adapter_ok GC8613.gc8613_global_regs
          (pm_runtime_get_sync 0 GC8613.dev_sample).2 []).2.2 :=
  ⟨rfl,
   (C14_s_stream_ignores_power_flag adapter_ok (-19) 0 false 0 [] GC8613.gc8613_global_regs
      GC8613.dev_sample [] 1 rfl (by decide) (by decide) (by decide)).2.1.2.1.1,
   (C14_s_stream_ignores_power_flag adapter_ok (-19) 0 false 0 [] GC8613.gc8613_global_regs
      GC8613.dev_sample [] 1 rfl (by decide) (by decide) (by decide)).2.1.2.1.2.1,
   (C14_s_stream_ignores_power_flag adapter_ok (-19) 0 false 0 [] GC8613.gc8613_global_regs
      GC8613.dev_sample [] 1 rfl (by decide) (by decide) (by decide)).2.2.2.1.2.1⟩

end Sensor

namespace Sensor

/-- C15, as stated, fails: `gc8613_s_power(0)` and `imx708_s_power(0)` called
while streaming, with the power flag set and two references held, return 0,
clear the power flag and drop a reference. -/
theorem C15_s_power_off_while_streaming :
    (GC8613.gc8613_s_power adapter_ok 0
        { GC8613.dev_sample with streaming := true, power_on := true, usage_count := 2 } [] 0
      = (0, { GC8613.dev_sample with streaming := true, power_on := false, usage_count := 1 },
         [])) ∧
    (IMX708.imx708_s_power 0
        { IMX708.dev_sample with streaming := true, power_on := true, usage_count := 2 } 0
      = (0, { IMX708.dev_sample with streaming := true, power_on := false,
                                     usage_count := 1 })) := by
  constructor <;> decide

/-- C15, amended: `s_power(0)` called while streaming is not rejected.  It
returns 0, issues no register read or write and leaves the streaming flag set;
with the power flag set it clears the flag and drops one runtime-PM reference,
with the power flag clear it changes nothing. -/
theorem C15_s_power_off_not_rejected (a : I2cAdapter) (rpm : Int) (dev : Dev) (bus : Bus)
    (hs : dev.streaming = true) :
    (GC5603.gc5603_s_power rpm dev 0
       = (0, if dev.power_on then { pm_runtime_put dev with power_on := false } else dev) ∧
     IMX708.imx708_s_power rpm dev 0
       = (0, if dev.power_on then { pm_runtime_put dev with power_on := false } else dev) ∧
     GC8613.gc8613_s_power a rpm dev bus 0
       = (0, if dev.power_on then { pm_runtime_put dev with power_on := false } else dev, bus) ∧
     OV50H40.ov50h40_s_power a rpm dev bus 0
       = (0, if dev.power_on then { pm_runtime_put dev with power_on := false } else dev, bus) ∧
     SC5336.sc5336_s_power a rpm dev bus 0
       = (0, if dev.power_on then { pm_runtime_put dev with power_on := false } else dev,
          bus)) ∧
    (if dev.power_on then { pm_runtime_put dev with power_on := false } else dev).streaming
      = true ∧
    (if dev.power_on then { pm_runtime_put dev with power_on := false } else dev).power_on
      = false ∧
    (if dev.power_on then { pm_runtime_put dev with power_on := false } else dev).usage_count
      = dev.usage_count - (if dev.power_on then 1 else 0) := by
  refine ⟨⟨?_, ?_, ?_, ?_, ?_⟩, ?_, ?_, ?_⟩
  · cases hp : dev.power_on <;> simp [GC5603.gc5603_s_power, hp]
  · cases hp : dev.power_on <;> simp [IMX708.imx708_s_power, hp]
  · cases hp : dev.power_on <;> simp [GC8613.gc8613_s_power, hp]
  · cases hp : dev.power_on <;> simp [OV50H40.ov50h40_s_power, hp]
  · cases hp : dev.power_on <;> simp [SC5336.sc5336_s_power, hp]
  · cases hp : dev.power_on <;> simp [pm_runtime_put, hs]
  · cases hp : dev.power_on <;> simp [hp]
  · cases hp : dev.power_on <;> simp [pm_runtime_put]

/-- C15 amended, on a streaming gc8613 state holding two references. -/
theorem C15_s_power_off_not_rejected_witness :
    (GC8613.gc8613_s_power adapter_ok 0
        { GC8613.dev_sample with streaming := true, power_on := true, usage_count := 2 } []
        0).1 = 0 :=
  congrArg Prod.fst
    (C15_s_power_off_not_rejected adapter_ok 0
      { GC8613.dev_sample with streaming := true, power_on := true, usage_count := 2 } []
      rfl).1.2.2.1

/-- C16: on a transport that fails every transaction `__gc5603_start_stream`
returns `-EIO` after its first write, yet `gc5603_s_stream(1)` returns 0 (the
streaming flag stays clear and the reference is released); on the same
transport `ov50h40_s_stream(1)` returns `-EIO`. -/
theorem C16_gc5603_s_stream_hides_start_failure :
    (GC5603.__gc5603_start_stream adapter_down (pm_runtime_get_sync 0 GC5603.dev_probed).2
        []).1 = -EIO_NR ∧
    (GC5603.gc5603_s_stream adapter_down 0 GC5603.dev_probed [] 1).1 = 0 ∧
    (GC5603.gc5603_s_stream adapter_down 0 GC5603.dev_probed [] 1).2.1.streaming = false ∧
    (GC5603.gc5603_s_stream adapter_down 0 GC5603.dev_probed [] 1).2.1.usage_count
      = GC5603.dev_probed.usage_count ∧
    (GC5603.gc5603_s_stream adapter_down 0 GC5603.dev_probed [] 1).2.2
      = [BusOp.send [0x03, 0xfe, 0xf0]] ∧
    (OV50H40.ov50h40_s_stream adapter_down 0 false
        OV50H40.ov50h40_10bit_4096x3072_dphy_30fps_regs OV50H40.dev_probed_dphy [] 1).1
      = -EIO_NR := by
  refine ⟨by decide, by decide, by decide, by decide, by decide, by decide⟩

end Sensor

namespace GC5603
open Sensor

set_option maxRecDepth 100000 in
/-- C17: on a working transport `__gc5603_start_stream` hands 157 transactions
to the bus; the write of `GC5603_MODE_STREAMING` (0x09) to
`GC5603_REG_CTRL_MODE` (0x0100) is number 117 and number 135 of them, both
inside the register program of the mode (entries 117 and 135 of
`gc5603_2960x1666_regs_2lane`), before the control setup pass and before the
only write of the flip/mirror register 0x0101 (number 155); the closing write
is number 156. -/
theorem C17_gc5603_stream_enable_inside_program :
    (gc5603_2960x1666_regs_2lane[117]? = some (regval.mk 0x0100 0x09) ∧
     gc5603_2960x1666_regs_2lane[135]? = some (regval.mk 0x0100 0x09)) ∧
    (gc5603_write_array adapter_ok gc5603_2960x1666_regs_2lane []).2[117]?
      = some (BusOp.send [0x01, 0x00, 0x09]) ∧
    ((__gc5603_start_stream adapter_ok (pm_runtime_get_sync 0 dev_probed).2 []).1 = 0 ∧
     (__gc5603_start_stream adapter_ok (pm_runtime_get_sync 0 dev_probed).2 []).2.2.length = 157 ∧
     (__gc5603_start_stream adapter_ok (pm_runtime_get_sync 0 dev_probed).2 []).2.2.indexesOf
        (BusOp.send [0x01, 0x00, 0x09]) = [117, 135, 156] ∧
     (__gc5603_start_stream adapter_ok (pm_runtime_get_sync 0 dev_probed).2 []).2.2.indexesOf
        (BusOp.send [0x01, 0x01, 0x00]) = [155]) := by
  refine ⟨⟨by decide, by decide⟩, by decide, by decide, by decide, by decide, by decide⟩

end GC5603

namespace Sensor

/-- With the device not in use `gc5603_set_ctrl` stops after its first
`switch`. -/
theorem gc5603_set_ctrl_bus_not_in_use (a : I2cAdapter) (dev : Dev) (bus : Bus) (id : CtrlId)
    (val : Int) (h : dev.in_use = false) :
    GC5603.gc5603_set_ctrl_bus a dev bus id val
      = (0, GC5603.gc5603_set_ctrl_propagate dev id val, bus) := by
  have hi : (GC5603.gc5603_set_ctrl_propagate dev id val).in_use = false := by
    cases id <;> exact h
  simp only [GC5603.gc5603_set_ctrl_bus, hi, Bool.not_false, if_true]

/-- With the device not in use `gc8613_set_ctrl` stops after its first
`switch`. -/
theorem gc8613_set_ctrl_bus_not_in_use (a : I2cAdapter) (dev : Dev) (bus : Bus) (id : CtrlId)
    (val : Int) (h : dev.in_use = false) :
    GC8613.gc8613_set_ctrl_bus a dev bus id val
      = (0, GC8613.gc8613_set_ctrl_propagate dev id val, bus) := by
  have hi : (GC8613.gc8613_set_ctrl_propagate dev id val).in_use = false := by
    cases id <;> exact h
  simp only [GC8613.gc8613_set_ctrl_bus, hi, Bool.not_false, if_true]

/-- With the device not in use `imx708_set_ctrl` stops after its first
`switch`. -/
theorem imx708_set_ctrl_bus_not_in_use (a : I2cAdapter) (dev : Dev) (bus : Bus) (id : CtrlId)
    (val : Int) (h : dev.in_use = false) :
    IMX708.imx708_set_ctrl_bus a dev bus id val
      = (0, IMX708.imx708_set_ctrl_propagate dev id val, bus) := by
  have hi : (IMX708.imx708_set_ctrl_propagate dev id val).in_use = false := by
    cases id <;> exact h
  simp only [IMX708.imx708_set_ctrl_bus, hi, Bool.not_false, if_true]

/-- With the device not in use `ov50h40_set_ctrl` stops after its first
`switch`. -/
theorem ov50h40_set_ctrl_bus_not_in_use (a : I2cAdapter) (dev : Dev) (bus : Bus) (id : CtrlId)
    (val : Int) (h : dev.in_use = false) :
    OV50H40.ov50h40_set_ctrl_bus a dev bus id val
      = (0, OV50H40.ov50h40_set_ctrl_propagate dev id val, bus) := by
  have hi : (OV50H40.ov50h40_set_ctrl_propagate dev id val).in_use = false := by
    cases id <;> exact h
  simp only [OV50H40.ov50h40_set_ctrl_bus, hi, Bool.not_false, if_true]

/-- With the device not in use `sc5336_set_ctrl` stops after its first
`switch`. -/
theorem sc5336_set_ctrl_bus_not_in_use (a : I2cAdapter) (dev : Dev) (bus : Bus) (id : CtrlId)
    (val : Int) (h : dev.in_use = false) :
    SC5336.sc5336_set_ctrl_bus a dev bus id val
      = (0, SC5336.sc5336_set_ctrl_propagate dev id val, bus) := by
  have hi : (SC5336.sc5336_set_ctrl_propagate dev id val).in_use = false := by
    cases id <;> exact h
  simp only [SC5336.sc5336_set_ctrl_bus, hi, Bool.not_false, if_true]

/-- The first `switch` of each `set_ctrl` changes the maximum of the exposure
control at most, and nothing unless the id is `V4L2_CID_VBLANK`. -/
theorem set_ctrl_propagate_frame (dev : Dev) (id : CtrlId) (val : Int) :
    ∀ d ∈ [GC5603.gc5603_set_ctrl_propagate dev id val,
           GC8613.gc8613_set_ctrl_propagate dev id val,
           IMX708.imx708_set_ctrl_propagate dev id val,
           OV50H40.ov50h40_set_ctrl_propagate dev id val,
           SC5336.sc5336_set_ctrl_propagate dev id val],
      d = { dev with exposure := { dev.exposure with maximum := d.exposure.maximum } } ∧
      (id ≠ CtrlId.V4L2_CID_VBLANK → d = dev) := by
  intro d hd
  simp only [List.mem_cons, List.mem_singleton, List.not_mem_nil, or_false] at hd
  rcases hd with rfl | rfl | rfl | rfl | rfl <;> cases id <;>
    exact ⟨rfl, fun hne => by first | rfl | exact absurd rfl hne⟩

/-- C18: when `pm_runtime_get_if_in_use` reports 0, each `set_ctrl` returns 0
and issues no register read or write, for every control id and value; the
state it leaves differs from the one it found in the maximum of the exposure
control only, and not at all unless the id is `V4L2_CID_VBLANK` (the stored
flip bits and `cur_vts` are untouched). -/
theorem C18_set_ctrl_not_in_use (a : I2cAdapter) (dev : Dev) (bus : Bus) (id : CtrlId)
    (val : Int) (h : dev.in_use = false) :
    ∀ r ∈ [GC5603.gc5603_set_ctrl_bus a dev bus id val,
           GC8613.gc8613_set_ctrl_bus a dev bus id val,
           IMX708.imx708_set_ctrl_bus a dev bus id val,
           OV50H40.ov50h40_set_ctrl_bus a dev bus id val,
           SC5336.sc5336_set_ctrl_bus a dev bus id val],
      r.1 = 0 ∧ r.2.2 = bus ∧
      r.2.1 = { dev with exposure := { dev.exposure with maximum := r.2.1.exposure.maximum } } ∧
      (id ≠ CtrlId.V4L2_CID_VBLANK → r.2.1 = dev) ∧
      r.2.1.flip = dev.flip ∧ r.2.1.cur_vts = dev.cur_vts := by
  intro r hr
  have hp := set_ctrl_propagate_frame dev id val
  simp only [List.mem_cons, List.mem_singleton, List.not_mem_nil, or_false] at hr
  rcases hr with rfl | rfl | rfl | rfl | rfl
  · rw [gc5603_set_ctrl_bus_not_in_use a dev bus id val h]
    have := hp (GC5603.gc5603_set_ctrl_propagate dev id val) (by simp)
    exact ⟨rfl, rfl, this.1, this.2, by rw [this.1], by rw [this.1]⟩
  · rw [gc8613_set_ctrl_bus_not_in_use a dev bus id val h]
    have := hp (GC8613.gc8613_set_ctrl_propagate dev id val) (by simp)
    exact ⟨rfl, rfl, this.1, this.2, by rw [this.1], by rw [this.1]⟩
  · rw [imx708_set_ctrl_bus_not_in_use a dev bus id val h]
    have := hp (IMX708.imx708_set_ctrl_propagate dev id val) (by simp)
    exact ⟨rfl, rfl, this.1, this.2, by rw [this.1], by rw [this.1]⟩
  · rw [ov50h40_set_ctrl_bus_not_in_use a dev bus id val h]
    have := hp (OV50H40.ov50h40_set_ctrl_propagate dev id val) (by simp)
    exact ⟨rfl, rfl, this.1, this.2, by rw [this.1], by rw [this.1]⟩
  · rw [sc5336_set_ctrl_bus_not_in_use a dev bus id val h]
    have := hp (SC5336.sc5336_set_ctrl_propagate dev id val) (by simp)
    exact ⟨rfl, rfl, this.1, this.2, by rw [this.1], by rw [this.1]⟩

/-- C18 on the gc5603 sample state (not in use), for a vblank of 1000: no
transaction, result 0, and the exposure maximum becomes 1666 + 1000 - 4. -/
theorem C18_set_ctrl_not_in_use_witness :
    (GC5603.gc5603_set_ctrl_bus adapter_ok GC5603.dev_sample [] CtrlId.V4L2_CID_VBLANK 1000).1
      = 0 ∧
    (GC5603.gc5603_set_ctrl_bus adapter_ok GC5603.dev_sample [] CtrlId.V4L2_CID_VBLANK
      1000).2.2 = [] ∧
    (GC5603.gc5603_set_ctrl_bus adapter_ok GC5603.dev_sample [] CtrlId.V4L2_CID_VBLANK
      1000).2.1.exposure.maximum = 2662 :=
  ⟨(C18_set_ctrl_not_in_use adapter_ok GC5603.dev_sample [] CtrlId.V4L2_CID_VBLANK 1000 rfl
      _ (List.mem_cons_self _ _)).1,
   (C18_set_ctrl_not_in_use adapter_ok GC5603.dev_sample [] CtrlId.V4L2_CID_VBLANK 1000 rfl
      _ (List.mem_cons_self _ _)).2.1,
   by decide⟩

end Sensor

namespace Sensor

end Sensor

namespace Sensor

/-- C20: on a transport that fails every transaction, with the device in use,
`gc5603_set_ctrl` and `gc8613_set_ctrl` return 0 for
`V4L2_CID_ANALOGUE_GAIN` although each write of the gain sequence (eleven,
twelve) failed; `gc5603_set_gain` itself returns 0 when only its first write
fails; the exposure case of `gc5603_set_ctrl` and the gain case of
`sc5336_set_ctrl` report the failure. -/
theorem C20_gain_write_failures_unreported :
    (GC5603.gc5603_set_ctrl_bus adapter_down { GC5603.dev_probed with in_use := true } []
        CtrlId.V4L2_CID_ANALOGUE_GAIN 64).1 = 0 ∧
    (GC5603.gc5603_set_ctrl_bus adapter_down { GC5603.dev_probed with in_use := true } []
        CtrlId.V4L2_CID_ANALOGUE_GAIN 64).2.2.length = 11 ∧
    (GC8613.gc8613_set_ctrl_bus adapter_down GC8613.dev_sample []
        CtrlId.V4L2_CID_ANALOGUE_GAIN 64).1 = 0 ∧
    (GC8613.gc8613_set_ctrl_bus adapter_down GC8613.dev_sample []
        CtrlId.V4L2_CID_ANALOGUE_GAIN 64).2.2.length = 12 ∧
    (GC5603.gc5603_set_gain_bus adapter_down [] 64).1 = -EIO_NR ∧
    (GC5603.gc5603_set_gain_bus (adapter_fail_at 0) [] 64).1 = 0 ∧
    (GC5603.gc5603_set_ctrl_bus adapter_down { GC5603.dev_probed with in_use := true } []
        CtrlId.V4L2_CID_EXPOSURE 100).1 = -EIO_NR ∧
    (SC5336.sc5336_set_ctrl_bus adapter_down { SC5336.dev_sample with in_use := true } []
        CtrlId.V4L2_CID_ANALOGUE_GAIN 64).1 = -EIO_NR := by
  refine ⟨by decide, by decide, by decide, by decide, by decide, by decide, by decide,
    by decide⟩

end Sensor

namespace Sensor

/-- On a transport whose reads succeed, `gc5603_check_sensor_id`,
`gc8613_check_sensor_id` and `imx708_check_sensor_id` return 0 as soon as one
of the two bytes matches, and `-ENODEV` otherwise. -/
theorem check_sensor_id_either_byte (mem : Nat → Nat) (bus : Bus) :
    ((GC5603.gc5603_check_sensor_id (adapter_reads mem) bus).1
      = if mem 0x03F0 = 0x56 ∨ mem 0x03F1 = 0x03 then 0 else -ENODEV_NR) ∧
    ((GC8613.gc8613_check_sensor_id (adapter_reads mem) bus).1
      = if mem 0x03f0 = 0x86 ∨ mem 0x03f1 = 0x13 then 0 else -ENODEV_NR) ∧
    ((IMX708.imx708_check_sensor_id (adapter_reads mem) bus).1
      = if mem 0x0016 = 0x07 ∨ mem 0x0017 = 0x08 then 0 else -ENODEV_NR) := by
  have a1 : (0x5603 : Nat) >>> 8 = 0x56 ∧ (0x5603 : Nat) &&& 0xff = 0x03 := by decide
  have a2 : (0x8613 : Nat) >>> 8 = 0x86 ∧ (0x8613 : Nat) &&& 0xff = 0x13 := by decide
  have a3 : (0x0708 : Nat) >>> 8 = 0x07 ∧ (0x0708 : Nat) &&& 0xff = 0x08 := by decide
  refine ⟨?_, ?_, ?_⟩
  · simp only [GC5603.gc5603_check_sensor_id, GC5603.gc5603_read_reg, read_reg, adapter_reads,
      GC5603.GC5603_REG_CHIP_ID_H, GC5603.GC5603_REG_CHIP_ID_L, GC5603.GC5603_CHIP_ID, a1.1,
      a1.2]
    split_ifs <;> simp_all
  · simp only [GC8613.gc8613_check_sensor_id, GC8613.gc8613_read_reg, read_reg, adapter_reads,
      GC8613.GC8613_REG_CHIP_ID_H, GC8613.GC8613_REG_CHIP_ID_L, GC8613.CHIP_ID, a2.1, a2.2]
    split_ifs <;> simp_all
  · simp only [IMX708.imx708_check_sensor_id, IMX708.imx708_read_reg,
      IMX708.imx708_read_retry, adapter_reads, IMX708.IMX708_REG_CHIP_ID_H,
      IMX708.IMX708_REG_CHIP_ID_L, IMX708.CHIP_ID, a3.1, a3.2]
    split_ifs <;> simp_all

/-- C21: a sensor that answers 0x56 and 0x00 in its two ID registers (the id
0x5600, not 0x5603) passes `gc5603_check_sensor_id`; likewise the ids 0x8600
and 0x0008 pass `gc8613_check_sensor_id` and `imx708_check_sensor_id`.  The
sibling `sc5336_check_sensor_id` rejects an id that differs in one byte. -/
theorem C21_check_sensor_id_accepts_half_match :
    (GC5603.gc5603_check_sensor_id
        (adapter_reads (fun reg => if reg = 0x03F0 then 0x56 else 0x00)) []).1 = 0 ∧
    (GC8613.gc8613_check_sensor_id
        (adapter_reads (fun reg => if reg = 0x03f0 then 0x86 else 0x00)) []).1 = 0 ∧
    (IMX708.imx708_check_sensor_id
        (adapter_reads (fun reg => if reg = 0x0017 then 0x08 else 0x00)) []).1 = 0 ∧
    (GC5603.gc5603_check_sensor_id (adapter_reads (fun _ => 0x00)) []).1 = -ENODEV_NR ∧
    (SC5336.sc5336_check_sensor_id (adapter_reads (fun _ => 0xce00)) SC5336.dev_sample []).1
      = -ENODEV_NR ∧
    (SC5336.sc5336_check_sensor_id (adapter_reads (fun _ => 0xce50)) SC5336.dev_sample []).1
      = 0 := by
  refine ⟨by decide, by decide, by decide, by decide, by decide, by decide⟩

end Sensor

namespace Sensor

/-- The state-only handlers `imx708_set_ctrl` and `ov50h40_set_ctrl` keep the
current mode. -/
theorem set_ctrl_cur_mode (dev : Dev) (id : CtrlId) (val : Int) :
    (IMX708.imx708_set_ctrl dev id val).cur_mode = dev.cur_mode ∧
    (OV50H40.ov50h40_set_ctrl dev id val).cur_mode = dev.cur_mode := by
  unfold IMX708.imx708_set_ctrl IMX708.imx708_set_ctrl_propagate OV50H40.ov50h40_set_ctrl
    OV50H40.ov50h40_set_ctrl_propagate
  constructor <;> cases id <;> dsimp only <;> split_ifs <;> rfl

/-- The runtime-PM calls keep the current mode. -/
theorem pm_runtime_cur_mode (rpm : Int) (dev : Dev) :
    (pm_runtime_get_sync rpm dev).2.cur_mode = dev.cur_mode ∧
    (pm_runtime_put dev).cur_mode = dev.cur_mode ∧
    (pm_runtime_put_noidle dev).cur_mode = dev.cur_mode := by
  unfold pm_runtime_get_sync pm_runtime_put pm_runtime_put_noidle
  refine ⟨?_, rfl, rfl⟩
  split_ifs <;> rfl

/-- The start sequences keep the current mode. -/
theorem start_stream_cur_mode (a : I2cAdapter) (link_freq_400 : Nat)
    (global_reg_list reg_list : List regval) (dev : Dev) (bus : Bus) :
    (GC8613.__gc8613_start_stream a reg_list dev bus).2.1.cur_mode = dev.cur_mode ∧
    (IMX708.__imx708_start_stream a link_freq_400 global_reg_list reg_list dev
      bus).2.1.cur_mode = dev.cur_mode ∧
    (OV50H40.__ov50h40_start_stream a reg_list dev bus).2.1.cur_mode = dev.cur_mode := by
  have h1 := gc8613_start_stream_frame a reg_list dev bus
  have h2 := imx708_start_stream_frame a link_freq_400 global_reg_list reg_list dev bus
  have h3 := ov50h40_start_stream_frame a reg_list dev bus
  simp only [power_state, Prod.mk.injEq] at h1 h2 h3
  exact ⟨h1.2.2.2.2, h2.2.2.2.2, h3.2.2.2.2⟩

/-- The function `s_stream` of gc8613, imx708 and ov50h40 keeps the current
mode, whatever its arguments and whatever the transport does. -/
theorem s_stream_cur_mode (a : I2cAdapter) (rpm : Int) (tb_ng : Bool) (link_freq_400 : Nat)
    (global_reg_list reg_list : List regval) (dev : Dev) (bus : Bus) (enable : Int) :
    (GC8613.gc8613_s_stream a rpm reg_list dev bus enable).2.1.cur_mode = dev.cur_mode ∧
    (IMX708.imx708_s_stream a rpm link_freq_400 global_reg_list reg_list dev bus
      enable).2.1.cur_mode = dev.cur_mode ∧
    (OV50H40.ov50h40_s_stream a rpm tb_ng reg_list dev bus enable).2.1.cur_mode
      = dev.cur_mode := by
  have hp := pm_runtime_cur_mode rpm
  have hs := start_stream_cur_mode a link_freq_400 global_reg_list reg_list
  refine ⟨?_, ?_, ?_⟩
  · simp only [GC8613.gc8613_s_stream, GC8613.__gc8613_stop_stream]
    split_ifs <;> simp [(hs _ _).1, (hp _).1, pm_runtime_put, pm_runtime_put_noidle]
  · simp only [IMX708.imx708_s_stream]
    split_ifs <;> simp [(hs _ _).2.1, (hp _).1, pm_runtime_put, pm_runtime_put_noidle]
  · simp only [OV50H40.ov50h40_s_stream, OV50H40.__ov50h40_stop_stream]
    split_ifs <;> simp [(hs _ _).2.2, (hp _).1, pm_runtime_put, pm_runtime_put_noidle]

/-- C22, as stated, fails: with the 1920x1080 entry current,
`gc8613_set_fmt` (ACTIVE, 3840x2160) makes entry 0 current; the following
`gc8613_s_stream(1)` writes the register program of entry 0, the sixth write
fails, `-EIO` is returned with the streaming flag clear, and the current mode
is entry 0, not the previous entry 1. -/
theorem C22_cur_mode_not_rolled_back :
    GC8613.dev_sample.cur_mode = 1 ∧
    (GC8613.gc8613_set_fmt GC8613.dev_sample
        v4l2_subdev_format_whence.V4L2_SUBDEV_FORMAT_ACTIVE
        ⟨3840, 2160, MEDIA_BUS_FMT_SRGGB12_1X12⟩).cur_mode = 0 ∧
    (GC8613.gc8613_s_stream (adapter_fail_at 5) 0 GC8613.gc8613_nolinear12bit_3840x2160_regs
        (GC8613.gc8613_set_fmt GC8613.dev_sample
          v4l2_subdev_format_whence.V4L2_SUBDEV_FORMAT_ACTIVE
          ⟨3840, 2160, MEDIA_BUS_FMT_SRGGB12_1X12⟩) [] 1).1 = -EIO_NR ∧
    (GC8613.gc8613_s_stream (adapter_fail_at 5) 0 GC8613.gc8613_nolinear12bit_3840x2160_regs
        (GC8613.gc8613_set_fmt GC8613.dev_sample
          v4l2_subdev_format_whence.V4L2_SUBDEV_FORMAT_ACTIVE
          ⟨3840, 2160, MEDIA_BUS_FMT_SRGGB12_1X12⟩) [] 1).2.2.length = 6 ∧
    (GC8613.gc8613_s_stream (adapter_fail_at 5) 0 GC8613.gc8613_nolinear12bit_3840x2160_regs
        (GC8613.gc8613_set_fmt GC8613.dev_sample
          v4l2_subdev_format_whence.V4L2_SUBDEV_FORMAT_ACTIVE
          ⟨3840, 2160, MEDIA_BUS_FMT_SRGGB12_1X12⟩) [] 1).2.1.streaming = false ∧
    (GC8613.gc8613_s_stream (adapter_fail_at 5) 0 GC8613.gc8613_nolinear12bit_3840x2160_regs
        (GC8613.gc8613_set_fmt GC8613.dev_sample
          v4l2_subdev_format_whence.V4L2_SUBDEV_FORMAT_ACTIVE
          ⟨3840, 2160, MEDIA_BUS_FMT_SRGGB12_1X12⟩) [] 1).2.1.cur_mode = 0 := by
  refine ⟨rfl, by decide, by decide, by decide, by decide, by decide⟩

/-- C22, amended: for gc8613, imx708 and ov50h40, `set_fmt` with an ACTIVE
format makes the entry chosen by `find_best_fit` current at once, and the
following `s_stream` leaves the current mode as `set_fmt` left it, whether the
register program is written or its write fails partway. -/
theorem C22_cur_mode_committed_by_set_fmt (a : I2cAdapter) (rpm : Int) (tb_ng : Bool)
    (link_freq_400 : Nat) (global_reg_list reg_list : List regval) (dev : Dev) (bus : Bus)
    (enable : Int) (framefmt : v4l2_mbus_framefmt) :
    ((GC8613.gc8613_set_fmt dev v4l2_subdev_format_whence.V4L2_SUBDEV_FORMAT_ACTIVE
        framefmt).cur_mode = GC8613.gc8613_find_best_fit_idx dev.cfg_num framefmt ∧
     (GC8613.gc8613_s_stream a rpm reg_list
        (GC8613.gc8613_set_fmt dev v4l2_subdev_format_whence.V4L2_SUBDEV_FORMAT_ACTIVE framefmt)
        bus enable).2.1.cur_mode = GC8613.gc8613_find_best_fit_idx dev.cfg_num framefmt) ∧
    ((IMX708.imx708_set_fmt dev v4l2_subdev_format_whence.V4L2_SUBDEV_FORMAT_ACTIVE
        framefmt).cur_mode = IMX708.imx708_find_best_fit_idx dev.cfg_num framefmt ∧
     (IMX708.imx708_s_stream a rpm link_freq_400 global_reg_list reg_list
        (IMX708.imx708_set_fmt dev v4l2_subdev_format_whence.V4L2_SUBDEV_FORMAT_ACTIVE framefmt)
        bus enable).2.1.cur_mode = IMX708.imx708_find_best_fit_idx dev.cfg_num framefmt) ∧
    ((OV50H40.ov50h40_set_fmt dev v4l2_subdev_format_whence.V4L2_SUBDEV_FORMAT_ACTIVE
        framefmt).cur_mode
       = OV50H40.ov50h40_find_best_fit_idx dev.support_modes dev.cfg_num framefmt ∧
     (OV50H40.ov50h40_s_stream a rpm tb_ng reg_list
        (OV50H40.ov50h40_set_fmt dev v4l2_subdev_format_whence.V4L2_SUBDEV_FORMAT_ACTIVE framefmt)
        bus enable).2.1.cur_mode
       = OV50H40.ov50h40_find_best_fit_idx dev.support_modes dev.cfg_num framefmt) := by
  have h1 : (GC8613.gc8613_set_fmt dev v4l2_subdev_format_whence.V4L2_SUBDEV_FORMAT_ACTIVE
      framefmt).cur_mode = GC8613.gc8613_find_best_fit_idx dev.cfg_num framefmt := rfl
  have h2 : (IMX708.imx708_set_fmt dev v4l2_subdev_format_whence.V4L2_SUBDEV_FORMAT_ACTIVE
      framefmt).cur_mode = IMX708.imx708_find_best_fit_idx dev.cfg_num framefmt := by
    simp only [IMX708.imx708_set_fmt, __v4l2_ctrl_s_ctrl]
    rw [(set_ctrl_cur_mode _ _ _).1]
  have h3 : (OV50H40.ov50h40_set_fmt dev v4l2_subdev_format_whence.V4L2_SUBDEV_FORMAT_ACTIVE
      framefmt).cur_mode
        = OV50H40.ov50h40_find_best_fit_idx dev.support_modes dev.cfg_num framefmt := by
    simp only [OV50H40.ov50h40_set_fmt, __v4l2_ctrl_s_ctrl]
    rw [(set_ctrl_cur_mode _ _ _).2]
  refine ⟨⟨h1, ?_⟩, ⟨h2, ?_⟩, ⟨h3, ?_⟩⟩
  · rw [(s_stream_cur_mode a rpm tb_ng link_freq_400 global_reg_list reg_list _ bus enable).1,
      h1]
  · rw [(s_stream_cur_mode a rpm tb_ng link_freq_400 global_reg_list reg_list _ bus
      enable).2.1, h2]
  · rw [(s_stream_cur_mode a rpm tb_ng link_freq_400 global_reg_list reg_list _ bus
      enable).2.2, h3]

end Sensor

namespace Sensor

/-- The ceiling of `n / d` is the `r` with `n ≤ d * r < n + d`. -/
theorem ceil_div_of_bounds (n d r : Nat) (hd : 0 < d) (h1 : n ≤ d * r) (h2 : d * r < n + d) :
    ⌈(n : ℚ) / (d : ℚ)⌉₊ = r := by
  have hdq : (0 : ℚ) < d := by exact_mod_cast hd
  apply le_antisymm
  · rw [Nat.ceil_le, div_le_iff₀ hdq]
    have : (n : ℚ) ≤ ((d * r : Nat) : ℚ) := by exact_mod_cast h1
    push_cast at this
    linarith
  · rcases Nat.eq_zero_or_pos r with h0 | hpos
    · omega
    · have hlt : r - 1 < ⌈(n : ℚ) / (d : ℚ)⌉₊ := by
        rw [Nat.lt_ceil, lt_div_iff₀ hdq]
        have h3 : d * (r - 1) < n := by
          have : d * r = d * (r - 1) + d := by
            conv_lhs => rw [show r = (r - 1) + 1 by omega]
            ring
          omega
        have : ((d * (r - 1) : Nat) : ℚ) < (n : ℚ) := by exact_mod_cast h3
        push_cast at this ⊢
        linarith
      omega

/-- C23: for `cycles <= 2^32 - 24` each `cal_delay` returns the ceiling of
`cycles / q`, with `q = XVCLK_FREQ / 1000 / 1000` taken in integer arithmetic
(24 for gc5603, gc8613, imx708 and sc5336, 19 for ov50h40); the result, in
microseconds, is never less than the duration `cycles * 10^6 / XVCLK_FREQ` of
the cycles; and `cal_delay(8192)` is 342 for the 24 MHz sensors and 432 for
ov50h40. -/
theorem C23_cal_delay_ceiling (cycles : Nat) (h : cycles ≤ 2 ^ 32 - 24) :
    (GC5603.GC5603_XVCLK_FREQ_24M / 1000 / 1000 = 24 ∧
     GC8613.GC8613_XVCLK_FREQ / 1000 / 1000 = 24 ∧
     IMX708.IMX708_XVCLK_FREQ / 1000 / 1000 = 24 ∧
     SC5336.SC5336_XVCLK_FREQ / 1000 / 1000 = 24 ∧
     OV50H40.OV50H40_XVCLK_FREQ / 1000 / 1000 = 19) ∧
    (GC5603.gc5603_cal_delay cycles = ⌈(cycles : ℚ) / 24⌉₊ ∧
     GC8613.gc8613_cal_delay cycles = ⌈(cycles : ℚ) / 24⌉₊ ∧
     IMX708.imx708_cal_delay cycles = ⌈(cycles : ℚ) / 24⌉₊ ∧
     SC5336.sc5336_cal_delay cycles = ⌈(cycles : ℚ) / 24⌉₊ ∧
     OV50H40.ov50h40_cal_delay cycles = ⌈(cycles : ℚ) / 19⌉₊) ∧
    ((cycles : ℚ) * 10 ^ 6 / GC5603.GC5603_XVCLK_FREQ_24M ≤ GC5603.gc5603_cal_delay cycles ∧
     (cycles : ℚ) * 10 ^ 6 / GC8613.GC8613_XVCLK_FREQ ≤ GC8613.gc8613_cal_delay cycles ∧
     (cycles : ℚ) * 10 ^ 6 / IMX708.IMX708_XVCLK_FREQ ≤ IMX708.imx708_cal_delay cycles ∧
     (cycles : ℚ) * 10 ^ 6 / SC5336.SC5336_XVCLK_FREQ ≤ SC5336.sc5336_cal_delay cycles ∧
     (cycles : ℚ) * 10 ^ 6 / OV50H40.OV50H40_XVCLK_FREQ ≤ OV50H40.ov50h40_cal_delay cycles) ∧
    (GC5603.gc5603_cal_delay 8192 = 342 ∧ GC8613.gc8613_cal_delay 8192 = 342 ∧
     IMX708.imx708_cal_delay 8192 = 342 ∧ SC5336.sc5336_cal_delay 8192 = 342 ∧
     OV50H40.ov50h40_cal_delay 8192 = 432) := by
  have h' : cycles ≤ 4294967272 := by
    have e : (2 : Nat) ^ 32 - 24 = 4294967272 := by norm_num
    rw [e] at h
    exact h
  have u32 : U32_MOD = 4294967296 := by unfold U32_MOD; norm_num
  have e24 : DIV_ROUND_UP cycles 24 = (cycles + 23) / 24 := by
    unfold DIV_ROUND_UP u32_sub u32_add
    rw [u32]
    omega
  have e19 : DIV_ROUND_UP cycles 19 = (cycles + 18) / 19 := by
    unfold DIV_ROUND_UP u32_sub u32_add
    rw [u32]
    omega
  have c24 : ⌈(cycles : ℚ) / 24⌉₊ = (cycles + 23) / 24 := by
    have := ceil_div_of_bounds cycles 24 ((cycles + 23) / 24) (by norm_num) (by omega) (by omega)
    simpa using this
  have c19 : ⌈(cycles : ℚ) / 19⌉₊ = (cycles + 18) / 19 := by
    have := ceil_div_of_bounds cycles 19 ((cycles + 18) / 19) (by norm_num) (by omega) (by omega)
    simpa using this
  have g5 : GC5603.gc5603_cal_delay cycles = (cycles + 23) / 24 := e24
  have g8 : GC8613.gc8613_cal_delay cycles = (cycles + 23) / 24 := e24
  have im : IMX708.imx708_cal_delay cycles = (cycles + 23) / 24 := e24
  have sc : SC5336.sc5336_cal_delay cycles = (cycles + 23) / 24 := e24
  have ov : OV50H40.ov50h40_cal_delay cycles = (cycles + 18) / 19 := e19
  have r24 : (cycles : ℚ) * 10 ^ 6 / 24000000 ≤ (((cycles + 23) / 24 : Nat) : ℚ) := by
    have h1 : cycles ≤ 24 * ((cycles + 23) / 24) := by omega
    have h2 : (cycles : ℚ) ≤ ((24 * ((cycles + 23) / 24) : Nat) : ℚ) := by exact_mod_cast h1
    push_cast at h2
    rw [div_le_iff₀ (by norm_num)]
    linarith
  have r19 : (cycles : ℚ) * 10 ^ 6 / 19200000 ≤ (((cycles + 18) / 19 : Nat) : ℚ) := by
    have h1 : cycles ≤ 19 * ((cycles + 18) / 19) := by omega
    have h2 : (cycles : ℚ) ≤ ((19 * ((cycles + 18) / 19) : Nat) : ℚ) := by exact_mod_cast h1
    have h3 : (0 : ℚ) ≤ (cycles : ℚ) := by positivity
    push_cast at h2
    rw [div_le_iff₀ (by norm_num)]
    linarith
  refine ⟨by decide, ⟨?_, ?_, ?_, ?_, ?_⟩, ⟨?_, ?_, ?_, ?_, ?_⟩, by decide⟩
  · rw [g5, c24]
  · rw [g8, c24]
  · rw [im, c24]
  · rw [sc, c24]
  · rw [ov, c19]
  · rw [g5]; simpa [GC5603.GC5603_XVCLK_FREQ_24M] using r24
  · rw [g8]; simpa [GC8613.GC8613_XVCLK_FREQ] using r24
  · rw [im]; simpa [IMX708.IMX708_XVCLK_FREQ] using r24
  · rw [sc]; simpa [SC5336.SC5336_XVCLK_FREQ] using r24
  · rw [ov]; simpa [OV50H40.OV50H40_XVCLK_FREQ] using r19

/-- C23 at `cycles = 8192`. -/
theorem C23_cal_delay_ceiling_witness :
    (8192 : Nat) ≤ 2 ^ 32 - 24 ∧ GC5603.gc5603_cal_delay 8192 = ⌈((8192 : Nat) : ℚ) / 24⌉₊ :=
  ⟨by decide, (C23_cal_delay_ceiling 8192 (by decide)).2.1.1⟩

end Sensor

namespace Sensor

/-- The handlers `ov50h40_set_ctrl` and `sc5336_set_ctrl` keep the fast-boot
flag. -/
theorem set_ctrl_bus_thunderboot (a : I2cAdapter) (dev : Dev) (bus : Bus) (id : CtrlId)
    (val : Int) :
    (OV50H40.ov50h40_set_ctrl_bus a dev bus id val).2.1.is_thunderboot = dev.is_thunderboot ∧
    (SC5336.sc5336_set_ctrl_bus a dev bus id val).2.1.is_thunderboot = dev.is_thunderboot := by
  unfold OV50H40.ov50h40_set_ctrl_bus OV50H40.ov50h40_set_ctrl_propagate
    SC5336.sc5336_set_ctrl_bus SC5336.sc5336_set_ctrl_propagate SC5336.sc5336_modify_fps_info
  constructor <;> cases id <;> dsimp only <;> split_ifs <;> rfl

/-- The start sequences of ov50h40 and sc5336 keep the fast-boot flag. -/
theorem start_stream_thunderboot (a : I2cAdapter) (reg_list : List regval) (dev : Dev)
    (bus : Bus) :
    (OV50H40.__ov50h40_start_stream a reg_list dev bus).2.1.is_thunderboot
      = dev.is_thunderboot ∧
    (SC5336.__sc5336_start_stream a reg_list dev bus).2.1.is_thunderboot
      = dev.is_thunderboot := by
  have h1 := fun b => handler_setup_frame Dev.is_thunderboot (OV50H40.ov50h40_set_ctrl_bus a)
    (fun d b i v => (set_ctrl_bus_thunderboot a d b i v).1) handler_ctrls dev b
  have h2 := fun b => handler_setup_frame Dev.is_thunderboot (SC5336.sc5336_set_ctrl_bus a)
    (fun d b i v => (set_ctrl_bus_thunderboot a d b i v).2) handler_ctrls dev b
  unfold OV50H40.__ov50h40_start_stream SC5336.__sc5336_start_stream
  constructor <;> dsimp only <;> split_ifs <;> first | rfl | exact h1 _ | exact h2 _

/-- Once the fast-boot flag is clear, no operation of ov50h40 or sc5336 sets
it again. -/
theorem thunderboot_stays_clear (a : I2cAdapter) (rpm : Int) (tb_ng : Bool)
    (div_round_closest : Nat → Nat → Nat) (reg_list : List regval) (board : Board) (dev : Dev)
    (bus : Bus) (log : PwrLog) (id : CtrlId) (val : Int) (enable : Int) (cmd : IoctlCmd)
    (which : v4l2_subdev_format_whence) (framefmt : v4l2_mbus_framefmt)
    (h : dev.is_thunderboot = false) :
    (∀ d ∈ [(OV50H40.ov50h40_set_ctrl_bus a dev bus id val).2.1,
            OV50H40.ov50h40_set_fmt dev which framefmt,
            (OV50H40.ov50h40_s_stream a rpm tb_ng reg_list dev bus enable).2.1,
            (OV50H40.ov50h40_s_power a rpm dev bus enable).2.1,
            (OV50H40.ov50h40_ioctl a dev bus cmd).2.1,
            (OV50H40.__ov50h40_start_stream a reg_list dev bus).2.1,
            (OV50H40.__ov50h40_stop_stream a dev bus).2.1,
            (OV50H40.__ov50h40_power_off board dev log).1], d.is_thunderboot = false) ∧
    (∀ d ∈ [(SC5336.sc5336_set_ctrl_bus a dev bus id val).2.1,
            SC5336.sc5336_set_fmt dev which framefmt,
            (SC5336.sc5336_s_stream a rpm tb_ng reg_list dev bus enable).2.1,
            (SC5336.sc5336_s_power a rpm dev bus enable).2.1,
            (SC5336.sc5336_ioctl a div_round_closest dev bus cmd).2.1,
            (SC5336.__sc5336_start_stream a reg_list dev bus).2.1,
            (SC5336.__sc5336_stop_stream a dev bus).2.1,
            (SC5336.__sc5336_power_off board dev log).1], d.is_thunderboot = false) := by
  have hst := start_stream_thunderboot a reg_list
  have hsc := set_ctrl_bus_thunderboot a
  have hg : ∀ d : Dev, (pm_runtime_get_sync rpm d).2.is_thunderboot = d.is_thunderboot := by
    intro d; unfold pm_runtime_get_sync; split_ifs <;> rfl
  constructor
  · intro d hd
    simp only [List.mem_cons, List.mem_singleton, List.not_mem_nil, or_false] at hd
    rcases hd with rfl | rfl | rfl | rfl | rfl | rfl | rfl | rfl
    · rw [(hsc _ _ _ _).1, h]
    · cases which <;>
        simp [OV50H40.ov50h40_set_fmt, __v4l2_ctrl_s_ctrl, OV50H40.ov50h40_set_ctrl,
          OV50H40.ov50h40_set_ctrl_propagate, h]
    · simp only [OV50H40.ov50h40_s_stream, OV50H40.__ov50h40_stop_stream]
      split_ifs <;>
        simp [hg, (hst _ _).1, h, pm_runtime_put, pm_runtime_put_noidle]
    · simp only [OV50H40.ov50h40_s_power]
      split_ifs <;> simp [hg, h, pm_runtime_put, pm_runtime_put_noidle]
    · cases cmd <;> simp only [OV50H40.ov50h40_ioctl] <;> (try split) <;> simp [h]
    · rw [(hst _ _).1, h]
    · simp [OV50H40.__ov50h40_stop_stream, h]
    · simp [OV50H40.__ov50h40_power_off, h]
  · intro d hd
    simp only [List.mem_cons, List.mem_singleton, List.not_mem_nil, or_false] at hd
    rcases hd with rfl | rfl | rfl | rfl | rfl | rfl | rfl | rfl
    · rw [(hsc _ _ _ _).2, h]
    · cases which <;> simp [SC5336.sc5336_set_fmt, h]
    · simp only [SC5336.sc5336_s_stream, SC5336.__sc5336_stop_stream]
      split_ifs <;>
        simp [hg, (hst _ _).2, h, pm_runtime_put, pm_runtime_put_noidle]
    · simp only [SC5336.sc5336_s_power]
      split_ifs <;> simp [hg, h, pm_runtime_put, pm_runtime_put_noidle]
    · cases cmd <;> simp only [SC5336.sc5336_ioctl] <;> (try split) <;> (try split_ifs) <;>
        simp [h]
    · rw [(hst _ _).2, h]
    · simp [SC5336.__sc5336_stop_stream, h]
    · simp [SC5336.__sc5336_power_off, h]

/-- C24: for ov50h40 and sc5336, from a state `dev` with `is_thunderboot` set
and `is_first_streamoff` clear: `__power_off` changes neither flag and
disables no regulator (ov50h40 takes no action at all, sc5336 only disables
the clock); `__stop_stream` sets `is_first_streamoff` and keeps
`is_thunderboot`; the `__power_off` after it clears both flags and runs the
power-off sequence, which ends with the regulators disabled; and from a state
`dev2` with `is_thunderboot` clear, no operation sets the flag again. -/
theorem C24_thunderboot_state_machine (a : I2cAdapter) (rpm : Int) (tb_ng : Bool)
    (div_round_closest : Nat → Nat → Nat) (reg_list : List regval) (board : Board)
    (dev dev2 : Dev) (bus : Bus) (log : PwrLog) (id : CtrlId) (val : Int) (enable : Int)
    (cmd : IoctlCmd) (which : v4l2_subdev_format_whence) (framefmt : v4l2_mbus_framefmt)
    (htb : dev.is_thunderboot = true) (hfs : dev.is_first_streamoff = false)
    (h2 : dev2.is_thunderboot = false) :
    (OV50H40.__ov50h40_power_off board dev log = (dev, log) ∧
     SC5336.__sc5336_power_off board dev log = (dev, log ++ [PwrOp.clk_disable_unprepare])) ∧
    ((OV50H40.__ov50h40_stop_stream a dev bus).2.1.is_first_streamoff = true ∧
     (OV50H40.__ov50h40_stop_stream a dev bus).2.1.is_thunderboot = true ∧
     (SC5336.__sc5336_stop_stream a dev bus).2.1.is_first_streamoff = true ∧
     (SC5336.__sc5336_stop_stream a dev bus).2.1.is_thunderboot = true) ∧
    ((OV50H40.__ov50h40_power_off board (OV50H40.__ov50h40_stop_stream a dev bus).2.1
        log).1.is_thunderboot = false ∧
     (OV50H40.__ov50h40_power_off board (OV50H40.__ov50h40_stop_stream a dev bus).2.1
        log).1.is_first_streamoff = false ∧
     (OV50H40.__ov50h40_power_off board (OV50H40.__ov50h40_stop_stream a dev bus).2.1
        log).2.getLast? = some PwrOp.regulator_bulk_disable ∧
     (SC5336.__sc5336_power_off board (SC5336.__sc5336_stop_stream a dev bus).2.1
        log).1.is_thunderboot = false ∧
     (SC5336.__sc5336_power_off board (SC5336.__sc5336_stop_stream a dev bus).2.1
        log).1.is_first_streamoff = false ∧
     (SC5336.__sc5336_power_off board (SC5336.__sc5336_stop_stream a dev bus).2.1
        log).2.getLast? = some PwrOp.regulator_bulk_disable) ∧
    ((∀ d ∈ [(OV50H40.ov50h40_set_ctrl_bus a dev2 bus id val).2.1,
             OV50H40.ov50h40_set_fmt dev2 which framefmt,
             (OV50H40.ov50h40_s_stream a rpm tb_ng reg_list dev2 bus enable).2.1,
             (OV50H40.ov50h40_s_power a rpm dev2 bus enable).2.1,
             (OV50H40.ov50h40_ioctl a dev2 bus cmd).2.1,
             (OV50H40.__ov50h40_start_stream a reg_list dev2 bus).2.1,
             (OV50H40.__ov50h40_stop_stream a dev2 bus).2.1,
             (OV50H40.__ov50h40_power_off board dev2 log).1], d.is_thunderboot = false) ∧
     (∀ d ∈ [(SC5336.sc5336_set_ctrl_bus a dev2 bus id val).2.1,
             SC5336.sc5336_set_fmt dev2 which framefmt,
             (SC5336.sc5336_s_stream a rpm tb_ng reg_list dev2 bus enable).2.1,
             (SC5336.sc5336_s_power a rpm dev2 bus enable).2.1,
             (SC5336.sc5336_ioctl a div_round_closest dev2 bus cmd).2.1,
             (SC5336.__sc5336_start_stream a reg_list dev2 bus).2.1,
             (SC5336.__sc5336_stop_stream a dev2 bus).2.1,
             (SC5336.__sc5336_power_off board dev2 log).1], d.is_thunderboot = false)) := by
  refine ⟨⟨?_, ?_⟩, ⟨?_, ?_, ?_, ?_⟩, ⟨?_, ?_, ?_, ?_, ?_, ?_⟩,
    thunderboot_stays_clear a rpm tb_ng div_round_closest reg_list board dev2 bus log id val
      enable cmd which framefmt h2⟩
  · simp [OV50H40.__ov50h40_power_off, htb, hfs]
  · simp [SC5336.__sc5336_power_off, htb, hfs]
  · simp [OV50H40.__ov50h40_stop_stream, htb]
  · simp [OV50H40.__ov50h40_stop_stream, htb]
  · simp [SC5336.__sc5336_stop_stream, htb, pm_runtime_put]
  · simp [SC5336.__sc5336_stop_stream, htb, pm_runtime_put]
  · simp [OV50H40.__ov50h40_power_off, OV50H40.__ov50h40_stop_stream, htb]
  · simp [OV50H40.__ov50h40_power_off, OV50H40.__ov50h40_stop_stream, htb]
  · simp [OV50H40.__ov50h40_power_off, OV50H40.__ov50h40_stop_stream, htb]
  · simp [SC5336.__sc5336_power_off, SC5336.__sc5336_stop_stream, htb, pm_runtime_put]
  · simp [SC5336.__sc5336_power_off, SC5336.__sc5336_stop_stream, htb, pm_runtime_put]
  · simp [SC5336.__sc5336_power_off, SC5336.__sc5336_stop_stream, htb, pm_runtime_put]

/-- C24 on the sc5336 sample state started by the boot firmware: the
`__sc5336_power_off` before the first stream-off only disables the clock. -/
theorem C24_thunderboot_state_machine_witness :
    SC5336.__sc5336_power_off {} { SC5336.dev_sample with is_thunderboot := true } []
      = ({ SC5336.dev_sample with is_thunderboot := true }, [PwrOp.clk_disable_unprepare]) :=
  (C24_thunderboot_state_machine adapter_ok 0 false (fun x d => (x + d / 2) / d)
    SC5336.sc5336_global_regs {} { SC5336.dev_sample with is_thunderboot := true }
    SC5336.dev_sample [] [] CtrlId.V4L2_CID_EXPOSURE 0 0 IoctlCmd.RKMODULE_GET_MODULE_INFO
    v4l2_subdev_format_whence.V4L2_SUBDEV_FORMAT_TRY ⟨0, 0, 0⟩ rfl rfl rfl).1.2

end Sensor

namespace Sensor

/-- A value below `2 ^ 14`, shifted left by `k`, keeps all its bits under a
mask that has bits `k .. k + 13` set. -/
theorem shift_mask_keeps (d k m : Nat) (h : d < 2 ^ 14)
    (hm : ∀ i, k ≤ i → i < k + 14 → m.testBit i = true) :
    (d <<< k) &&& m = d <<< k := by
  apply Nat.eq_of_testBit_eq
  intro i
  rw [Nat.testBit_and, Nat.testBit_shiftLeft]
  by_cases hk : k ≤ i
  · by_cases hi : i < k + 14
    · simp [hm i hk hi]
    · have : d.testBit (i - k) = false :=
        Nat.testBit_lt_two_pow (lt_of_lt_of_le h (Nat.pow_le_pow_right (by norm_num) (by omega)))
      simp [this]
  · simp [hk]

/-- Below `OV50H40_GAIN_MAX` the register masks of the ov50h40 gain lose no
bits: for every gain in `[0x80, 0x7BFF]`. -/
theorem ov50h40_gain_masks_below_max (gain : Int) (h1 : 0x80 ≤ gain) (h2 : gain < 0x7C00) :
    (((OV50H40.ov50h40_gain_split gain).1 <<< 1) % U32_MOD) &&& 0x7ffe
      = (OV50H40.ov50h40_gain_split gain).1 <<< 1 ∧
    (((OV50H40.ov50h40_gain_split gain).2 <<< 6) % U32_MOD) &&& 0xfffc0
      = (OV50H40.ov50h40_gain_split gain).2 <<< 6 := by
  have hb : (OV50H40.ov50h40_gain_split gain).1 < 2 ^ 14 ∧
      (OV50H40.ov50h40_gain_split gain).2 < 2 ^ 14 := by
    unfold OV50H40.ov50h40_gain_split
    split_ifs with hg
    · refine ⟨by norm_num, ?_⟩
      have hw : wrapS32 (gain * 1024) = gain * 1024 := by
        unfold wrapS32 toS32 U32_MOD
        split_ifs <;> omega
      rw [hw, Int.tdiv_eq_ediv (by omega) (by norm_num)]
      have hq : 0 ≤ gain * 1024 / 1984 ∧ gain * 1024 / 1984 ≤ 16383 := by omega
      generalize gain * 1024 / 1984 = q at hq
      unfold ofS32 U32_MOD
      omega
    · refine ⟨?_, by norm_num⟩
      unfold ofS32 U32_MOD
      omega
  have m1 : ∀ i, 1 ≤ i → i < 1 + 14 → (0x7ffe : Nat).testBit i = true := by
    intro i h1 h2; interval_cases i <;> decide
  have m6 : ∀ i, 6 ≤ i → i < 6 + 14 → (0xfffc0 : Nat).testBit i = true := by
    intro i h1 h2; interval_cases i <;> decide
  have s1 : (OV50H40.ov50h40_gain_split gain).1 <<< 1 < U32_MOD := by
    rw [Nat.shiftLeft_eq]; unfold U32_MOD; omega
  have s6 : (OV50H40.ov50h40_gain_split gain).2 <<< 6 < U32_MOD := by
    rw [Nat.shiftLeft_eq]; unfold U32_MOD; omega
  rw [Nat.mod_eq_of_lt s1, Nat.mod_eq_of_lt s6]
  exact ⟨shift_mask_keeps _ 1 _ hb.1 m1, shift_mask_keeps _ 6 _ hb.2 m6⟩

/-- C25: at `OV50H40_GAIN_MAX` (0x7C00) `ov50h40_set_ctrl` computes
`again = 1984` and `dgain = 16384`; `dgain << 6` is `0x100000`, outside the
mask `0xfffc0`, so the value written to `OV50H40_REG_DGAIN_LONG_H` is 0.  One
step below (0x7BFF) `dgain` is 16383 and nothing is lost. -/
theorem C25_ov50h40_dgain_mask_drops_max :
    OV50H40.ov50h40_gain_split (OV50H40.OV50H40_GAIN_MAX : Int) = (1984, 16384) ∧
    ((1984 <<< 1) % U32_MOD) &&& 0x7ffe = 1984 <<< 1 ∧
    ((16384 <<< 6) % U32_MOD) &&& 0xfffc0 = 0 ∧ (16384 : Nat) <<< 6 = 0x100000 ∧
    (OV50H40.ov50h40_set_ctrl_bus adapter_ok { OV50H40.dev_probed_dphy with in_use := true } []
        CtrlId.V4L2_CID_ANALOGUE_GAIN 0x7C00).2.2
      = [BusOp.send [0x35, 0x08, 0x0f, 0x80], BusOp.send [0x35, 0x0a, 0x00, 0x00, 0x00]] ∧
    (OV50H40.ov50h40_set_ctrl_bus adapter_ok { OV50H40.dev_probed_dphy with in_use := true } []
        CtrlId.V4L2_CID_ANALOGUE_GAIN 0x7BFF).2.2
      = [BusOp.send [0x35, 0x08, 0x0f, 0x80], BusOp.send [0x35, 0x0a, 0x0f, 0xff, 0xc0]] := by
  refine ⟨by decide, by decide, by decide, by decide, by decide, by decide⟩

end Sensor

namespace Sensor

/-- C26: the exposure control created for each catalog entry.  It is
well-formed for gc5603, gc8613, sc5336 and the D-PHY catalog of ov50h40; for
all four entries of imx708 the default `exp_def = 0x0B00` (2816) exceeds the
maximum `vts_def - 4` (2645, 1332, 1202, 2647), and for the two 4096x3072
entries of the C-PHY catalog of ov50h40 the default 0x0C00 (3072) exceeds the
maximum `vts_def - 22` (2250). -/
theorem C26_exposure_default_above_maximum :
    (GC5603.supported_modes.map (fun m => ctrl_well_formed (GC5603.gc5603_new_exposure m))
       = [true] ∧
     GC8613.supported_modes.map (fun m => ctrl_well_formed (GC8613.gc8613_new_exposure m))
       = [true, true] ∧
     SC5336.supported_modes.map (fun m => ctrl_well_formed (SC5336.sc5336_new_exposure m))
       = [true] ∧
     OV50H40.supported_modes_dphy.map
         (fun m => ctrl_well_formed (OV50H40.ov50h40_new_exposure m))
       = [true, true]) ∧
    (IMX708.supported_modes.map
         (fun m => ctrl_well_formed (IMX708.imx708_new_exposure m))
       = [false, false, false, false] ∧
     IMX708.supported_modes.map
         (fun m => ((IMX708.imx708_new_exposure m).minimum,
                    (IMX708.imx708_new_exposure m).default_value,
                    (IMX708.imx708_new_exposure m).maximum))
       = [(1, 2816, 2645), (1, 2816, 1332), (1, 2816, 1202), (1, 2816, 2647)]) ∧
    (OV50H40.supported_modes_cphy.map
         (fun m => ctrl_well_formed (OV50H40.ov50h40_new_exposure m))
       = [false, false, true] ∧
     OV50H40.supported_modes_cphy.map
         (fun m => ((OV50H40.ov50h40_new_exposure m).minimum,
                    (OV50H40.ov50h40_new_exposure m).default_value,
                    (OV50H40.ov50h40_new_exposure m).maximum))
       = [(4, 3072, 2250), (4, 3072, 2250), (4, 3072, 3178)]) ∧
    (GC8613.gc8613_initialize_controls GC8613.dev_sample).exposure
      = GC8613.gc8613_new_exposure (GC8613.supported_modes.getD 1 Mode.none) := by
  refine ⟨⟨by decide, by decide, by decide, by decide⟩, ⟨by decide, by decide⟩,
    ⟨by decide, by decide⟩, by decide⟩

end Sensor

namespace SC5336
open Sensor

/-- The clamped gain of `sc5336_set_gain_reg` lies in `[32, 15360]`. -/
theorem sc5336_gain_clamp_bounds (gain : Nat) :
    32 ≤ sc5336_gain_clamp gain ∧ sc5336_gain_clamp gain ≤ 15360 := by
  have hmax : SC5336_GAIN_MAX = 15360 := by decide
  unfold sc5336_gain_clamp
  rw [hmax]
  split_ifs <;> omega

/-- The staging of `sc5336_set_gain_reg` over exact arithmetic: with the gain
clamped, neither 32-bit product wraps. -/
theorem sc5336_gain_stage_exact (gain : Nat) :
    sc5336_gain_stage gain
      = (if sc5336_gain_clamp gain * 1000 / 32 < 2000 then
           (0x00, 0x00, sc5336_gain_clamp gain * 1000 / 32 * 128 / 1000)
         else if sc5336_gain_clamp gain * 1000 / 32 < 4000 then
           (0x08, 0x00, sc5336_gain_clamp gain * 1000 / 32 * 128 / 2000)
         else if sc5336_gain_clamp gain * 1000 / 32 < 8000 then
           (0x09, 0x00, sc5336_gain_clamp gain * 1000 / 32 * 128 / 4000)
         else if sc5336_gain_clamp gain * 1000 / 32 < 16000 then
           (0x0b, 0x00, sc5336_gain_clamp gain * 1000 / 32 * 128 / 8000)
         else if sc5336_gain_clamp gain * 1000 / 32 < 32000 then
           (0x0f, 0x00, sc5336_gain_clamp gain * 1000 / 32 * 128 / 16000)
         else if sc5336_gain_clamp gain * 1000 / 32 < 32000 * 2 then
           (0x1f, 0x00, sc5336_gain_clamp gain * 1000 / 32 * 128 / 32000)
         else if sc5336_gain_clamp gain * 1000 / 32 < 32000 * 4 then
           (0x1f, 0x01, sc5336_gain_clamp gain * 1000 / 32 * 128 / 32000 / 2)
         else if sc5336_gain_clamp gain * 1000 / 32 < 32000 * 8 then
           (0x1f, 0x03, sc5336_gain_clamp gain * 1000 / 32 * 128 / 32000 / 4)
         else if sc5336_gain_clamp gain * 1000 / 32 < 32000 * 15 then
           (0x1f, 0x07, sc5336_gain_clamp gain * 1000 / 32 * 128 / 32000 / 8)
         else (0x1f, 0x07, 0xf0)) := by
  have hc := sc5336_gain_clamp_bounds gain
  have e1 : u32_mul (sc5336_gain_clamp gain) 1000 = sc5336_gain_clamp gain * 1000 := by
    unfold u32_mul U32_MOD
    exact Nat.mod_eq_of_lt (by omega)
  have e2 : u32_mul (sc5336_gain_clamp gain * 1000 / 32) 128
      = sc5336_gain_clamp gain * 1000 / 32 * 128 := by
    unfold u32_mul U32_MOD
    exact Nat.mod_eq_of_lt (by omega)
  unfold sc5336_gain_stage
  simp only [← sc5336_gain_clamp.eq_1, e1, e2]

/-- The multipliers named by the codes that `sc5336_set_gain_reg` writes. -/
theorem sc5336_mult_values :
    (spec_again_mult 0x00 = 1 ∧ spec_again_mult 0x08 = 2 ∧ spec_again_mult 0x09 = 4 ∧
     spec_again_mult 0x0b = 8 ∧ spec_again_mult 0x0f = 16 ∧ spec_again_mult 0x1f = 32) ∧
    (spec_dgain_mult 0x00 = 1 ∧ spec_dgain_mult 0x01 = 2 ∧ spec_dgain_mult 0x03 = 4 ∧
     spec_dgain_mult 0x07 = 8) := by decide

/-- The fine digital gain of `sc5336_set_gain_reg` is in `[0x80, 0xff]`. -/
theorem sc5336_fine_range (gain : Nat) :
    0x80 ≤ (sc5336_gain_stage gain).2.2 ∧ (sc5336_gain_stage gain).2.2 ≤ 0xff := by
  have hc := sc5336_gain_clamp_bounds gain
  rw [sc5336_gain_stage_exact]
  generalize sc5336_gain_clamp gain = g at hc ⊢
  split_ifs <;> dsimp only <;> omega

/-- The encoding of `sc5336_set_gain_reg` brackets the request. -/
theorem sc5336_stage_brackets (gain : Nat) :
    spec_again_mult (sc5336_gain_stage gain).1 * spec_dgain_mult (sc5336_gain_stage gain).2.1
        * (sc5336_gain_stage gain).2.2 * 1000
      ≤ sc5336_gain_clamp gain * 1000 / 32 * 128 ∧
    sc5336_gain_clamp gain * 1000 / 32 * 128
      < spec_again_mult (sc5336_gain_stage gain).1
          * spec_dgain_mult (sc5336_gain_stage gain).2.1
          * ((sc5336_gain_stage gain).2.2 + 1) * 1000 := by
  have hc := sc5336_gain_clamp_bounds gain
  obtain ⟨⟨a0, a1, a2, a3, a4, a5⟩, d0, d1, d2, d3⟩ := sc5336_mult_values
  rw [sc5336_gain_stage_exact]
  generalize sc5336_gain_clamp gain = g at hc ⊢
  split_ifs <;> dsimp only <;>
    simp only [a0, a1, a2, a3, a4, a5, d0, d1, d2, d3] <;> omega

/-- The three transactions of `sc5336_set_gain_reg`, in program order: the
coarse digital gain to `SC5336_REG_DIG_GAIN` (0x3e06), the fine digital gain to
`SC5336_REG_DIG_FINE_GAIN` (0x3e07) and the coarse analog gain to
`SC5336_REG_ANA_GAIN` (0x3e09), each code fitting the byte written, whatever
the transport answers. -/
theorem sc5336_set_gain_reg_bus (a : I2cAdapter) (bus : Bus) (gain : Nat) :
    (sc5336_set_gain_reg a bus gain).2
      = bus ++ [ BusOp.send [0x3e, 0x06, (sc5336_gain_stage gain).2.1],
                 BusOp.send [0x3e, 0x07, (sc5336_gain_stage gain).2.2],
                 BusOp.send [0x3e, 0x09, (sc5336_gain_stage gain).1] ] := by
  have hf := sc5336_fine_range gain
  have hcodes : (sc5336_gain_stage gain).1 ≤ 0xff ∧ (sc5336_gain_stage gain).2.1 ≤ 0xff := by
    rw [sc5336_gain_stage_exact]
    split_ifs <;> dsimp only <;> constructor <;> omega
  have hb : ∀ x : Nat, x ≤ 0xff → x &&& 0xff = x := by
    intro x hx
    have e : x &&& 0xff = x % 256 := Nat.and_pow_two_sub_one_eq_mod x 8
    rw [e]
    omega
  unfold sc5336_set_gain_reg
  dsimp only
  rw [write_regs_bus]
  simp only [List.map_cons, List.map_nil, hb _ hcodes.1, hb _ hcodes.2, hb _ hf.2,
    SC5336_REG_DIG_GAIN, SC5336_REG_DIG_FINE_GAIN, SC5336_REG_ANA_GAIN]
  rfl

/-- C27: for every gain, with `G` the gain clamped to `[32, SC5336_GAIN_MAX]`
(15360), `gf = G * 1000 / 32` and `M` the product of the multipliers selected
by the coarse analog and digital codes: `sc5336_set_gain_reg` hands three
writes to the bus, the coarse digital code, the fine digital gain and the
coarse analog code; the fine digital gain written is in `[0x80, 0xff]`, the
products `G * 1000` and `gf * 128` fit in 32 bits, and whenever `gf < 480000`
the codes written bracket the request,
`M * fine * 1000 <= gf * 128 < M * (fine + 1) * 1000`. -/
theorem C27_sc5336_gain_stage_brackets (a : I2cAdapter) (bus : Bus) (gain : Nat) :
    SC5336_GAIN_MAX = 15360 ∧
    (∃ coarse_again coarse_dgain fine : Nat,
      (sc5336_set_gain_reg a bus gain).2
        = bus ++ [ BusOp.send [0x3e, 0x06, coarse_dgain], BusOp.send [0x3e, 0x07, fine],
                   BusOp.send [0x3e, 0x09, coarse_again] ] ∧
      (coarse_again, coarse_dgain, fine) = sc5336_gain_stage gain ∧
      (0x80 ≤ fine ∧ fine ≤ 0xff) ∧
      (sc5336_gain_clamp gain * 1000 / 32 < 480000 →
        spec_again_mult coarse_again * spec_dgain_mult coarse_dgain * fine * 1000
          ≤ sc5336_gain_clamp gain * 1000 / 32 * 128 ∧
        sc5336_gain_clamp gain * 1000 / 32 * 128
          < spec_again_mult coarse_again * spec_dgain_mult coarse_dgain * (fine + 1) * 1000)) ∧
    (sc5336_gain_clamp gain * 1000 < 2 ^ 32 ∧
     sc5336_gain_clamp gain * 1000 / 32 * 128 < 2 ^ 32) ∧
    (u32_mul (sc5336_gain_clamp gain) 1000 = sc5336_gain_clamp gain * 1000 ∧
     u32_mul (sc5336_gain_clamp gain * 1000 / 32) 128
       = sc5336_gain_clamp gain * 1000 / 32 * 128) := by
  have hc := sc5336_gain_clamp_bounds gain
  refine ⟨by decide,
    ⟨(sc5336_gain_stage gain).1, (sc5336_gain_stage gain).2.1, (sc5336_gain_stage gain).2.2,
      sc5336_set_gain_reg_bus a bus gain, rfl, sc5336_fine_range gain,
      fun _ => sc5336_stage_brackets gain⟩,
    ⟨by omega, by omega⟩, ?_, ?_⟩
  · unfold u32_mul U32_MOD
    exact Nat.mod_eq_of_lt (by omega)
  · unfold u32_mul U32_MOD
    exact Nat.mod_eq_of_lt (by omega)

/-- C27 at a gain of 64 (twice the unit gain): the codes `0x00`, `0x80` and
`0x08` are written, and `2 * 0x80 * 1000 <= 2000 * 128 < 2 * 0x81 * 1000`. -/
theorem C27_sc5336_gain_stage_brackets_witness :
    (sc5336_set_gain_reg adapter_ok [] 64).2
      = [ BusOp.send [0x3e, 0x06, 0x00], BusOp.send [0x3e, 0x07, 0x80],
          BusOp.send [0x3e, 0x09, 0x08] ] ∧
    sc5336_gain_clamp 64 * 1000 / 32 < 480000 ∧
    (∃ coarse_again coarse_dgain fine : Nat,
      (sc5336_set_gain_reg adapter_ok [] 64).2
        = [] ++ [ BusOp.send [0x3e, 0x06, coarse_dgain], BusOp.send [0x3e, 0x07, fine],
                  BusOp.send [0x3e, 0x09, coarse_again] ] ∧
      (coarse_again, coarse_dgain, fine) = sc5336_gain_stage 64 ∧
      (0x80 ≤ fine ∧ fine ≤ 0xff) ∧
      (sc5336_gain_clamp 64 * 1000 / 32 < 480000 →
        spec_again_mult coarse_again * spec_dgain_mult coarse_dgain * fine * 1000
          ≤ sc5336_gain_clamp 64 * 1000 / 32 * 128 ∧
        sc5336_gain_clamp 64 * 1000 / 32 * 128
          < spec_again_mult coarse_again * spec_dgain_mult coarse_dgain * (fine + 1) * 1000)) :=
  ⟨by decide, by decide, (C27_sc5336_gain_stage_brackets adapter_ok [] 64).2.1⟩

end SC5336

namespace IMX708
open Sensor

/-- The clamped analogue gain of `imx708_set_ctrl` lies in `[0x10, 0x400]` and
is monotone in the request. -/
theorem imx708_gain_clamp_bounds (v w : Int) (h : v ≤ w) :
    0x10 ≤ imx708_gain_clamp v ∧ imx708_gain_clamp v ≤ 0x400 ∧
    imx708_gain_clamp v ≤ imx708_gain_clamp w := by
  unfold imx708_gain_clamp
  dsimp only
  split_ifs <;> omega

/-- The register value of the analogue gain over the clamped range, in exact
arithmetic. -/
theorem imx708_again_exact (n : Nat) (h1 : 16 ≤ n) (h2 : n ≤ 1024) :
    imx708_again (n : Int) = 1024 - 16384 / n := by
  have hq : 16384 / n ≤ 1024 := by
    calc 16384 / n ≤ 16384 / 16 := Nat.div_le_div_left h1 (by norm_num)
      _ = 1024 := by norm_num
  have e : Int.tdiv (1024 * 16) (n : Int) = ((16384 / n : Nat) : Int) := by
    rw [Int.tdiv_eq_ediv (by norm_num) (by omega)]
    norm_num
  unfold imx708_again ofS32 U32_MOD
  rw [e]
  generalize 16384 / n = q at hq
  omega

/-- The two gain bytes of `imx708_set_ctrl` rebuild a value below 1024. -/
theorem imx708_again_bytes (x : Nat) (h : x < 1024) :
    IMX708_FETCH_AGAIN_H x * 256 + IMX708_FETCH_AGAIN_L x = x := by
  unfold IMX708_FETCH_AGAIN_H IMX708_FETCH_AGAIN_L
  have e1 : ∀ y : Nat, y &&& 0x03 = y % 4 := fun y => Nat.and_pow_two_sub_one_eq_mod y 2
  have e2 : ∀ y : Nat, y &&& 0xFF = y % 256 := fun y => Nat.and_pow_two_sub_one_eq_mod y 8
  rw [e1, e2, Nat.shiftRight_eq_div_pow]
  omega

/-- C28: in `imx708_set_ctrl` for `V4L2_CID_ANALOGUE_GAIN`, for every requested
value `v` with `v'` its clamp to `[0x10, 0x400]`: the two bytes written are the
high and low byte of `again = 1024 - 16384 / v'`, which lies in `[0, 1008]`, is
non-decreasing in `v`, and is rebuilt exactly from the two bytes written. -/
theorem C28_imx708_again_range_monotone (a : I2cAdapter) (dev : Dev) (bus : Bus) (v w : Int)
    (hu : dev.in_use = true) (hvw : v ≤ w) :
    (imx708_set_ctrl_bus a dev bus CtrlId.V4L2_CID_ANALOGUE_GAIN v).2.2
      = (write_regs a
          [(IMX708_REG_GAIN_H, IMX708_FETCH_AGAIN_H (imx708_again (imx708_gain_clamp v))),
           (IMX708_REG_GAIN_L, IMX708_FETCH_AGAIN_L (imx708_again (imx708_gain_clamp v)))]
          bus).2 ∧
    (0x10 ≤ imx708_gain_clamp v ∧ imx708_gain_clamp v ≤ 0x400) ∧
    ((imx708_again (imx708_gain_clamp v) : Int) = 1024 - 16384 / imx708_gain_clamp v) ∧
    imx708_again (imx708_gain_clamp v) ≤ 1008 ∧
    imx708_again (imx708_gain_clamp v) ≤ imx708_again (imx708_gain_clamp w) ∧
    IMX708_FETCH_AGAIN_H (imx708_again (imx708_gain_clamp v)) * 256
        + IMX708_FETCH_AGAIN_L (imx708_again (imx708_gain_clamp v))
      = imx708_again (imx708_gain_clamp v) := by
  obtain ⟨hv1, hv2, hmono⟩ := imx708_gain_clamp_bounds v w hvw
  obtain ⟨hw1, hw2, _⟩ := imx708_gain_clamp_bounds w w le_rfl
  obtain ⟨n, hn⟩ := Int.eq_ofNat_of_zero_le (le_trans (by norm_num) hv1)
  obtain ⟨m, hm⟩ := Int.eq_ofNat_of_zero_le (le_trans (by norm_num) hw1)
  rw [hn] at hv1 hv2 hmono
  rw [hm] at hw1 hw2 hmono
  have hn1 : 16 ≤ n := by exact_mod_cast hv1
  have hn2 : n ≤ 1024 := by exact_mod_cast hv2
  have hm1 : 16 ≤ m := by exact_mod_cast hw1
  have hm2 : m ≤ 1024 := by exact_mod_cast hw2
  have hnm : n ≤ m := by exact_mod_cast hmono
  have en := imx708_again_exact n hn1 hn2
  have em := imx708_again_exact m hm1 hm2
  have qn : 16 ≤ 16384 / n ∧ 16384 / n ≤ 1024 :=
    ⟨(Nat.le_div_iff_mul_le (by omega)).2 (by omega),
     le_trans (Nat.div_le_div_left hn1 (by norm_num)) (by norm_num)⟩
  have qnm : 16384 / m ≤ 16384 / n := Nat.div_le_div_left hnm (by omega)
  refine ⟨?_, ⟨by rw [hn]; exact_mod_cast hn1, by rw [hn]; exact_mod_cast hn2⟩, ?_, ?_, ?_, ?_⟩
  · have hi : (imx708_set_ctrl_propagate dev CtrlId.V4L2_CID_ANALOGUE_GAIN v).in_use = true := hu
    simp only [imx708_set_ctrl_bus, hi, Bool.not_true, imx708_gain_clamp]
    rfl
  · rw [hn, en]
    have e : ((16384 : Int) / (n : Int)) = ((16384 / n : Nat) : Int) := by norm_cast
    rw [e]
    generalize 16384 / n = q at qn
    omega
  · rw [hn, en]
    generalize 16384 / n = q at qn
    omega
  · rw [hn, hm, en, em]
    generalize 16384 / n = q at qn qnm
    generalize 16384 / m = p at qnm
    omega
  · rw [hn, en]
    exact imx708_again_bytes _ (by omega)

/-- C28 at the requests 0 and 5000 (clamped to 0x10 and 0x400): the register
values are 0 and 1008. -/
theorem C28_imx708_again_range_monotone_witness :
    imx708_again (imx708_gain_clamp 0) = 0 ∧ imx708_again (imx708_gain_clamp 5000) = 1008 ∧
    imx708_again (imx708_gain_clamp 0) ≤ imx708_again (imx708_gain_clamp 5000) :=
  ⟨by decide, by decide,
   (C28_imx708_again_range_monotone adapter_ok IMX708.dev_sample [] 0 5000 (by decide)
      (by decide)).2.2.2.2.1⟩

end IMX708

namespace OV50H40
open Sensor

/-- The first `switch` of `ov50h40_set_ctrl` keeps the catalog, the current
mode and the power reference. -/
theorem ov50h40_propagate_keeps_mode (dev : Dev) (id : CtrlId) (val : Int) :
    (ov50h40_set_ctrl_propagate dev id val).support_modes = dev.support_modes ∧
    (ov50h40_set_ctrl_propagate dev id val).cur_mode = dev.cur_mode ∧
    (ov50h40_set_ctrl_propagate dev id val).in_use = dev.in_use := by
  cases id <;> exact ⟨rfl, rfl, rfl⟩

/-- The `u32` and `s32` conversions of `ov50h40_set_ctrl` over the range of the
exposure and blanking controls, in exact arithmetic. -/
theorem ov50h40_ctrl_arith (h : Nat) (v e : Int) (hv : 0 ≤ v) (hhi : (h : Int) + v ≤ 0xffff)
    (he0 : 0 ≤ e) (hemax : e ≤ 0xffff) :
    u32_add h (ofS32 v) = h + v.toNat ∧ u32_add (ofS32 v) h = h + v.toNat ∧
    ofS32 e = e.toNat ∧ ofS32 (Int.tdiv e 2) = e.toNat / 2 := by
  have t : Int.tdiv e 2 = e / 2 := Int.tdiv_eq_ediv he0 (by norm_num)
  rw [t]
  unfold u32_add ofS32 U32_MOD
  omega

/-- C29: in `ov50h40_set_ctrl`, for a mode of height `h`, every vblank
`v >= 0` with `44 <= h + v <= 0xffff` and every exposure `e` between 0 and the
exposure maximum published for that `v` (`h + v - 44` when `h` is 6144,
`h + v - 22` otherwise): the value written to the exposure register (`e / 2`
when `h` is 6144, else `e`) is at most the value written to the VTS register
(`(h + v) / 2` when `h` is 6144, else `h + v`) minus 22. -/
theorem C29_ov50h40_exposure_below_vts (a : I2cAdapter) (dev : Dev) (bus : Bus) (v e : Int)
    (hu : dev.in_use = true) (hv : 0 ≤ v)
    (hhi : ((dev.support_modes.getD dev.cur_mode Mode.none).height : Int) + v ≤ 0xffff)
    (hlo : 44 ≤ ((dev.support_modes.getD dev.cur_mode Mode.none).height : Int) + v)
    (he0 : 0 ≤ e)
    (he : e ≤ (ov50h40_set_ctrl_propagate dev CtrlId.V4L2_CID_VBLANK v).exposure.maximum) :
    (ov50h40_set_ctrl_propagate dev CtrlId.V4L2_CID_VBLANK v).exposure.maximum
      = (if (dev.support_modes.getD dev.cur_mode Mode.none).height = 6144
         then ((dev.support_modes.getD dev.cur_mode Mode.none).height : Int) + v - 44
         else ((dev.support_modes.getD dev.cur_mode Mode.none).height : Int) + v - 22) ∧
    (ov50h40_set_ctrl_bus a dev bus CtrlId.V4L2_CID_EXPOSURE e).2.2
      = (ov50h40_write_reg a bus OV50H40_REG_EXP_LONG_H 3
          (if (dev.support_modes.getD dev.cur_mode Mode.none).height = 6144
           then e.toNat / 2 else e.toNat)).2 ∧
    (ov50h40_set_ctrl_bus a dev bus CtrlId.V4L2_CID_VBLANK v).2.2
      = (ov50h40_write_reg a bus OV50H40_REG_VTS 2
          (if (dev.support_modes.getD dev.cur_mode Mode.none).height = 6144
           then ((dev.support_modes.getD dev.cur_mode Mode.none).height + v.toNat) / 2
           else (dev.support_modes.getD dev.cur_mode Mode.none).height + v.toNat)).2 ∧
    (if (dev.support_modes.getD dev.cur_mode Mode.none).height = 6144
       then e.toNat / 2 else e.toNat) + 22
      ≤ (if (dev.support_modes.getD dev.cur_mode Mode.none).height = 6144
         then ((dev.support_modes.getD dev.cur_mode Mode.none).height + v.toNat) / 2
         else (dev.support_modes.getD dev.cur_mode Mode.none).height + v.toNat) := by
  have hmax : (ov50h40_set_ctrl_propagate dev CtrlId.V4L2_CID_VBLANK v).exposure.maximum
      = (if (dev.support_modes.getD dev.cur_mode Mode.none).height = 6144
         then ((dev.support_modes.getD dev.cur_mode Mode.none).height : Int) + v - 44
         else ((dev.support_modes.getD dev.cur_mode Mode.none).height : Int) + v - 22) := by
    have ar := ov50h40_ctrl_arith _ v 0 hv hhi le_rfl (by norm_num)
    simp only [ov50h40_set_ctrl_propagate, __v4l2_ctrl_modify_range, ar.1]
    generalize (dev.support_modes.getD dev.cur_mode Mode.none).height = h at hhi hlo ⊢
    unfold u32_sub U32_MOD
    split_ifs <;> omega
  rw [hmax] at he
  have hemax : e ≤ 0xffff := by
    generalize (dev.support_modes.getD dev.cur_mode Mode.none).height = h at hhi hlo he
    split_ifs at he <;> omega
  have ar := ov50h40_ctrl_arith _ v e hv hhi he0 hemax
  obtain ⟨k1, k2, k3⟩ := ov50h40_propagate_keeps_mode dev CtrlId.V4L2_CID_EXPOSURE e
  obtain ⟨l1, l2, l3⟩ := ov50h40_propagate_keeps_mode dev CtrlId.V4L2_CID_VBLANK v
  refine ⟨hmax, ?_, ?_, ?_⟩
  · simp only [ov50h40_set_ctrl_bus, k1, k2, k3, hu, Bool.not_true, ar.2.2.1, ar.2.2.2]
    rfl
  · simp only [ov50h40_set_ctrl_bus, l1, l2, l3, hu, Bool.not_true, ar.2.1]
    rfl
  · generalize (dev.support_modes.getD dev.cur_mode Mode.none).height = h at hhi hlo he
    split_ifs at he ⊢ <;> omega

/-- C29 at the full-resolution D-PHY mode (height 6144) with a vblank of 390
and the exposure at its published maximum 6490: 3245 is written to the
exposure register and 3267 to the VTS register. -/
theorem C29_ov50h40_exposure_below_vts_witness :
    (ov50h40_set_ctrl_bus adapter_ok { dev_sample_dphy with cur_mode := 1, in_use := true } []
        CtrlId.V4L2_CID_EXPOSURE 6490).2.2
      = (ov50h40_write_reg adapter_ok [] OV50H40_REG_EXP_LONG_H 3 3245).2 ∧
    (ov50h40_set_ctrl_bus adapter_ok { dev_sample_dphy with cur_mode := 1, in_use := true } []
        CtrlId.V4L2_CID_VBLANK 390).2.2
      = (ov50h40_write_reg adapter_ok [] OV50H40_REG_VTS 2 3267).2 :=
  ⟨(C29_ov50h40_exposure_below_vts adapter_ok
      { dev_sample_dphy with cur_mode := 1, in_use := true } [] 390 6490
      (by decide) (by decide) (by decide) (by decide) (by decide) (by decide)).2.1,
   (C29_ov50h40_exposure_below_vts adapter_ok
      { dev_sample_dphy with cur_mode := 1, in_use := true } [] 390 6490
      (by decide) (by decide) (by decide) (by decide) (by decide) (by decide)).2.2.1⟩

end OV50H40

namespace Sensor

/-- The distance of a mode only depends on the requested size modulo `2 ^ 32`. -/
theorem get_reso_dist_mod (m : Mode) (f : v4l2_mbus_framefmt) :
    get_reso_dist m f
      = get_reso_dist m { width := f.width % U32_MOD, height := f.height % U32_MOD,
                          code := 0 } := by
  unfold get_reso_dist u32_sub
  simp only [Nat.mod_mod]

/-- The kernel `abs` of a 32-bit pattern, by cases. -/
theorem abs_cases (p : Nat) (hp : p < 2 ^ 32) :
    abs p = if p < 2 ^ 31 then (p : Int) else if p = 2 ^ 31 then -(2 ^ 31) else 2 ^ 32 - (p : Int) := by
  have hp' : p < 4294967296 := by omega
  unfold abs wrapS32 toS32 U32_MOD
  dsimp only
  norm_num
  split_ifs <;> omega

/-- The kernel `abs` of a 32-bit pattern is negative only for `INT_MIN`, and
reaches `2 ^ 31 - 1` only for the two patterns next to it. -/
theorem abs_range (p : Nat) (hp : p < 4294967296) :
    (abs p = -2147483648 ∧ p = 2147483648) ∨
    (0 ≤ abs p ∧ abs p ≤ 2147483647 ∧
      (abs p = 2147483647 → p = 2147483647 ∨ p = 2147483649)) := by
  rw [abs_cases p (by omega)]
  norm_num
  split_ifs <;> omega

/-- The reduction to `int` gives `-1` only for `-1` itself in the range of a
sum of two `abs` values. -/
theorem wrapS32_neg_one (z : Int) (h1 : -4294967296 ≤ z) (h2 : z ≤ 4294967294)
    (h : wrapS32 z = -1) : z = -1 := by
  unfold wrapS32 toS32 U32_MOD at h
  norm_num at h
  split_ifs at h <;> omega

/-- The `u32` difference hits a given pattern for one request only. -/
theorem u32_sub_eq (W w c : Nat) (hW : W < 65536) (hc : 65536 ≤ c) (hc2 : c < 4294967296)
    (h : u32_sub W w = c) : w % U32_MOD = W + 4294967296 - c := by
  unfold u32_sub at h
  have u32 : U32_MOD = 4294967296 := by unfold U32_MOD; norm_num
  rw [u32] at h ⊢
  omega

/-- A distance of `-1` (the value the scan uses as its "nothing chosen yet"
mark) arises only when one difference is `INT_MIN` and the other has
magnitude `2 ^ 31 - 1`. -/
theorem get_reso_dist_neg_one (m : Mode) (f : v4l2_mbus_framefmt)
    (hw : m.width < 2 ^ 16) (hh : m.height < 2 ^ 16) (h : get_reso_dist m f = -1) :
    (f.width % U32_MOD = m.width + 2 ^ 31 ∧
      (f.height % U32_MOD = m.height + 2 ^ 31 + 1 ∨
       f.height % U32_MOD = m.height + 2 ^ 31 - 1)) ∨
    (f.height % U32_MOD = m.height + 2 ^ 31 ∧
      (f.width % U32_MOD = m.width + 2 ^ 31 + 1 ∨
       f.width % U32_MOD = m.width + 2 ^ 31 - 1)) := by
  have u32 : U32_MOD = 4294967296 := by unfold U32_MOD; norm_num
  have hp : u32_sub m.width f.width < 4294967296 := by
    unfold u32_sub; rw [u32]; exact Nat.mod_lt _ (by norm_num)
  have hq : u32_sub m.height f.height < 4294967296 := by
    unfold u32_sub; rw [u32]; exact Nat.mod_lt _ (by norm_num)
  have hw' : m.width < 65536 := by omega
  have hh' : m.height < 65536 := by omega
  have ex := fun c => u32_sub_eq m.width f.width c hw'
  have ey := fun c => u32_sub_eq m.height f.height c hh'
  unfold get_reso_dist at h
  have ap := abs_range _ hp
  have aq := abs_range _ hq
  have hs : abs (u32_sub m.width f.width) + abs (u32_sub m.height f.height) = -1 :=
    wrapS32_neg_one _ (by omega) (by omega) h
  rcases ap with ⟨a1, a2⟩ | ⟨a1, a2, a3⟩
  · rcases aq with ⟨b1, b2⟩ | ⟨b1, b2, b3⟩
    · omega
    · have e1 := ex _ (by norm_num) (by norm_num) a2
      rcases b3 (by omega) with b | b
      · have e2 := ey _ (by norm_num) (by norm_num) b
        left; constructor
        · omega
        · left; omega
      · have e2 := ey _ (by norm_num) (by norm_num) b
        left; constructor
        · omega
        · right; omega
  · rcases aq with ⟨b1, b2⟩ | ⟨b1, b2, b3⟩
    · have e1 := ey _ (by norm_num) (by norm_num) b2
      rcases a3 (by omega) with b | b
      · have e2 := ex _ (by norm_num) (by norm_num) b
        right; constructor
        · omega
        · left; omega
      · have e2 := ex _ (by norm_num) (by norm_num) b
        right; constructor
        · omega
        · right; omega
    · omega

/-- The scan over four entries whose second and fourth distance agree never
ends on the fourth entry when no distance equals the `-1` mark. -/
theorem best_fit_scan_four (d0 d1 d2 : Int) (h0 : d0 ≠ -1) (h1 : d1 ≠ -1) (h2 : d2 ≠ -1) :
    (best_fit_step d1 3 (best_fit_step d2 2 (best_fit_step d1 1
      (best_fit_step d0 0 (0, -1))))).1.toNat < 3 := by
  unfold best_fit_step
  simp only [true_or, if_true]
  split_ifs <;> simp_all <;> omega

end Sensor

namespace IMX708
open Sensor

/-- The scan of `imx708_find_best_fit` over the four catalog entries, step by
step; entries 1 and 3 have the same size, hence the same distance. -/
theorem imx708_scan_unfold (f : v4l2_mbus_framefmt) :
    imx708_find_best_fit_scan supported_modes.length f
      = best_fit_step (get_reso_dist (supported_modes.getD 1 Mode.none) f) 3
          (best_fit_step (get_reso_dist (supported_modes.getD 2 Mode.none) f) 2
            (best_fit_step (get_reso_dist (supported_modes.getD 1 Mode.none) f) 1
              (best_fit_step (get_reso_dist (supported_modes.getD 0 Mode.none) f) 0
                (0, -1)))) := rfl

/-- The index `imx708_find_best_fit` picks only depends on the requested size
modulo `2 ^ 32`. -/
theorem imx708_find_best_fit_idx_mod (f : v4l2_mbus_framefmt) :
    imx708_find_best_fit_idx supported_modes.length f
      = imx708_find_best_fit_idx supported_modes.length
          { width := f.width % U32_MOD, height := f.height % U32_MOD, code := 0 } := by
  unfold imx708_find_best_fit_idx
  rw [imx708_scan_unfold, imx708_scan_unfold]
  simp only [← get_reso_dist_mod]

set_option maxRecDepth 100000 in
/-- The function `imx708_find_best_fit` never returns catalog entry 3, whatever
the request. -/
theorem imx708_find_best_fit_idx_lt (f : v4l2_mbus_framefmt) :
    imx708_find_best_fit_idx supported_modes.length f < 3 := by
  by_cases h0 : get_reso_dist (supported_modes.getD 0 Mode.none) f = -1
  · rcases get_reso_dist_neg_one _ f (by decide) (by decide) h0
      with ⟨hx, hy | hy⟩ | ⟨hy, hx | hx⟩ <;>
    · rw [imx708_find_best_fit_idx_mod, hx, hy]
      decide
  by_cases h1 : get_reso_dist (supported_modes.getD 1 Mode.none) f = -1
  · rcases get_reso_dist_neg_one _ f (by decide) (by decide) h1
      with ⟨hx, hy | hy⟩ | ⟨hy, hx | hx⟩ <;>
    · rw [imx708_find_best_fit_idx_mod, hx, hy]
      decide
  by_cases h2 : get_reso_dist (supported_modes.getD 2 Mode.none) f = -1
  · rcases get_reso_dist_neg_one _ f (by decide) (by decide) h2
      with ⟨hx, hy | hy⟩ | ⟨hy, hx | hx⟩ <;>
    · rw [imx708_find_best_fit_idx_mod, hx, hy]
      decide
  unfold imx708_find_best_fit_idx
  rw [imx708_scan_unfold]
  exact best_fit_scan_four _ _ _ h0 h1 h2

/-- The state-only handler `imx708_set_ctrl` keeps the current mode and the
catalog size. -/
theorem imx708_set_ctrl_mode_fields (dev : Dev) (id : CtrlId) (val : Int) :
    (imx708_set_ctrl dev id val).cur_mode = dev.cur_mode ∧
    (imx708_set_ctrl dev id val).cfg_num = dev.cfg_num := by
  unfold imx708_set_ctrl imx708_set_ctrl_propagate
  constructor <;> cases id <;> dsimp only <;> split_ifs <;> rfl

/-- After `imx708_set_fmt` the current mode is one of entries 0, 1, 2. -/
theorem imx708_set_fmt_mode_lt (dev : Dev) (which : v4l2_subdev_format_whence)
    (f : v4l2_mbus_framefmt) (hc : dev.cur_mode < 3) (hn : dev.cfg_num = supported_modes.length) :
    (imx708_set_fmt dev which f).cur_mode < 3 ∧
    (imx708_set_fmt dev which f).cfg_num = supported_modes.length := by
  cases which
  · exact ⟨hc, hn⟩
  · have k := imx708_find_best_fit_idx_lt f
    unfold imx708_set_fmt __v4l2_ctrl_s_ctrl
    dsimp only
    rw [(imx708_set_ctrl_mode_fields _ _ _).1, (imx708_set_ctrl_mode_fields _ _ _).2]
    dsimp only
    rw [hn]
    exact ⟨k, rfl⟩

/-- After `imx708_ioctl` the current mode is one of entries 0, 1, 2. -/
theorem imx708_ioctl_mode_lt (a : I2cAdapter) (link_freq_400 : Nat) (dev : Dev) (bus : Bus)
    (cmd : IoctlCmd) (hc : dev.cur_mode < 3) (hn : dev.cfg_num = supported_modes.length) :
    (imx708_ioctl a link_freq_400 dev bus cmd).2.1.cur_mode < 3 ∧
    (imx708_ioctl a link_freq_400 dev bus cmd).2.1.cfg_num = supported_modes.length := by
  cases cmd
  case RKMODULE_SET_HDR_CFG hdr =>
    have hr : List.range supported_modes.length = [0, 1, 2, 3] := by decide
    have hcases : dev.cur_mode = 0 ∨ dev.cur_mode = 1 ∨ dev.cur_mode = 2 := by omega
    unfold imx708_ioctl
    dsimp only
    split
    · exact ⟨hc, hn⟩
    · rename_i i heq
      refine ⟨?_, hn⟩
      show i < 3
      rw [hn, hr] at heq
      by_cases hh : (0 : Nat) = hdr
      · subst hh
        rcases hcases with h | h | h <;> rw [h] at heq <;>
          simp [supported_modes, List.find?] at heq <;> omega
      · rcases hcases with h | h | h <;> rw [h] at heq <;>
          simp [supported_modes, List.find?, hh] at heq
  all_goals (unfold imx708_ioctl; dsimp only; (try split_ifs) <;> exact ⟨hc, hn⟩)

/-- Every sequence of calls keeps the current mode among entries 0, 1, 2. -/
theorem imx708_run_mode_lt (a : I2cAdapter) (link_freq_400 : Nat) (ops : List ModeOp) :
    ∀ st : Dev × Bus, st.1.cur_mode < 3 → st.1.cfg_num = supported_modes.length →
      (imx708_run a link_freq_400 st ops).1.cur_mode < 3 := by
  induction ops with
  | nil => intro st hc _; exact hc
  | cons op rest ih =>
    intro st hc hn
    have hs : (imx708_step a link_freq_400 st op).1.cur_mode < 3 ∧
        (imx708_step a link_freq_400 st op).1.cfg_num = supported_modes.length := by
      cases op with
      | set_fmt which f => exact imx708_set_fmt_mode_lt st.1 which f hc hn
      | ioctl cmd => exact imx708_ioctl_mode_lt a link_freq_400 st.1 st.2 cmd hc hn
    exact ih _ hs.1 hs.2

/-- The mode selection of `imx708_probe` always ends on entry 0. -/
theorem imx708_probe_mode_zero (dev : Dev) (hdr_mode : Option Nat) :
    (imx708_probe_mode dev hdr_mode).cur_mode = 0 ∧
    (imx708_probe_mode dev hdr_mode).cfg_num = supported_modes.length := by
  refine ⟨?_, rfl⟩
  have hr : List.range supported_modes.length = [0, 1, 2, 3] := by decide
  unfold imx708_probe_mode
  dsimp only
  rw [hr]
  by_cases hh : (match hdr_mode with | some h => h | Option.none => NO_HDR) = 0
  · rw [hh]; rfl
  · simp [supported_modes, List.find?, hh]

/-- C30: in every state the imx708 driver reaches (the mode chosen by
`imx708_probe` for any devicetree `hdr-mode` value, readable or not, then any
sequence of `imx708_set_fmt` calls and `imx708_ioctl` commands, among them
`RKMODULE_SET_HDR_CFG` with any `hdr_mode`), the current mode is one of catalog
entries 0, 1, 2; and `imx708_find_best_fit` returns none but these for any
request.  Entry 3, the second 2304x1296 entry, is never selected. -/
theorem C30_imx708_entry_three_never_selected (a : I2cAdapter) (link_freq_400 : Nat)
    (dev : Dev) (bus : Bus) (hdr_mode : Option Nat) (ops : List ModeOp)
    (f : v4l2_mbus_framefmt) :
    (imx708_probe_mode dev hdr_mode).cur_mode = 0 ∧
    (imx708_run a link_freq_400 (imx708_probe_mode dev hdr_mode, bus) ops).1.cur_mode < 3 ∧
    imx708_find_best_fit_idx supported_modes.length f < 3 ∧
    imx708_find_best_fit supported_modes.length f ≠ supported_modes.getD 3 Mode.none ∧
    ((supported_modes.getD 1 Mode.none).width = 2304 ∧
     (supported_modes.getD 1 Mode.none).height = 1296 ∧
     (supported_modes.getD 3 Mode.none).width = 2304 ∧
     (supported_modes.getD 3 Mode.none).height = 1296) := by
  have hp := imx708_probe_mode_zero dev hdr_mode
  have hf := imx708_find_best_fit_idx_lt f
  refine ⟨hp.1, ?_, hf, ?_, by decide⟩
  · exact imx708_run_mode_lt a link_freq_400 ops _ (by rw [hp.1]; norm_num) hp.2
  · unfold imx708_find_best_fit
    generalize imx708_find_best_fit_idx supported_modes.length f = i at hf
    interval_cases i <;> decide

end IMX708
